import Mathlib

/-!
# Verification of the dustmaker level codec against its specification

This file contains a shallow embedding, in Lean 4, of the parts of the
`dustmaker` Python library that the specification's testable claims are
about:

* the bit-level reader/writer (`dustmaker/bitio.py`),
* the `Variable` tagged-union codec (`dustmaker/variable.py`,
  `dustmaker/dfwriter.py:write_variable`, `dustmaker/dfreader.py:read_variable`),
* the affine transformation matrix (`dustmaker/transform.py`),
* the tile model with its transform and upscale algorithms
  (`dustmaker/tile.py`),
* the region/segment spatial bucketing (`dustmaker/dfwriter.py`),
* id allocation in `Level.add_prop` / `Level.add_entity`
  (`dustmaker/level.py`), and
* the `VariableArray` mutable-sequence interface (`dustmaker/variable.py`).

Python integers are modelled as `Int`/`Nat`, Python floats as `ℚ`
(every IEEE double is a rational; at each input used in a theorem below the
Python double arithmetic performed by the code is exact, so the rational
model computes the same values bit for bit), byte strings as `List Nat`
with entries below 256, and bit streams as `List Bool` in little-endian
order (the order used by `bitio.py`).  Each definition is translated from
the corresponding source function; deviations forced by Lean (names,
fuel parameters for stream-driven loops) are noted in doc comments.
-/

set_option maxRecDepth 10000

namespace Dustmaker

/-! ## Little-endian bit streams

`bitio.py` serializes integers to bits in little-endian order: the first
bit of the stream is the 1's place of the first byte.  `toBitsLE n v` is
the list of the low `n` bits of `v`, least significant first, and
`bitsVal` recovers the value of a bit list. -/

/-- The low `n` bits of `v`, least significant bit first. -/
def toBitsLE : Nat → Nat → List Bool
  | 0, _ => []
  | n + 1, v => (v % 2 = 1) :: toBitsLE n (v / 2)

/-- Value of a little-endian bit list. -/
def bitsVal : List Bool → Nat
  | [] => 0
  | b :: t => (if b then 1 else 0) + 2 * bitsVal t

/-- The `n` bytes of `v` in little-endian order (Python
`int.to_bytes(n, "little")`, except that Python raises where the model
truncates values of `2 ^ (8 * n)` or more; all uses below are in range). -/
def toBytesLE : Nat → Nat → List Nat
  | 0, _ => []
  | n + 1, v => v % 256 :: toBytesLE n (v / 256)

/-- Value of a little-endian byte list (Python `int.from_bytes(_, "little")`). -/
def bytesVal : List Nat → Nat
  | [] => 0
  | b :: t => b + 256 * bytesVal t

/-- Bits of a byte list, least significant bit of the first byte first. -/
def bytesBits (l : List Nat) : List Bool :=
  l.flatMap (toBitsLE 8)

/-! ## TxMatrix (`dustmaker/transform.py`)

`TxMatrix` is an immutable 3x3 affine matrix whose last row is asserted to
be `(0, 0, 1)`; it is modelled by its six meaningful entries
`[[a, b, c], [d, e, f], [0, 0, 1]]` over `ℚ`.  `TxMatrix.mul` is a
verbatim translation of `TxMatrix.__mul__` (matrix case), including the
entry the source computes at row 1, column 2. -/

structure TxMatrix where
  a : ℚ
  b : ℚ
  c : ℚ
  d : ℚ
  e : ℚ
  f : ℚ
deriving DecidableEq, Repr

namespace TxMatrix

/-- `TxMatrix.__mul__` (matrix \* matrix branch), entry for entry.  Note the
final `+ ml.c` in the `f` entry: the source adds `ml[0][2]` there, not
`ml[1][2]` (transform.py line 87). -/
def mul (ml mr : TxMatrix) : TxMatrix :=
  { a := ml.a * mr.a + ml.b * mr.d
    b := ml.a * mr.b + ml.b * mr.e
    c := ml.a * mr.c + ml.b * mr.f + ml.c
    d := ml.d * mr.a + ml.e * mr.d
    e := ml.d * mr.b + ml.e * mr.e
    f := ml.d * mr.c + ml.e * mr.f + ml.c }

/-- `TxMatrix.__mul__` (scalar branch). -/
def smul (m : TxMatrix) (rhs : ℚ) : TxMatrix :=
  { a := m.a * rhs, b := m.b * rhs, c := m.c * rhs,
    d := m.d * rhs, e := m.e * rhs, f := m.f * rhs }

/-- `TxMatrix.sample(x, y)` with the default `with_offset=True`. -/
def sample (m : TxMatrix) (x y : ℚ) : ℚ × ℚ :=
  (m.a * x + m.b * y + m.c, m.d * x + m.e * y + m.f)

/-- `TxMatrix.translate(x, y)`. -/
def translate (m : TxMatrix) (x y : ℚ) : TxMatrix :=
  { m with c := m.c + x, f := m.f + y }

/-- `TxMatrix.determinant`. -/
def determinant (m : TxMatrix) : ℚ :=
  m.a * m.e - m.b * m.d

/-- `TxMatrix.flipped` (`determinant < 0`). -/
def flipped (m : TxMatrix) : Bool :=
  m.determinant < 0

/-- `TxMatrix.IDENTITY`. -/
def identityMat : TxMatrix := ⟨1, 0, 0, 0, 1, 0⟩

/-- `TxMatrix.HFLIP`. -/
def hflip : TxMatrix := ⟨-1, 0, 0, 0, 1, 0⟩

/-- `TxMatrix.VFLIP`. -/
def vflip : TxMatrix := ⟨1, 0, 0, 0, -1, 0⟩

/-- The `_CS` cosine table `(1, 0, -1, 0)` from transform.py. -/
def cs : Fin 4 → ℚ
  | 0 => 1
  | 1 => 0
  | 2 => -1
  | 3 => 0

/-- `TxMatrix.ROTATE[i]`: the 90-degree-clockwise rotation constants,
built exactly as in transform.py:
`((cs[i], cs[3 - i], 0), (cs[(3 + i) & 3], cs[i], 0), (0, 0, 1))`. -/
def rotate (i : Fin 4) : TxMatrix :=
  ⟨cs i, cs (3 - i), 0, cs (3 + i), cs i, 0⟩

end TxMatrix

/-! ## C6: region/segment bucketing (`dustmaker/dfwriter.py`)

`_RegionMap.get_region` buckets by `(x // 256, y // 256)` and
`_LevelRegion.get_segment` by `((x // 16) & 0xF, (y // 16) & 0xF)`.
Python `//` on ints is floor division (`Int.fdiv`) and `&` is a
two's-complement bitwise and (`Int.land`).  The maps are modelled as
association lists; `_compute_region_map` inserts a tile at tile
coordinates `(tx, ty)` through `rmap.get_segment(tx, ty)`. -/

/-- Key used by `_LevelRegion.get_segment`: `((x // 16) & 0xF, (y // 16) & 0xF)`. -/
def segmentKey (x y : Int) : Int × Int :=
  (Int.land (Int.fdiv x 16) 0xF, Int.land (Int.fdiv y 16) 0xF)

/-- Key used by `_RegionMap.get_region`: `(x // 256, y // 256)`. -/
def regionKey (x y : Int) : Int × Int :=
  (Int.fdiv x 256, Int.fdiv y 256)

/-- A `_LevelRegion.segment_map`: association list from segment key to the
list of tile coordinates stored in that segment (only the bucketing is
relevant to the claim, so a segment is modelled by its inserted tiles). -/
abbrev SegmentMap : Type := List ((Int × Int) × List (Int × Int))

/-- A `_RegionMap.region_map`: association list from region key to the
region's segment map. -/
abbrev RegionMap : Type := List ((Int × Int) × SegmentMap)

/-- `_LevelRegion.get_segment` followed by appending the tile to the
returned segment: looks up `seg_key`, creating an empty segment if
missing. -/
def segmentInsert (m : SegmentMap) (x y : Int) : SegmentMap :=
  match m with
  | [] => [(segmentKey x y, [(x, y)])]
  | (k, tiles) :: rest =>
    if k = segmentKey x y then (k, tiles ++ [(x, y)]) :: rest
    else (k, tiles) :: segmentInsert rest x y

/-- `_RegionMap.get_segment(x, y)` = `get_region(x, y).get_segment(x, y)`,
followed by appending the tile, as `_compute_region_map` does for each
tile: looks up `reg_key`, creating an empty region if missing. -/
def regionInsert (m : RegionMap) (x y : Int) : RegionMap :=
  match m with
  | [] => [(regionKey x y, segmentInsert [] x y)]
  | (k, seg) :: rest =>
    if k = regionKey x y then (k, segmentInsert seg x y) :: rest
    else (k, seg) :: regionInsert rest x y

/-! ## Level id allocation (`dustmaker/level.py`)

`Level.add_prop` / `Level.add_entity` allocate or record ids through
`_gen_id` / `_note_id`, which live on the root level (a backdrop delegates
to its parent).  Only the id bookkeeping matters to claims C7 and C9, so
props and entities are modelled as association lists from id to an opaque
`Nat` payload; a backdrop is modelled by its two maps, sharing the parent
counter exactly as `parent._gen_id()` / `parent._note_id()` do. -/

/-- Id-to-payload map (a Python dict keyed by int). -/
abbrev IdMap : Type := List (Int × Nat)

/-- Python `id_num in self.props`. -/
def hasKey (m : IdMap) (k : Int) : Bool :=
  m.any (fun e => e.1 = k)

/-- Python `self.props.get(id_num)`-style lookup (first matching entry;
dict keys are unique, so at most one entry matches). -/
def lookupKey (m : IdMap) (k : Int) : Option Nat :=
  (m.find? (fun e => e.1 = k)).map (fun e => e.2)

/-- Python `self.props.pop(id_num, None)`. -/
def eraseKey (m : IdMap) (k : Int) : IdMap :=
  m.filter (fun e => ¬(e.1 = k))

/-- State of a `Level` and its backdrop as far as ids are concerned:
the two maps of each, plus the root `_next_id` counter (the backdrop's
`_gen_id` / `_note_id` delegate to the parent, so there is a single
counter). -/
structure LevelIds where
  props : IdMap
  entities : IdMap
  backdropProps : IdMap
  backdropEntities : IdMap
  nextId : Int
deriving DecidableEq, Repr

/-- A fresh `Level()`: `_next_id = 100`, all maps empty. -/
def initLevelIds : LevelIds := ⟨[], [], [], [], 100⟩

/-- `Level._gen_id` (on the root): returns `_next_id` and increments it. -/
def genId (s : LevelIds) : LevelIds × Int :=
  ({ s with nextId := s.nextId + 1 }, s.nextId)

/-- `Level._note_id` (on the root): `_next_id = max(_next_id, id_num + 1)`. -/
def noteId (s : LevelIds) (id_num : Int) : LevelIds :=
  { s with nextId := max s.nextId (id_num + 1) }

/-- `Level.add_prop` (with `bd = true`, `backdrop.add_prop`): allocates or
notes the id, raises (`none` result) if the id is already a key of the
target `props` map, otherwise stores the payload.  The returned state is
the Python object state after the call, also when it raises (the
`_note_id` counter update happens before the duplicate check). -/
def addProp (s : LevelIds) (bd : Bool) (idArg : Option Int) (v : Nat) :
    LevelIds × Option Int :=
  let (s, id_num) := match idArg with
    | none => genId s
    | some i => (noteId s i, i)
  let target := if bd then s.backdropProps else s.props
  if hasKey target id_num then (s, none)
  else if bd then
    ({ s with backdropProps := s.backdropProps ++ [(id_num, v)] }, some id_num)
  else
    ({ s with props := s.props ++ [(id_num, v)] }, some id_num)

/-- `Level.add_entity`, exactly as `addProp` but on the `entities` map. -/
def addEntity (s : LevelIds) (bd : Bool) (idArg : Option Int) (v : Nat) :
    LevelIds × Option Int :=
  let (s, id_num) := match idArg with
    | none => genId s
    | some i => (noteId s i, i)
  let target := if bd then s.backdropEntities else s.entities
  if hasKey target id_num then (s, none)
  else if bd then
    ({ s with backdropEntities := s.backdropEntities ++ [(id_num, v)] },
      some id_num)
  else
    ({ s with entities := s.entities ++ [(id_num, v)] }, some id_num)

/-- The duplicate-prop handling of `DFReader.read_segment`:
`level.props.pop(id_num, None)` followed by `level.add_prop(...,
id_num=id_num)`. -/
def readPropStep (s : LevelIds) (id_num : Int) (v : Nat) :
    LevelIds × Option Int :=
  addProp { s with props := eraseKey s.props id_num } false (some id_num) v

/-- The duplicate-entity handling of `DFReader.read_segment`:
`level.entities.pop(id_num, None)` followed by `level.add_entity(...)`. -/
def readEntityStep (s : LevelIds) (id_num : Int) (v : Nat) :
    LevelIds × Option Int :=
  addEntity { s with entities := eraseKey s.entities id_num } false
    (some id_num) v

/-! ## C9: the next-id counter dominates every stored id -/

/-- One `add_prop` / `add_entity` call on a level or its backdrop, with or
without an explicit id. -/
inductive LevelOp where
  | prop (bd : Bool) (idArg : Option Int) (v : Nat)
  | entity (bd : Bool) (idArg : Option Int) (v : Nat)

/-- Apply an operation, keeping the resulting Python object state whether
or not the call raised (a raising call mutates only the counter). -/
def applyOp (s : LevelIds) (op : LevelOp) : LevelIds :=
  match op with
  | .prop bd idArg v => (addProp s bd idArg v).1
  | .entity bd idArg v => (addEntity s bd idArg v).1

/-- Every id in the map is strictly below `n`. -/
def mapBelow (m : IdMap) (n : Int) : Prop :=
  ∀ e ∈ m, e.1 < n

/-- The id-counter invariant: every prop and entity id of the level and
its backdrop is strictly below the root `_next_id`. -/
def idInv (s : LevelIds) : Prop :=
  mapBelow s.props s.nextId ∧ mapBelow s.entities s.nextId ∧
    mapBelow s.backdropProps s.nextId ∧ mapBelow s.backdropEntities s.nextId

/-! ## The Variable model (`dustmaker/variable.py`)

`Variable` is a closed tagged union.  `VariableFloat` values are Python
doubles, modelled as `ℚ`; `VariableString` values are `bytes`, modelled as
`List Nat` with entries below 256; a `VariableStruct` value is a Python
dict (insertion-ordered, unique keys), modelled as an association list; a
`VariableArray` value is the pair of the element type and the backing
list, exactly as `VariableArray.value` stores it. -/

/-- `VariableType` (the 4-bit on-wire type ids). -/
inductive VType where
  | null
  | bool
  | int
  | uint
  | float
  | string
  | vec2
  | struct
  | array
deriving DecidableEq, Repr

/-- Numeric value of a `VariableType` member. -/
def VType.code : VType → Nat
  | .null => 0
  | .bool => 1
  | .int => 2
  | .uint => 3
  | .float => 4
  | .string => 5
  | .vec2 => 10
  | .struct => 14
  | .array => 15

/-- `VariableType(n)`: `none` models the `ValueError` Python raises on a
value that is not a member of the enumeration. -/
def VType.ofCode : Nat → Option VType
  | 0 => some .null
  | 1 => some .bool
  | 2 => some .int
  | 3 => some .uint
  | 4 => some .float
  | 5 => some .string
  | 10 => some .vec2
  | 14 => some .struct
  | 15 => some .array
  | _ => none

/-- The `Variable` tagged union (variable.py).  Value ranges
(`-2^31 <= int < 2^31` etc.) are enforced by `_assert_types` at
construction time in Python and by the validity predicates here. -/
inductive Variable where
  | vbool (b : Bool)
  | vint (n : Int)
  | vuint (n : Nat)
  | vfloat (q : ℚ)
  | vstring (s : List Nat)
  | vvec2 (x y : ℚ)
  | vstruct (entries : List (List Nat × Variable))
  | varray (et : VType) (elems : List Variable)
deriving Repr

/-- The `_vtype` tag of a variable's concrete class. -/
def vtypeOf : Variable → VType
  | .vbool _ => .bool
  | .vint _ => .int
  | .vuint _ => .uint
  | .vfloat _ => .float
  | .vstring _ => .string
  | .vvec2 _ _ => .vec2
  | .vstruct _ => .struct
  | .varray _ _ => .array

/-- `max_width = (2 ** 16) - 1` from `write_variable` / `read_variable`. -/
def maxWidth : Nat := 65535

/-- The value actually serialized by `BitIOWriter.write(bits, val)`:
`if val < 0: val += 1 << bits`. -/
def encInt (bits : Nat) (val : Int) : Nat :=
  (if val < 0 then val + 2 ^ bits else val).toNat

/-- `DFWriter.write_float(ibits, fbits, val)` as a bit string:
a sign bit, `ibits - 1` bits of `abs(floor(val))`, and `fbits` bits of
`int((val - floor(val)) * 2 ** (fbits - 1))`. -/
def encodeFloat (ibits fbits : Nat) (val : ℚ) : List Bool :=
  toBitsLE 1 (if val < 0 then 1 else 0) ++
    toBitsLE (ibits - 1) (Int.floor val).natAbs ++
    toBitsLE fbits (Int.floor ((val - Int.floor val) * 2 ^ (fbits - 1))).toNat

/-- The 6-bit code of a character in `write_6bit_str`; `none` models the
`ValueError` raised on a character outside the alphabet. -/
def char6enc (c : Nat) : Option Nat :=
  if 48 ≤ c ∧ c ≤ 57 then some (c - 48)
  else if 65 ≤ c ∧ c ≤ 90 then some (c - 65 + 10)
  else if 97 ≤ c ∧ c ≤ 122 then some (c - 97 + 37)
  else if c = 95 then some 36
  else if c = 123 then some 63
  else none

/-- The character for a 6-bit code in `read_6bit_str`. -/
def char6dec (v : Nat) : Nat :=
  if v < 10 then 48 + v
  else if v < 36 then 65 + (v - 10)
  else if v = 36 then 95
  else if v < 63 then 97 + (v - 37)
  else 123

/-- The per-character encoding loop of `write_6bit_str`: `none` models the
`ValueError` on a character outside the alphabet. -/
def encChars : List Nat → Option (List Nat)
  | [] => some []
  | c :: rest => do
    let code ← char6enc c
    let tl ← encChars rest
    pure (code :: tl)

/-- `DFWriter.write_6bit_str`: 6-bit length then 6-bit character codes;
`none` models the `ValueError` on length above 63 or invalid characters. -/
def encode6bitStr (t : List Nat) : Option (List Bool) := do
  if t.length > 63 then none
  else
    let codes ← encChars t
    pure (toBitsLE 6 t.length ++ codes.flatMap (toBitsLE 6))

/-- `BitIOReader.read(n)` on a bit stream: value of the next `n` bits
(zero-extended past the end of the stream, as the reader does — see
`read_zero_extends_past_eof`) and the rest of the stream. -/
def readBits (n : Nat) (s : List Bool) : Nat × List Bool :=
  (bitsVal (s.take n), s.drop n)

/-- `BitIOReader.read(n, signed=True)`: subtract `1 << n` when bit
`n - 1` of the `n`-bit field is set. -/
def readSigned (n : Nat) (s : List Bool) : Int × List Bool :=
  let (v, s2) := readBits n s
  (if v &&& 2 ^ (n - 1) ≠ 0 then (v : Int) - 2 ^ n else (v : Int), s2)

/-- `DFReader.read_bytes(n)` at the bit level: `n` groups of 8 bits.
(The aligned fast path and the unaligned byte-at-a-time path of the
source consume the same bits and produce the same bytes.) -/
def readBytesLE : Nat → List Bool → List Nat × List Bool
  | 0, s => ([], s)
  | n + 1, s =>
    let (b, s2) := readBits 8 s
    let (rest, s3) := readBytesLE n s2
    (b :: rest, s3)

/-- `DFReader.read_float(ibits, fbits)`:
`sign * ipart + fpart / (1 << (fbits - 1))`. -/
def readFloat (ibits fbits : Nat) (s : List Bool) : ℚ × List Bool :=
  let (sgn, s1) := readBits 1 s
  let (ipart, s2) := readBits (ibits - 1) s1
  let (fpart, s3) := readBits fbits s2
  ((1 - 2 * (sgn : ℚ)) * (ipart : ℚ) +
    (fpart : ℚ) / ((2 ^ (fbits - 1) : Nat) : ℚ), s3)

/-- The character-reading loop of `read_6bit_str`. -/
def read6bitChars : Nat → List Bool → List Nat × List Bool
  | 0, s => ([], s)
  | n + 1, s =>
    let (v, s2) := readBits 6 s
    let (rest, s3) := read6bitChars n s2
    (char6dec v :: rest, s3)

/-- `DFReader.read_6bit_str`: 6-bit length then that many characters. -/
def read6bitStr (s : List Bool) : List Nat × List Bool :=
  let (ln, s2) := readBits 6 s
  read6bitChars ln s2

/-- The `VariableType.STRING` branch of `read_variable`: 16-bit length
then that many bytes.  This is also the chunk read the continuation
loops perform through `read_variable(STRING)`. -/
def readChunk (s : List Bool) : List Nat × List Bool :=
  let (slen, s2) := readBits 16 s
  readBytesLE slen s2

/-- The continuation chunks `write_variable` emits for a string `xs`:
`xs[i * max_width : (i + 1) * max_width]` for
`i in range(0, 1 + len(xs) // max_width)`. -/
def chunkSlices (xs : List Nat) : List (List Nat) :=
  (List.range (1 + xs.length / maxWidth)).map
    (fun i => (xs.drop (i * maxWidth)).take maxWidth)

/-- `len(x.value) // max_width`, the extra continuation count an element
of a string array contributes to the encoded array length. -/
def strExtra : Variable → Nat
  | .vstring s => s.length / maxWidth
  | _ => 0

/-- Element loop of `write_variable` for a string-typed array: each
element is split into continuation chunks, each written as a plain
string record; non-string elements model the `TypeError`/`ValueError`
Python raises for a heterogeneous string array. -/
def encodeStrElems : List Variable → Option (List Bool)
  | [] => some []
  | .vstring s :: rest => do
    let tl ← encodeStrElems rest
    pure ((chunkSlices s).flatMap
      (fun c => toBitsLE 16 c.length ++ bytesBits c) ++ tl)
  | _ :: _ => none

mutual

/-- `DFWriter.write_variable` as a bit string (`none` models the raises:
oversized top-level string, oversized array, bad 6-bit key). -/
def encodeVariable : Variable → Option (List Bool)
  | .vbool b => some (toBitsLE 1 (if b then 1 else 0))
  | .vint n => some (toBitsLE 32 (encInt 32 n))
  | .vuint n => some (toBitsLE 32 n)
  | .vfloat q => some (encodeFloat 32 32 q)
  | .vstring s =>
    if s.length > maxWidth then none
    else some (toBitsLE 16 s.length ++ bytesBits s)
  | .vvec2 x y => some (encodeFloat 32 32 x ++ encodeFloat 32 32 y)
  | .varray et elems =>
    let arrlen := elems.length +
      (if et = .string then (elems.map strExtra).sum else 0)
    if arrlen > maxWidth then none
    else do
      let body ← if et = .string then encodeStrElems elems
                 else encodeElems elems
      pure (toBitsLE 4 et.code ++ toBitsLE 16 arrlen ++ body)
  | .vstruct entries => do
    let body ← encodeEntries entries
    pure (body ++ toBitsLE 4 VType.null.code)

/-- Element loop of `write_variable` for a non-string-typed array. -/
def encodeElems : List Variable → Option (List Bool)
  | [] => some []
  | v :: rest => do
    let hd ← encodeVariable v
    let tl ← encodeElems rest
    pure (hd ++ tl)

/-- Entry loop of the `VariableStruct` branch of `write_variable`: for a
non-string value a `(tag, key, value)` triple; for a string value one
such triple per continuation chunk, re-emitting tag and key each time;
finally the caller appends the `NULL` sentinel tag. -/
def encodeEntries : List (List Nat × Variable) → Option (List Bool)
  | [] => some []
  | (k, v) :: rest => do
    let kbits ← encode6bitStr k
    let hd ← match v with
      | .vstring s =>
        some ((chunkSlices s).flatMap (fun c =>
          toBitsLE 4 VType.string.code ++ kbits ++
            toBitsLE 16 c.length ++ bytesBits c))
      | _ => do
        let vbits ← encodeVariable v
        pure (toBitsLE 4 (vtypeOf v).code ++ kbits ++ vbits)
    let tl ← encodeEntries rest
    pure (hd ++ tl)

end

/-- Python dict assignment `result[key] = v`: replace in place when the
key is present, else append. -/
def dictInsert : List (List Nat × Variable) → List Nat → Variable →
    List (List Nat × Variable)
  | [], k, v => [(k, v)]
  | (k0, v0) :: rest, k, v =>
    if k0 = k then (k0, v) :: rest
    else (k0, v0) :: dictInsert rest k v

/-- The string-array element loop of `read_variable` (`atype == STRING`):
`alen` counts chunks; chunks accumulate into the current string until a
chunk shorter than `max_width` ends it.  `cur` is the chunk list of the
string being assembled, `acc` the finished strings. -/
def readStrArr : Nat → List (List Nat) → List (List Nat) → List Bool →
    List (List Nat) × List Bool
  | 0, cur, acc, s => (if cur.isEmpty then acc else acc ++ [cur.flatten], s)
  | alen + 1, cur, acc, s =>
    let (c, s2) := readChunk s
    if c.length < maxWidth then
      readStrArr alen [] (acc ++ [(cur ++ [c]).flatten]) s2
    else
      readStrArr alen (cur ++ [c]) acc s2

mutual

/-- `DFReader.read_variable` over a bit stream.  The stream-driven
struct-entry and string-continuation loops are bounded by an explicit
`fuel` parameter (decremented on every nested call); for a stream that
encodes a variable `v`, any fuel of at least `sizeOf v` is enough
(`variable_roundtrip`).  `none` models both fuel exhaustion and the
source's `LevelParseException`/`ValueError` raises (null variable,
unknown type code). -/
def readVariable : Nat → VType → List Bool → Option (Variable × List Bool)
  | 0, _, _ => none
  | fuel + 1, t, s =>
    match t with
    | .null => none
    | .bool =>
      let (v, s2) := readBits 1 s
      some (.vbool (v = 1), s2)
    | .uint =>
      let (v, s2) := readBits 32 s
      some (.vuint v, s2)
    | .int =>
      let (v, s2) := readSigned 32 s
      some (.vint v, s2)
    | .float =>
      let (q, s2) := readFloat 32 32 s
      some (.vfloat q, s2)
    | .string =>
      let (bytes, s2) := readChunk s
      some (.vstring bytes, s2)
    | .vec2 =>
      let (x, s2) := readFloat 32 32 s
      let (y, s3) := readFloat 32 32 s2
      some (.vvec2 x y, s3)
    | .array =>
      let (tc, s2) := readBits 4 s
      match VType.ofCode tc with
      | none => none
      | some atype =>
        let (alen, s3) := readBits 16 s2
        if atype = .null then none
        else if atype = .string then
          let (strs, s4) := readStrArr alen [] [] s3
          some (.varray .string (strs.map Variable.vstring), s4)
        else
          match readElems fuel atype alen s3 with
          | none => none
          | some (elems, s4) => some (.varray atype elems, s4)
    | .struct => readStructEntries fuel [] s

/-- The element loop of the array branch for a non-string element type:
`read_variable(atype)` repeated `count` times. -/
def readElems : Nat → VType → Nat → List Bool →
    Option (List Variable × List Bool)
  | 0, _, _, _ => none
  | _ + 1, _, 0, s => some ([], s)
  | fuel + 1, t, count + 1, s =>
    match readVariable fuel t s with
    | none => none
    | some (v, s2) =>
      match readElems fuel t count s2 with
      | none => none
      | some (rest, s3) => some (v :: rest, s3)

/-- The entry loop of the struct branch: read a 4-bit tag (NULL ends the
struct), a 6-bit key, then the value — with the string-continuation
sub-loop for string values — inserting into the result dict. -/
def readStructEntries : Nat → List (List Nat × Variable) → List Bool →
    Option (Variable × List Bool)
  | 0, _, _ => none
  | fuel + 1, acc, s =>
    let (tc, s2) := readBits 4 s
    match VType.ofCode tc with
    | none => none
    | some t =>
      if t = .null then some (.vstruct acc, s2)
      else
        let (key, s3) := read6bitStr s2
        if t = .string then
          match readStructStr fuel [] s3 with
          | none => none
          | some (bytes, s4) =>
            readStructEntries fuel (dictInsert acc key (.vstring bytes)) s4
        else
          match readVariable fuel t s3 with
          | none => none
          | some (v, s4) => readStructEntries fuel (dictInsert acc key v) s4

/-- The string-continuation loop of the struct branch: read chunks
(each a plain string record, preceded after the first by a discarded
4-bit tag and 6-bit key) until a chunk shorter than `max_width`. -/
def readStructStr : Nat → List (List Nat) → List Bool →
    Option (List Nat × List Bool)
  | 0, _, _ => none
  | fuel + 1, parts, s =>
    let (c, s2) := readChunk s
    if c.length < maxWidth then some (((parts ++ [c]).flatten), s2)
    else
      let (_, s3) := readBits 4 s2
      let (_, s4) := read6bitStr s3
      readStructStr fuel (parts ++ [c]) s4

end

/-! ## C1: primitive round-trip lemmas -/

namespace Dustmaker

/-- All byte values of a Python `bytes` object are below 256. -/
def bytesOKB (s : List Nat) : Bool :=
  s.all (fun b => decide (b < 256))

/-- A struct key is encodable by `write_6bit_str`: length at most 63 and
every character in the 6-bit alphabet. -/
def keyOKB (k : List Nat) : Bool :=
  decide (k.length ≤ 63) && k.all (fun c => (char6enc c).isSome)

/-- A float value survives the `write_float(32, 32)` / `read_float(32, 32)`
fixed-point encoding exactly: integer part magnitude below `2 ^ 31` and
fractional part an integer multiple of `2 ^ (-31)`. -/
def floatOKB (q : ℚ) : Bool :=
  decide ((Int.floor q).natAbs < 2 ^ 31) &&
    decide (((q - Int.floor q) * 2 ^ 31).den = 1)

mutual

/-- Validity of a `Variable` tree for the round-trip claim: value ranges
as enforced by `_assert_types`, byte values below 256, struct keys
6-bit-encodable and distinct (they come from a Python dict), arrays
homogeneous in their declared element type with the encoded length
(including string continuation chunks) within the 16-bit limit, and
floats exactly representable; a string directly under a struct or array
may have any length (continuations), a top-level string must fit its
16-bit length prefix. -/
def validB : Variable → Bool
  | .vbool _ => true
  | .vint n => decide (-(2 ^ 31) ≤ n ∧ n < 2 ^ 31)
  | .vuint n => decide (n < 2 ^ 32)
  | .vfloat q => floatOKB q
  | .vstring s => decide (s.length ≤ maxWidth) && bytesOKB s
  | .vvec2 x y => floatOKB x && floatOKB y
  | .vstruct entries =>
    validEntries entries && decide ((entries.map (fun e => e.1)).Nodup)
  | .varray et elems =>
    decide (¬et = .null) && validElems et elems &&
      decide (elems.length +
        (if et = .string then (elems.map strExtra).sum else 0) ≤ maxWidth)

/-- Validity of the elements of an array with element type `et`. -/
def validElems : VType → List Variable → Bool
  | _, [] => true
  | et, v :: rest =>
    decide (vtypeOf v = et) &&
      (match v with
       | .vstring s => bytesOKB s
       | _ => validB v) &&
      validElems et rest

/-- Validity of struct entries. -/
def validEntries : List (List Nat × Variable) → Bool
  | [] => true
  | (k, v) :: rest =>
    keyOKB k &&
      (match v with
       | .vstring s => bytesOKB s
       | _ => validB v) &&
      validEntries rest

end

/-- The bit stream a string's continuation chunks occupy after the first
tag/key prefix has been consumed: each chunk is a 16-bit length and its
bytes, and every chunk after a full-width one is preceded by `pre` (the
re-emitted tag and key bits in a struct, nothing in a string array). -/
def strCont (pre : List Bool) (s : List Nat) : List Bool :=
  if h : s.length < maxWidth then toBitsLE 16 s.length ++ bytesBits s
  else
    toBitsLE 16 maxWidth ++ bytesBits (s.take maxWidth) ++ pre ++
      strCont pre (s.drop maxWidth)
termination_by s.length
decreasing_by
  simp only [List.length_drop, maxWidth] at h ⊢
  omega

/-- The round-trip property at a fixed reader fuel: every valid variable
whose tree size is within the fuel is encoded by `write_variable` to a
bit string that `read_variable` (given the variable's type tag) decodes
back to the same variable, consuming exactly the encoded bits. -/
def ReadOK (fuel : Nat) : Prop :=
  ∀ v : Variable, validB v = true → sizeOf v ≤ fuel →
    ∀ bs, encodeVariable v = some bs →
      ∀ rest, readVariable fuel (vtypeOf v) (bs ++ rest) = some (v, rest)

/-- Totality of `write_variable` on valid variables, at bounded tree
size: no raise occurs. -/
def EncOK (n : Nat) : Prop :=
  ∀ v : Variable, validB v = true → sizeOf v ≤ n →
    ∃ bs, encodeVariable v = some bs

/-- State of a `BitIOWriter` that has not been seeked (`_bits` is never
`-1`): the bytes already written to `data`, the pending partial byte
`_bits`, and `_bits_left`, the number of free high bits in it.  `_tell`
is not modeled (it is only an offset counter). -/
structure WState where
  out : List Nat
  bits : Nat
  bitsLeft : Nat
deriving Repr, DecidableEq

def initW : WState := ⟨[], 0, 0⟩

/-- `BitIOWriter.write(bits, val)` (no prior mid-byte seek): negative
values get `1 << bits` added; the pending byte's free high bits are
filled from the low bits of the value; full bytes of
`val >> bits_left` are emitted (via `to_bytes`, little endian); leftover
high bits become the new pending byte. -/
def wwrite (s : WState) (nbits : Nat) (val : Int) : WState :=
  let v : Nat := (if val < 0 then val + 2 ^ nbits else val).toNat
  let mbits : Nat :=
    if s.bitsLeft ≠ 0 then
      s.bits ||| ((v % 2 ^ s.bitsLeft) * 2 ^ (8 - s.bitsLeft))
    else s.bits
  if nbits < s.bitsLeft then
    ⟨s.out, mbits, s.bitsLeft - nbits⟩
  else
    let fullBytes := (nbits - s.bitsLeft) / 8
    let valBytes := toBytesLE (fullBytes + 1) (v / 2 ^ s.bitsLeft)
    let pre : List Nat := if s.bitsLeft ≠ 0 then [mbits] else []
    let usedBits := 8 * fullBytes + s.bitsLeft
    if usedBits = nbits then
      ⟨s.out ++ pre ++ valBytes.take fullBytes, 0, 0⟩
    else
      ⟨s.out ++ pre ++ valBytes.take fullBytes, valBytes.getD fullBytes 0,
        8 - (nbits - usedBits)⟩

/-- `BitIOWriter.flush`: append the pending partial byte (its unused
high bits are zero) when one exists. -/
def wflush (s : WState) : List Nat :=
  if s.bitsLeft ≠ 0 then s.out ++ [s.bits] else s.out

/-- State of a `BitIOReader` that has not been seeked mid-byte
(`_bits` is never `-1`): the underlying buffer, the byte position of
`data`, the buffered bits `_bits`, and `_bits_left`, the number of
buffered bits. -/
structure RState where
  data : List Nat
  pos : Nat
  bits : Nat
  bitsLeft : Nat
deriving Repr, DecidableEq

/-- `BitIOReader.read(bits, signed)` (no prior mid-byte seek).
`bytes_needed = (bits - bits_left + 7) >> 3` is zero exactly when the
request is served from the buffered bits, and that early-return path
performs no signed adjustment; otherwise `data.read` returns the
available bytes (fewer than requested at end of stream, with no error)
and the result is assembled, masked to `bits` bits, and sign-adjusted
when requested. -/
def rread (s : RState) (nbits : Nat) (signed : Bool) : Int × RState :=
  if nbits ≤ s.bitsLeft then
    (((s.bits % 2 ^ nbits : Nat) : Int),
      ⟨s.data, s.pos, s.bits / 2 ^ nbits, s.bitsLeft - nbits⟩)
  else
    let bytesNeeded := (nbits - s.bitsLeft + 7) / 8
    let newBytes := (s.data.drop s.pos).take bytesNeeded
    let result0 := s.bits + bytesVal newBytes * 2 ^ s.bitsLeft
    let result := result0 % 2 ^ nbits
    let res : Int :=
      if signed = true ∧ result / 2 ^ (nbits - 1) % 2 = 1 then
        (result : Int) - 2 ^ nbits
      else (result : Int)
    (res, ⟨s.data, s.pos + newBytes.length, result0 / 2 ^ nbits,
      (((s.bitsLeft : Int) - nbits).emod 8).toNat⟩)

/-- The `bits_left == 0` fast path of `BitIOReader.read_bytes`:
`data.read(num)` returns whatever bytes remain (possibly fewer than
`num`, possibly none) and they are returned as-is. -/
def rreadBytesAligned (s : RState) (num : Nat) : List Nat × RState :=
  let bs := (s.data.drop s.pos).take num
  (bs, ⟨s.data, s.pos + bs.length, s.bits, s.bitsLeft⟩)

/-- The raw (unboxed) Python values stored into / read out of a
`VariableArray` through its `MutableSequence` interface: the `.value`
payload of each `Variable` subclass (`VariableInt` and `VariableUInt`
both carry a plain `int`; a nested array's raw form is its
`(element_type, list)` pair). -/
inductive RawValue where
  | rbool : Bool → RawValue
  | rint : Int → RawValue
  | rfloat : ℚ → RawValue
  | rstring : List Nat → RawValue
  | rvec2 : ℚ → ℚ → RawValue
  | rstruct : List (List Nat × Variable) → RawValue
  | rarr : VType → List Variable → RawValue

/-- `VariableArray._box`: construct `element_type(val)`
(`element_type(*val)` for a nested array).  `none` models a payload
whose kind does not match the element type — Python would still
construct the object, but the resulting ill-typed `Variable` (e.g.
`VariableBool(5)`) is outside this embedding; a negative payload for
`VariableUInt` is likewise unrepresentable here. -/
def box : VType → RawValue → Option Variable
  | .bool, .rbool b => some (.vbool b)
  | .int, .rint n => some (.vint n)
  | .uint, .rint n => if 0 ≤ n then some (.vuint n.toNat) else none
  | .float, .rfloat q => some (.vfloat q)
  | .string, .rstring s => some (.vstring s)
  | .vec2, .rvec2 x y => some (.vvec2 x y)
  | .struct, .rstruct entries => some (.vstruct entries)
  | .array, .rarr et elems => some (.varray et elems)
  | _, _ => none

/-- The `.value` payload extraction performed by
`VariableArray.__getitem__`. -/
def unbox : Variable → RawValue
  | .vbool b => .rbool b
  | .vint n => .rint n
  | .vuint n => .rint n
  | .vfloat q => .rfloat q
  | .vstring s => .rstring s
  | .vvec2 x y => .rvec2 x y
  | .vstruct entries => .rstruct entries
  | .varray et elems => .rarr et elems

/-- The element loop of `VariableArray._assert_types`:
`isinstance(elem, element_type)` for every stored element. -/
def homogB (et : VType) (elems : List Variable) : Bool :=
  elems.all fun v => vtypeOf v = et

/-- `VariableArray.__getitem__(key)`: the stored element's `.value`;
`none` models the `IndexError` for an out-of-range index. -/
def arrGetItem (elems : List Variable) (k : Nat) : Option RawValue :=
  (elems.get? k).map unbox

/-- `VariableArray.__setitem__(key, val)`: stores the boxed value;
out-of-range indices raise `IndexError` in the backing list. -/
def arrSetItem (et : VType) (elems : List Variable) (k : Nat)
    (raw : RawValue) : Option (List Variable) :=
  if k < elems.length then (box et raw).map (fun w => elems.set k w)
  else none

/-- `VariableArray.insert(index, value)`: `list.insert` clamps the
index to the list length. -/
def arrInsert (et : VType) (elems : List Variable) (k : Nat)
    (raw : RawValue) : Option (List Variable) :=
  (box et raw).map (fun w => elems.insertIdx (min k elems.length) w)

/-- `MutableSequence.append`: insert at the end. -/
def arrAppend (et : VType) (elems : List Variable) (raw : RawValue) :
    Option (List Variable) :=
  arrInsert et elems elems.length raw

/-- `MutableSequence.extend`: append each value in order. -/
def arrExtend (et : VType) (elems : List Variable) (raws : List RawValue) :
    Option (List Variable) :=
  raws.foldl (fun acc raw => acc.bind fun l => arrAppend et l raw)
    (some elems)

/-- `TileSide`: the four edges of a tile, in engine order
(TOP, BOTTOM, LEFT, RIGHT). -/
inductive TileSide where
  | top | bottom | left | right
deriving DecidableEq, Repr

/-- `TileShape`: the 21 tile shapes, in enum-code order 0..20. -/
inductive TileShape where
  | full
  | big1 | small1 | big2 | small2 | big3 | small3 | big4 | small4
  | big5 | small5 | big6 | small6 | big7 | small7 | big8 | small8
  | halfA | halfB | halfC | halfD
deriving DecidableEq, Repr

/-- The `IntEnum` value of a `TileShape`. -/
@[reducible]
def shapeCode : TileShape → Nat
  | .full => 0
  | .big1 => 1 | .small1 => 2 | .big2 => 3 | .small2 => 4
  | .big3 => 5 | .small3 => 6 | .big4 => 7 | .small4 => 8
  | .big5 => 9 | .small5 => 10 | .big6 => 11 | .small6 => 12
  | .big7 => 13 | .small7 => 14 | .big8 => 15 | .small8 => 16
  | .halfA => 17 | .halfB => 18 | .halfC => 19 | .halfD => 20

/-- `TileShape(code)` for codes 0..20 (transform only constructs codes in
range). -/
@[reducible]
def shapeOfCode : Nat → TileShape
  | 0 => .full
  | 1 => .big1 | 2 => .small1 | 3 => .big2 | 4 => .small2
  | 5 => .big3 | 6 => .small3 | 7 => .big4 | 8 => .small4
  | 9 => .big5 | 10 => .small5 | 11 => .big6 | 12 => .small6
  | 13 => .big7 | 14 => .small7 | 15 => .big8 | 16 => .small8
  | 17 => .halfA | 18 => .halfB | 19 => .halfC | 20 => .halfD
  | _ => .full

/-- `TileEdgeData`: per-edge payload (solid/visible flags, corner caps
and join angles, and the filth fields). -/
structure TileEdgeData where
  solid : Bool
  visible : Bool
  caps : Bool × Bool
  angles : Int × Int
  filthSpriteSet : Nat
  filthSpike : Bool
  filthCaps : Bool × Bool
  filthAngles : Int × Int
deriving DecidableEq, Repr

/-- The zeroed edge produced by `TileEdgeData()`. -/
def defaultEdge : TileEdgeData :=
  ⟨false, false, (false, false), (0, 0), 0, false, (false, false), (0, 0)⟩

/-- A tile: its shape and the edge data of its four sides.  The sprite
fields are not modeled — `Tile.transform` never touches them. -/
structure Tile where
  shape : TileShape
  top : TileEdgeData
  bottom : TileEdgeData
  left : TileEdgeData
  right : TileEdgeData
deriving DecidableEq, Repr

@[reducible]
def getEdge (t : Tile) : TileSide → TileEdgeData
  | .top => t.top
  | .bottom => t.bottom
  | .left => t.left
  | .right => t.right

@[reducible]
def setEdge (t : Tile) : TileSide → TileEdgeData → Tile
  | .top, e => { t with top := e }
  | .bottom, e => { t with bottom := e }
  | .left, e => { t with left := e }
  | .right, e => { t with right := e }

/-- `SHAPE_ORDERED_SIDES`, shape by shape (side codes 0=TOP, 1=BOTTOM,
2=LEFT, 3=RIGHT in the source tuple). -/
@[reducible]
def orderedSides : TileShape → List TileSide
  | .full => [.top, .right, .bottom, .left]
  | .big1 => [.top, .bottom, .left]
  | .small1 => [.top, .bottom]
  | .big2 => [.right, .left, .top]
  | .small2 => [.right, .left]
  | .big3 => [.bottom, .top, .right]
  | .small3 => [.bottom, .top]
  | .big4 => [.left, .right, .bottom]
  | .small4 => [.left, .right]
  | .big5 => [.top, .bottom, .right]
  | .small5 => [.top, .bottom]
  | .big6 => [.left, .right, .top]
  | .small6 => [.left, .right]
  | .big7 => [.bottom, .top, .left]
  | .small7 => [.bottom, .top]
  | .big8 => [.right, .left, .bottom]
  | .small8 => [.right, .left]
  | .halfA => [.top, .bottom, .left]
  | .halfB => [.bottom, .left, .top]
  | .halfC => [.bottom, .top, .right]
  | .halfD => [.top, .right, .bottom]

/-- The directed-data reversal applied to every edge when a transform
flips orientation: caps and filth caps swap corners, angles and filth
angles swap corners and negate. -/
@[reducible]
def edgeFlip (e : TileEdgeData) : TileEdgeData :=
  { e with
    caps := (e.caps.2, e.caps.1)
    filthCaps := (e.filthCaps.2, e.filthCaps.1)
    angles := (-e.angles.2, -e.angles.1)
    filthAngles := (-e.filthAngles.2, -e.filthAngles.1) }

@[reducible]
def edgeFlipAll (t : Tile) : Tile :=
  { t with
    top := edgeFlip t.top
    bottom := edgeFlip t.bottom
    left := edgeFlip t.left
    right := edgeFlip t.right }

/-- `round(atan2(y, x) / pi * 2)` for the axis-aligned vectors that the
rows of the 8 symmetry matrices produce (exact there; a general matrix
would need real `atan2`). -/
@[reducible]
def atan2Quarter (y x : ℚ) : Int :=
  if 0 < x then 0
  else if 0 < y then 1
  else if x < 0 then 2
  else if y < 0 then -1
  else 0

/-- The quarter-turn count `angle = (-round(atan2(mat[1][1],
(-1 if flipped else 1) * mat[1][0]) / pi * 2) + 1) & 0x3` computed by
`Tile.transform`. -/
@[reducible]
def txAngleOf (mat : TxMatrix) : Nat :=
  ((-(atan2Quarter mat.e
      ((if mat.flipped then (-1 : ℚ) else 1) * mat.d)) + 1).emod 4).toNat

/-- The final edge-redistribution loop of `Tile.transform`: assign
`og_edge_data[i]` (with `i = (i - angle) & 3` for FULL tiles) to the
`i`-th side of the new shape; all other sides keep the freshly reset
default edge. -/
def redistAux (og : List TileEdgeData) (full : Bool) (angle : Nat) :
    Tile → List TileSide → Nat → Tile
  | t, [], _ => t
  | t, side :: rest, i =>
    let j := if full then (((i : Int) - angle).emod 4).toNat else i
    redistAux og full angle (setEdge t side (og.getD j defaultEdge)) rest
      (i + 1)

/-- The shape relabeling of the horizontal-flip step:
`1 + ((shape - BIG_1) ^ 8) % 16` for big/small slants,
`17 + ((shape - HALF_A) ^ 3)` for half tiles; FULL keeps its shape. -/
@[reducible]
def flipShape (sh : TileShape) : TileShape :=
  if sh = .full then sh
  else if shapeCode sh ≤ 16 then
    shapeOfCode (1 + ((shapeCode sh - 1) ^^^ 8) % 16)
  else shapeOfCode (17 + ((shapeCode sh - 17) ^^^ 3))

/-- The horizontal-flip step of `Tile.transform` on the tile: a FULL
tile swaps its left and right edges; a big/small slant only relabels
its shape; a half tile swaps the edges at positions 1 and 2 of its
`SHAPE_ORDERED_SIDES` entry and relabels. -/
@[reducible]
def flipStep (t : Tile) : Tile :=
  if t.shape = .full then { t with left := t.right, right := t.left }
  else if shapeCode t.shape ≤ 16 then { t with shape := flipShape t.shape }
  else
    { setEdge
        (setEdge t ((orderedSides t.shape).getD 1 .top)
          (getEdge t ((orderedSides t.shape).getD 2 .top)))
        ((orderedSides t.shape).getD 2 .top)
        (getEdge t ((orderedSides t.shape).getD 1 .top)) with
      shape := flipShape t.shape }

/-- The whole flip phase: when the matrix is a flip, apply `flipStep`
and then reverse the directed data of every edge. -/
@[reducible]
def flipPhase (t : Tile) (flipped : Bool) : Tile :=
  if flipped then edgeFlipAll (flipStep t) else t

/-- The shape after the flip phase; equals `(flipPhase t flipped).shape`
(every branch of `flipStep` sets the shape to `flipShape` of the old
one, the FULL branch keeping it unchanged exactly as `flipShape`
does). -/
@[reducible]
def phaseShape (sh : TileShape) (flipped : Bool) : TileShape :=
  if flipped then flipShape sh else sh

/-- The shape-rotation step of `Tile.transform`: slants rotate through
`1 + ((shape - BIG_1) + angle * 2) % 8` and
`9 + ((shape - BIG_5) - angle * 2) % 8`, half tiles through
`17 + ((shape - HALF_A) + angle) % 4`; FULL is unchanged. -/
@[reducible]
def rotShape (sh : TileShape) (angle : Nat) : TileShape :=
  if sh = .full then sh
  else if shapeCode sh ≤ 8 then
    shapeOfCode (1 + (shapeCode sh - 1 + angle * 2) % 8)
  else if shapeCode sh ≤ 16 then
    shapeOfCode (9 + ((((shapeCode sh : Int) - 9) - angle * 2).emod 8).toNat)
  else
    shapeOfCode (17 + (shapeCode sh - 17 + angle) % 4)

/-- `Tile.transform` given the precomputed `flipped` flag and quarter
turn count (`tileTransform` supplies them from the matrix): the flip
phase, the shape rotation, and the edge redistribution of
`og_edge_data` (the flip-phase edges at `SHAPE_ORDERED_SIDES` of the
original shape) over `SHAPE_ORDERED_SIDES` of the new shape, all other
edges being freshly reset defaults.  The new shape is written
`rotShape (phaseShape t.shape flipped) angle`, which is the shape of
`flipPhase t flipped` rotated (see `phaseShape_flipPhase`). -/
def tileTransformCore (t : Tile) (flipped : Bool) (angle : Nat) : Tile :=
  redistAux ((orderedSides t.shape).map (getEdge (flipPhase t flipped)))
    (decide (rotShape (phaseShape t.shape flipped) angle = .full))
    angle
    ⟨rotShape (phaseShape t.shape flipped) angle, defaultEdge, defaultEdge,
      defaultEdge, defaultEdge⟩
    (orderedSides (rotShape (phaseShape t.shape flipped) angle)) 0

/-- `Tile.transform(mat)`. -/
def tileTransform (t : Tile) (mat : TxMatrix) : Tile :=
  tileTransformCore t mat.flipped (txAngleOf mat)

/-- The 8 symmetry matrices of the claim: `TxMatrix.ROTATE[i]` for
`i = 0..3`, and `TxMatrix.ROTATE[i] * TxMatrix.HFLIP` for `k = i + 4`
(the composition order used by `Tile.upscale`). -/
def symMat (k : Fin 8) : TxMatrix :=
  if h : (k : Nat) < 4 then TxMatrix.rotate ⟨k, h⟩
  else (TxMatrix.rotate ⟨(k : Nat) - 4, by omega⟩).mul TxMatrix.hflip

/-- The inverse of each symmetry: `ROTATE[(4 - i) % 4]` for a rotation,
and the flip symmetries are involutions. -/
def symInv (k : Fin 8) : TxMatrix :=
  if h : (k : Nat) < 4 then TxMatrix.rotate ⟨(4 - (k : Nat)) % 4, by omega⟩
  else symMat k

/-- `SIDE_CLOCKWISE_INDEX` from tile.py (TOP, BOTTOM, LEFT, RIGHT). -/
def sideClockwiseIndex : TileSide → Nat
  | .top => 0
  | .bottom => 2
  | .left => 3
  | .right => 1

/-- `SHAPE_VERTEXES` from tile.py: clockwise corner coordinates of each
shape in half-tile units. -/
def shapeVertexes : TileShape → List (Nat × Nat)
  | .full => [(0, 0), (2, 0), (2, 2), (0, 2)]
  | .big1 => [(0, 0), (2, 1), (2, 2), (0, 2)]
  | .small1 => [(0, 1), (2, 2), (2, 2), (0, 2)]
  | .big2 => [(0, 0), (2, 0), (1, 2), (0, 2)]
  | .small2 => [(0, 0), (1, 0), (0, 2), (0, 2)]
  | .big3 => [(0, 0), (2, 0), (2, 2), (0, 1)]
  | .small3 => [(0, 0), (2, 0), (2, 1), (0, 0)]
  | .big4 => [(1, 0), (2, 0), (2, 2), (0, 2)]
  | .small4 => [(2, 0), (2, 0), (2, 2), (1, 2)]
  | .big5 => [(0, 1), (2, 0), (2, 2), (0, 2)]
  | .small5 => [(0, 2), (2, 1), (2, 2), (0, 2)]
  | .big6 => [(0, 0), (2, 0), (2, 2), (1, 2)]
  | .small6 => [(1, 0), (2, 0), (2, 2), (2, 2)]
  | .big7 => [(0, 0), (2, 0), (2, 1), (0, 2)]
  | .small7 => [(0, 0), (2, 0), (2, 0), (0, 1)]
  | .big8 => [(0, 0), (1, 0), (2, 2), (0, 2)]
  | .small8 => [(0, 0), (0, 0), (1, 2), (0, 2)]
  | .halfA => [(0, 0), (2, 2), (2, 2), (0, 2)]
  | .halfB => [(0, 0), (2, 0), (2, 0), (0, 2)]
  | .halfC => [(0, 0), (2, 0), (2, 2), (0, 0)]
  | .halfD => [(0, 2), (2, 0), (2, 2), (0, 2)]

/-- `_tuple_set` on a pair of Bools (only indices 0 and 1 occur). -/
def tupleSetB (p : Bool × Bool) (i : Nat) (v : Bool) : Bool × Bool :=
  if i = 0 then (v, p.2) else (p.1, v)

/-- `_tuple_set` on a pair of Ints (only indices 0 and 1 occur). -/
def tupleSetI (p : Int × Int) (i : Nat) (v : Int) : Int × Int :=
  if i = 0 then (v, p.2) else (p.1, v)

/-- One `dr` iteration of `_copy_side`: zero the `dr` entries of the
caps/angles/filth caps/filth angles unless the vertex test says the
edge endpoint reaches the boundary of the upscaled square (then
`continue` keeps them). -/
def copySideStep (ed : TileEdgeData) (factor dx dy : Nat) (sh : TileShape)
    (cw dr : Nat) : TileEdgeData :=
  let va := (shapeVertexes sh).getD ((cw + 1 - dr) % 4) (0, 0)
  let vb := (shapeVertexes sh).getD ((cw + dr) % 4) (0, 0)
  let x := 2 * dx + vb.1
  let y := 2 * dy + vb.2
  if va.1 ≠ vb.1 ∧ (x = 0 ∨ x = factor * 2) then ed
  else if va.2 ≠ vb.2 ∧ (y = 0 ∨ y = factor * 2) then ed
  else
    { ed with
      caps := tupleSetB ed.caps dr false
      angles := tupleSetI ed.angles dr 0
      filthCaps := tupleSetB ed.filthCaps dr false
      filthAngles := tupleSetI ed.filthAngles dr 0 }

/-- `_copy_side`'s edge transformation: the original tile's edge data
for `side`, with both `dr` iterations applied (the destination tile's
shape is `sh`; the FULL upscale branch always passes a FULL tile). -/
def copySide (ed : TileEdgeData) (factor dx dy : Nat) (sh : TileShape)
    (side : TileSide) : TileEdgeData :=
  copySideStep
    (copySideStep ed factor dx dy sh (sideClockwiseIndex side) 0)
    factor dx dy sh (sideClockwiseIndex side) 1

/-- The `TileShape.FULL` branch of `Tile.upscale` (plus the guards at
the top of the method): no tiles for `factor < 1`, the tile itself for
`factor == 1`, else the `factor * factor` grid of FULL sub-tiles in
yield order (`dx` outer, `dy` inner), each starting from all-default
edges and receiving `_copy_side` copies of the LEFT edge when
`dx == 0`, RIGHT when `dx + 1 == factor`, TOP when `dy == 0` and
BOTTOM when `dy + 1 == factor`. -/
def tileUpscaleFull (t : Tile) (factor : Nat) : List (Nat × Nat × Tile) :=
  if factor < 1 then []
  else if factor = 1 then [(0, 0, t)]
  else
    (List.range factor).bind fun dx =>
      (List.range factor).map fun dy =>
        let t0 : Tile :=
          ⟨.full, defaultEdge, defaultEdge, defaultEdge, defaultEdge⟩
        let t1 := if dx = 0 then
            setEdge t0 .left (copySide (getEdge t .left) factor dx dy .full .left)
          else t0
        let t2 := if dx + 1 = factor then
            setEdge t1 .right
              (copySide (getEdge t .right) factor dx dy .full .right)
          else t1
        let t3 := if dy = 0 then
            setEdge t2 .top (copySide (getEdge t .top) factor dx dy .full .top)
          else t2
        let t4 := if dy + 1 = factor then
            setEdge t3 .bottom
              (copySide (getEdge t .bottom) factor dx dy .full .bottom)
          else t3
        (dx, dy, t4)

/-- Spec-side edge adjustment: keep the boundary-matching entries of
caps/angles/filth caps/filth angles, zero the others; the scalar
fields (solid, visible, filth sprite set and spike) always carry
over. -/
def specAdjust (e : TileEdgeData) (k0 k1 : Bool) : TileEdgeData :=
  { e with
    caps := (if k0 then e.caps.1 else false, if k1 then e.caps.2 else false)
    angles := (if k0 then e.angles.1 else 0, if k1 then e.angles.2 else 0)
    filthCaps := (if k0 then e.filthCaps.1 else false,
      if k1 then e.filthCaps.2 else false)
    filthAngles := (if k0 then e.filthAngles.1 else 0,
      if k1 then e.filthAngles.2 else 0) }

/-- Spec-side description of the sub-tile of a FULL upscale at grid
position `(dx, dy)`: a FULL tile whose TOP edge is inherited exactly
when `dy = 0`, BOTTOM when `dy + 1 = f`, LEFT when `dx = 0` and RIGHT
when `dx + 1 = f`, every other edge being the default edge; an
inherited edge keeps the original's data except that each corner entry
of caps/angles/filth caps/filth angles survives only when that corner
of the sub-edge lies on the boundary of the upscaled square. -/
def upscaleSpecSub (t : Tile) (f dx dy : Nat) : Tile :=
  ⟨.full,
    if dy = 0 then
      specAdjust t.top (decide (dx = 0)) (decide (dx + 1 = f))
    else defaultEdge,
    if dy + 1 = f then
      specAdjust t.bottom (decide (dx + 1 = f)) (decide (dx = 0))
    else defaultEdge,
    if dx = 0 then
      specAdjust t.left (decide (dy + 1 = f)) (decide (dy = 0))
    else defaultEdge,
    if dx + 1 = f then
      specAdjust t.right (decide (dy = 0)) (decide (dy + 1 = f))
    else defaultEdge⟩

/-! ## Theorems -/

theorem toBitsLE_length (n v : Nat) : (toBitsLE n v).length = n := by
  induction n generalizing v with
  | zero => rfl
  | succ n ih => simp [toBitsLE, ih]

theorem two_pow_succ_eq (n : Nat) : (2 : Nat) ^ (n + 1) = 2 * 2 ^ n := by
  rw [pow_succ]; ring

/-- Bit lists agree when the values agree modulo `2 ^ n`. -/
theorem toBitsLE_congr : ∀ {n v w : Nat}, v % 2 ^ n = w % 2 ^ n →
    toBitsLE n v = toBitsLE n w := by
  intro n
  induction n with
  | zero => intro v w _; rfl
  | succ n ih =>
    intro v w h
    have hdvd : (2 : Nat) ∣ 2 ^ (n + 1) := ⟨2 ^ n, two_pow_succ_eq n⟩
    have h1 : v % 2 = w % 2 := by
      rw [← Nat.mod_mod_of_dvd v hdvd, ← Nat.mod_mod_of_dvd w hdvd, h]
    have h2 : v / 2 % 2 ^ n = w / 2 % 2 ^ n := by
      have hv : v % 2 ^ (n + 1) / 2 = v / 2 % 2 ^ n := by
        rw [two_pow_succ_eq n]; exact Nat.mod_mul_right_div_self v 2 (2 ^ n)
      have hw : w % 2 ^ (n + 1) / 2 = w / 2 % 2 ^ n := by
        rw [two_pow_succ_eq n]; exact Nat.mod_mul_right_div_self w 2 (2 ^ n)
      rw [← hv, ← hw, h]
    simp [toBitsLE, h1, ih h2]

/-- Splitting a bit list: low `m` bits, then the bits of `v >>> m`. -/
theorem toBitsLE_append (m k v : Nat) :
    toBitsLE (m + k) v = toBitsLE m v ++ toBitsLE k (v >>> m) := by
  induction m generalizing v with
  | zero => simp [toBitsLE, Nat.shiftRight_eq_div_pow]
  | succ m ih =>
    have hsr : (v / 2) >>> m = v >>> (m + 1) := by
      rw [Nat.shiftRight_eq_div_pow, Nat.shiftRight_eq_div_pow,
        Nat.div_div_eq_div_mul, two_pow_succ_eq]
    have hm : m + 1 + k = (m + k) + 1 := by omega
    rw [hm]
    simp only [toBitsLE, ih (v / 2), List.cons_append]
    rw [hsr]

theorem bitsVal_append (l1 l2 : List Bool) :
    bitsVal (l1 ++ l2) = bitsVal l1 + 2 ^ l1.length * bitsVal l2 := by
  induction l1 with
  | nil => simp [bitsVal]
  | cons b t ih =>
    simp only [List.cons_append, bitsVal, List.append_eq, ih,
      List.length_cons, pow_succ]
    ring

/-- Decomposition of a modulus by a product: `a % (b * c)` in terms of
`a % b` and `a / b % c`. -/
theorem mod_mul_decomp (a b c : Nat) :
    a % (b * c) = b * (a / b % c) + a % b := by
  rcases Nat.eq_zero_or_pos b with hb | hb
  · subst hb; simp
  · have h1 := Nat.div_add_mod (a % (b * c)) b
    rw [Nat.mod_mul_right_div_self a b c] at h1
    rw [Nat.mod_mul_right_mod a b c] at h1
    omega

theorem bitsVal_toBitsLE (n v : Nat) : bitsVal (toBitsLE n v) = v % 2 ^ n := by
  induction n generalizing v with
  | zero => simp [toBitsLE, bitsVal, Nat.mod_one]
  | succ n ih =>
    simp only [toBitsLE, bitsVal, ih]
    rw [two_pow_succ_eq, mod_mul_decomp v 2 (2 ^ n)]
    rcases Nat.mod_two_eq_zero_or_one v with h | h
    · simp [h]
    · simp [h]
      omega

theorem bitsVal_lt (l : List Bool) : bitsVal l < 2 ^ l.length := by
  induction l with
  | nil => simp [bitsVal]
  | cons b t ih =>
    simp only [bitsVal, List.length_cons, two_pow_succ_eq]
    rcases b <;> simp <;> omega

/-- `toBitsLE` of an in-range value is recovered exactly by `bitsVal`. -/
theorem bitsVal_toBitsLE_of_lt {n v : Nat} (h : v < 2 ^ n) :
    bitsVal (toBitsLE n v) = v := by
  rw [bitsVal_toBitsLE, Nat.mod_eq_of_lt h]

theorem bytesBits_toBytesLE (k v : Nat) :
    bytesBits (toBytesLE k v) = toBitsLE (8 * k) v := by
  induction k generalizing v with
  | zero => simp [toBytesLE, bytesBits, toBitsLE]
  | succ k ih =>
    have hm : 8 * (k + 1) = 8 + 8 * k := by omega
    rw [hm, toBitsLE_append 8 (8 * k) v]
    have h8 : toBitsLE 8 (v % 256) = toBitsLE 8 v := by
      apply toBitsLE_congr
      have h28 : (2 : Nat) ^ 8 = 256 := by norm_num
      rw [h28]
      omega
    have hsr : v >>> 8 = v / 256 := by
      rw [Nat.shiftRight_eq_div_pow]
    have ih2 := ih (v / 256)
    simp only [bytesBits] at ih2
    simp only [toBytesLE, bytesBits, List.flatMap_cons, h8]
    rw [ih2, hsr]

theorem toBytesLE_length (k v : Nat) : (toBytesLE k v).length = k := by
  induction k generalizing v with
  | zero => rfl
  | succ k ih => simp [toBytesLE, ih]

theorem toBytesLE_take (k v : Nat) :
    (toBytesLE (k + 1) v).take k = toBytesLE k v := by
  induction k generalizing v with
  | zero => rfl
  | succ k ih =>
    have h1 : toBytesLE (k + 1 + 1) v = v % 256 :: toBytesLE (k + 1) (v / 256) := rfl
    have h2 : toBytesLE (k + 1) v = v % 256 :: toBytesLE k (v / 256) := rfl
    rw [h1, List.take_succ_cons, ih (v / 256), h2]

theorem toBytesLE_getD (k v : Nat) :
    (toBytesLE (k + 1) v).getD k 0 = v / 2 ^ (8 * k) % 256 := by
  induction k generalizing v with
  | zero => simp [toBytesLE, List.getD]
  | succ k ih =>
    have hd : v / 256 / 2 ^ (8 * k) = v / 2 ^ (8 * (k + 1)) := by
      rw [Nat.div_div_eq_div_mul]
      congr 1
      have h1 : 8 * (k + 1) = 8 + 8 * k := by omega
      rw [h1, pow_add]
      norm_num
    have h1 : toBytesLE (k + 1 + 1) v = v % 256 :: toBytesLE (k + 1) (v / 256) := rfl
    rw [h1, List.getD_cons_succ, ih (v / 256), hd]

theorem toBytesLE_lt (k v : Nat) : ∀ b ∈ toBytesLE k v, b < 256 := by
  induction k generalizing v with
  | zero => simp [toBytesLE]
  | succ k ih =>
    intro b hb
    simp only [toBytesLE, List.mem_cons] at hb
    rcases hb with h | h
    · subst h; exact Nat.mod_lt _ (by norm_num)
    · exact ih (v / 256) b h

/-- C3: matrix multiplication does not implement standard affine
composition: at `m1 = ((1,0,0),(0,1,1),(0,0,1))` (which is
`TxMatrix.IDENTITY.translate(0, 1)`) and `m2 = IDENTITY`, the product
samples `(0, 0)` to `(0, 0)` while composing the samples gives `(0, 1)`:
`__mul__` builds the row-1 offset entry from `ml[0][2]` instead of
`ml[1][2]` (transform.py line 87), which also contradicts `translate`'s
own docstring equation `mat.translate(x, y) ==
TxMatrix.IDENTITY.translate(x, y) * mat`. -/
theorem txmatrix_mul_offset_bug :
    (TxMatrix.mul (TxMatrix.identityMat.translate 0 1)
        TxMatrix.identityMat).sample 0 0 = (0, 0) ∧
    (TxMatrix.identityMat.translate 0 1).sample
        (TxMatrix.identityMat.sample 0 0).1
        (TxMatrix.identityMat.sample 0 0).2 = (0, 1) ∧
    TxMatrix.mul (TxMatrix.identityMat.translate 0 1) TxMatrix.identityMat ≠
      TxMatrix.identityMat.translate 0 1 := by
  refine ⟨?_, ?_, ?_⟩ <;>
    norm_num [TxMatrix.mul, TxMatrix.sample, TxMatrix.translate,
      TxMatrix.identityMat, TxMatrix.mk.injEq, Prod.ext_iff]

/-- C6 counterexample: the claim asserts a tile at world tile coordinate
`(300, 5)` lands in segment `(3, 0)` of region `(1, 0)`, but the code
computes segment `((300 // 16) & 0xF, (5 // 16) & 0xF) = (18 & 15, 0) =
(2, 0)`: the segment index differs from the claimed one. -/
theorem region_segment_bucketing_cex :
    regionInsert [] 300 5 = [((1, 0), [((2, 0), [(300, 5)])])] ∧
    ((2, 0) : Int × Int) ≠ (3, 0) := by
  constructor
  · decide
  · decide

/-- C6 (amended): spatial bucketing maps a tile at world tile coordinate
`(x, y)` to region index `(x // 256, y // 256)` and, within that region,
to segment index `((x // 16) & 0xF, (y // 16) & 0xF)`; in particular a
tile at `(300, 5)` lands in region `(1, 0)` and in segment `(2, 0)`
within that region (`300 // 256 = 1`, `(300 // 16) & 0xF = 18 & 15 = 2`). -/
theorem region_segment_bucketing :
    (∀ x y : Int, regionInsert [] x y =
      [((Int.fdiv x 256, Int.fdiv y 256),
        [((Int.land (Int.fdiv x 16) 0xF, Int.land (Int.fdiv y 16) 0xF),
          [(x, y)])])]) ∧
    regionInsert [] 300 5 = [((1, 0), [((2, 0), [(300, 5)])])] := by
  constructor
  · intro x y
    rfl
  · decide

theorem hasKey_eraseKey (m : IdMap) (k : Int) :
    hasKey (eraseKey m k) k = false := by
  induction m with
  | nil => rfl
  | cons e t ih =>
    simp only [eraseKey, List.filter_cons] at ih ⊢
    by_cases h : e.1 = k
    · simpa [h] using ih
    · simpa [hasKey, h] using ih

theorem lookupKey_append_self {m : IdMap} {k : Int} (h : hasKey m k = false)
    (v : Nat) : lookupKey (m ++ [(k, v)]) k = some v := by
  induction m with
  | nil => simp [lookupKey]
  | cons e t ih =>
    simp only [hasKey, List.any_cons, Bool.or_eq_false_iff] at h
    have h1 : (decide (e.1 = k)) = false := by simpa using h.1
    have h2 := ih (by simpa [hasKey] using h.2)
    simp only [List.cons_append, lookupKey, List.find?_cons, h1]
    simpa [lookupKey] using h2

/-- C7 counterexample: the claim says an explicit id already in use in the
combined id space must raise, but the duplicate check of `add_prop` only
inspects the `props` map of the same object: after `add_entity(...,
id_num=100)` succeeds, `add_prop(..., id_num=100)` also succeeds (returns
the id instead of raising), re-using the id across the entity/prop maps. -/
theorem duplicate_id_cross_type_cex :
    (addEntity initLevelIds false (some 100) 0).2 = some 100 ∧
    (addProp ((addEntity initLevelIds false (some 100) 0).1) false
      (some 100) 1).2 = some 100 := by
  constructor
  · rfl
  · rfl

/-- C7 (amended): on the write path `add_prop` (resp. `add_entity`) raises
exactly when the explicit id is already a key of the `props` (resp.
`entities`) map of the same level object — duplicates across the two maps
or with the backdrop are not detected — and a raising call leaves all four
maps unchanged; on the read path, `read_segment` pops the old record
before re-adding, so a duplicate id never raises and the later record
wins. -/
theorem duplicate_id_handling :
    (∀ (s : LevelIds) (bd : Bool) (id_num : Int) (v : Nat),
      hasKey (if bd then s.backdropProps else s.props) id_num = true →
        (addProp s bd (some id_num) v).2 = none ∧
        (addProp s bd (some id_num) v).1.props = s.props ∧
        (addProp s bd (some id_num) v).1.entities = s.entities ∧
        (addProp s bd (some id_num) v).1.backdropProps = s.backdropProps ∧
        (addProp s bd (some id_num) v).1.backdropEntities =
          s.backdropEntities) ∧
    (∀ (s : LevelIds) (bd : Bool) (id_num : Int) (v : Nat),
      hasKey (if bd then s.backdropEntities else s.entities) id_num = true →
        (addEntity s bd (some id_num) v).2 = none ∧
        (addEntity s bd (some id_num) v).1.props = s.props ∧
        (addEntity s bd (some id_num) v).1.entities = s.entities ∧
        (addEntity s bd (some id_num) v).1.backdropProps = s.backdropProps ∧
        (addEntity s bd (some id_num) v).1.backdropEntities =
          s.backdropEntities) ∧
    (∀ (s : LevelIds) (id_num : Int) (v : Nat),
      (readPropStep s id_num v).2 = some id_num ∧
      lookupKey (readPropStep s id_num v).1.props id_num = some v) ∧
    (∀ (s : LevelIds) (id_num : Int) (v : Nat),
      (readEntityStep s id_num v).2 = some id_num ∧
      lookupKey (readEntityStep s id_num v).1.entities id_num = some v) := by
  refine ⟨?_, ?_, ?_, ?_⟩
  · intro s bd id_num v h
    cases bd <;> simp_all [addProp, noteId]
  · intro s bd id_num v h
    cases bd <;> simp_all [addEntity, noteId]
  · intro s id_num v
    have h := hasKey_eraseKey s.props id_num
    constructor
    · simp [readPropStep, addProp, noteId, h]
    · simp [readPropStep, addProp, noteId, h, lookupKey_append_self h]
  · intro s id_num v
    have h := hasKey_eraseKey s.entities id_num
    constructor
    · simp [readEntityStep, addEntity, noteId, h]
    · simp [readEntityStep, addEntity, noteId, h, lookupKey_append_self h]

/-- Witness for `duplicate_id_handling` at a concrete state. -/
theorem duplicate_id_handling_witness :
    (addProp ⟨[(5, 0)], [], [], [], 100⟩ false (some 5) 1).2 = none ∧
    (readPropStep ⟨[(5, 0)], [], [], [], 100⟩ 5 7).2 = some 5 := by
  refine ⟨(duplicate_id_handling.1 ⟨[(5, 0)], [], [], [], 100⟩ false 5 1
    (by decide)).1, (duplicate_id_handling.2.2.1 ⟨[(5, 0)], [], [], [], 100⟩
    5 7).1⟩

theorem mapBelow_mono {m : IdMap} {a b : Int} (h : mapBelow m a)
    (hab : a ≤ b) : mapBelow m b :=
  fun e he => lt_of_lt_of_le (h e he) hab

theorem mapBelow_append {m : IdMap} {a : Int} {k : Int} {v : Nat}
    (h : mapBelow m a) (hk : k < a) : mapBelow (m ++ [(k, v)]) a := by
  intro e he
  rcases List.mem_append.1 he with h1 | h1
  · exact h e h1
  · simp only [List.mem_singleton] at h1
    subst h1
    exact hk

theorem not_hasKey_of_mapBelow {m : IdMap} {n : Int} (h : mapBelow m n)
    (k : Int) (hk : n ≤ k) : hasKey m k = false := by
  rw [Bool.eq_false_iff]
  intro hc
  simp only [hasKey, List.any_eq_true, decide_eq_true_eq] at hc
  obtain ⟨e, he, hek⟩ := hc
  have := h e he
  omega

theorem idInv_addProp {s : LevelIds} (h : idInv s) (bd : Bool)
    (idArg : Option Int) (v : Nat) : idInv (addProp s bd idArg v).1 := by
  obtain ⟨h1, h2, h3, h4⟩ := h
  rcases idArg with _ | i <;> cases bd <;>
    simp only [addProp, genId, noteId, Bool.false_eq_true, if_false,
      reduceIte] <;> split <;>
    refine ⟨?_, ?_, ?_, ?_⟩ <;> dsimp only <;>
    first
      | exact mapBelow_mono h1 (by omega)
      | exact mapBelow_mono h2 (by omega)
      | exact mapBelow_mono h3 (by omega)
      | exact mapBelow_mono h4 (by omega)
      | exact mapBelow_append (mapBelow_mono h1 (by omega)) (by omega)
      | exact mapBelow_append (mapBelow_mono h2 (by omega)) (by omega)
      | exact mapBelow_append (mapBelow_mono h3 (by omega)) (by omega)
      | exact mapBelow_append (mapBelow_mono h4 (by omega)) (by omega)

theorem idInv_addEntity {s : LevelIds} (h : idInv s) (bd : Bool)
    (idArg : Option Int) (v : Nat) : idInv (addEntity s bd idArg v).1 := by
  obtain ⟨h1, h2, h3, h4⟩ := h
  rcases idArg with _ | i <;> cases bd <;>
    simp only [addEntity, genId, noteId, Bool.false_eq_true, if_false,
      reduceIte] <;> split <;>
    refine ⟨?_, ?_, ?_, ?_⟩ <;> dsimp only <;>
    first
      | exact mapBelow_mono h1 (by omega)
      | exact mapBelow_mono h2 (by omega)
      | exact mapBelow_mono h3 (by omega)
      | exact mapBelow_mono h4 (by omega)
      | exact mapBelow_append (mapBelow_mono h1 (by omega)) (by omega)
      | exact mapBelow_append (mapBelow_mono h2 (by omega)) (by omega)
      | exact mapBelow_append (mapBelow_mono h3 (by omega)) (by omega)
      | exact mapBelow_append (mapBelow_mono h4 (by omega)) (by omega)

theorem idInv_applyOp {s : LevelIds} (h : idInv s) (op : LevelOp) :
    idInv (applyOp s op) := by
  cases op with
  | prop bd idArg v => exact idInv_addProp h bd idArg v
  | entity bd idArg v => exact idInv_addEntity h bd idArg v

theorem idInv_foldl_aux (ops : List LevelOp) :
    ∀ s, idInv s → idInv (ops.foldl applyOp s) := by
  induction ops with
  | nil => intro s hs; exact hs
  | cons op rest ih => intro s hs; exact ih _ (idInv_applyOp hs op)

theorem idInv_init : idInv initLevelIds := by
  refine ⟨?_, ?_, ?_, ?_⟩ <;> intro e he <;> simp [initLevelIds] at he

/-- C9: after any sequence of `add_prop` / `add_entity` calls on a fresh
level or its backdrop (explicit or allocated ids, raising calls included),
the root `_next_id` counter strictly exceeds every prop and entity id of
the level and its backdrop combined; consequently an `add_prop` or
`add_entity` call without an explicit id allocates exactly `_next_id`
(fresh by the first part) and never raises. -/
theorem next_id_exceeds_all_ids (ops : List LevelOp) :
    (∀ e ∈ (ops.foldl applyOp initLevelIds).props ++
        (ops.foldl applyOp initLevelIds).entities ++
        (ops.foldl applyOp initLevelIds).backdropProps ++
        (ops.foldl applyOp initLevelIds).backdropEntities,
      e.1 < (ops.foldl applyOp initLevelIds).nextId) ∧
    (∀ (bd : Bool) (v : Nat),
      (addProp (ops.foldl applyOp initLevelIds) bd none v).2 =
        some (ops.foldl applyOp initLevelIds).nextId) ∧
    (∀ (bd : Bool) (v : Nat),
      (addEntity (ops.foldl applyOp initLevelIds) bd none v).2 =
        some (ops.foldl applyOp initLevelIds).nextId) := by
  obtain ⟨h1, h2, h3, h4⟩ := idInv_foldl_aux ops initLevelIds idInv_init
  refine ⟨?_, ?_, ?_⟩
  · intro e he
    rcases List.mem_append.1 he with he | he
    · rcases List.mem_append.1 he with he | he
      · rcases List.mem_append.1 he with he | he
        · exact h1 e he
        · exact h2 e he
      · exact h3 e he
    · exact h4 e he
  · intro bd v
    cases bd
    · have hk := not_hasKey_of_mapBelow h1 _
        (le_refl (ops.foldl applyOp initLevelIds).nextId)
      simp [addProp, genId, hk]
    · have hk := not_hasKey_of_mapBelow h3 _
        (le_refl (ops.foldl applyOp initLevelIds).nextId)
      simp [addProp, genId, hk]
  · intro bd v
    cases bd
    · have hk := not_hasKey_of_mapBelow h2 _
        (le_refl (ops.foldl applyOp initLevelIds).nextId)
      simp [addEntity, genId, hk]
    · have hk := not_hasKey_of_mapBelow h4 _
        (le_refl (ops.foldl applyOp initLevelIds).nextId)
      simp [addEntity, genId, hk]

/-- Witness for `next_id_exceeds_all_ids` at a concrete operation list. -/
theorem next_id_exceeds_all_ids_witness :
    ((5 : Int), (0 : Nat)).1 <
      (([LevelOp.prop false (some 5) 0]).foldl applyOp initLevelIds).nextId ∧
    (addProp (([LevelOp.prop false (some 5) 0]).foldl applyOp initLevelIds)
        false none 1).2 =
      some (([LevelOp.prop false (some 5) 0]).foldl applyOp
        initLevelIds).nextId :=
  ⟨(next_id_exceeds_all_ids [LevelOp.prop false (some 5) 0]).1 (5, 0)
      (by decide),
    (next_id_exceeds_all_ids [LevelOp.prop false (some 5) 0]).2.1 false 1⟩

theorem readBits_exact {n v : Nat} (hv : v < 2 ^ n) (rest : List Bool) :
    readBits n (toBitsLE n v ++ rest) = (v, rest) := by
  unfold readBits
  rw [List.take_left' (toBitsLE_length n v), List.drop_left' (toBitsLE_length n v),
    bitsVal_toBitsLE_of_lt hv]

theorem readSigned_exact {n : Nat} {v : Int} (hn : 0 < n)
    (h1 : -(2 ^ (n - 1)) ≤ v) (h2 : v < 2 ^ (n - 1)) (rest : List Bool) :
    readSigned n (toBitsLE n (encInt n v) ++ rest) = (v, rest) := by
  have hsplit : n = (n - 1) + 1 := by omega
  have hpowN : ((2 ^ n : Nat) : Int) = 2 ^ n := by push_cast; rfl
  have hpow2 : (2 : Int) ^ n = 2 ^ (n - 1) * 2 := by
    conv_lhs => rw [hsplit]
    rw [pow_succ]
  have hpow2n : (2 : Nat) ^ n = 2 ^ (n - 1) * 2 := by
    conv_lhs => rw [hsplit]
    rw [pow_succ]
  have hcast1 : ((2 ^ (n - 1) : Nat) : Int) = 2 ^ (n - 1) := by push_cast; rfl
  have henc : encInt n v < 2 ^ n := by
    unfold encInt
    split <;> omega
  unfold readSigned
  rw [readBits_exact henc]
  dsimp only
  have hland := Nat.and_two_pow (encInt n v) (n - 1)
  rcases Int.lt_or_le v 0 with hneg | hpos
  · have henc2 : encInt n v = (v + 2 ^ n).toNat := by
      unfold encInt
      rw [if_pos hneg]
    have hx1 : 2 ^ (n - 1) ≤ encInt n v := by
      rw [henc2]
      omega
    have hdiv : encInt n v / 2 ^ (n - 1) = 1 :=
      Nat.div_eq_of_lt_le (by omega) (by omega)
    have htb : (encInt n v).testBit (n - 1) = true := by
      rw [Nat.testBit_to_div_mod, hdiv]
      decide
    have hcond : encInt n v &&& 2 ^ (n - 1) ≠ 0 := by
      rw [hland, htb]
      simp
    rw [if_pos hcond]
    have hfst : ((encInt n v : Int) - 2 ^ n) = v := by
      rw [henc2]
      omega
    rw [hfst]
  · have henc2 : encInt n v = v.toNat := by
      unfold encInt
      rw [if_neg (by omega)]
    have hx1 : encInt n v < 2 ^ (n - 1) := by
      rw [henc2]
      omega
    have hdiv : encInt n v / 2 ^ (n - 1) = 0 := Nat.div_eq_of_lt hx1
    have htb : (encInt n v).testBit (n - 1) = false := by
      rw [Nat.testBit_to_div_mod, hdiv]
      decide
    have hcond : encInt n v &&& 2 ^ (n - 1) = 0 := by
      rw [hland, htb]
      simp
    rw [if_neg (by simp [hcond])]
    have hfst : ((encInt n v : Int)) = v := by
      rw [henc2]
      omega
    rw [hfst]

theorem readBytesLE_exact {s : List Nat} (hb : bytesOKB s = true)
    (rest : List Bool) :
    readBytesLE s.length (bytesBits s ++ rest) = (s, rest) := by
  induction s with
  | nil => rfl
  | cons b t ih =>
    simp only [bytesOKB, List.all_cons, Bool.and_eq_true, decide_eq_true_eq]
      at hb
    have hb256 : b < 2 ^ 8 := by
      have := hb.1
      omega
    have ih2 := ih (by simp [bytesOKB, hb.2])
    have hstep : bytesBits (b :: t) = toBitsLE 8 b ++ bytesBits t := by
      simp [bytesBits]
    rw [List.length_cons, hstep, List.append_assoc]
    unfold readBytesLE
    rw [readBits_exact hb256]
    dsimp only
    rw [ih2]

theorem readChunk_exact {s : List Nat} (hb : bytesOKB s = true)
    (hlen : s.length < 2 ^ 16) (rest : List Bool) :
    readChunk (toBitsLE 16 s.length ++ bytesBits s ++ rest) = (s, rest) := by
  unfold readChunk
  rw [List.append_assoc, readBits_exact hlen]
  dsimp only
  exact readBytesLE_exact hb rest

theorem char6_roundtrip : ∀ {c code : Nat}, char6enc c = some code →
    char6dec code = c ∧ code < 64 := by
  intro c code h
  unfold char6enc at h
  split_ifs at h with h1 h2 h3 h4 h5 <;>
    first
      | (injection h with h
         subst h
         unfold char6dec
         split_ifs <;> omega)
      | (cases h)

theorem read6bitChars_exact :
    ∀ (codes : List Nat) (rest : List Bool), (∀ code ∈ codes, code < 64) →
      read6bitChars codes.length (codes.flatMap (toBitsLE 6) ++ rest) =
        (codes.map char6dec, rest) := by
  intro codes
  induction codes with
  | nil => intro rest _; rfl
  | cons cd t ih =>
    intro rest h
    have hcd : cd < 2 ^ 6 := by
      have := h cd (List.mem_cons_self cd t)
      omega
    simp only [List.flatMap_cons, List.length_cons, List.append_assoc]
    unfold read6bitChars
    rw [readBits_exact hcd]
    dsimp only
    rw [ih rest (fun code hc => h code (List.mem_cons_of_mem cd hc))]
    simp

theorem encChars_ok :
    ∀ (k : List Nat), k.all (fun c => (char6enc c).isSome) = true →
      ∃ codes, encChars k = some codes ∧ codes.map char6dec = k ∧
        (∀ cd ∈ codes, cd < 64) ∧ codes.length = k.length := by
  intro k
  induction k with
  | nil => intro _; exact ⟨[], rfl, rfl, by simp, rfl⟩
  | cons c t ih =>
    intro h
    simp only [List.all_cons, Bool.and_eq_true] at h
    obtain ⟨code, hcode⟩ := Option.isSome_iff_exists.1 h.1
    obtain ⟨codes, hm, hdec, hlt, hlen⟩ := ih h.2
    refine ⟨code :: codes, ?_, ?_, ?_, ?_⟩
    · simp [encChars, hcode, hm]
    · simp only [List.map_cons, hdec, (char6_roundtrip hcode).1]
    · intro cd hcd
      rcases List.mem_cons.1 hcd with h1 | h1
      · subst h1
        exact (char6_roundtrip hcode).2
      · exact hlt cd h1
    · simp [hlen]

theorem read6bitStr_exact {k : List Nat} (hok : keyOKB k = true)
    (rest : List Bool) :
    ∃ bs, encode6bitStr k = some bs ∧ read6bitStr (bs ++ rest) = (k, rest) := by
  simp only [keyOKB, Bool.and_eq_true, decide_eq_true_eq] at hok
  obtain ⟨codes, hm, hdec, hlt, hlen⟩ := encChars_ok k hok.2
  refine ⟨toBitsLE 6 k.length ++ codes.flatMap (toBitsLE 6), ?_, ?_⟩
  · unfold encode6bitStr
    rw [if_neg (by omega)]
    simp [hm]
  · unfold read6bitStr
    have hklen : k.length < 2 ^ 6 := by
      have := hok.1
      omega
    rw [List.append_assoc, readBits_exact hklen]
    dsimp only
    rw [← hlen, read6bitChars_exact codes rest hlt, hdec]

theorem readFloat_exact {q : ℚ} (hok : floatOKB q = true) (rest : List Bool) :
    readFloat 32 32 (encodeFloat 32 32 q ++ rest) = (q, rest) := by
  simp only [floatOKB, Bool.and_eq_true, decide_eq_true_eq] at hok
  obtain ⟨hip, hden⟩ := hok
  have hfrac0 : (0 : ℚ) ≤ q - Int.floor q := sub_nonneg.2 (Int.floor_le q)
  have hfrac1 : q - Int.floor q < 1 := by
    have := Int.lt_floor_add_one q
    linarith
  have hx0 : (0 : ℚ) ≤ (q - Int.floor q) * 2 ^ 31 := by positivity
  have hx1 : (q - Int.floor q) * 2 ^ 31 < 2 ^ 31 := by
    have h31 : (0 : ℚ) < 2 ^ 31 := by positivity
    calc (q - Int.floor q) * 2 ^ 31 < 1 * 2 ^ 31 :=
          mul_lt_mul_of_pos_right hfrac1 h31
      _ = 2 ^ 31 := by ring
  set x : ℚ := (q - Int.floor q) * 2 ^ 31 with hxdef
  have hxnum : (x.num : ℚ) = x := (Rat.den_eq_one_iff x).1 hden
  have hxnn : 0 ≤ x.num := Rat.num_nonneg.2 hx0
  have hfl : Int.floor x = x.num := by
    conv_lhs => rw [← hxnum]
    exact Int.floor_intCast x.num
  have hfp : ((Int.floor x).toNat : ℚ) = x := by
    rw [hfl]
    rw [show ((x.num.toNat : ℚ)) = ((x.num.toNat : Int) : ℚ) by push_cast; ring]
    rw [Int.toNat_of_nonneg hxnn, hxnum]
  have hfplt : (Int.floor x).toNat < 2 ^ 32 := by
    have hq : (x.num : ℚ) < 2 ^ 31 := by rw [hxnum]; exact hx1
    have hnum31 : x.num < 2 ^ 31 := by exact_mod_cast hq
    rw [hfl]
    omega
  have hsgn : (if q < 0 then 1 else 0) < 2 ^ 1 := by
    split <;> norm_num
  unfold encodeFloat readFloat
  rw [List.append_assoc, List.append_assoc, readBits_exact hsgn]
  dsimp only
  rw [readBits_exact (show (Int.floor q).natAbs < 2 ^ (32 - 1) from hip)]
  dsimp only
  rw [readBits_exact hfplt]
  dsimp only
  have hdiv : (((Int.floor x).toNat : Nat) : ℚ) / ((2 ^ (32 - 1) : Nat) : ℚ) =
      q - Int.floor q := by
    rw [hfp, hxdef]
    have h2c : ((2 ^ (32 - 1) : Nat) : ℚ) = 2 ^ 31 := by norm_num
    rw [h2c]
    field_simp
  congr 1
  rw [hdiv]
  rcases lt_or_le q 0 with hneg | hpos
  · rw [if_pos hneg]
    have hfln : Int.floor q < 0 := by
      rw [Int.floor_lt]
      push_cast
      linarith
    have habs : ((Int.floor q).natAbs : ℚ) = -((Int.floor q : ℚ)) := by
      rw [Int.cast_natAbs, abs_of_neg hfln]
      push_cast
      ring
    rw [habs]
    push_cast
    ring
  · rw [if_neg (by linarith)]
    have hfln : 0 ≤ Int.floor q := Int.floor_nonneg.2 hpos
    have habs : ((Int.floor q).natAbs : ℚ) = ((Int.floor q : ℚ)) := by
      rw [Int.cast_natAbs, abs_of_nonneg hfln]
    rw [habs]
    push_cast
    ring

theorem chunkSlices_small {s : List Nat} (h : s.length < maxWidth) :
    chunkSlices s = [s] := by
  unfold chunkSlices
  rw [Nat.div_eq_of_lt h]
  rw [show (1 : Nat) = 0 + 1 from rfl, List.range_succ]
  simp only [List.range_zero, List.nil_append, List.map_cons, List.map_nil,
    Nat.zero_mul, List.drop_zero]
  rw [List.take_of_length_le (Nat.le_of_lt h)]

theorem chunkSlices_step {s : List Nat} (h : maxWidth ≤ s.length) :
    chunkSlices s = s.take maxWidth :: chunkSlices (s.drop maxWidth) := by
  unfold chunkSlices
  have hpos : 0 < maxWidth := by decide
  have hdiv : s.length / maxWidth = 1 + (s.length - maxWidth) / maxWidth := by
    rw [Nat.div_eq_sub_div hpos h]
    omega
  rw [hdiv, List.length_drop]
  rw [show 1 + (1 + (s.length - maxWidth) / maxWidth) =
    (1 + (s.length - maxWidth) / maxWidth) + 1 from by omega]
  rw [List.range_succ_eq_map]
  rw [List.map_cons, List.map_map]
  simp only [Nat.zero_mul, List.drop_zero]
  refine congrArg (List.cons (s.take maxWidth)) ?_
  apply List.map_congr_left
  intro i _
  simp only [Function.comp_apply, List.drop_drop]
  congr 2
  rw [Nat.succ_mul, Nat.mul_comm i maxWidth, Nat.add_comm]

theorem strCont_eq (pre : List Bool) (s : List Nat) :
    (chunkSlices s).flatMap
        (fun c => pre ++ (toBitsLE 16 c.length ++ bytesBits c)) =
      pre ++ strCont pre s := by
  suffices hgen : ∀ n (s : List Nat), s.length ≤ n →
      (chunkSlices s).flatMap
          (fun c => pre ++ (toBitsLE 16 c.length ++ bytesBits c)) =
        pre ++ strCont pre s from hgen s.length s le_rfl
  intro n
  induction n with
  | zero =>
    intro s hs
    have h : s.length < maxWidth := by
      rw [Nat.le_zero.mp hs]
      decide
    rw [chunkSlices_small h, strCont, dif_pos h]
    simp
  | succ n ih =>
    intro s hs
    by_cases h : s.length < maxWidth
    · rw [chunkSlices_small h, strCont, dif_pos h]
      simp
    · push_neg at h
      have hpos : 0 < maxWidth := by decide
      have hlt : (s.drop maxWidth).length ≤ n := by
        rw [List.length_drop]
        omega
      rw [chunkSlices_step h, strCont, dif_neg (by omega), List.flatMap_cons,
        ih _ hlt]
      have htk : (s.take maxWidth).length = maxWidth := by
        rw [List.length_take]
        omega
      rw [htk]
      simp [List.append_assoc]

theorem bytesOKB_take {s : List Nat} (h : bytesOKB s = true) (n : Nat) :
    bytesOKB (s.take n) = true := by
  simp only [bytesOKB, List.all_eq_true] at *
  exact fun b hb => h b (List.take_subset n s hb)

theorem bytesOKB_drop {s : List Nat} (h : bytesOKB s = true) (n : Nat) :
    bytesOKB (s.drop n) = true := by
  simp only [bytesOKB, List.all_eq_true] at *
  exact fun b hb => h b (List.drop_subset n s hb)

theorem variable_sizeOf_pos (v : Variable) : 1 ≤ sizeOf v := by
  cases v <;> simp_arith

theorem list_sizeOf_pos {α : Type} [SizeOf α] (l : List α) : 1 ≤ sizeOf l := by
  cases l <;> simp_arith

theorem natlist_sizeOf (l : List Nat) : l.length + 1 ≤ sizeOf l := by
  induction l with
  | nil => simp
  | cons b t ih =>
    simp only [List.cons.sizeOf_spec, List.length_cons, sizeOf_nat]
    omega

theorem readStructStr_ok (pre : List Bool)
    (hskip : ∀ tail : List Bool,
      (read6bitStr ((pre ++ tail).drop 4)).2 = tail) :
    ∀ fuel (s : List Nat) (parts : List (List Nat)) (rest : List Bool),
      bytesOKB s = true → s.length / maxWidth < fuel →
      readStructStr fuel parts (strCont pre s ++ rest) =
        some (parts.flatten ++ s, rest) := by
  intro fuel
  induction fuel with
  | zero => exact fun s parts rest _ hf => absurd hf (Nat.not_lt_zero _)
  | succ fuel ih =>
    intro s parts rest hb hf
    by_cases h : s.length < maxWidth
    · have hlen : s.length < 2 ^ 16 := by
        simp only [maxWidth] at h
        omega
      rw [strCont, dif_pos h]
      unfold readStructStr
      rw [readChunk_exact hb hlen]
      dsimp only
      rw [if_pos h]
      simp [List.flatten_append]
    · push_neg at h
      have hpos : 0 < maxWidth := by decide
      have htk : (s.take maxWidth).length = maxWidth := by
        rw [List.length_take]
        omega
      have hlen2 : (s.take maxWidth).length < 2 ^ 16 := by
        rw [htk]
        decide
      have hstream : strCont pre s ++ rest =
          toBitsLE 16 (s.take maxWidth).length ++ bytesBits (s.take maxWidth) ++
            (pre ++ (strCont pre (s.drop maxWidth) ++ rest)) := by
        rw [strCont, dif_neg (by omega), htk]
        simp [List.append_assoc]
      rw [hstream]
      unfold readStructStr
      rw [readChunk_exact (bytesOKB_take hb maxWidth) hlen2]
      dsimp only
      rw [if_neg (by rw [htk]; omega)]
      have hsplit : readBits 4 (pre ++ (strCont pre (s.drop maxWidth) ++ rest)) =
          (bitsVal ((pre ++ (strCont pre (s.drop maxWidth) ++ rest)).take 4),
            (pre ++ (strCont pre (s.drop maxWidth) ++ rest)).drop 4) := rfl
      rw [hsplit]
      dsimp only
      rcases hre : read6bitStr
          ((pre ++ (strCont pre (s.drop maxWidth) ++ rest)).drop 4) with ⟨k4, s4⟩
      have hs4 : s4 = strCont pre (s.drop maxWidth) ++ rest := by
        have h7 := hskip (strCont pre (s.drop maxWidth) ++ rest)
        rw [hre] at h7
        exact h7
      dsimp only
      rw [hs4]
      have hdiv : s.length / maxWidth = 1 + (s.length - maxWidth) / maxWidth :=
        by rw [Nat.div_eq_sub_div hpos h]; omega
      have hf2 : (s.drop maxWidth).length / maxWidth < fuel := by
        rw [List.length_drop]
        omega
      rw [ih (s.drop maxWidth) (parts ++ [s.take maxWidth]) rest
        (bytesOKB_drop hb maxWidth) hf2]
      simp [List.flatten_append, List.append_assoc]

theorem strCont_nil_eq (s : List Nat) :
    (chunkSlices s).flatMap (fun c => toBitsLE 16 c.length ++ bytesBits c) =
      strCont [] s := by
  have h := strCont_eq [] s
  simpa using h

theorem readStrArr_one (s : List Nat) (hb : bytesOKB s = true) (m : Nat)
    (cur acc : List (List Nat)) (tail : List Bool) :
    readStrArr (1 + s.length / maxWidth + m) cur acc (strCont [] s ++ tail) =
      readStrArr m [] (acc ++ [cur.flatten ++ s]) tail := by
  suffices hgen : ∀ n (s : List Nat), s.length ≤ n → bytesOKB s = true →
      ∀ (m : Nat) (cur acc : List (List Nat)) (tail : List Bool),
        readStrArr (1 + s.length / maxWidth + m) cur acc
            (strCont [] s ++ tail) =
          readStrArr m [] (acc ++ [cur.flatten ++ s]) tail from
    hgen s.length s le_rfl hb m cur acc tail
  intro n
  induction n with
  | zero =>
    intro s hs hb m cur acc tail
    have h : s.length < maxWidth := by
      rw [Nat.le_zero.mp hs]
      decide
    have hlen : s.length < 2 ^ 16 := by
      simp only [maxWidth] at h
      omega
    rw [show 1 + s.length / maxWidth + m = m + 1 from by
      rw [Nat.div_eq_of_lt h]; omega]
    rw [strCont, dif_pos h]
    simp only [readStrArr]
    rw [readChunk_exact hb hlen]
    dsimp only
    rw [if_pos h]
    rw [show (cur ++ [s]).flatten = cur.flatten ++ s from by simp]
  | succ n ih =>
    intro s hs hb m cur acc tail
    by_cases h : s.length < maxWidth
    · have hlen : s.length < 2 ^ 16 := by
        simp only [maxWidth] at h
        omega
      rw [show 1 + s.length / maxWidth + m = m + 1 from by
        rw [Nat.div_eq_of_lt h]; omega]
      rw [strCont, dif_pos h]
      simp only [readStrArr]
      rw [readChunk_exact hb hlen]
      dsimp only
      rw [if_pos h]
      rw [show (cur ++ [s]).flatten = cur.flatten ++ s from by simp]
    · push_neg at h
      have hpos : 0 < maxWidth := by decide
      have htk : (s.take maxWidth).length = maxWidth := by
        rw [List.length_take]
        omega
      have hlen2 : (s.take maxWidth).length < 2 ^ 16 := by
        rw [htk]
        decide
      have hdiv : s.length / maxWidth = 1 + (s.length - maxWidth) / maxWidth :=
        by rw [Nat.div_eq_sub_div hpos h]; omega
      have hstream : strCont [] s ++ tail =
          toBitsLE 16 (s.take maxWidth).length ++ bytesBits (s.take maxWidth) ++
            (strCont [] (s.drop maxWidth) ++ tail) := by
        rw [strCont, dif_neg (by omega), htk]
        simp [List.append_assoc]
      rw [show 1 + s.length / maxWidth + m =
          (1 + (s.drop maxWidth).length / maxWidth + m) + 1 from by
        rw [List.length_drop]; omega]
      rw [hstream]
      simp only [readStrArr]
      rw [readChunk_exact (bytesOKB_take hb maxWidth) hlen2]
      dsimp only
      rw [if_neg (by rw [htk]; omega)]
      rw [ih (s.drop maxWidth) (by rw [List.length_drop]; omega)
        (bytesOKB_drop hb maxWidth) m (cur ++ [s.take maxWidth]) acc tail]
      rw [show (cur ++ [s.take maxWidth]).flatten ++ s.drop maxWidth =
          cur.flatten ++ s from by
        simp [List.flatten_append, List.append_assoc, List.take_append_drop]]

theorem readStrArr_all :
    ∀ elems : List Variable, validElems .string elems = true →
      ∃ (ss : List (List Nat)) (body : List Bool),
        elems = ss.map Variable.vstring ∧
        encodeStrElems elems = some body ∧
        ∀ (acc : List (List Nat)) (rest : List Bool),
          readStrArr (elems.length + (elems.map strExtra).sum) [] acc
              (body ++ rest) =
            (acc ++ ss, rest) := by
  intro elems
  induction elems with
  | nil =>
    intro _
    refine ⟨[], [], rfl, rfl, ?_⟩
    intro acc rest
    simp [readStrArr]
  | cons v t ih =>
    intro h
    cases v
    case vstring sv =>
      simp only [validElems, Bool.and_eq_true, decide_eq_true_eq] at h
      obtain ⟨⟨-, hbv⟩, ht⟩ := h
      obtain ⟨ss, body, hss, hbody, hread⟩ := ih ht
      refine ⟨sv :: ss, strCont [] sv ++ body, by rw [hss]; rfl, ?_, ?_⟩
      · simp only [encodeStrElems, hbody, strCont_nil_eq, Option.bind_eq_bind,
          Option.some_bind]
        rfl
      · intro acc rest
        rw [show (Variable.vstring sv :: t).length +
            ((Variable.vstring sv :: t).map strExtra).sum =
            1 + sv.length / maxWidth + (t.length + (t.map strExtra).sum) from by
          simp only [List.length_cons, List.map_cons, List.sum_cons, strExtra]
          omega]
        rw [List.append_assoc]
        rw [readStrArr_one sv hbv _ [] acc (body ++ rest)]
        simp only [List.flatten_nil, List.nil_append]
        rw [hread (acc ++ [sv]) rest]
        simp
    all_goals simp [validElems, vtypeOf] at h

theorem dictInsert_append {acc : List (List Nat × Variable)} {k : List Nat}
    (h : ∀ p ∈ acc, p.1 ≠ k) (v : Variable) :
    dictInsert acc k v = acc ++ [(k, v)] := by
  induction acc with
  | nil => rfl
  | cons p t ih =>
    rcases p with ⟨k0, v0⟩
    simp only [dictInsert]
    rw [if_neg (h (k0, v0) (List.mem_cons_self _ _))]
    rw [ih (fun p hp => h p (List.mem_cons_of_mem _ hp))]
    rfl

theorem vtype_code_lt (t : VType) : t.code < 16 := by
  cases t <;> decide

theorem vtype_ofCode_code (t : VType) : VType.ofCode t.code = some t := by
  cases t <;> rfl

theorem vtypeOf_ne_null (v : Variable) : vtypeOf v ≠ .null := by
  cases v <;> simp [vtypeOf]

theorem validElems_cons {et : VType} {a : Variable} {tl : List Variable}
    (h : validElems et (a :: tl) = true) (hts : et ≠ .string) :
    vtypeOf a = et ∧ validB a = true ∧ validElems et tl = true := by
  simp only [validElems, Bool.and_eq_true, decide_eq_true_eq] at h
  obtain ⟨⟨hta, hva⟩, htl⟩ := h
  refine ⟨hta, ?_, htl⟩
  cases a
  case vstring s =>
    simp only [vtypeOf] at hta
    exact absurd hta.symm hts
  all_goals exact hva

theorem readElems_ok {F : Nat} (hm : ∀ f, f ≤ F → ReadOK f) :
    ∀ fuel, fuel ≤ F → ∀ (elems : List Variable) (et : VType),
      et ≠ .string → validElems et elems = true → sizeOf elems ≤ fuel →
      ∀ body, encodeElems elems = some body →
      ∀ rest, readElems fuel et elems.length (body ++ rest) =
        some (elems, rest) := by
  intro fuel
  induction fuel with
  | zero =>
    intro _ elems et _ _ hsz
    have := list_sizeOf_pos elems
    omega
  | succ fuel ih =>
    intro hF elems et hts hval hsz body henc rest
    cases elems with
    | nil =>
      have hb : body = [] := by
        simp only [encodeElems] at henc
        exact (Option.some.inj henc).symm
      subst hb
      simp [readElems]
    | cons a tl =>
      obtain ⟨hta, hvB, htl⟩ := validElems_cons hval hts
      rcases hha : encodeVariable a with _ | hd <;>
        rcases hhe : encodeElems tl with _ | tlb <;>
        simp only [encodeElems, hha, hhe, Option.bind_eq_bind,
          Option.none_bind, Option.some_bind] at henc
      all_goals try exact Option.noConfusion henc
      injection henc with henc
      subst henc
      simp only [List.cons.sizeOf_spec] at hsz
      have hpa := variable_sizeOf_pos a
      have hpt := list_sizeOf_pos tl
      simp only [List.length_cons, readElems]
      rw [List.append_assoc]
      have hread := hm fuel (by omega) a hvB (by omega) hd hha (tlb ++ rest)
      rw [hta] at hread
      rw [hread]
      dsimp only
      rw [ih (by omega) tl et hts htl (by omega) tlb hhe rest]

theorem strCont_struct_eq (kbits : List Bool) (s : List Nat) :
    (chunkSlices s).flatMap (fun c =>
        toBitsLE 4 VType.string.code ++ kbits ++ toBitsLE 16 c.length ++
          bytesBits c) =
      (toBitsLE 4 VType.string.code ++ kbits) ++
        strCont (toBitsLE 4 VType.string.code ++ kbits) s := by
  have h := strCont_eq (toBitsLE 4 VType.string.code ++ kbits) s
  rw [← h]
  exact congrArg _ (funext fun c => by simp [List.append_assoc])

theorem vtypeOf_string {v : Variable} (h : vtypeOf v = .string) :
    ∃ s, v = .vstring s := by
  cases v
  case vstring s => exact ⟨s, rfl⟩
  all_goals simp [vtypeOf] at h

theorem validEntries_cons_notstr {k : List Nat} {v : Variable}
    {tl : List (List Nat × Variable)}
    (h : validEntries ((k, v) :: tl) = true)
    (hns : ∀ s, v ≠ .vstring s) :
    keyOKB k = true ∧ validB v = true ∧ validEntries tl = true := by
  simp only [validEntries, Bool.and_eq_true] at h
  obtain ⟨⟨hk, hv⟩, htl⟩ := h
  refine ⟨hk, ?_, htl⟩
  cases v
  case vstring s => exact absurd rfl (hns s)
  all_goals exact hv

theorem encodeEntries_cons_notstr (k : List Nat) (v : Variable)
    (tl : List (List Nat × Variable)) (hns : ∀ s, v ≠ .vstring s) :
    encodeEntries ((k, v) :: tl) =
      (encode6bitStr k).bind fun kbits =>
      (encodeVariable v).bind fun vbits =>
      (encodeEntries tl).bind fun tlb =>
        some ((toBitsLE 4 (vtypeOf v).code ++ kbits ++ vbits) ++ tlb) := by
  cases v
  case vstring s => exact absurd rfl (hns s)
  all_goals rfl

theorem structEntry_step {f : Nat} {acc : List (List Nat × Variable)}
    {t : VType} {k : List Nat} {kbits : List Bool} {v : Variable}
    {vbits tail : List Bool}
    (hkok : keyOKB k = true) (hkb : encode6bitStr k = some kbits)
    (hnn : t ≠ .null) (hns : t ≠ .string)
    (hrv : readVariable f t (vbits ++ tail) = some (v, tail)) :
    readStructEntries (f + 1) acc
        (toBitsLE 4 t.code ++ (kbits ++ (vbits ++ tail))) =
      readStructEntries f (dictInsert acc k v) tail := by
  simp only [readStructEntries]
  rw [readBits_exact (vtype_code_lt t)]
  dsimp only
  rw [vtype_ofCode_code t]
  dsimp only
  rw [if_neg hnn]
  obtain ⟨bs, hbs, hr6⟩ := read6bitStr_exact hkok (vbits ++ tail)
  rw [hkb] at hbs
  injection hbs with hbs
  subst hbs
  rw [hr6]
  dsimp only
  rw [if_neg hns]
  rw [hrv]

theorem readStructEntries_ok {F : Nat} (hm : ∀ f, f ≤ F → ReadOK f) :
    ∀ fuel, fuel ≤ F →
      ∀ (entries acc : List (List Nat × Variable)),
        validEntries entries = true →
        (entries.map (fun e => e.1)).Nodup →
        (∀ p ∈ acc, ∀ q ∈ entries, p.1 ≠ q.1) →
        sizeOf entries ≤ fuel →
        ∀ body, encodeEntries entries = some body →
        ∀ rest,
          readStructEntries fuel acc
              (body ++ (toBitsLE 4 VType.null.code ++ rest)) =
            some (.vstruct (acc ++ entries), rest) := by
  intro fuel
  induction fuel with
  | zero =>
    intro _ entries acc _ _ _ hsz
    have := list_sizeOf_pos entries
    omega
  | succ fuel ih =>
    intro hF entries acc hval hnd hdisj hsz body henc rest
    cases entries with
    | nil =>
      have hb : body = [] := by
        simp only [encodeEntries] at henc
        exact (Option.some.inj henc).symm
      subst hb
      rw [List.nil_append]
      simp only [readStructEntries]
      rw [readBits_exact (vtype_code_lt VType.null)]
      dsimp only
      rw [vtype_ofCode_code VType.null]
      dsimp only
      rw [if_pos rfl]
      simp
    | cons e tl =>
      rcases e with ⟨k, v⟩
      rcases hkb : encode6bitStr k with _ | kbits
      · rw [encodeEntries, hkb] at henc
        exact Option.noConfusion henc
      have hkok : keyOKB k = true := by
        simp only [validEntries, Bool.and_eq_true] at hval
        exact hval.1.1
      have hdk : ∀ p ∈ acc, p.1 ≠ k :=
        fun p hp => hdisj p hp (k, v) (List.mem_cons_self _ _)
      have hnd2 : (tl.map (fun e => e.1)).Nodup := by
        simp only [List.map_cons, List.nodup_cons] at hnd
        exact hnd.2
      have hknotl : ∀ q ∈ tl, k ≠ q.1 := by
        simp only [List.map_cons, List.nodup_cons] at hnd
        intro q hq hkq
        exact hnd.1 (hkq ▸ List.mem_map_of_mem (fun e => e.1) hq)
      have hdisj2 : ∀ p ∈ acc ++ [(k, v)], ∀ q ∈ tl, p.1 ≠ q.1 := by
        intro p hp q hq
        rcases List.mem_append.1 hp with hp | hp
        · exact hdisj p hp q (List.mem_cons_of_mem _ hq)
        · rcases List.mem_singleton.1 hp with rfl
          exact hknotl q hq
      simp only [List.cons.sizeOf_spec, Prod.mk.sizeOf_spec] at hsz
      have hpv := variable_sizeOf_pos v
      have hpt := list_sizeOf_pos tl
      have hpk := list_sizeOf_pos k
      by_cases hvs : vtypeOf v = .string
      · obtain ⟨sv, rfl⟩ := vtypeOf_string hvs
        simp only [validEntries, Bool.and_eq_true] at hval
        obtain ⟨⟨-, hbv⟩, htl⟩ := hval
        rcases hte : encodeEntries tl with _ | tlb <;>
          simp only [encodeEntries, hkb, hte, Option.bind_eq_bind,
            Option.none_bind, Option.some_bind] at henc
        all_goals try exact Option.noConfusion henc
        injection henc with henc
        subst henc
        rw [strCont_struct_eq kbits sv]
        simp only [List.append_assoc]
        simp only [readStructEntries]
        rw [readBits_exact (vtype_code_lt VType.string)]
        dsimp only
        rw [vtype_ofCode_code VType.string]
        dsimp only
        rw [if_neg (by simp)]
        obtain ⟨bs, hbs, hr6⟩ := read6bitStr_exact hkok
          (strCont (toBitsLE 4 VType.string.code ++ kbits) sv ++
            (tlb ++ (toBitsLE 4 VType.null.code ++ rest)))
        rw [hkb] at hbs
        injection hbs with hbs
        subst hbs
        rw [hr6]
        dsimp only
        rw [if_pos rfl]
        have hskip : ∀ tail : List Bool,
            (read6bitStr (((toBitsLE 4 VType.string.code ++ kbits) ++
              tail).drop 4)).2 = tail := by
          intro tail
          rw [List.append_assoc, List.drop_left' (toBitsLE_length 4 _)]
          obtain ⟨bs2, hbs2, hr62⟩ := read6bitStr_exact hkok tail
          rw [hkb] at hbs2
          injection hbs2 with hbs2
          subst hbs2
          rw [hr62]
        have hsvlen : sizeOf sv ≥ sv.length + 1 := natlist_sizeOf sv
        have hdivle := Nat.div_le_self sv.length maxWidth
        have hsveq : sizeOf (Variable.vstring sv) = 1 + sizeOf sv := by
          simp
        rw [readStructStr_ok (toBitsLE 4 VType.string.code ++ kbits) hskip
          fuel sv [] (tlb ++ (toBitsLE 4 VType.null.code ++ rest)) hbv
          (by omega)]
        dsimp only
        simp only [List.flatten_nil, List.nil_append]
        rw [dictInsert_append hdk (.vstring sv)]
        have hfin := ih (by omega) tl (acc ++ [(k, Variable.vstring sv)]) htl
          hnd2 hdisj2 (by omega) tlb hte rest
        rw [hfin]
        simp
      · have hns : ∀ s, v ≠ Variable.vstring s := fun s hveq => hvs (by
          subst hveq; rfl)
        obtain ⟨-, hbv, htl⟩ := validEntries_cons_notstr hval hns
        rw [encodeEntries_cons_notstr k v tl hns, hkb] at henc
        simp only [Option.some_bind, Option.bind_eq_some,
          Option.some.injEq] at henc
        obtain ⟨vbits, hvb, tlb, hte, rfl⟩ := henc
        simp only [List.append_assoc]
        have hread := hm fuel (by omega) v hbv (by omega) vbits hvb
          (tlb ++ (toBitsLE 4 VType.null.code ++ rest))
        rw [structEntry_step hkok hkb (vtypeOf_ne_null v) hvs hread]
        rw [dictInsert_append hdk v]
        have hfin := ih (by omega) tl (acc ++ [(k, v)]) htl
          hnd2 hdisj2 (by omega) tlb hte rest
        rw [hfin]
        simp

theorem readOK_all : ∀ fuel, ReadOK fuel := by
  intro fuel
  induction fuel using Nat.strong_induction_on with
  | _ fuel ih =>
  intro v hval hsz bs henc rest
  have hpv := variable_sizeOf_pos v
  obtain ⟨f, rfl⟩ : ∃ f, fuel = f + 1 := ⟨fuel - 1, by omega⟩
  have hm : ∀ g, g ≤ f → ReadOK g := fun g hg => ih g (by omega)
  cases v with
  | vbool b =>
    simp only [encodeVariable] at henc
    injection henc with henc
    subst henc
    simp only [vtypeOf, readVariable]
    rw [readBits_exact (show (if b then 1 else 0) < 2 ^ 1 from by
      cases b <;> decide)]
    cases b <;> simp
  | vint n =>
    simp only [validB, decide_eq_true_eq] at hval
    simp only [encodeVariable] at henc
    injection henc with henc
    subst henc
    simp only [vtypeOf, readVariable]
    rw [readSigned_exact (by norm_num) hval.1 hval.2 rest]
  | vuint n =>
    simp only [validB, decide_eq_true_eq] at hval
    simp only [encodeVariable] at henc
    injection henc with henc
    subst henc
    simp only [vtypeOf, readVariable]
    rw [readBits_exact hval rest]
  | vfloat q =>
    simp only [validB] at hval
    simp only [encodeVariable] at henc
    injection henc with henc
    subst henc
    simp only [vtypeOf, readVariable]
    rw [readFloat_exact hval rest]
  | vstring sv =>
    simp only [validB, Bool.and_eq_true, decide_eq_true_eq] at hval
    obtain ⟨hlen, hbytes⟩ := hval
    simp only [encodeVariable] at henc
    rw [if_neg (by omega)] at henc
    injection henc with henc
    subst henc
    simp only [vtypeOf, readVariable]
    rw [readChunk_exact hbytes (by simp only [maxWidth] at hlen; omega) rest]
  | vvec2 x y =>
    simp only [validB, Bool.and_eq_true] at hval
    simp only [encodeVariable] at henc
    injection henc with henc
    subst henc
    simp only [vtypeOf, readVariable]
    rw [List.append_assoc, readFloat_exact hval.1]
    dsimp only
    rw [readFloat_exact hval.2 rest]
  | vstruct entries =>
    simp only [validB, Bool.and_eq_true, decide_eq_true_eq] at hval
    obtain ⟨hent, hnd⟩ := hval
    simp only [encodeVariable, Option.bind_eq_bind, Option.pure_def,
      Option.bind_eq_some, Option.some.injEq] at henc
    obtain ⟨body, hbody, rfl⟩ := henc
    simp only [vtypeOf, readVariable]
    rw [List.append_assoc]
    have hsize : sizeOf (Variable.vstruct entries) = 1 + sizeOf entries := by
      simp
    rw [readStructEntries_ok hm f le_rfl entries [] hent hnd
      (fun p hp => absurd hp (List.not_mem_nil p)) (by omega) body hbody rest]
    simp
  | varray et elems =>
    simp only [validB, Bool.and_eq_true, decide_eq_true_eq] at hval
    obtain ⟨⟨hnn, helems⟩, hlen⟩ := hval
    simp only [encodeVariable] at henc
    rw [if_neg (by omega)] at henc
    have hsize : sizeOf (Variable.varray et elems) =
        1 + sizeOf et + sizeOf elems := by simp
    have hets : 1 ≤ sizeOf et := by cases et <;> simp
    have harrlen : elems.length +
        (if et = VType.string then (elems.map strExtra).sum else 0) < 2 ^ 16 :=
      by simp only [maxWidth] at hlen; omega
    simp only [vtypeOf, readVariable]
    by_cases het : et = VType.string
    · subst het
      rw [if_pos rfl] at henc
      obtain ⟨ss, body, hss, hbody, hread⟩ := readStrArr_all elems helems
      rw [hbody] at henc
      simp only [Option.bind_eq_bind, Option.some_bind, Option.pure_def,
        Option.some.injEq] at henc
      subst henc
      rw [if_pos rfl] at harrlen
      simp only [List.append_assoc, if_true]
      rw [readBits_exact (vtype_code_lt VType.string)]
      dsimp only
      rw [vtype_ofCode_code VType.string]
      dsimp only
      rw [readBits_exact harrlen]
      dsimp only
      rw [if_neg hnn, if_pos rfl]
      rw [hread [] rest]
      dsimp only
      simp [hss]
    · rw [if_neg het] at henc
      simp only [Option.bind_eq_bind, Option.pure_def, Option.bind_eq_some,
        Option.some.injEq] at henc
      obtain ⟨body, hbody, rfl⟩ := henc
      simp only [List.append_assoc]
      rw [readBits_exact (vtype_code_lt et)]
      dsimp only
      rw [vtype_ofCode_code et]
      dsimp only
      rw [readBits_exact harrlen]
      dsimp only
      rw [if_neg hnn, if_neg het]
      rw [show (elems.length +
          (if et = VType.string then (elems.map strExtra).sum else 0)) =
          elems.length from by rw [if_neg het]; omega]
      rw [readElems_ok hm f le_rfl elems et het helems (by omega) body
        hbody rest]

theorem encodeElems_total {n : Nat} (hm : ∀ m, m < n → EncOK m) :
    ∀ (elems : List Variable) (et : VType), et ≠ .string →
      validElems et elems = true → sizeOf elems ≤ n →
      ∃ body, encodeElems elems = some body := by
  intro elems
  induction elems with
  | nil => exact fun _ _ _ _ => ⟨[], rfl⟩
  | cons a tl ih =>
    intro et hts hval hsz
    obtain ⟨hta, hvB, htl⟩ := validElems_cons hval hts
    simp only [List.cons.sizeOf_spec] at hsz
    have hpa := variable_sizeOf_pos a
    have hpt := list_sizeOf_pos tl
    obtain ⟨ha, hha⟩ := hm (sizeOf a) (by omega) a hvB le_rfl
    obtain ⟨tlb, hhtl⟩ := ih et hts htl (by omega)
    exact ⟨ha ++ tlb, by simp [encodeElems, hha, hhtl]⟩

theorem encodeEntries_total {n : Nat} (hm : ∀ m, m < n → EncOK m) :
    ∀ entries : List (List Nat × Variable), validEntries entries = true →
      sizeOf entries ≤ n → ∃ body, encodeEntries entries = some body := by
  intro entries
  induction entries with
  | nil => exact fun _ _ => ⟨[], rfl⟩
  | cons e tl ih =>
    rcases e with ⟨k, v⟩
    intro hval hsz
    have hkok : keyOKB k = true := by
      simp only [validEntries, Bool.and_eq_true] at hval
      exact hval.1.1
    have htl : validEntries tl = true := by
      simp only [validEntries, Bool.and_eq_true] at hval
      exact hval.2
    obtain ⟨kbits, hkb, -⟩ := read6bitStr_exact hkok []
    simp only [List.cons.sizeOf_spec, Prod.mk.sizeOf_spec] at hsz
    have hpv := variable_sizeOf_pos v
    have hpt := list_sizeOf_pos tl
    have hpk := list_sizeOf_pos k
    obtain ⟨tlb, hhtl⟩ := ih htl (by omega)
    by_cases hvs : vtypeOf v = .string
    · obtain ⟨sv, rfl⟩ := vtypeOf_string hvs
      exact ⟨((chunkSlices sv).flatMap fun c =>
          toBitsLE 4 VType.string.code ++
            (kbits ++ (toBitsLE 16 c.length ++ bytesBits c))) ++ tlb,
        by simp [encodeEntries, hkb, hhtl]⟩
    · have hns : ∀ s, v ≠ Variable.vstring s := fun s hveq => hvs (by
        subst hveq; rfl)
      have hvB : validB v = true :=
        (validEntries_cons_notstr hval hns).2.1
      obtain ⟨vbits, hvb⟩ := hm (sizeOf v) (by omega) v hvB le_rfl
      refine ⟨(toBitsLE 4 (vtypeOf v).code ++ kbits ++ vbits) ++ tlb, ?_⟩
      rw [encodeEntries_cons_notstr k v tl hns, hkb]
      simp [hvb, hhtl]

theorem encOK_all : ∀ n, EncOK n := by
  intro n
  induction n using Nat.strong_induction_on with
  | _ n ih =>
  intro v hval hsz
  cases v with
  | vbool b => exact ⟨_, rfl⟩
  | vint m => exact ⟨_, rfl⟩
  | vuint m => exact ⟨_, rfl⟩
  | vfloat q => exact ⟨_, rfl⟩
  | vvec2 x y => exact ⟨_, rfl⟩
  | vstring sv =>
    simp only [validB, Bool.and_eq_true, decide_eq_true_eq] at hval
    exact ⟨_, by simp only [encodeVariable]; rw [if_neg (by omega)]⟩
  | vstruct entries =>
    simp only [validB, Bool.and_eq_true, decide_eq_true_eq] at hval
    have hsize : sizeOf (Variable.vstruct entries) = 1 + sizeOf entries := by
      simp
    obtain ⟨body, hbody⟩ := encodeEntries_total
      (fun m hmlt => ih m (by omega)) entries hval.1 le_rfl
    exact ⟨body ++ toBitsLE 4 VType.null.code,
      by simp [encodeVariable, hbody]⟩
  | varray et elems =>
    simp only [validB, Bool.and_eq_true, decide_eq_true_eq] at hval
    obtain ⟨⟨hnn, helems⟩, hlen⟩ := hval
    have hsize : sizeOf (Variable.varray et elems) =
        1 + sizeOf et + sizeOf elems := by simp
    have hets : 1 ≤ sizeOf et := by cases et <;> simp
    by_cases het : et = VType.string
    · subst het
      obtain ⟨ss, body, hss, hbody, -⟩ := readStrArr_all elems helems
      rw [if_pos rfl] at hlen
      have heq : encodeVariable (Variable.varray VType.string elems) =
          some (toBitsLE 4 VType.string.code ++
            (toBitsLE 16 (elems.length + (elems.map strExtra).sum) ++
              body)) := by
        simp [encodeVariable, hlen, hbody]
      exact ⟨_, heq⟩
    · obtain ⟨body, hbody⟩ := encodeElems_total
        (fun m hmlt => ih m (by omega)) elems et het helems le_rfl
      rw [if_neg het] at hlen
      simp only [Nat.add_zero] at hlen
      have heq : encodeVariable (Variable.varray et elems) =
          some (toBitsLE 4 et.code ++
            (toBitsLE 16 elems.length ++ body)) := by
        simp [encodeVariable, hlen, het, hbody]
      exact ⟨_, heq⟩

/-- C1 (counterexample): the claim's unrestricted round-trip fails for
floats.  `write_variable` stores a `FLOAT` in sign/31.32 fixed point, so
`VariableFloat(2 ** -32)` — a valid variable tree with no struct keys and
no arrays — decodes to `VariableFloat(0)`, not the value written. -/
theorem variable_float_cex :
    ∃ bs, encodeVariable (.vfloat (1 / 2 ^ 32)) = some bs ∧
      readVariable 1 .float (bs ++ []) = some (.vfloat 0, []) ∧
      (1 / 2 ^ 32 : ℚ) ≠ 0 := by
  have h1 : Int.floor ((1 : ℚ) / 2 ^ 32) = 0 := by
    rw [Int.floor_eq_zero_iff]
    constructor <;> norm_num
  have h2 : Int.floor ((((1 : ℚ) / 2 ^ 32) - ((0 : Int) : ℚ)) *
      2 ^ (32 - 1)) = 0 := by
    rw [Int.floor_eq_zero_iff]
    constructor <;> norm_num
  have henc : encodeFloat 32 32 ((1 : ℚ) / 2 ^ 32) =
      toBitsLE 1 0 ++ toBitsLE 31 0 ++ toBitsLE 32 0 := by
    unfold encodeFloat
    rw [h1]
    rw [h2]
    norm_num
  refine ⟨encodeFloat 32 32 (1 / 2 ^ 32), rfl, ?_, by norm_num⟩
  rw [henc]
  simp only [readVariable]
  unfold readFloat
  rw [List.append_assoc, List.append_assoc,
    readBits_exact (show (0 : Nat) < 2 ^ 1 from by decide)]
  dsimp only
  rw [readBits_exact (show (0 : Nat) < 2 ^ (32 - 1) from by decide)]
  dsimp only
  rw [readBits_exact (show (0 : Nat) < 2 ^ 32 from by decide)]
  dsimp only
  norm_num

/-- C1: round-trip of `write_variable`/`read_variable`.  As stated the
claim is false for floats (see `variable_float_cex`); amended with the
full validity predicate `validB` — 6-bit struct keys of length ≤ 63 with
distinct names, homogeneous arrays within the 16-bit encoded-length
limit, ints/uints in 32-bit range, top-level strings within the 16-bit
length prefix, and floats exactly representable in sign/31.32 fixed
point — every valid tree encodes successfully and decodes back to
itself, consuming exactly the encoded bits; strings of any length
(including beyond 65535 bytes) inside structs or string arrays are split
into continuation chunks and reassembled transparently.  The reader's
explicit `fuel` (a modeling device for the source's stream-driven
loops) suffices at any value at least `sizeOf v`. -/
theorem variable_roundtrip (v : Variable) (hval : validB v = true) :
    ∃ bs, encodeVariable v = some bs ∧
      ∀ fuel, sizeOf v ≤ fuel →
        ∀ rest, readVariable fuel (vtypeOf v) (bs ++ rest) = some (v, rest) := by
  obtain ⟨bs, hbs⟩ := encOK_all (sizeOf v) v hval le_rfl
  exact ⟨bs, hbs, fun fuel hf rest => readOK_all fuel v hval hf bs hbs rest⟩

/-- Witness for `variable_roundtrip`: a concrete struct containing an
int array under a one-character key round-trips. -/
theorem variable_roundtrip_witness :
    validB (Variable.vstruct [([95], Variable.varray VType.int
      [Variable.vint 5])]) = true ∧
    ∃ bs, encodeVariable (Variable.vstruct [([95], Variable.varray
        VType.int [Variable.vint 5])]) = some bs ∧
      ∀ rest, readVariable 500 (vtypeOf (Variable.vstruct [([95],
          Variable.varray VType.int [Variable.vint 5])])) (bs ++ rest) =
        some (Variable.vstruct [([95], Variable.varray VType.int
          [Variable.vint 5])], rest) := by
  refine ⟨by decide, ?_⟩
  obtain ⟨bs, h1, h2⟩ := variable_roundtrip
    (Variable.vstruct [([95], Variable.varray VType.int [Variable.vint 5])])
    (by decide)
  exact ⟨bs, h1, fun rest => h2 500 (by decide) rest⟩

theorem bytesVal_lt {s : List Nat} (h : bytesOKB s = true) :
    bytesVal s < 2 ^ (8 * s.length) := by
  induction s with
  | nil => simp [bytesVal]
  | cons b t ih =>
    simp only [bytesOKB, List.all_cons, Bool.and_eq_true,
      decide_eq_true_eq] at h
    have ht := ih (by simp [bytesOKB, h.2])
    simp only [bytesVal, List.length_cons]
    have hstep : 8 * (t.length + 1) = 8 * t.length + 8 := by ring
    rw [hstep, pow_add]
    have hb := h.1
    have h256 : (2 : Nat) ^ 8 = 256 := by norm_num
    nlinarith [ht, hb]

/-- C2: the bit-stream write/read round trip fails for signed reads
that are served entirely from the reader's buffered bits.  Writing
`(1, 0)` then `(7, -1)` and flushing produces the byte `0xFE`; reading
1 bit consumes the byte and buffers 7 bits, and the following
`read(7, signed=True)` takes the `bytes_needed == 0` early return of
`BitIOReader.read`, which skips the signed adjustment and yields `127`
instead of `-1` — although `-1` is representable in 7 signed bits and
the docstring says the most significant bit is interpreted as a sign
bit (the crossing-byte path does subtract `1 << bits`). -/
theorem bitio_signed_buffered_bug :
    wflush (wwrite (wwrite initW 1 0) 7 (-1)) = [254] ∧
    rread ⟨[254], 0, 0, 0⟩ 1 false = (0, ⟨[254], 1, 127, 7⟩) ∧
    (rread ⟨[254], 1, 127, 7⟩ 7 true).1 = 127 ∧
    -(2 ^ (7 - 1) : Int) ≤ -1 ∧ (-1 : Int) < 2 ^ (7 - 1) ∧
    (127 : Int) ≠ -1 := by
  exact ⟨by decide, by decide, by decide, by decide, by decide, by decide⟩

/-- C8 (counterexample): a fresh `BitIOReader` on an empty buffer
returns `0` from `read(8)` — a value constructed from zero available
bits — and `read_bytes(5)` returns `b""`; neither raises. -/
theorem read_past_eof_cex :
    rread ⟨[], 0, 0, 0⟩ 8 false = (0, ⟨[], 0, 0, 0⟩) ∧
    rreadBytesAligned ⟨[], 0, 0, 0⟩ 5 = ([], ⟨[], 0, 0, 0⟩) := by
  exact ⟨by decide, by decide⟩

/-- C8 (amended): reading past the end of the buffer does not fail;
`data.read` returns the remaining bytes and the result is their value
zero-extended to the requested width.  For a fresh aligned reader whose
whole buffer covers at most the requested bits, `read` returns exactly
the value of the available bytes. -/
theorem rread_zero_extend {data : List Nat} (hok : bytesOKB data = true)
    {n : Nat} (hn : 0 < n) (h : 8 * data.length ≤ n) :
    (rread ⟨data, 0, 0, 0⟩ n false).1 = (bytesVal data : Int) := by
  unfold rread
  rw [if_neg (by dsimp only; omega)]
  dsimp only
  have hbn : data.length ≤ (n - 0 + 7) / 8 := by
    rw [Nat.le_div_iff_mul_le (by norm_num)]
    omega
  rw [List.drop_zero, List.take_of_length_le hbn]
  have hlt : bytesVal data < 2 ^ n := lt_of_lt_of_le (bytesVal_lt hok)
    (Nat.pow_le_pow_right (by norm_num) (by omega))
  simp only [pow_zero, Nat.mul_one, Nat.zero_add]
  rw [Nat.mod_eq_of_lt hlt]
  rw [if_neg (by simp)]

/-- Witness for `rread_zero_extend`: a fresh reader over the single
byte `0xAB` asked for 16 bits returns `171`. -/
theorem rread_zero_extend_witness :
    bytesOKB [171] = true ∧ 0 < 16 ∧ 8 * ([171] : List Nat).length ≤ 16 ∧
    (rread ⟨[171], 0, 0, 0⟩ 16 false).1 = ((bytesVal [171] : Nat) : Int) :=
  ⟨by decide, by decide, by decide,
    rread_zero_extend (by decide) (by decide) (by decide)⟩

theorem box_spec {et : VType} {raw : RawValue} {w : Variable}
    (h : box et raw = some w) : vtypeOf w = et ∧ unbox w = raw := by
  cases et <;> cases raw <;> simp only [box] at h <;>
    first
      | exact Option.noConfusion h
      | (injection h with h
         subst h
         exact ⟨rfl, rfl⟩)
      | (rename_i n
         by_cases hn : (0 : Int) ≤ n
         · rw [if_pos hn] at h
           injection h with h
           subst h
           refine ⟨rfl, ?_⟩
           simp only [unbox, RawValue.rint.injEq]
           exact Int.toNat_of_nonneg hn
         · rw [if_neg hn] at h
           exact Option.noConfusion h)

theorem homogB_arrInsert {et : VType} {elems : List Variable} {k : Nat}
    {raw : RawValue} {elems' : List Variable}
    (h : homogB et elems = true) (he : arrInsert et elems k raw = some elems') :
    homogB et elems' = true := by
  rcases hb : box et raw with _ | w
  · rw [arrInsert, hb] at he
    exact Option.noConfusion he
  rw [arrInsert, hb] at he
  simp only [Option.map_some'] at he
  injection he with he
  subst he
  simp only [homogB, List.all_eq_true, decide_eq_true_eq] at h ⊢
  intro v hv
  rcases (List.mem_insertIdx (min_le_right k elems.length)).1 hv with hv | hv
  · subst hv
    exact (box_spec hb).1
  · exact h v hv

theorem arrExtend_none (et : VType) (raws : List RawValue) :
    raws.foldl (fun acc raw => acc.bind fun l => arrAppend et l raw)
      none = none := by
  induction raws with
  | nil => rfl
  | cons r rs ih => simpa [List.foldl_cons] using ih

/-- C10: every mutation of a `VariableArray` through its
`MutableSequence` interface boxes the raw value into the array's
declared element type before storing it, so an array whose elements are
all instances of `element_type` keeps that property under
`__setitem__`, `insert`, and the derived `append`/`extend`; and
`__getitem__` after `__setitem__` returns exactly the raw value that
was stored. -/
theorem variable_array_homogeneity :
    ∀ (et : VType) (elems : List Variable), homogB et elems = true →
      (∀ k raw elems', arrSetItem et elems k raw = some elems' →
        homogB et elems' = true ∧ arrGetItem elems' k = some raw) ∧
      (∀ k raw elems', arrInsert et elems k raw = some elems' →
        homogB et elems' = true) ∧
      (∀ raw elems', arrAppend et elems raw = some elems' →
        homogB et elems' = true) ∧
      (∀ raws elems', arrExtend et elems raws = some elems' →
        homogB et elems' = true) := by
  intro et elems h
  refine ⟨?_, fun k raw elems' he => homogB_arrInsert h he,
    fun raw elems' he => homogB_arrInsert h he, ?_⟩
  · intro k raw elems' he
    rw [arrSetItem] at he
    by_cases hk : k < elems.length
    · rw [if_pos hk] at he
      rcases hb : box et raw with _ | w
      · rw [hb] at he
        exact Option.noConfusion he
      rw [hb] at he
      simp only [Option.map_some'] at he
      injection he with he
      subst he
      obtain ⟨hw1, hw2⟩ := box_spec hb
      constructor
      · simp only [homogB, List.all_eq_true, decide_eq_true_eq] at h ⊢
        intro v hv
        rcases List.mem_or_eq_of_mem_set hv with hv | hv
        · exact h v hv
        · subst hv
          exact hw1
      · rw [arrGetItem, List.get?_set_eq_of_lt w hk, Option.map_some']
        rw [hw2]
    · rw [if_neg hk] at he
      exact Option.noConfusion he
  · intro raws
    induction raws generalizing elems with
    | nil =>
      intro elems' he
      injection he with he
      subst he
      exact h
    | cons r rs ih =>
      intro elems' he
      rw [arrExtend, List.foldl_cons] at he
      simp only [Option.some_bind] at he
      rcases ha : arrAppend et elems r with _ | l2
      · rw [ha] at he
        rw [arrExtend_none] at he
        exact Option.noConfusion he
      · rw [ha] at he
        exact ih l2 (homogB_arrInsert h ha) elems' he

/-- Witness for `variable_array_homogeneity`: storing raw `7` at index
0 of a one-element int array keeps homogeneity and reads back as `7`. -/
theorem variable_array_homogeneity_witness :
    homogB VType.int [Variable.vint 1] = true ∧
    arrSetItem VType.int [Variable.vint 1] 0 (RawValue.rint 7) =
      some [Variable.vint 7] ∧
    homogB VType.int [Variable.vint 7] = true ∧
    arrGetItem [Variable.vint 7] 0 = some (RawValue.rint 7) := by
  have h := (variable_array_homogeneity VType.int [Variable.vint 1]
    (by decide)).1 0 (RawValue.rint 7) [Variable.vint 7] rfl
  exact ⟨by decide, rfl, h.1, h.2⟩

theorem phaseShape_flipPhase (t : Tile) (flipped : Bool) :
    (flipPhase t flipped).shape = phaseShape t.shape flipped := by
  rcases t with ⟨shape, te, be, le, re⟩
  cases flipped
  · rfl
  · cases shape <;> rfl

theorem edgeFlip_edgeFlip (e : TileEdgeData) : edgeFlip (edgeFlip e) = e := by
  cases e
  simp [edgeFlip]

theorem edgeFlip_default : edgeFlip defaultEdge = defaultEdge := rfl

theorem symMat_0 : symMat 0 = ⟨1, 0, 0, 0, 1, 0⟩ := rfl

theorem symMat_1 : symMat 1 = ⟨0, -1, 0, 1, 0, 0⟩ := rfl

theorem symMat_2 : symMat 2 = ⟨-1, 0, 0, 0, -1, 0⟩ := rfl

theorem symMat_3 : symMat 3 = ⟨0, 1, 0, -1, 0, 0⟩ := rfl

theorem symMat_4 : symMat 4 = ⟨-1, 0, 0, 0, 1, 0⟩ := by
  rw [show symMat 4 = (TxMatrix.rotate ⟨0, by omega⟩).mul TxMatrix.hflip
    from rfl]
  rw [show TxMatrix.rotate ⟨0, by omega⟩ = ⟨1, 0, 0, 0, 1, 0⟩ from rfl]
  simp only [TxMatrix.mul, TxMatrix.hflip]
  norm_num

theorem symMat_5 : symMat 5 = ⟨0, -1, 0, -1, 0, 0⟩ := by
  rw [show symMat 5 = (TxMatrix.rotate ⟨1, by omega⟩).mul TxMatrix.hflip
    from rfl]
  rw [show TxMatrix.rotate ⟨1, by omega⟩ = ⟨0, -1, 0, 1, 0, 0⟩ from rfl]
  simp only [TxMatrix.mul, TxMatrix.hflip]
  norm_num

theorem symMat_6 : symMat 6 = ⟨1, 0, 0, 0, -1, 0⟩ := by
  rw [show symMat 6 = (TxMatrix.rotate ⟨2, by omega⟩).mul TxMatrix.hflip
    from rfl]
  rw [show TxMatrix.rotate ⟨2, by omega⟩ = ⟨-1, 0, 0, 0, -1, 0⟩ from rfl]
  simp only [TxMatrix.mul, TxMatrix.hflip]
  norm_num

theorem symMat_7 : symMat 7 = ⟨0, 1, 0, 1, 0, 0⟩ := by
  rw [show symMat 7 = (TxMatrix.rotate ⟨3, by omega⟩).mul TxMatrix.hflip
    from rfl]
  rw [show TxMatrix.rotate ⟨3, by omega⟩ = ⟨0, 1, 0, -1, 0, 0⟩ from rfl]
  simp only [TxMatrix.mul, TxMatrix.hflip]
  norm_num

theorem symInv_0 : symInv 0 = ⟨1, 0, 0, 0, 1, 0⟩ := rfl

theorem symInv_1 : symInv 1 = ⟨0, 1, 0, -1, 0, 0⟩ := rfl

theorem symInv_2 : symInv 2 = ⟨-1, 0, 0, 0, -1, 0⟩ := rfl

theorem symInv_3 : symInv 3 = ⟨0, -1, 0, 1, 0, 0⟩ := rfl

theorem symInv_4 : symInv 4 = ⟨-1, 0, 0, 0, 1, 0⟩ := symMat_4

theorem symInv_5 : symInv 5 = ⟨0, -1, 0, -1, 0, 0⟩ := symMat_5

theorem symInv_6 : symInv 6 = ⟨1, 0, 0, 0, -1, 0⟩ := symMat_6

theorem symInv_7 : symInv 7 = ⟨0, 1, 0, 1, 0, 0⟩ := symMat_7

theorem symMat_0_flipped : (⟨1, 0, 0, 0, 1, 0⟩ : TxMatrix).flipped = false := by
  simp only [TxMatrix.flipped, TxMatrix.determinant]
  norm_num

theorem symMat_0_angle : txAngleOf (⟨1, 0, 0, 0, 1, 0⟩ : TxMatrix) = 0 := by
  simp only [txAngleOf, symMat_0_flipped]
  norm_num [atan2Quarter]
  try decide

theorem symMat_1_flipped : (⟨0, -1, 0, 1, 0, 0⟩ : TxMatrix).flipped = false := by
  simp only [TxMatrix.flipped, TxMatrix.determinant]
  norm_num

theorem symMat_1_angle : txAngleOf (⟨0, -1, 0, 1, 0, 0⟩ : TxMatrix) = 1 := by
  simp only [txAngleOf, symMat_1_flipped]
  norm_num [atan2Quarter]
  try decide

theorem symMat_2_flipped : (⟨-1, 0, 0, 0, -1, 0⟩ : TxMatrix).flipped = false := by
  simp only [TxMatrix.flipped, TxMatrix.determinant]
  norm_num

theorem symMat_2_angle : txAngleOf (⟨-1, 0, 0, 0, -1, 0⟩ : TxMatrix) = 2 := by
  simp only [txAngleOf, symMat_2_flipped]
  norm_num [atan2Quarter]
  try decide

theorem symMat_3_flipped : (⟨0, 1, 0, -1, 0, 0⟩ : TxMatrix).flipped = false := by
  simp only [TxMatrix.flipped, TxMatrix.determinant]
  norm_num

theorem symMat_3_angle : txAngleOf (⟨0, 1, 0, -1, 0, 0⟩ : TxMatrix) = 3 := by
  simp only [txAngleOf, symMat_3_flipped]
  norm_num [atan2Quarter]
  try decide

theorem symMat_4_flipped : (⟨-1, 0, 0, 0, 1, 0⟩ : TxMatrix).flipped = true := by
  simp only [TxMatrix.flipped, TxMatrix.determinant]
  norm_num

theorem symMat_4_angle : txAngleOf (⟨-1, 0, 0, 0, 1, 0⟩ : TxMatrix) = 0 := by
  simp only [txAngleOf, symMat_4_flipped]
  norm_num [atan2Quarter]
  try decide

theorem symMat_5_flipped : (⟨0, -1, 0, -1, 0, 0⟩ : TxMatrix).flipped = true := by
  simp only [TxMatrix.flipped, TxMatrix.determinant]
  norm_num

theorem symMat_5_angle : txAngleOf (⟨0, -1, 0, -1, 0, 0⟩ : TxMatrix) = 1 := by
  simp only [txAngleOf, symMat_5_flipped]
  norm_num [atan2Quarter]
  try decide

theorem symMat_6_flipped : (⟨1, 0, 0, 0, -1, 0⟩ : TxMatrix).flipped = true := by
  simp only [TxMatrix.flipped, TxMatrix.determinant]
  norm_num

theorem symMat_6_angle : txAngleOf (⟨1, 0, 0, 0, -1, 0⟩ : TxMatrix) = 2 := by
  simp only [txAngleOf, symMat_6_flipped]
  norm_num [atan2Quarter]
  try decide

theorem symMat_7_flipped : (⟨0, 1, 0, 1, 0, 0⟩ : TxMatrix).flipped = true := by
  simp only [TxMatrix.flipped, TxMatrix.determinant]
  norm_num

theorem symMat_7_angle : txAngleOf (⟨0, 1, 0, 1, 0, 0⟩ : TxMatrix) = 3 := by
  simp only [txAngleOf, symMat_7_flipped]
  norm_num [atan2Quarter]
  try decide

/-- Unrolling of the redistribution loop for a FULL target shape at
angle 0: side `i` receives `og_edge_data[(i - 0) & 3]`. -/
theorem redistFull0 (og : List TileEdgeData) (t : Tile)
    (s0 s1 s2 s3 : TileSide) :
    redistAux og true 0 t [s0, s1, s2, s3] 0 =
      setEdge (setEdge (setEdge (setEdge t s0 (og.getD 0 defaultEdge)) s1 (og.getD 1 defaultEdge)) s2 (og.getD 2 defaultEdge)) s3 (og.getD 3 defaultEdge) := by
  simp only [redistAux]
  norm_num
  rfl

/-- Unrolling of the redistribution loop for a FULL target shape at
angle 1: side `i` receives `og_edge_data[(i - 1) & 3]`. -/
theorem redistFull1 (og : List TileEdgeData) (t : Tile)
    (s0 s1 s2 s3 : TileSide) :
    redistAux og true 1 t [s0, s1, s2, s3] 0 =
      setEdge (setEdge (setEdge (setEdge t s0 (og.getD 3 defaultEdge)) s1 (og.getD 0 defaultEdge)) s2 (og.getD 1 defaultEdge)) s3 (og.getD 2 defaultEdge) := by
  simp only [redistAux]
  norm_num
  rfl

/-- Unrolling of the redistribution loop for a FULL target shape at
angle 2: side `i` receives `og_edge_data[(i - 2) & 3]`. -/
theorem redistFull2 (og : List TileEdgeData) (t : Tile)
    (s0 s1 s2 s3 : TileSide) :
    redistAux og true 2 t [s0, s1, s2, s3] 0 =
      setEdge (setEdge (setEdge (setEdge t s0 (og.getD 2 defaultEdge)) s1 (og.getD 3 defaultEdge)) s2 (og.getD 0 defaultEdge)) s3 (og.getD 1 defaultEdge) := by
  simp only [redistAux]
  norm_num
  rfl

/-- Unrolling of the redistribution loop for a FULL target shape at
angle 3: side `i` receives `og_edge_data[(i - 3) & 3]`. -/
theorem redistFull3 (og : List TileEdgeData) (t : Tile)
    (s0 s1 s2 s3 : TileSide) :
    redistAux og true 3 t [s0, s1, s2, s3] 0 =
      setEdge (setEdge (setEdge (setEdge t s0 (og.getD 1 defaultEdge)) s1 (og.getD 2 defaultEdge)) s2 (og.getD 3 defaultEdge)) s3 (og.getD 0 defaultEdge) := by
  simp only [redistAux]
  norm_num
  rfl

set_option maxHeartbeats 1000000 in
theorem symRT_0 (t : Tile)
    (h : ∀ side, side ∉ orderedSides t.shape → getEdge t side = defaultEdge) :
    tileTransform (tileTransform t (symMat 0)) (symInv 0) = t := by
  simp only [tileTransform]
  rw [symMat_0, symInv_0,
    symMat_0_flipped, symMat_0_angle]
  rcases t with ⟨shape, te, be, le, re⟩
  cases shape
  case full =>
    rw [show tileTransformCore ⟨.full, te, be, le, re⟩ false 0 =
      ⟨.full, te, be, le, re⟩ from by
      rw [tileTransformCore,
        show (Tile.mk .full te be le re).shape =
          TileShape.full from rfl,
        show (orderedSides TileShape.full).map
            (getEdge (flipPhase ⟨.full, te, be, le, re⟩ false)) =
          [te, re, be, le] from rfl,
        show rotShape (phaseShape TileShape.full false) 0 =
          TileShape.full from by decide,
        show decide (TileShape.full = TileShape.full) = true from rfl,
        show orderedSides TileShape.full =
          [TileSide.top, TileSide.right, TileSide.bottom, TileSide.left]
          from rfl,
        redistFull0]
      rfl]
    rw [show tileTransformCore ⟨.full, te, be, le, re⟩ false 0 =
      ⟨.full, te, be, le, re⟩ from by
      rw [tileTransformCore,
        show (Tile.mk .full te be le re).shape =
          TileShape.full from rfl,
        show (orderedSides TileShape.full).map
            (getEdge (flipPhase ⟨.full, te, be, le, re⟩ false)) =
          [te, re, be, le] from rfl,
        show rotShape (phaseShape TileShape.full false) 0 =
          TileShape.full from by decide,
        show decide (TileShape.full = TileShape.full) = true from rfl,
        show orderedSides TileShape.full =
          [TileSide.top, TileSide.right, TileSide.bottom, TileSide.left]
          from rfl,
        redistFull0]
      rfl]
  case big1 =>
    obtain rfl : re = defaultEdge := h .right (by simp [orderedSides])
    rw [show tileTransformCore ⟨.big1, te, be, le, defaultEdge⟩ false 0 =
      ⟨.big1, te, be, le, defaultEdge⟩ from by
      rw [tileTransformCore,
        show (Tile.mk .big1 te be le defaultEdge).shape =
          TileShape.big1 from rfl,
        show (orderedSides TileShape.big1).map
            (getEdge (flipPhase ⟨.big1, te, be, le, defaultEdge⟩ false)) =
          [te, be, le] from rfl,
        show rotShape (phaseShape TileShape.big1 false) 0 =
          TileShape.big1 from by decide]
      rfl]
    rw [show tileTransformCore ⟨.big1, te, be, le, defaultEdge⟩ false 0 =
      ⟨.big1, te, be, le, defaultEdge⟩ from by
      rw [tileTransformCore,
        show (Tile.mk .big1 te be le defaultEdge).shape =
          TileShape.big1 from rfl,
        show (orderedSides TileShape.big1).map
            (getEdge (flipPhase ⟨.big1, te, be, le, defaultEdge⟩ false)) =
          [te, be, le] from rfl,
        show rotShape (phaseShape TileShape.big1 false) 0 =
          TileShape.big1 from by decide]
      rfl]
  case small1 =>
    obtain rfl : le = defaultEdge := h .left (by simp [orderedSides])
    obtain rfl : re = defaultEdge := h .right (by simp [orderedSides])
    rw [show tileTransformCore ⟨.small1, te, be, defaultEdge, defaultEdge⟩ false 0 =
      ⟨.small1, te, be, defaultEdge, defaultEdge⟩ from by
      rw [tileTransformCore,
        show (Tile.mk .small1 te be defaultEdge defaultEdge).shape =
          TileShape.small1 from rfl,
        show (orderedSides TileShape.small1).map
            (getEdge (flipPhase ⟨.small1, te, be, defaultEdge, defaultEdge⟩ false)) =
          [te, be] from rfl,
        show rotShape (phaseShape TileShape.small1 false) 0 =
          TileShape.small1 from by decide]
      rfl]
    rw [show tileTransformCore ⟨.small1, te, be, defaultEdge, defaultEdge⟩ false 0 =
      ⟨.small1, te, be, defaultEdge, defaultEdge⟩ from by
      rw [tileTransformCore,
        show (Tile.mk .small1 te be defaultEdge defaultEdge).shape =
          TileShape.small1 from rfl,
        show (orderedSides TileShape.small1).map
            (getEdge (flipPhase ⟨.small1, te, be, defaultEdge, defaultEdge⟩ false)) =
          [te, be] from rfl,
        show rotShape (phaseShape TileShape.small1 false) 0 =
          TileShape.small1 from by decide]
      rfl]
  case big2 =>
    obtain rfl : be = defaultEdge := h .bottom (by simp [orderedSides])
    rw [show tileTransformCore ⟨.big2, te, defaultEdge, le, re⟩ false 0 =
      ⟨.big2, te, defaultEdge, le, re⟩ from by
      rw [tileTransformCore,
        show (Tile.mk .big2 te defaultEdge le re).shape =
          TileShape.big2 from rfl,
        show (orderedSides TileShape.big2).map
            (getEdge (flipPhase ⟨.big2, te, defaultEdge, le, re⟩ false)) =
          [re, le, te] from rfl,
        show rotShape (phaseShape TileShape.big2 false) 0 =
          TileShape.big2 from by decide]
      rfl]
    rw [show tileTransformCore ⟨.big2, te, defaultEdge, le, re⟩ false 0 =
      ⟨.big2, te, defaultEdge, le, re⟩ from by
      rw [tileTransformCore,
        show (Tile.mk .big2 te defaultEdge le re).shape =
          TileShape.big2 from rfl,
        show (orderedSides TileShape.big2).map
            (getEdge (flipPhase ⟨.big2, te, defaultEdge, le, re⟩ false)) =
          [re, le, te] from rfl,
        show rotShape (phaseShape TileShape.big2 false) 0 =
          TileShape.big2 from by decide]
      rfl]
  case small2 =>
    obtain rfl : te = defaultEdge := h .top (by simp [orderedSides])
    obtain rfl : be = defaultEdge := h .bottom (by simp [orderedSides])
    rw [show tileTransformCore ⟨.small2, defaultEdge, defaultEdge, le, re⟩ false 0 =
      ⟨.small2, defaultEdge, defaultEdge, le, re⟩ from by
      rw [tileTransformCore,
        show (Tile.mk .small2 defaultEdge defaultEdge le re).shape =
          TileShape.small2 from rfl,
        show (orderedSides TileShape.small2).map
            (getEdge (flipPhase ⟨.small2, defaultEdge, defaultEdge, le, re⟩ false)) =
          [re, le] from rfl,
        show rotShape (phaseShape TileShape.small2 false) 0 =
          TileShape.small2 from by decide]
      rfl]
    rw [show tileTransformCore ⟨.small2, defaultEdge, defaultEdge, le, re⟩ false 0 =
      ⟨.small2, defaultEdge, defaultEdge, le, re⟩ from by
      rw [tileTransformCore,
        show (Tile.mk .small2 defaultEdge defaultEdge le re).shape =
          TileShape.small2 from rfl,
        show (orderedSides TileShape.small2).map
            (getEdge (flipPhase ⟨.small2, defaultEdge, defaultEdge, le, re⟩ false)) =
          [re, le] from rfl,
        show rotShape (phaseShape TileShape.small2 false) 0 =
          TileShape.small2 from by decide]
      rfl]
  case big3 =>
    obtain rfl : le = defaultEdge := h .left (by simp [orderedSides])
    rw [show tileTransformCore ⟨.big3, te, be, defaultEdge, re⟩ false 0 =
      ⟨.big3, te, be, defaultEdge, re⟩ from by
      rw [tileTransformCore,
        show (Tile.mk .big3 te be defaultEdge re).shape =
          TileShape.big3 from rfl,
        show (orderedSides TileShape.big3).map
            (getEdge (flipPhase ⟨.big3, te, be, defaultEdge, re⟩ false)) =
          [be, te, re] from rfl,
        show rotShape (phaseShape TileShape.big3 false) 0 =
          TileShape.big3 from by decide]
      rfl]
    rw [show tileTransformCore ⟨.big3, te, be, defaultEdge, re⟩ false 0 =
      ⟨.big3, te, be, defaultEdge, re⟩ from by
      rw [tileTransformCore,
        show (Tile.mk .big3 te be defaultEdge re).shape =
          TileShape.big3 from rfl,
        show (orderedSides TileShape.big3).map
            (getEdge (flipPhase ⟨.big3, te, be, defaultEdge, re⟩ false)) =
          [be, te, re] from rfl,
        show rotShape (phaseShape TileShape.big3 false) 0 =
          TileShape.big3 from by decide]
      rfl]
  case small3 =>
    obtain rfl : le = defaultEdge := h .left (by simp [orderedSides])
    obtain rfl : re = defaultEdge := h .right (by simp [orderedSides])
    rw [show tileTransformCore ⟨.small3, te, be, defaultEdge, defaultEdge⟩ false 0 =
      ⟨.small3, te, be, defaultEdge, defaultEdge⟩ from by
      rw [tileTransformCore,
        show (Tile.mk .small3 te be defaultEdge defaultEdge).shape =
          TileShape.small3 from rfl,
        show (orderedSides TileShape.small3).map
            (getEdge (flipPhase ⟨.small3, te, be, defaultEdge, defaultEdge⟩ false)) =
          [be, te] from rfl,
        show rotShape (phaseShape TileShape.small3 false) 0 =
          TileShape.small3 from by decide]
      rfl]
    rw [show tileTransformCore ⟨.small3, te, be, defaultEdge, defaultEdge⟩ false 0 =
      ⟨.small3, te, be, defaultEdge, defaultEdge⟩ from by
      rw [tileTransformCore,
        show (Tile.mk .small3 te be defaultEdge defaultEdge).shape =
          TileShape.small3 from rfl,
        show (orderedSides TileShape.small3).map
            (getEdge (flipPhase ⟨.small3, te, be, defaultEdge, defaultEdge⟩ false)) =
          [be, te] from rfl,
        show rotShape (phaseShape TileShape.small3 false) 0 =
          TileShape.small3 from by decide]
      rfl]
  case big4 =>
    obtain rfl : te = defaultEdge := h .top (by simp [orderedSides])
    rw [show tileTransformCore ⟨.big4, defaultEdge, be, le, re⟩ false 0 =
      ⟨.big4, defaultEdge, be, le, re⟩ from by
      rw [tileTransformCore,
        show (Tile.mk .big4 defaultEdge be le re).shape =
          TileShape.big4 from rfl,
        show (orderedSides TileShape.big4).map
            (getEdge (flipPhase ⟨.big4, defaultEdge, be, le, re⟩ false)) =
          [le, re, be] from rfl,
        show rotShape (phaseShape TileShape.big4 false) 0 =
          TileShape.big4 from by decide]
      rfl]
    rw [show tileTransformCore ⟨.big4, defaultEdge, be, le, re⟩ false 0 =
      ⟨.big4, defaultEdge, be, le, re⟩ from by
      rw [tileTransformCore,
        show (Tile.mk .big4 defaultEdge be le re).shape =
          TileShape.big4 from rfl,
        show (orderedSides TileShape.big4).map
            (getEdge (flipPhase ⟨.big4, defaultEdge, be, le, re⟩ false)) =
          [le, re, be] from rfl,
        show rotShape (phaseShape TileShape.big4 false) 0 =
          TileShape.big4 from by decide]
      rfl]
  case small4 =>
    obtain rfl : te = defaultEdge := h .top (by simp [orderedSides])
    obtain rfl : be = defaultEdge := h .bottom (by simp [orderedSides])
    rw [show tileTransformCore ⟨.small4, defaultEdge, defaultEdge, le, re⟩ false 0 =
      ⟨.small4, defaultEdge, defaultEdge, le, re⟩ from by
      rw [tileTransformCore,
        show (Tile.mk .small4 defaultEdge defaultEdge le re).shape =
          TileShape.small4 from rfl,
        show (orderedSides TileShape.small4).map
            (getEdge (flipPhase ⟨.small4, defaultEdge, defaultEdge, le, re⟩ false)) =
          [le, re] from rfl,
        show rotShape (phaseShape TileShape.small4 false) 0 =
          TileShape.small4 from by decide]
      rfl]
    rw [show tileTransformCore ⟨.small4, defaultEdge, defaultEdge, le, re⟩ false 0 =
      ⟨.small4, defaultEdge, defaultEdge, le, re⟩ from by
      rw [tileTransformCore,
        show (Tile.mk .small4 defaultEdge defaultEdge le re).shape =
          TileShape.small4 from rfl,
        show (orderedSides TileShape.small4).map
            (getEdge (flipPhase ⟨.small4, defaultEdge, defaultEdge, le, re⟩ false)) =
          [le, re] from rfl,
        show rotShape (phaseShape TileShape.small4 false) 0 =
          TileShape.small4 from by decide]
      rfl]
  case big5 =>
    obtain rfl : le = defaultEdge := h .left (by simp [orderedSides])
    rw [show tileTransformCore ⟨.big5, te, be, defaultEdge, re⟩ false 0 =
      ⟨.big5, te, be, defaultEdge, re⟩ from by
      rw [tileTransformCore,
        show (Tile.mk .big5 te be defaultEdge re).shape =
          TileShape.big5 from rfl,
        show (orderedSides TileShape.big5).map
            (getEdge (flipPhase ⟨.big5, te, be, defaultEdge, re⟩ false)) =
          [te, be, re] from rfl,
        show rotShape (phaseShape TileShape.big5 false) 0 =
          TileShape.big5 from by decide]
      rfl]
    rw [show tileTransformCore ⟨.big5, te, be, defaultEdge, re⟩ false 0 =
      ⟨.big5, te, be, defaultEdge, re⟩ from by
      rw [tileTransformCore,
        show (Tile.mk .big5 te be defaultEdge re).shape =
          TileShape.big5 from rfl,
        show (orderedSides TileShape.big5).map
            (getEdge (flipPhase ⟨.big5, te, be, defaultEdge, re⟩ false)) =
          [te, be, re] from rfl,
        show rotShape (phaseShape TileShape.big5 false) 0 =
          TileShape.big5 from by decide]
      rfl]
  case small5 =>
    obtain rfl : le = defaultEdge := h .left (by simp [orderedSides])
    obtain rfl : re = defaultEdge := h .right (by simp [orderedSides])
    rw [show tileTransformCore ⟨.small5, te, be, defaultEdge, defaultEdge⟩ false 0 =
      ⟨.small5, te, be, defaultEdge, defaultEdge⟩ from by
      rw [tileTransformCore,
        show (Tile.mk .small5 te be defaultEdge defaultEdge).shape =
          TileShape.small5 from rfl,
        show (orderedSides TileShape.small5).map
            (getEdge (flipPhase ⟨.small5, te, be, defaultEdge, defaultEdge⟩ false)) =
          [te, be] from rfl,
        show rotShape (phaseShape TileShape.small5 false) 0 =
          TileShape.small5 from by decide]
      rfl]
    rw [show tileTransformCore ⟨.small5, te, be, defaultEdge, defaultEdge⟩ false 0 =
      ⟨.small5, te, be, defaultEdge, defaultEdge⟩ from by
      rw [tileTransformCore,
        show (Tile.mk .small5 te be defaultEdge defaultEdge).shape =
          TileShape.small5 from rfl,
        show (orderedSides TileShape.small5).map
            (getEdge (flipPhase ⟨.small5, te, be, defaultEdge, defaultEdge⟩ false)) =
          [te, be] from rfl,
        show rotShape (phaseShape TileShape.small5 false) 0 =
          TileShape.small5 from by decide]
      rfl]
  case big6 =>
    obtain rfl : be = defaultEdge := h .bottom (by simp [orderedSides])
    rw [show tileTransformCore ⟨.big6, te, defaultEdge, le, re⟩ false 0 =
      ⟨.big6, te, defaultEdge, le, re⟩ from by
      rw [tileTransformCore,
        show (Tile.mk .big6 te defaultEdge le re).shape =
          TileShape.big6 from rfl,
        show (orderedSides TileShape.big6).map
            (getEdge (flipPhase ⟨.big6, te, defaultEdge, le, re⟩ false)) =
          [le, re, te] from rfl,
        show rotShape (phaseShape TileShape.big6 false) 0 =
          TileShape.big6 from by decide]
      rfl]
    rw [show tileTransformCore ⟨.big6, te, defaultEdge, le, re⟩ false 0 =
      ⟨.big6, te, defaultEdge, le, re⟩ from by
      rw [tileTransformCore,
        show (Tile.mk .big6 te defaultEdge le re).shape =
          TileShape.big6 from rfl,
        show (orderedSides TileShape.big6).map
            (getEdge (flipPhase ⟨.big6, te, defaultEdge, le, re⟩ false)) =
          [le, re, te] from rfl,
        show rotShape (phaseShape TileShape.big6 false) 0 =
          TileShape.big6 from by decide]
      rfl]
  case small6 =>
    obtain rfl : te = defaultEdge := h .top (by simp [orderedSides])
    obtain rfl : be = defaultEdge := h .bottom (by simp [orderedSides])
    rw [show tileTransformCore ⟨.small6, defaultEdge, defaultEdge, le, re⟩ false 0 =
      ⟨.small6, defaultEdge, defaultEdge, le, re⟩ from by
      rw [tileTransformCore,
        show (Tile.mk .small6 defaultEdge defaultEdge le re).shape =
          TileShape.small6 from rfl,
        show (orderedSides TileShape.small6).map
            (getEdge (flipPhase ⟨.small6, defaultEdge, defaultEdge, le, re⟩ false)) =
          [le, re] from rfl,
        show rotShape (phaseShape TileShape.small6 false) 0 =
          TileShape.small6 from by decide]
      rfl]
    rw [show tileTransformCore ⟨.small6, defaultEdge, defaultEdge, le, re⟩ false 0 =
      ⟨.small6, defaultEdge, defaultEdge, le, re⟩ from by
      rw [tileTransformCore,
        show (Tile.mk .small6 defaultEdge defaultEdge le re).shape =
          TileShape.small6 from rfl,
        show (orderedSides TileShape.small6).map
            (getEdge (flipPhase ⟨.small6, defaultEdge, defaultEdge, le, re⟩ false)) =
          [le, re] from rfl,
        show rotShape (phaseShape TileShape.small6 false) 0 =
          TileShape.small6 from by decide]
      rfl]
  case big7 =>
    obtain rfl : re = defaultEdge := h .right (by simp [orderedSides])
    rw [show tileTransformCore ⟨.big7, te, be, le, defaultEdge⟩ false 0 =
      ⟨.big7, te, be, le, defaultEdge⟩ from by
      rw [tileTransformCore,
        show (Tile.mk .big7 te be le defaultEdge).shape =
          TileShape.big7 from rfl,
        show (orderedSides TileShape.big7).map
            (getEdge (flipPhase ⟨.big7, te, be, le, defaultEdge⟩ false)) =
          [be, te, le] from rfl,
        show rotShape (phaseShape TileShape.big7 false) 0 =
          TileShape.big7 from by decide]
      rfl]
    rw [show tileTransformCore ⟨.big7, te, be, le, defaultEdge⟩ false 0 =
      ⟨.big7, te, be, le, defaultEdge⟩ from by
      rw [tileTransformCore,
        show (Tile.mk .big7 te be le defaultEdge).shape =
          TileShape.big7 from rfl,
        show (orderedSides TileShape.big7).map
            (getEdge (flipPhase ⟨.big7, te, be, le, defaultEdge⟩ false)) =
          [be, te, le] from rfl,
        show rotShape (phaseShape TileShape.big7 false) 0 =
          TileShape.big7 from by decide]
      rfl]
  case small7 =>
    obtain rfl : le = defaultEdge := h .left (by simp [orderedSides])
    obtain rfl : re = defaultEdge := h .right (by simp [orderedSides])
    rw [show tileTransformCore ⟨.small7, te, be, defaultEdge, defaultEdge⟩ false 0 =
      ⟨.small7, te, be, defaultEdge, defaultEdge⟩ from by
      rw [tileTransformCore,
        show (Tile.mk .small7 te be defaultEdge defaultEdge).shape =
          TileShape.small7 from rfl,
        show (orderedSides TileShape.small7).map
            (getEdge (flipPhase ⟨.small7, te, be, defaultEdge, defaultEdge⟩ false)) =
          [be, te] from rfl,
        show rotShape (phaseShape TileShape.small7 false) 0 =
          TileShape.small7 from by decide]
      rfl]
    rw [show tileTransformCore ⟨.small7, te, be, defaultEdge, defaultEdge⟩ false 0 =
      ⟨.small7, te, be, defaultEdge, defaultEdge⟩ from by
      rw [tileTransformCore,
        show (Tile.mk .small7 te be defaultEdge defaultEdge).shape =
          TileShape.small7 from rfl,
        show (orderedSides TileShape.small7).map
            (getEdge (flipPhase ⟨.small7, te, be, defaultEdge, defaultEdge⟩ false)) =
          [be, te] from rfl,
        show rotShape (phaseShape TileShape.small7 false) 0 =
          TileShape.small7 from by decide]
      rfl]
  case big8 =>
    obtain rfl : te = defaultEdge := h .top (by simp [orderedSides])
    rw [show tileTransformCore ⟨.big8, defaultEdge, be, le, re⟩ false 0 =
      ⟨.big8, defaultEdge, be, le, re⟩ from by
      rw [tileTransformCore,
        show (Tile.mk .big8 defaultEdge be le re).shape =
          TileShape.big8 from rfl,
        show (orderedSides TileShape.big8).map
            (getEdge (flipPhase ⟨.big8, defaultEdge, be, le, re⟩ false)) =
          [re, le, be] from rfl,
        show rotShape (phaseShape TileShape.big8 false) 0 =
          TileShape.big8 from by decide]
      rfl]
    rw [show tileTransformCore ⟨.big8, defaultEdge, be, le, re⟩ false 0 =
      ⟨.big8, defaultEdge, be, le, re⟩ from by
      rw [tileTransformCore,
        show (Tile.mk .big8 defaultEdge be le re).shape =
          TileShape.big8 from rfl,
        show (orderedSides TileShape.big8).map
            (getEdge (flipPhase ⟨.big8, defaultEdge, be, le, re⟩ false)) =
          [re, le, be] from rfl,
        show rotShape (phaseShape TileShape.big8 false) 0 =
          TileShape.big8 from by decide]
      rfl]
  case small8 =>
    obtain rfl : te = defaultEdge := h .top (by simp [orderedSides])
    obtain rfl : be = defaultEdge := h .bottom (by simp [orderedSides])
    rw [show tileTransformCore ⟨.small8, defaultEdge, defaultEdge, le, re⟩ false 0 =
      ⟨.small8, defaultEdge, defaultEdge, le, re⟩ from by
      rw [tileTransformCore,
        show (Tile.mk .small8 defaultEdge defaultEdge le re).shape =
          TileShape.small8 from rfl,
        show (orderedSides TileShape.small8).map
            (getEdge (flipPhase ⟨.small8, defaultEdge, defaultEdge, le, re⟩ false)) =
          [re, le] from rfl,
        show rotShape (phaseShape TileShape.small8 false) 0 =
          TileShape.small8 from by decide]
      rfl]
    rw [show tileTransformCore ⟨.small8, defaultEdge, defaultEdge, le, re⟩ false 0 =
      ⟨.small8, defaultEdge, defaultEdge, le, re⟩ from by
      rw [tileTransformCore,
        show (Tile.mk .small8 defaultEdge defaultEdge le re).shape =
          TileShape.small8 from rfl,
        show (orderedSides TileShape.small8).map
            (getEdge (flipPhase ⟨.small8, defaultEdge, defaultEdge, le, re⟩ false)) =
          [re, le] from rfl,
        show rotShape (phaseShape TileShape.small8 false) 0 =
          TileShape.small8 from by decide]
      rfl]
  case halfA =>
    obtain rfl : re = defaultEdge := h .right (by simp [orderedSides])
    rw [show tileTransformCore ⟨.halfA, te, be, le, defaultEdge⟩ false 0 =
      ⟨.halfA, te, be, le, defaultEdge⟩ from by
      rw [tileTransformCore,
        show (Tile.mk .halfA te be le defaultEdge).shape =
          TileShape.halfA from rfl,
        show (orderedSides TileShape.halfA).map
            (getEdge (flipPhase ⟨.halfA, te, be, le, defaultEdge⟩ false)) =
          [te, be, le] from rfl,
        show rotShape (phaseShape TileShape.halfA false) 0 =
          TileShape.halfA from by decide]
      rfl]
    rw [show tileTransformCore ⟨.halfA, te, be, le, defaultEdge⟩ false 0 =
      ⟨.halfA, te, be, le, defaultEdge⟩ from by
      rw [tileTransformCore,
        show (Tile.mk .halfA te be le defaultEdge).shape =
          TileShape.halfA from rfl,
        show (orderedSides TileShape.halfA).map
            (getEdge (flipPhase ⟨.halfA, te, be, le, defaultEdge⟩ false)) =
          [te, be, le] from rfl,
        show rotShape (phaseShape TileShape.halfA false) 0 =
          TileShape.halfA from by decide]
      rfl]
  case halfB =>
    obtain rfl : re = defaultEdge := h .right (by simp [orderedSides])
    rw [show tileTransformCore ⟨.halfB, te, be, le, defaultEdge⟩ false 0 =
      ⟨.halfB, te, be, le, defaultEdge⟩ from by
      rw [tileTransformCore,
        show (Tile.mk .halfB te be le defaultEdge).shape =
          TileShape.halfB from rfl,
        show (orderedSides TileShape.halfB).map
            (getEdge (flipPhase ⟨.halfB, te, be, le, defaultEdge⟩ false)) =
          [be, le, te] from rfl,
        show rotShape (phaseShape TileShape.halfB false) 0 =
          TileShape.halfB from by decide]
      rfl]
    rw [show tileTransformCore ⟨.halfB, te, be, le, defaultEdge⟩ false 0 =
      ⟨.halfB, te, be, le, defaultEdge⟩ from by
      rw [tileTransformCore,
        show (Tile.mk .halfB te be le defaultEdge).shape =
          TileShape.halfB from rfl,
        show (orderedSides TileShape.halfB).map
            (getEdge (flipPhase ⟨.halfB, te, be, le, defaultEdge⟩ false)) =
          [be, le, te] from rfl,
        show rotShape (phaseShape TileShape.halfB false) 0 =
          TileShape.halfB from by decide]
      rfl]
  case halfC =>
    obtain rfl : le = defaultEdge := h .left (by simp [orderedSides])
    rw [show tileTransformCore ⟨.halfC, te, be, defaultEdge, re⟩ false 0 =
      ⟨.halfC, te, be, defaultEdge, re⟩ from by
      rw [tileTransformCore,
        show (Tile.mk .halfC te be defaultEdge re).shape =
          TileShape.halfC from rfl,
        show (orderedSides TileShape.halfC).map
            (getEdge (flipPhase ⟨.halfC, te, be, defaultEdge, re⟩ false)) =
          [be, te, re] from rfl,
        show rotShape (phaseShape TileShape.halfC false) 0 =
          TileShape.halfC from by decide]
      rfl]
    rw [show tileTransformCore ⟨.halfC, te, be, defaultEdge, re⟩ false 0 =
      ⟨.halfC, te, be, defaultEdge, re⟩ from by
      rw [tileTransformCore,
        show (Tile.mk .halfC te be defaultEdge re).shape =
          TileShape.halfC from rfl,
        show (orderedSides TileShape.halfC).map
            (getEdge (flipPhase ⟨.halfC, te, be, defaultEdge, re⟩ false)) =
          [be, te, re] from rfl,
        show rotShape (phaseShape TileShape.halfC false) 0 =
          TileShape.halfC from by decide]
      rfl]
  case halfD =>
    obtain rfl : le = defaultEdge := h .left (by simp [orderedSides])
    rw [show tileTransformCore ⟨.halfD, te, be, defaultEdge, re⟩ false 0 =
      ⟨.halfD, te, be, defaultEdge, re⟩ from by
      rw [tileTransformCore,
        show (Tile.mk .halfD te be defaultEdge re).shape =
          TileShape.halfD from rfl,
        show (orderedSides TileShape.halfD).map
            (getEdge (flipPhase ⟨.halfD, te, be, defaultEdge, re⟩ false)) =
          [te, re, be] from rfl,
        show rotShape (phaseShape TileShape.halfD false) 0 =
          TileShape.halfD from by decide]
      rfl]
    rw [show tileTransformCore ⟨.halfD, te, be, defaultEdge, re⟩ false 0 =
      ⟨.halfD, te, be, defaultEdge, re⟩ from by
      rw [tileTransformCore,
        show (Tile.mk .halfD te be defaultEdge re).shape =
          TileShape.halfD from rfl,
        show (orderedSides TileShape.halfD).map
            (getEdge (flipPhase ⟨.halfD, te, be, defaultEdge, re⟩ false)) =
          [te, re, be] from rfl,
        show rotShape (phaseShape TileShape.halfD false) 0 =
          TileShape.halfD from by decide]
      rfl]

set_option maxHeartbeats 1000000 in
theorem symRT_1 (t : Tile)
    (h : ∀ side, side ∉ orderedSides t.shape → getEdge t side = defaultEdge) :
    tileTransform (tileTransform t (symMat 1)) (symInv 1) = t := by
  simp only [tileTransform]
  rw [symMat_1, symInv_1,
    symMat_1_flipped, symMat_1_angle,
    symMat_3_flipped, symMat_3_angle]
  rcases t with ⟨shape, te, be, le, re⟩
  cases shape
  case full =>
    rw [show tileTransformCore ⟨.full, te, be, le, re⟩ false 1 =
      ⟨.full, le, re, be, te⟩ from by
      rw [tileTransformCore,
        show (Tile.mk .full te be le re).shape =
          TileShape.full from rfl,
        show (orderedSides TileShape.full).map
            (getEdge (flipPhase ⟨.full, te, be, le, re⟩ false)) =
          [te, re, be, le] from rfl,
        show rotShape (phaseShape TileShape.full false) 1 =
          TileShape.full from by decide,
        show decide (TileShape.full = TileShape.full) = true from rfl,
        show orderedSides TileShape.full =
          [TileSide.top, TileSide.right, TileSide.bottom, TileSide.left]
          from rfl,
        redistFull1]
      rfl]
    rw [show tileTransformCore ⟨.full, le, re, be, te⟩ false 3 =
      ⟨.full, te, be, le, re⟩ from by
      rw [tileTransformCore,
        show (Tile.mk .full le re be te).shape =
          TileShape.full from rfl,
        show (orderedSides TileShape.full).map
            (getEdge (flipPhase ⟨.full, le, re, be, te⟩ false)) =
          [le, te, re, be] from rfl,
        show rotShape (phaseShape TileShape.full false) 3 =
          TileShape.full from by decide,
        show decide (TileShape.full = TileShape.full) = true from rfl,
        show orderedSides TileShape.full =
          [TileSide.top, TileSide.right, TileSide.bottom, TileSide.left]
          from rfl,
        redistFull3]
      rfl]
  case big1 =>
    obtain rfl : re = defaultEdge := h .right (by simp [orderedSides])
    rw [show tileTransformCore ⟨.big1, te, be, le, defaultEdge⟩ false 1 =
      ⟨.big2, le, defaultEdge, be, te⟩ from by
      rw [tileTransformCore,
        show (Tile.mk .big1 te be le defaultEdge).shape =
          TileShape.big1 from rfl,
        show (orderedSides TileShape.big1).map
            (getEdge (flipPhase ⟨.big1, te, be, le, defaultEdge⟩ false)) =
          [te, be, le] from rfl,
        show rotShape (phaseShape TileShape.big1 false) 1 =
          TileShape.big2 from by decide]
      rfl]
    rw [show tileTransformCore ⟨.big2, le, defaultEdge, be, te⟩ false 3 =
      ⟨.big1, te, be, le, defaultEdge⟩ from by
      rw [tileTransformCore,
        show (Tile.mk .big2 le defaultEdge be te).shape =
          TileShape.big2 from rfl,
        show (orderedSides TileShape.big2).map
            (getEdge (flipPhase ⟨.big2, le, defaultEdge, be, te⟩ false)) =
          [te, be, le] from rfl,
        show rotShape (phaseShape TileShape.big2 false) 3 =
          TileShape.big1 from by decide]
      rfl]
  case small1 =>
    obtain rfl : le = defaultEdge := h .left (by simp [orderedSides])
    obtain rfl : re = defaultEdge := h .right (by simp [orderedSides])
    rw [show tileTransformCore ⟨.small1, te, be, defaultEdge, defaultEdge⟩ false 1 =
      ⟨.small2, defaultEdge, defaultEdge, be, te⟩ from by
      rw [tileTransformCore,
        show (Tile.mk .small1 te be defaultEdge defaultEdge).shape =
          TileShape.small1 from rfl,
        show (orderedSides TileShape.small1).map
            (getEdge (flipPhase ⟨.small1, te, be, defaultEdge, defaultEdge⟩ false)) =
          [te, be] from rfl,
        show rotShape (phaseShape TileShape.small1 false) 1 =
          TileShape.small2 from by decide]
      rfl]
    rw [show tileTransformCore ⟨.small2, defaultEdge, defaultEdge, be, te⟩ false 3 =
      ⟨.small1, te, be, defaultEdge, defaultEdge⟩ from by
      rw [tileTransformCore,
        show (Tile.mk .small2 defaultEdge defaultEdge be te).shape =
          TileShape.small2 from rfl,
        show (orderedSides TileShape.small2).map
            (getEdge (flipPhase ⟨.small2, defaultEdge, defaultEdge, be, te⟩ false)) =
          [te, be] from rfl,
        show rotShape (phaseShape TileShape.small2 false) 3 =
          TileShape.small1 from by decide]
      rfl]
  case big2 =>
    obtain rfl : be = defaultEdge := h .bottom (by simp [orderedSides])
    rw [show tileTransformCore ⟨.big2, te, defaultEdge, le, re⟩ false 1 =
      ⟨.big3, le, re, defaultEdge, te⟩ from by
      rw [tileTransformCore,
        show (Tile.mk .big2 te defaultEdge le re).shape =
          TileShape.big2 from rfl,
        show (orderedSides TileShape.big2).map
            (getEdge (flipPhase ⟨.big2, te, defaultEdge, le, re⟩ false)) =
          [re, le, te] from rfl,
        show rotShape (phaseShape TileShape.big2 false) 1 =
          TileShape.big3 from by decide]
      rfl]
    rw [show tileTransformCore ⟨.big3, le, re, defaultEdge, te⟩ false 3 =
      ⟨.big2, te, defaultEdge, le, re⟩ from by
      rw [tileTransformCore,
        show (Tile.mk .big3 le re defaultEdge te).shape =
          TileShape.big3 from rfl,
        show (orderedSides TileShape.big3).map
            (getEdge (flipPhase ⟨.big3, le, re, defaultEdge, te⟩ false)) =
          [re, le, te] from rfl,
        show rotShape (phaseShape TileShape.big3 false) 3 =
          TileShape.big2 from by decide]
      rfl]
  case small2 =>
    obtain rfl : te = defaultEdge := h .top (by simp [orderedSides])
    obtain rfl : be = defaultEdge := h .bottom (by simp [orderedSides])
    rw [show tileTransformCore ⟨.small2, defaultEdge, defaultEdge, le, re⟩ false 1 =
      ⟨.small3, le, re, defaultEdge, defaultEdge⟩ from by
      rw [tileTransformCore,
        show (Tile.mk .small2 defaultEdge defaultEdge le re).shape =
          TileShape.small2 from rfl,
        show (orderedSides TileShape.small2).map
            (getEdge (flipPhase ⟨.small2, defaultEdge, defaultEdge, le, re⟩ false)) =
          [re, le] from rfl,
        show rotShape (phaseShape TileShape.small2 false) 1 =
          TileShape.small3 from by decide]
      rfl]
    rw [show tileTransformCore ⟨.small3, le, re, defaultEdge, defaultEdge⟩ false 3 =
      ⟨.small2, defaultEdge, defaultEdge, le, re⟩ from by
      rw [tileTransformCore,
        show (Tile.mk .small3 le re defaultEdge defaultEdge).shape =
          TileShape.small3 from rfl,
        show (orderedSides TileShape.small3).map
            (getEdge (flipPhase ⟨.small3, le, re, defaultEdge, defaultEdge⟩ false)) =
          [re, le] from rfl,
        show rotShape (phaseShape TileShape.small3 false) 3 =
          TileShape.small2 from by decide]
      rfl]
  case big3 =>
    obtain rfl : le = defaultEdge := h .left (by simp [orderedSides])
    rw [show tileTransformCore ⟨.big3, te, be, defaultEdge, re⟩ false 1 =
      ⟨.big4, defaultEdge, re, be, te⟩ from by
      rw [tileTransformCore,
        show (Tile.mk .big3 te be defaultEdge re).shape =
          TileShape.big3 from rfl,
        show (orderedSides TileShape.big3).map
            (getEdge (flipPhase ⟨.big3, te, be, defaultEdge, re⟩ false)) =
          [be, te, re] from rfl,
        show rotShape (phaseShape TileShape.big3 false) 1 =
          TileShape.big4 from by decide]
      rfl]
    rw [show tileTransformCore ⟨.big4, defaultEdge, re, be, te⟩ false 3 =
      ⟨.big3, te, be, defaultEdge, re⟩ from by
      rw [tileTransformCore,
        show (Tile.mk .big4 defaultEdge re be te).shape =
          TileShape.big4 from rfl,
        show (orderedSides TileShape.big4).map
            (getEdge (flipPhase ⟨.big4, defaultEdge, re, be, te⟩ false)) =
          [be, te, re] from rfl,
        show rotShape (phaseShape TileShape.big4 false) 3 =
          TileShape.big3 from by decide]
      rfl]
  case small3 =>
    obtain rfl : le = defaultEdge := h .left (by simp [orderedSides])
    obtain rfl : re = defaultEdge := h .right (by simp [orderedSides])
    rw [show tileTransformCore ⟨.small3, te, be, defaultEdge, defaultEdge⟩ false 1 =
      ⟨.small4, defaultEdge, defaultEdge, be, te⟩ from by
      rw [tileTransformCore,
        show (Tile.mk .small3 te be defaultEdge defaultEdge).shape =
          TileShape.small3 from rfl,
        show (orderedSides TileShape.small3).map
            (getEdge (flipPhase ⟨.small3, te, be, defaultEdge, defaultEdge⟩ false)) =
          [be, te] from rfl,
        show rotShape (phaseShape TileShape.small3 false) 1 =
          TileShape.small4 from by decide]
      rfl]
    rw [show tileTransformCore ⟨.small4, defaultEdge, defaultEdge, be, te⟩ false 3 =
      ⟨.small3, te, be, defaultEdge, defaultEdge⟩ from by
      rw [tileTransformCore,
        show (Tile.mk .small4 defaultEdge defaultEdge be te).shape =
          TileShape.small4 from rfl,
        show (orderedSides TileShape.small4).map
            (getEdge (flipPhase ⟨.small4, defaultEdge, defaultEdge, be, te⟩ false)) =
          [be, te] from rfl,
        show rotShape (phaseShape TileShape.small4 false) 3 =
          TileShape.small3 from by decide]
      rfl]
  case big4 =>
    obtain rfl : te = defaultEdge := h .top (by simp [orderedSides])
    rw [show tileTransformCore ⟨.big4, defaultEdge, be, le, re⟩ false 1 =
      ⟨.big1, le, re, be, defaultEdge⟩ from by
      rw [tileTransformCore,
        show (Tile.mk .big4 defaultEdge be le re).shape =
          TileShape.big4 from rfl,
        show (orderedSides TileShape.big4).map
            (getEdge (flipPhase ⟨.big4, defaultEdge, be, le, re⟩ false)) =
          [le, re, be] from rfl,
        show rotShape (phaseShape TileShape.big4 false) 1 =
          TileShape.big1 from by decide]
      rfl]
    rw [show tileTransformCore ⟨.big1, le, re, be, defaultEdge⟩ false 3 =
      ⟨.big4, defaultEdge, be, le, re⟩ from by
      rw [tileTransformCore,
        show (Tile.mk .big1 le re be defaultEdge).shape =
          TileShape.big1 from rfl,
        show (orderedSides TileShape.big1).map
            (getEdge (flipPhase ⟨.big1, le, re, be, defaultEdge⟩ false)) =
          [le, re, be] from rfl,
        show rotShape (phaseShape TileShape.big1 false) 3 =
          TileShape.big4 from by decide]
      rfl]
  case small4 =>
    obtain rfl : te = defaultEdge := h .top (by simp [orderedSides])
    obtain rfl : be = defaultEdge := h .bottom (by simp [orderedSides])
    rw [show tileTransformCore ⟨.small4, defaultEdge, defaultEdge, le, re⟩ false 1 =
      ⟨.small1, le, re, defaultEdge, defaultEdge⟩ from by
      rw [tileTransformCore,
        show (Tile.mk .small4 defaultEdge defaultEdge le re).shape =
          TileShape.small4 from rfl,
        show (orderedSides TileShape.small4).map
            (getEdge (flipPhase ⟨.small4, defaultEdge, defaultEdge, le, re⟩ false)) =
          [le, re] from rfl,
        show rotShape (phaseShape TileShape.small4 false) 1 =
          TileShape.small1 from by decide]
      rfl]
    rw [show tileTransformCore ⟨.small1, le, re, defaultEdge, defaultEdge⟩ false 3 =
      ⟨.small4, defaultEdge, defaultEdge, le, re⟩ from by
      rw [tileTransformCore,
        show (Tile.mk .small1 le re defaultEdge defaultEdge).shape =
          TileShape.small1 from rfl,
        show (orderedSides TileShape.small1).map
            (getEdge (flipPhase ⟨.small1, le, re, defaultEdge, defaultEdge⟩ false)) =
          [le, re] from rfl,
        show rotShape (phaseShape TileShape.small1 false) 3 =
          TileShape.small4 from by decide]
      rfl]
  case big5 =>
    obtain rfl : le = defaultEdge := h .left (by simp [orderedSides])
    rw [show tileTransformCore ⟨.big5, te, be, defaultEdge, re⟩ false 1 =
      ⟨.big8, defaultEdge, re, be, te⟩ from by
      rw [tileTransformCore,
        show (Tile.mk .big5 te be defaultEdge re).shape =
          TileShape.big5 from rfl,
        show (orderedSides TileShape.big5).map
            (getEdge (flipPhase ⟨.big5, te, be, defaultEdge, re⟩ false)) =
          [te, be, re] from rfl,
        show rotShape (phaseShape TileShape.big5 false) 1 =
          TileShape.big8 from by decide]
      rfl]
    rw [show tileTransformCore ⟨.big8, defaultEdge, re, be, te⟩ false 3 =
      ⟨.big5, te, be, defaultEdge, re⟩ from by
      rw [tileTransformCore,
        show (Tile.mk .big8 defaultEdge re be te).shape =
          TileShape.big8 from rfl,
        show (orderedSides TileShape.big8).map
            (getEdge (flipPhase ⟨.big8, defaultEdge, re, be, te⟩ false)) =
          [te, be, re] from rfl,
        show rotShape (phaseShape TileShape.big8 false) 3 =
          TileShape.big5 from by decide]
      rfl]
  case small5 =>
    obtain rfl : le = defaultEdge := h .left (by simp [orderedSides])
    obtain rfl : re = defaultEdge := h .right (by simp [orderedSides])
    rw [show tileTransformCore ⟨.small5, te, be, defaultEdge, defaultEdge⟩ false 1 =
      ⟨.small8, defaultEdge, defaultEdge, be, te⟩ from by
      rw [tileTransformCore,
        show (Tile.mk .small5 te be defaultEdge defaultEdge).shape =
          TileShape.small5 from rfl,
        show (orderedSides TileShape.small5).map
            (getEdge (flipPhase ⟨.small5, te, be, defaultEdge, defaultEdge⟩ false)) =
          [te, be] from rfl,
        show rotShape (phaseShape TileShape.small5 false) 1 =
          TileShape.small8 from by decide]
      rfl]
    rw [show tileTransformCore ⟨.small8, defaultEdge, defaultEdge, be, te⟩ false 3 =
      ⟨.small5, te, be, defaultEdge, defaultEdge⟩ from by
      rw [tileTransformCore,
        show (Tile.mk .small8 defaultEdge defaultEdge be te).shape =
          TileShape.small8 from rfl,
        show (orderedSides TileShape.small8).map
            (getEdge (flipPhase ⟨.small8, defaultEdge, defaultEdge, be, te⟩ false)) =
          [te, be] from rfl,
        show rotShape (phaseShape TileShape.small8 false) 3 =
          TileShape.small5 from by decide]
      rfl]
  case big6 =>
    obtain rfl : be = defaultEdge := h .bottom (by simp [orderedSides])
    rw [show tileTransformCore ⟨.big6, te, defaultEdge, le, re⟩ false 1 =
      ⟨.big5, le, re, defaultEdge, te⟩ from by
      rw [tileTransformCore,
        show (Tile.mk .big6 te defaultEdge le re).shape =
          TileShape.big6 from rfl,
        show (orderedSides TileShape.big6).map
            (getEdge (flipPhase ⟨.big6, te, defaultEdge, le, re⟩ false)) =
          [le, re, te] from rfl,
        show rotShape (phaseShape TileShape.big6 false) 1 =
          TileShape.big5 from by decide]
      rfl]
    rw [show tileTransformCore ⟨.big5, le, re, defaultEdge, te⟩ false 3 =
      ⟨.big6, te, defaultEdge, le, re⟩ from by
      rw [tileTransformCore,
        show (Tile.mk .big5 le re defaultEdge te).shape =
          TileShape.big5 from rfl,
        show (orderedSides TileShape.big5).map
            (getEdge (flipPhase ⟨.big5, le, re, defaultEdge, te⟩ false)) =
          [le, re, te] from rfl,
        show rotShape (phaseShape TileShape.big5 false) 3 =
          TileShape.big6 from by decide]
      rfl]
  case small6 =>
    obtain rfl : te = defaultEdge := h .top (by simp [orderedSides])
    obtain rfl : be = defaultEdge := h .bottom (by simp [orderedSides])
    rw [show tileTransformCore ⟨.small6, defaultEdge, defaultEdge, le, re⟩ false 1 =
      ⟨.small5, le, re, defaultEdge, defaultEdge⟩ from by
      rw [tileTransformCore,
        show (Tile.mk .small6 defaultEdge defaultEdge le re).shape =
          TileShape.small6 from rfl,
        show (orderedSides TileShape.small6).map
            (getEdge (flipPhase ⟨.small6, defaultEdge, defaultEdge, le, re⟩ false)) =
          [le, re] from rfl,
        show rotShape (phaseShape TileShape.small6 false) 1 =
          TileShape.small5 from by decide]
      rfl]
    rw [show tileTransformCore ⟨.small5, le, re, defaultEdge, defaultEdge⟩ false 3 =
      ⟨.small6, defaultEdge, defaultEdge, le, re⟩ from by
      rw [tileTransformCore,
        show (Tile.mk .small5 le re defaultEdge defaultEdge).shape =
          TileShape.small5 from rfl,
        show (orderedSides TileShape.small5).map
            (getEdge (flipPhase ⟨.small5, le, re, defaultEdge, defaultEdge⟩ false)) =
          [le, re] from rfl,
        show rotShape (phaseShape TileShape.small5 false) 3 =
          TileShape.small6 from by decide]
      rfl]
  case big7 =>
    obtain rfl : re = defaultEdge := h .right (by simp [orderedSides])
    rw [show tileTransformCore ⟨.big7, te, be, le, defaultEdge⟩ false 1 =
      ⟨.big6, le, defaultEdge, be, te⟩ from by
      rw [tileTransformCore,
        show (Tile.mk .big7 te be le defaultEdge).shape =
          TileShape.big7 from rfl,
        show (orderedSides TileShape.big7).map
            (getEdge (flipPhase ⟨.big7, te, be, le, defaultEdge⟩ false)) =
          [be, te, le] from rfl,
        show rotShape (phaseShape TileShape.big7 false) 1 =
          TileShape.big6 from by decide]
      rfl]
    rw [show tileTransformCore ⟨.big6, le, defaultEdge, be, te⟩ false 3 =
      ⟨.big7, te, be, le, defaultEdge⟩ from by
      rw [tileTransformCore,
        show (Tile.mk .big6 le defaultEdge be te).shape =
          TileShape.big6 from rfl,
        show (orderedSides TileShape.big6).map
            (getEdge (flipPhase ⟨.big6, le, defaultEdge, be, te⟩ false)) =
          [be, te, le] from rfl,
        show rotShape (phaseShape TileShape.big6 false) 3 =
          TileShape.big7 from by decide]
      rfl]
  case small7 =>
    obtain rfl : le = defaultEdge := h .left (by simp [orderedSides])
    obtain rfl : re = defaultEdge := h .right (by simp [orderedSides])
    rw [show tileTransformCore ⟨.small7, te, be, defaultEdge, defaultEdge⟩ false 1 =
      ⟨.small6, defaultEdge, defaultEdge, be, te⟩ from by
      rw [tileTransformCore,
        show (Tile.mk .small7 te be defaultEdge defaultEdge).shape =
          TileShape.small7 from rfl,
        show (orderedSides TileShape.small7).map
            (getEdge (flipPhase ⟨.small7, te, be, defaultEdge, defaultEdge⟩ false)) =
          [be, te] from rfl,
        show rotShape (phaseShape TileShape.small7 false) 1 =
          TileShape.small6 from by decide]
      rfl]
    rw [show tileTransformCore ⟨.small6, defaultEdge, defaultEdge, be, te⟩ false 3 =
      ⟨.small7, te, be, defaultEdge, defaultEdge⟩ from by
      rw [tileTransformCore,
        show (Tile.mk .small6 defaultEdge defaultEdge be te).shape =
          TileShape.small6 from rfl,
        show (orderedSides TileShape.small6).map
            (getEdge (flipPhase ⟨.small6, defaultEdge, defaultEdge, be, te⟩ false)) =
          [be, te] from rfl,
        show rotShape (phaseShape TileShape.small6 false) 3 =
          TileShape.small7 from by decide]
      rfl]
  case big8 =>
    obtain rfl : te = defaultEdge := h .top (by simp [orderedSides])
    rw [show tileTransformCore ⟨.big8, defaultEdge, be, le, re⟩ false 1 =
      ⟨.big7, le, re, be, defaultEdge⟩ from by
      rw [tileTransformCore,
        show (Tile.mk .big8 defaultEdge be le re).shape =
          TileShape.big8 from rfl,
        show (orderedSides TileShape.big8).map
            (getEdge (flipPhase ⟨.big8, defaultEdge, be, le, re⟩ false)) =
          [re, le, be] from rfl,
        show rotShape (phaseShape TileShape.big8 false) 1 =
          TileShape.big7 from by decide]
      rfl]
    rw [show tileTransformCore ⟨.big7, le, re, be, defaultEdge⟩ false 3 =
      ⟨.big8, defaultEdge, be, le, re⟩ from by
      rw [tileTransformCore,
        show (Tile.mk .big7 le re be defaultEdge).shape =
          TileShape.big7 from rfl,
        show (orderedSides TileShape.big7).map
            (getEdge (flipPhase ⟨.big7, le, re, be, defaultEdge⟩ false)) =
          [re, le, be] from rfl,
        show rotShape (phaseShape TileShape.big7 false) 3 =
          TileShape.big8 from by decide]
      rfl]
  case small8 =>
    obtain rfl : te = defaultEdge := h .top (by simp [orderedSides])
    obtain rfl : be = defaultEdge := h .bottom (by simp [orderedSides])
    rw [show tileTransformCore ⟨.small8, defaultEdge, defaultEdge, le, re⟩ false 1 =
      ⟨.small7, le, re, defaultEdge, defaultEdge⟩ from by
      rw [tileTransformCore,
        show (Tile.mk .small8 defaultEdge defaultEdge le re).shape =
          TileShape.small8 from rfl,
        show (orderedSides TileShape.small8).map
            (getEdge (flipPhase ⟨.small8, defaultEdge, defaultEdge, le, re⟩ false)) =
          [re, le] from rfl,
        show rotShape (phaseShape TileShape.small8 false) 1 =
          TileShape.small7 from by decide]
      rfl]
    rw [show tileTransformCore ⟨.small7, le, re, defaultEdge, defaultEdge⟩ false 3 =
      ⟨.small8, defaultEdge, defaultEdge, le, re⟩ from by
      rw [tileTransformCore,
        show (Tile.mk .small7 le re defaultEdge defaultEdge).shape =
          TileShape.small7 from rfl,
        show (orderedSides TileShape.small7).map
            (getEdge (flipPhase ⟨.small7, le, re, defaultEdge, defaultEdge⟩ false)) =
          [re, le] from rfl,
        show rotShape (phaseShape TileShape.small7 false) 3 =
          TileShape.small8 from by decide]
      rfl]
  case halfA =>
    obtain rfl : re = defaultEdge := h .right (by simp [orderedSides])
    rw [show tileTransformCore ⟨.halfA, te, be, le, defaultEdge⟩ false 1 =
      ⟨.halfB, le, te, be, defaultEdge⟩ from by
      rw [tileTransformCore,
        show (Tile.mk .halfA te be le defaultEdge).shape =
          TileShape.halfA from rfl,
        show (orderedSides TileShape.halfA).map
            (getEdge (flipPhase ⟨.halfA, te, be, le, defaultEdge⟩ false)) =
          [te, be, le] from rfl,
        show rotShape (phaseShape TileShape.halfA false) 1 =
          TileShape.halfB from by decide]
      rfl]
    rw [show tileTransformCore ⟨.halfB, le, te, be, defaultEdge⟩ false 3 =
      ⟨.halfA, te, be, le, defaultEdge⟩ from by
      rw [tileTransformCore,
        show (Tile.mk .halfB le te be defaultEdge).shape =
          TileShape.halfB from rfl,
        show (orderedSides TileShape.halfB).map
            (getEdge (flipPhase ⟨.halfB, le, te, be, defaultEdge⟩ false)) =
          [te, be, le] from rfl,
        show rotShape (phaseShape TileShape.halfB false) 3 =
          TileShape.halfA from by decide]
      rfl]
  case halfB =>
    obtain rfl : re = defaultEdge := h .right (by simp [orderedSides])
    rw [show tileTransformCore ⟨.halfB, te, be, le, defaultEdge⟩ false 1 =
      ⟨.halfC, le, be, defaultEdge, te⟩ from by
      rw [tileTransformCore,
        show (Tile.mk .halfB te be le defaultEdge).shape =
          TileShape.halfB from rfl,
        show (orderedSides TileShape.halfB).map
            (getEdge (flipPhase ⟨.halfB, te, be, le, defaultEdge⟩ false)) =
          [be, le, te] from rfl,
        show rotShape (phaseShape TileShape.halfB false) 1 =
          TileShape.halfC from by decide]
      rfl]
    rw [show tileTransformCore ⟨.halfC, le, be, defaultEdge, te⟩ false 3 =
      ⟨.halfB, te, be, le, defaultEdge⟩ from by
      rw [tileTransformCore,
        show (Tile.mk .halfC le be defaultEdge te).shape =
          TileShape.halfC from rfl,
        show (orderedSides TileShape.halfC).map
            (getEdge (flipPhase ⟨.halfC, le, be, defaultEdge, te⟩ false)) =
          [be, le, te] from rfl,
        show rotShape (phaseShape TileShape.halfC false) 3 =
          TileShape.halfB from by decide]
      rfl]
  case halfC =>
    obtain rfl : le = defaultEdge := h .left (by simp [orderedSides])
    rw [show tileTransformCore ⟨.halfC, te, be, defaultEdge, re⟩ false 1 =
      ⟨.halfD, be, re, defaultEdge, te⟩ from by
      rw [tileTransformCore,
        show (Tile.mk .halfC te be defaultEdge re).shape =
          TileShape.halfC from rfl,
        show (orderedSides TileShape.halfC).map
            (getEdge (flipPhase ⟨.halfC, te, be, defaultEdge, re⟩ false)) =
          [be, te, re] from rfl,
        show rotShape (phaseShape TileShape.halfC false) 1 =
          TileShape.halfD from by decide]
      rfl]
    rw [show tileTransformCore ⟨.halfD, be, re, defaultEdge, te⟩ false 3 =
      ⟨.halfC, te, be, defaultEdge, re⟩ from by
      rw [tileTransformCore,
        show (Tile.mk .halfD be re defaultEdge te).shape =
          TileShape.halfD from rfl,
        show (orderedSides TileShape.halfD).map
            (getEdge (flipPhase ⟨.halfD, be, re, defaultEdge, te⟩ false)) =
          [be, te, re] from rfl,
        show rotShape (phaseShape TileShape.halfD false) 3 =
          TileShape.halfC from by decide]
      rfl]
  case halfD =>
    obtain rfl : le = defaultEdge := h .left (by simp [orderedSides])
    rw [show tileTransformCore ⟨.halfD, te, be, defaultEdge, re⟩ false 1 =
      ⟨.halfA, te, re, be, defaultEdge⟩ from by
      rw [tileTransformCore,
        show (Tile.mk .halfD te be defaultEdge re).shape =
          TileShape.halfD from rfl,
        show (orderedSides TileShape.halfD).map
            (getEdge (flipPhase ⟨.halfD, te, be, defaultEdge, re⟩ false)) =
          [te, re, be] from rfl,
        show rotShape (phaseShape TileShape.halfD false) 1 =
          TileShape.halfA from by decide]
      rfl]
    rw [show tileTransformCore ⟨.halfA, te, re, be, defaultEdge⟩ false 3 =
      ⟨.halfD, te, be, defaultEdge, re⟩ from by
      rw [tileTransformCore,
        show (Tile.mk .halfA te re be defaultEdge).shape =
          TileShape.halfA from rfl,
        show (orderedSides TileShape.halfA).map
            (getEdge (flipPhase ⟨.halfA, te, re, be, defaultEdge⟩ false)) =
          [te, re, be] from rfl,
        show rotShape (phaseShape TileShape.halfA false) 3 =
          TileShape.halfD from by decide]
      rfl]

set_option maxHeartbeats 1000000 in
theorem symRT_2 (t : Tile)
    (h : ∀ side, side ∉ orderedSides t.shape → getEdge t side = defaultEdge) :
    tileTransform (tileTransform t (symMat 2)) (symInv 2) = t := by
  simp only [tileTransform]
  rw [symMat_2, symInv_2,
    symMat_2_flipped, symMat_2_angle]
  rcases t with ⟨shape, te, be, le, re⟩
  cases shape
  case full =>
    rw [show tileTransformCore ⟨.full, te, be, le, re⟩ false 2 =
      ⟨.full, be, te, re, le⟩ from by
      rw [tileTransformCore,
        show (Tile.mk .full te be le re).shape =
          TileShape.full from rfl,
        show (orderedSides TileShape.full).map
            (getEdge (flipPhase ⟨.full, te, be, le, re⟩ false)) =
          [te, re, be, le] from rfl,
        show rotShape (phaseShape TileShape.full false) 2 =
          TileShape.full from by decide,
        show decide (TileShape.full = TileShape.full) = true from rfl,
        show orderedSides TileShape.full =
          [TileSide.top, TileSide.right, TileSide.bottom, TileSide.left]
          from rfl,
        redistFull2]
      rfl]
    rw [show tileTransformCore ⟨.full, be, te, re, le⟩ false 2 =
      ⟨.full, te, be, le, re⟩ from by
      rw [tileTransformCore,
        show (Tile.mk .full be te re le).shape =
          TileShape.full from rfl,
        show (orderedSides TileShape.full).map
            (getEdge (flipPhase ⟨.full, be, te, re, le⟩ false)) =
          [be, le, te, re] from rfl,
        show rotShape (phaseShape TileShape.full false) 2 =
          TileShape.full from by decide,
        show decide (TileShape.full = TileShape.full) = true from rfl,
        show orderedSides TileShape.full =
          [TileSide.top, TileSide.right, TileSide.bottom, TileSide.left]
          from rfl,
        redistFull2]
      rfl]
  case big1 =>
    obtain rfl : re = defaultEdge := h .right (by simp [orderedSides])
    rw [show tileTransformCore ⟨.big1, te, be, le, defaultEdge⟩ false 2 =
      ⟨.big3, be, te, defaultEdge, le⟩ from by
      rw [tileTransformCore,
        show (Tile.mk .big1 te be le defaultEdge).shape =
          TileShape.big1 from rfl,
        show (orderedSides TileShape.big1).map
            (getEdge (flipPhase ⟨.big1, te, be, le, defaultEdge⟩ false)) =
          [te, be, le] from rfl,
        show rotShape (phaseShape TileShape.big1 false) 2 =
          TileShape.big3 from by decide]
      rfl]
    rw [show tileTransformCore ⟨.big3, be, te, defaultEdge, le⟩ false 2 =
      ⟨.big1, te, be, le, defaultEdge⟩ from by
      rw [tileTransformCore,
        show (Tile.mk .big3 be te defaultEdge le).shape =
          TileShape.big3 from rfl,
        show (orderedSides TileShape.big3).map
            (getEdge (flipPhase ⟨.big3, be, te, defaultEdge, le⟩ false)) =
          [te, be, le] from rfl,
        show rotShape (phaseShape TileShape.big3 false) 2 =
          TileShape.big1 from by decide]
      rfl]
  case small1 =>
    obtain rfl : le = defaultEdge := h .left (by simp [orderedSides])
    obtain rfl : re = defaultEdge := h .right (by simp [orderedSides])
    rw [show tileTransformCore ⟨.small1, te, be, defaultEdge, defaultEdge⟩ false 2 =
      ⟨.small3, be, te, defaultEdge, defaultEdge⟩ from by
      rw [tileTransformCore,
        show (Tile.mk .small1 te be defaultEdge defaultEdge).shape =
          TileShape.small1 from rfl,
        show (orderedSides TileShape.small1).map
            (getEdge (flipPhase ⟨.small1, te, be, defaultEdge, defaultEdge⟩ false)) =
          [te, be] from rfl,
        show rotShape (phaseShape TileShape.small1 false) 2 =
          TileShape.small3 from by decide]
      rfl]
    rw [show tileTransformCore ⟨.small3, be, te, defaultEdge, defaultEdge⟩ false 2 =
      ⟨.small1, te, be, defaultEdge, defaultEdge⟩ from by
      rw [tileTransformCore,
        show (Tile.mk .small3 be te defaultEdge defaultEdge).shape =
          TileShape.small3 from rfl,
        show (orderedSides TileShape.small3).map
            (getEdge (flipPhase ⟨.small3, be, te, defaultEdge, defaultEdge⟩ false)) =
          [te, be] from rfl,
        show rotShape (phaseShape TileShape.small3 false) 2 =
          TileShape.small1 from by decide]
      rfl]
  case big2 =>
    obtain rfl : be = defaultEdge := h .bottom (by simp [orderedSides])
    rw [show tileTransformCore ⟨.big2, te, defaultEdge, le, re⟩ false 2 =
      ⟨.big4, defaultEdge, te, re, le⟩ from by
      rw [tileTransformCore,
        show (Tile.mk .big2 te defaultEdge le re).shape =
          TileShape.big2 from rfl,
        show (orderedSides TileShape.big2).map
            (getEdge (flipPhase ⟨.big2, te, defaultEdge, le, re⟩ false)) =
          [re, le, te] from rfl,
        show rotShape (phaseShape TileShape.big2 false) 2 =
          TileShape.big4 from by decide]
      rfl]
    rw [show tileTransformCore ⟨.big4, defaultEdge, te, re, le⟩ false 2 =
      ⟨.big2, te, defaultEdge, le, re⟩ from by
      rw [tileTransformCore,
        show (Tile.mk .big4 defaultEdge te re le).shape =
          TileShape.big4 from rfl,
        show (orderedSides TileShape.big4).map
            (getEdge (flipPhase ⟨.big4, defaultEdge, te, re, le⟩ false)) =
          [re, le, te] from rfl,
        show rotShape (phaseShape TileShape.big4 false) 2 =
          TileShape.big2 from by decide]
      rfl]
  case small2 =>
    obtain rfl : te = defaultEdge := h .top (by simp [orderedSides])
    obtain rfl : be = defaultEdge := h .bottom (by simp [orderedSides])
    rw [show tileTransformCore ⟨.small2, defaultEdge, defaultEdge, le, re⟩ false 2 =
      ⟨.small4, defaultEdge, defaultEdge, re, le⟩ from by
      rw [tileTransformCore,
        show (Tile.mk .small2 defaultEdge defaultEdge le re).shape =
          TileShape.small2 from rfl,
        show (orderedSides TileShape.small2).map
            (getEdge (flipPhase ⟨.small2, defaultEdge, defaultEdge, le, re⟩ false)) =
          [re, le] from rfl,
        show rotShape (phaseShape TileShape.small2 false) 2 =
          TileShape.small4 from by decide]
      rfl]
    rw [show tileTransformCore ⟨.small4, defaultEdge, defaultEdge, re, le⟩ false 2 =
      ⟨.small2, defaultEdge, defaultEdge, le, re⟩ from by
      rw [tileTransformCore,
        show (Tile.mk .small4 defaultEdge defaultEdge re le).shape =
          TileShape.small4 from rfl,
        show (orderedSides TileShape.small4).map
            (getEdge (flipPhase ⟨.small4, defaultEdge, defaultEdge, re, le⟩ false)) =
          [re, le] from rfl,
        show rotShape (phaseShape TileShape.small4 false) 2 =
          TileShape.small2 from by decide]
      rfl]
  case big3 =>
    obtain rfl : le = defaultEdge := h .left (by simp [orderedSides])
    rw [show tileTransformCore ⟨.big3, te, be, defaultEdge, re⟩ false 2 =
      ⟨.big1, be, te, re, defaultEdge⟩ from by
      rw [tileTransformCore,
        show (Tile.mk .big3 te be defaultEdge re).shape =
          TileShape.big3 from rfl,
        show (orderedSides TileShape.big3).map
            (getEdge (flipPhase ⟨.big3, te, be, defaultEdge, re⟩ false)) =
          [be, te, re] from rfl,
        show rotShape (phaseShape TileShape.big3 false) 2 =
          TileShape.big1 from by decide]
      rfl]
    rw [show tileTransformCore ⟨.big1, be, te, re, defaultEdge⟩ false 2 =
      ⟨.big3, te, be, defaultEdge, re⟩ from by
      rw [tileTransformCore,
        show (Tile.mk .big1 be te re defaultEdge).shape =
          TileShape.big1 from rfl,
        show (orderedSides TileShape.big1).map
            (getEdge (flipPhase ⟨.big1, be, te, re, defaultEdge⟩ false)) =
          [be, te, re] from rfl,
        show rotShape (phaseShape TileShape.big1 false) 2 =
          TileShape.big3 from by decide]
      rfl]
  case small3 =>
    obtain rfl : le = defaultEdge := h .left (by simp [orderedSides])
    obtain rfl : re = defaultEdge := h .right (by simp [orderedSides])
    rw [show tileTransformCore ⟨.small3, te, be, defaultEdge, defaultEdge⟩ false 2 =
      ⟨.small1, be, te, defaultEdge, defaultEdge⟩ from by
      rw [tileTransformCore,
        show (Tile.mk .small3 te be defaultEdge defaultEdge).shape =
          TileShape.small3 from rfl,
        show (orderedSides TileShape.small3).map
            (getEdge (flipPhase ⟨.small3, te, be, defaultEdge, defaultEdge⟩ false)) =
          [be, te] from rfl,
        show rotShape (phaseShape TileShape.small3 false) 2 =
          TileShape.small1 from by decide]
      rfl]
    rw [show tileTransformCore ⟨.small1, be, te, defaultEdge, defaultEdge⟩ false 2 =
      ⟨.small3, te, be, defaultEdge, defaultEdge⟩ from by
      rw [tileTransformCore,
        show (Tile.mk .small1 be te defaultEdge defaultEdge).shape =
          TileShape.small1 from rfl,
        show (orderedSides TileShape.small1).map
            (getEdge (flipPhase ⟨.small1, be, te, defaultEdge, defaultEdge⟩ false)) =
          [be, te] from rfl,
        show rotShape (phaseShape TileShape.small1 false) 2 =
          TileShape.small3 from by decide]
      rfl]
  case big4 =>
    obtain rfl : te = defaultEdge := h .top (by simp [orderedSides])
    rw [show tileTransformCore ⟨.big4, defaultEdge, be, le, re⟩ false 2 =
      ⟨.big2, be, defaultEdge, re, le⟩ from by
      rw [tileTransformCore,
        show (Tile.mk .big4 defaultEdge be le re).shape =
          TileShape.big4 from rfl,
        show (orderedSides TileShape.big4).map
            (getEdge (flipPhase ⟨.big4, defaultEdge, be, le, re⟩ false)) =
          [le, re, be] from rfl,
        show rotShape (phaseShape TileShape.big4 false) 2 =
          TileShape.big2 from by decide]
      rfl]
    rw [show tileTransformCore ⟨.big2, be, defaultEdge, re, le⟩ false 2 =
      ⟨.big4, defaultEdge, be, le, re⟩ from by
      rw [tileTransformCore,
        show (Tile.mk .big2 be defaultEdge re le).shape =
          TileShape.big2 from rfl,
        show (orderedSides TileShape.big2).map
            (getEdge (flipPhase ⟨.big2, be, defaultEdge, re, le⟩ false)) =
          [le, re, be] from rfl,
        show rotShape (phaseShape TileShape.big2 false) 2 =
          TileShape.big4 from by decide]
      rfl]
  case small4 =>
    obtain rfl : te = defaultEdge := h .top (by simp [orderedSides])
    obtain rfl : be = defaultEdge := h .bottom (by simp [orderedSides])
    rw [show tileTransformCore ⟨.small4, defaultEdge, defaultEdge, le, re⟩ false 2 =
      ⟨.small2, defaultEdge, defaultEdge, re, le⟩ from by
      rw [tileTransformCore,
        show (Tile.mk .small4 defaultEdge defaultEdge le re).shape =
          TileShape.small4 from rfl,
        show (orderedSides TileShape.small4).map
            (getEdge (flipPhase ⟨.small4, defaultEdge, defaultEdge, le, re⟩ false)) =
          [le, re] from rfl,
        show rotShape (phaseShape TileShape.small4 false) 2 =
          TileShape.small2 from by decide]
      rfl]
    rw [show tileTransformCore ⟨.small2, defaultEdge, defaultEdge, re, le⟩ false 2 =
      ⟨.small4, defaultEdge, defaultEdge, le, re⟩ from by
      rw [tileTransformCore,
        show (Tile.mk .small2 defaultEdge defaultEdge re le).shape =
          TileShape.small2 from rfl,
        show (orderedSides TileShape.small2).map
            (getEdge (flipPhase ⟨.small2, defaultEdge, defaultEdge, re, le⟩ false)) =
          [le, re] from rfl,
        show rotShape (phaseShape TileShape.small2 false) 2 =
          TileShape.small4 from by decide]
      rfl]
  case big5 =>
    obtain rfl : le = defaultEdge := h .left (by simp [orderedSides])
    rw [show tileTransformCore ⟨.big5, te, be, defaultEdge, re⟩ false 2 =
      ⟨.big7, be, te, re, defaultEdge⟩ from by
      rw [tileTransformCore,
        show (Tile.mk .big5 te be defaultEdge re).shape =
          TileShape.big5 from rfl,
        show (orderedSides TileShape.big5).map
            (getEdge (flipPhase ⟨.big5, te, be, defaultEdge, re⟩ false)) =
          [te, be, re] from rfl,
        show rotShape (phaseShape TileShape.big5 false) 2 =
          TileShape.big7 from by decide]
      rfl]
    rw [show tileTransformCore ⟨.big7, be, te, re, defaultEdge⟩ false 2 =
      ⟨.big5, te, be, defaultEdge, re⟩ from by
      rw [tileTransformCore,
        show (Tile.mk .big7 be te re defaultEdge).shape =
          TileShape.big7 from rfl,
        show (orderedSides TileShape.big7).map
            (getEdge (flipPhase ⟨.big7, be, te, re, defaultEdge⟩ false)) =
          [te, be, re] from rfl,
        show rotShape (phaseShape TileShape.big7 false) 2 =
          TileShape.big5 from by decide]
      rfl]
  case small5 =>
    obtain rfl : le = defaultEdge := h .left (by simp [orderedSides])
    obtain rfl : re = defaultEdge := h .right (by simp [orderedSides])
    rw [show tileTransformCore ⟨.small5, te, be, defaultEdge, defaultEdge⟩ false 2 =
      ⟨.small7, be, te, defaultEdge, defaultEdge⟩ from by
      rw [tileTransformCore,
        show (Tile.mk .small5 te be defaultEdge defaultEdge).shape =
          TileShape.small5 from rfl,
        show (orderedSides TileShape.small5).map
            (getEdge (flipPhase ⟨.small5, te, be, defaultEdge, defaultEdge⟩ false)) =
          [te, be] from rfl,
        show rotShape (phaseShape TileShape.small5 false) 2 =
          TileShape.small7 from by decide]
      rfl]
    rw [show tileTransformCore ⟨.small7, be, te, defaultEdge, defaultEdge⟩ false 2 =
      ⟨.small5, te, be, defaultEdge, defaultEdge⟩ from by
      rw [tileTransformCore,
        show (Tile.mk .small7 be te defaultEdge defaultEdge).shape =
          TileShape.small7 from rfl,
        show (orderedSides TileShape.small7).map
            (getEdge (flipPhase ⟨.small7, be, te, defaultEdge, defaultEdge⟩ false)) =
          [te, be] from rfl,
        show rotShape (phaseShape TileShape.small7 false) 2 =
          TileShape.small5 from by decide]
      rfl]
  case big6 =>
    obtain rfl : be = defaultEdge := h .bottom (by simp [orderedSides])
    rw [show tileTransformCore ⟨.big6, te, defaultEdge, le, re⟩ false 2 =
      ⟨.big8, defaultEdge, te, re, le⟩ from by
      rw [tileTransformCore,
        show (Tile.mk .big6 te defaultEdge le re).shape =
          TileShape.big6 from rfl,
        show (orderedSides TileShape.big6).map
            (getEdge (flipPhase ⟨.big6, te, defaultEdge, le, re⟩ false)) =
          [le, re, te] from rfl,
        show rotShape (phaseShape TileShape.big6 false) 2 =
          TileShape.big8 from by decide]
      rfl]
    rw [show tileTransformCore ⟨.big8, defaultEdge, te, re, le⟩ false 2 =
      ⟨.big6, te, defaultEdge, le, re⟩ from by
      rw [tileTransformCore,
        show (Tile.mk .big8 defaultEdge te re le).shape =
          TileShape.big8 from rfl,
        show (orderedSides TileShape.big8).map
            (getEdge (flipPhase ⟨.big8, defaultEdge, te, re, le⟩ false)) =
          [le, re, te] from rfl,
        show rotShape (phaseShape TileShape.big8 false) 2 =
          TileShape.big6 from by decide]
      rfl]
  case small6 =>
    obtain rfl : te = defaultEdge := h .top (by simp [orderedSides])
    obtain rfl : be = defaultEdge := h .bottom (by simp [orderedSides])
    rw [show tileTransformCore ⟨.small6, defaultEdge, defaultEdge, le, re⟩ false 2 =
      ⟨.small8, defaultEdge, defaultEdge, re, le⟩ from by
      rw [tileTransformCore,
        show (Tile.mk .small6 defaultEdge defaultEdge le re).shape =
          TileShape.small6 from rfl,
        show (orderedSides TileShape.small6).map
            (getEdge (flipPhase ⟨.small6, defaultEdge, defaultEdge, le, re⟩ false)) =
          [le, re] from rfl,
        show rotShape (phaseShape TileShape.small6 false) 2 =
          TileShape.small8 from by decide]
      rfl]
    rw [show tileTransformCore ⟨.small8, defaultEdge, defaultEdge, re, le⟩ false 2 =
      ⟨.small6, defaultEdge, defaultEdge, le, re⟩ from by
      rw [tileTransformCore,
        show (Tile.mk .small8 defaultEdge defaultEdge re le).shape =
          TileShape.small8 from rfl,
        show (orderedSides TileShape.small8).map
            (getEdge (flipPhase ⟨.small8, defaultEdge, defaultEdge, re, le⟩ false)) =
          [le, re] from rfl,
        show rotShape (phaseShape TileShape.small8 false) 2 =
          TileShape.small6 from by decide]
      rfl]
  case big7 =>
    obtain rfl : re = defaultEdge := h .right (by simp [orderedSides])
    rw [show tileTransformCore ⟨.big7, te, be, le, defaultEdge⟩ false 2 =
      ⟨.big5, be, te, defaultEdge, le⟩ from by
      rw [tileTransformCore,
        show (Tile.mk .big7 te be le defaultEdge).shape =
          TileShape.big7 from rfl,
        show (orderedSides TileShape.big7).map
            (getEdge (flipPhase ⟨.big7, te, be, le, defaultEdge⟩ false)) =
          [be, te, le] from rfl,
        show rotShape (phaseShape TileShape.big7 false) 2 =
          TileShape.big5 from by decide]
      rfl]
    rw [show tileTransformCore ⟨.big5, be, te, defaultEdge, le⟩ false 2 =
      ⟨.big7, te, be, le, defaultEdge⟩ from by
      rw [tileTransformCore,
        show (Tile.mk .big5 be te defaultEdge le).shape =
          TileShape.big5 from rfl,
        show (orderedSides TileShape.big5).map
            (getEdge (flipPhase ⟨.big5, be, te, defaultEdge, le⟩ false)) =
          [be, te, le] from rfl,
        show rotShape (phaseShape TileShape.big5 false) 2 =
          TileShape.big7 from by decide]
      rfl]
  case small7 =>
    obtain rfl : le = defaultEdge := h .left (by simp [orderedSides])
    obtain rfl : re = defaultEdge := h .right (by simp [orderedSides])
    rw [show tileTransformCore ⟨.small7, te, be, defaultEdge, defaultEdge⟩ false 2 =
      ⟨.small5, be, te, defaultEdge, defaultEdge⟩ from by
      rw [tileTransformCore,
        show (Tile.mk .small7 te be defaultEdge defaultEdge).shape =
          TileShape.small7 from rfl,
        show (orderedSides TileShape.small7).map
            (getEdge (flipPhase ⟨.small7, te, be, defaultEdge, defaultEdge⟩ false)) =
          [be, te] from rfl,
        show rotShape (phaseShape TileShape.small7 false) 2 =
          TileShape.small5 from by decide]
      rfl]
    rw [show tileTransformCore ⟨.small5, be, te, defaultEdge, defaultEdge⟩ false 2 =
      ⟨.small7, te, be, defaultEdge, defaultEdge⟩ from by
      rw [tileTransformCore,
        show (Tile.mk .small5 be te defaultEdge defaultEdge).shape =
          TileShape.small5 from rfl,
        show (orderedSides TileShape.small5).map
            (getEdge (flipPhase ⟨.small5, be, te, defaultEdge, defaultEdge⟩ false)) =
          [be, te] from rfl,
        show rotShape (phaseShape TileShape.small5 false) 2 =
          TileShape.small7 from by decide]
      rfl]
  case big8 =>
    obtain rfl : te = defaultEdge := h .top (by simp [orderedSides])
    rw [show tileTransformCore ⟨.big8, defaultEdge, be, le, re⟩ false 2 =
      ⟨.big6, be, defaultEdge, re, le⟩ from by
      rw [tileTransformCore,
        show (Tile.mk .big8 defaultEdge be le re).shape =
          TileShape.big8 from rfl,
        show (orderedSides TileShape.big8).map
            (getEdge (flipPhase ⟨.big8, defaultEdge, be, le, re⟩ false)) =
          [re, le, be] from rfl,
        show rotShape (phaseShape TileShape.big8 false) 2 =
          TileShape.big6 from by decide]
      rfl]
    rw [show tileTransformCore ⟨.big6, be, defaultEdge, re, le⟩ false 2 =
      ⟨.big8, defaultEdge, be, le, re⟩ from by
      rw [tileTransformCore,
        show (Tile.mk .big6 be defaultEdge re le).shape =
          TileShape.big6 from rfl,
        show (orderedSides TileShape.big6).map
            (getEdge (flipPhase ⟨.big6, be, defaultEdge, re, le⟩ false)) =
          [re, le, be] from rfl,
        show rotShape (phaseShape TileShape.big6 false) 2 =
          TileShape.big8 from by decide]
      rfl]
  case small8 =>
    obtain rfl : te = defaultEdge := h .top (by simp [orderedSides])
    obtain rfl : be = defaultEdge := h .bottom (by simp [orderedSides])
    rw [show tileTransformCore ⟨.small8, defaultEdge, defaultEdge, le, re⟩ false 2 =
      ⟨.small6, defaultEdge, defaultEdge, re, le⟩ from by
      rw [tileTransformCore,
        show (Tile.mk .small8 defaultEdge defaultEdge le re).shape =
          TileShape.small8 from rfl,
        show (orderedSides TileShape.small8).map
            (getEdge (flipPhase ⟨.small8, defaultEdge, defaultEdge, le, re⟩ false)) =
          [re, le] from rfl,
        show rotShape (phaseShape TileShape.small8 false) 2 =
          TileShape.small6 from by decide]
      rfl]
    rw [show tileTransformCore ⟨.small6, defaultEdge, defaultEdge, re, le⟩ false 2 =
      ⟨.small8, defaultEdge, defaultEdge, le, re⟩ from by
      rw [tileTransformCore,
        show (Tile.mk .small6 defaultEdge defaultEdge re le).shape =
          TileShape.small6 from rfl,
        show (orderedSides TileShape.small6).map
            (getEdge (flipPhase ⟨.small6, defaultEdge, defaultEdge, re, le⟩ false)) =
          [re, le] from rfl,
        show rotShape (phaseShape TileShape.small6 false) 2 =
          TileShape.small8 from by decide]
      rfl]
  case halfA =>
    obtain rfl : re = defaultEdge := h .right (by simp [orderedSides])
    rw [show tileTransformCore ⟨.halfA, te, be, le, defaultEdge⟩ false 2 =
      ⟨.halfC, be, te, defaultEdge, le⟩ from by
      rw [tileTransformCore,
        show (Tile.mk .halfA te be le defaultEdge).shape =
          TileShape.halfA from rfl,
        show (orderedSides TileShape.halfA).map
            (getEdge (flipPhase ⟨.halfA, te, be, le, defaultEdge⟩ false)) =
          [te, be, le] from rfl,
        show rotShape (phaseShape TileShape.halfA false) 2 =
          TileShape.halfC from by decide]
      rfl]
    rw [show tileTransformCore ⟨.halfC, be, te, defaultEdge, le⟩ false 2 =
      ⟨.halfA, te, be, le, defaultEdge⟩ from by
      rw [tileTransformCore,
        show (Tile.mk .halfC be te defaultEdge le).shape =
          TileShape.halfC from rfl,
        show (orderedSides TileShape.halfC).map
            (getEdge (flipPhase ⟨.halfC, be, te, defaultEdge, le⟩ false)) =
          [te, be, le] from rfl,
        show rotShape (phaseShape TileShape.halfC false) 2 =
          TileShape.halfA from by decide]
      rfl]
  case halfB =>
    obtain rfl : re = defaultEdge := h .right (by simp [orderedSides])
    rw [show tileTransformCore ⟨.halfB, te, be, le, defaultEdge⟩ false 2 =
      ⟨.halfD, be, te, defaultEdge, le⟩ from by
      rw [tileTransformCore,
        show (Tile.mk .halfB te be le defaultEdge).shape =
          TileShape.halfB from rfl,
        show (orderedSides TileShape.halfB).map
            (getEdge (flipPhase ⟨.halfB, te, be, le, defaultEdge⟩ false)) =
          [be, le, te] from rfl,
        show rotShape (phaseShape TileShape.halfB false) 2 =
          TileShape.halfD from by decide]
      rfl]
    rw [show tileTransformCore ⟨.halfD, be, te, defaultEdge, le⟩ false 2 =
      ⟨.halfB, te, be, le, defaultEdge⟩ from by
      rw [tileTransformCore,
        show (Tile.mk .halfD be te defaultEdge le).shape =
          TileShape.halfD from rfl,
        show (orderedSides TileShape.halfD).map
            (getEdge (flipPhase ⟨.halfD, be, te, defaultEdge, le⟩ false)) =
          [be, le, te] from rfl,
        show rotShape (phaseShape TileShape.halfD false) 2 =
          TileShape.halfB from by decide]
      rfl]
  case halfC =>
    obtain rfl : le = defaultEdge := h .left (by simp [orderedSides])
    rw [show tileTransformCore ⟨.halfC, te, be, defaultEdge, re⟩ false 2 =
      ⟨.halfA, be, te, re, defaultEdge⟩ from by
      rw [tileTransformCore,
        show (Tile.mk .halfC te be defaultEdge re).shape =
          TileShape.halfC from rfl,
        show (orderedSides TileShape.halfC).map
            (getEdge (flipPhase ⟨.halfC, te, be, defaultEdge, re⟩ false)) =
          [be, te, re] from rfl,
        show rotShape (phaseShape TileShape.halfC false) 2 =
          TileShape.halfA from by decide]
      rfl]
    rw [show tileTransformCore ⟨.halfA, be, te, re, defaultEdge⟩ false 2 =
      ⟨.halfC, te, be, defaultEdge, re⟩ from by
      rw [tileTransformCore,
        show (Tile.mk .halfA be te re defaultEdge).shape =
          TileShape.halfA from rfl,
        show (orderedSides TileShape.halfA).map
            (getEdge (flipPhase ⟨.halfA, be, te, re, defaultEdge⟩ false)) =
          [be, te, re] from rfl,
        show rotShape (phaseShape TileShape.halfA false) 2 =
          TileShape.halfC from by decide]
      rfl]
  case halfD =>
    obtain rfl : le = defaultEdge := h .left (by simp [orderedSides])
    rw [show tileTransformCore ⟨.halfD, te, be, defaultEdge, re⟩ false 2 =
      ⟨.halfB, be, te, re, defaultEdge⟩ from by
      rw [tileTransformCore,
        show (Tile.mk .halfD te be defaultEdge re).shape =
          TileShape.halfD from rfl,
        show (orderedSides TileShape.halfD).map
            (getEdge (flipPhase ⟨.halfD, te, be, defaultEdge, re⟩ false)) =
          [te, re, be] from rfl,
        show rotShape (phaseShape TileShape.halfD false) 2 =
          TileShape.halfB from by decide]
      rfl]
    rw [show tileTransformCore ⟨.halfB, be, te, re, defaultEdge⟩ false 2 =
      ⟨.halfD, te, be, defaultEdge, re⟩ from by
      rw [tileTransformCore,
        show (Tile.mk .halfB be te re defaultEdge).shape =
          TileShape.halfB from rfl,
        show (orderedSides TileShape.halfB).map
            (getEdge (flipPhase ⟨.halfB, be, te, re, defaultEdge⟩ false)) =
          [te, re, be] from rfl,
        show rotShape (phaseShape TileShape.halfB false) 2 =
          TileShape.halfD from by decide]
      rfl]

set_option maxHeartbeats 1000000 in
theorem symRT_3 (t : Tile)
    (h : ∀ side, side ∉ orderedSides t.shape → getEdge t side = defaultEdge) :
    tileTransform (tileTransform t (symMat 3)) (symInv 3) = t := by
  simp only [tileTransform]
  rw [symMat_3, symInv_3,
    symMat_3_flipped, symMat_3_angle,
    symMat_1_flipped, symMat_1_angle]
  rcases t with ⟨shape, te, be, le, re⟩
  cases shape
  case full =>
    rw [show tileTransformCore ⟨.full, te, be, le, re⟩ false 3 =
      ⟨.full, re, le, te, be⟩ from by
      rw [tileTransformCore,
        show (Tile.mk .full te be le re).shape =
          TileShape.full from rfl,
        show (orderedSides TileShape.full).map
            (getEdge (flipPhase ⟨.full, te, be, le, re⟩ false)) =
          [te, re, be, le] from rfl,
        show rotShape (phaseShape TileShape.full false) 3 =
          TileShape.full from by decide,
        show decide (TileShape.full = TileShape.full) = true from rfl,
        show orderedSides TileShape.full =
          [TileSide.top, TileSide.right, TileSide.bottom, TileSide.left]
          from rfl,
        redistFull3]
      rfl]
    rw [show tileTransformCore ⟨.full, re, le, te, be⟩ false 1 =
      ⟨.full, te, be, le, re⟩ from by
      rw [tileTransformCore,
        show (Tile.mk .full re le te be).shape =
          TileShape.full from rfl,
        show (orderedSides TileShape.full).map
            (getEdge (flipPhase ⟨.full, re, le, te, be⟩ false)) =
          [re, be, le, te] from rfl,
        show rotShape (phaseShape TileShape.full false) 1 =
          TileShape.full from by decide,
        show decide (TileShape.full = TileShape.full) = true from rfl,
        show orderedSides TileShape.full =
          [TileSide.top, TileSide.right, TileSide.bottom, TileSide.left]
          from rfl,
        redistFull1]
      rfl]
  case big1 =>
    obtain rfl : re = defaultEdge := h .right (by simp [orderedSides])
    rw [show tileTransformCore ⟨.big1, te, be, le, defaultEdge⟩ false 3 =
      ⟨.big4, defaultEdge, le, te, be⟩ from by
      rw [tileTransformCore,
        show (Tile.mk .big1 te be le defaultEdge).shape =
          TileShape.big1 from rfl,
        show (orderedSides TileShape.big1).map
            (getEdge (flipPhase ⟨.big1, te, be, le, defaultEdge⟩ false)) =
          [te, be, le] from rfl,
        show rotShape (phaseShape TileShape.big1 false) 3 =
          TileShape.big4 from by decide]
      rfl]
    rw [show tileTransformCore ⟨.big4, defaultEdge, le, te, be⟩ false 1 =
      ⟨.big1, te, be, le, defaultEdge⟩ from by
      rw [tileTransformCore,
        show (Tile.mk .big4 defaultEdge le te be).shape =
          TileShape.big4 from rfl,
        show (orderedSides TileShape.big4).map
            (getEdge (flipPhase ⟨.big4, defaultEdge, le, te, be⟩ false)) =
          [te, be, le] from rfl,
        show rotShape (phaseShape TileShape.big4 false) 1 =
          TileShape.big1 from by decide]
      rfl]
  case small1 =>
    obtain rfl : le = defaultEdge := h .left (by simp [orderedSides])
    obtain rfl : re = defaultEdge := h .right (by simp [orderedSides])
    rw [show tileTransformCore ⟨.small1, te, be, defaultEdge, defaultEdge⟩ false 3 =
      ⟨.small4, defaultEdge, defaultEdge, te, be⟩ from by
      rw [tileTransformCore,
        show (Tile.mk .small1 te be defaultEdge defaultEdge).shape =
          TileShape.small1 from rfl,
        show (orderedSides TileShape.small1).map
            (getEdge (flipPhase ⟨.small1, te, be, defaultEdge, defaultEdge⟩ false)) =
          [te, be] from rfl,
        show rotShape (phaseShape TileShape.small1 false) 3 =
          TileShape.small4 from by decide]
      rfl]
    rw [show tileTransformCore ⟨.small4, defaultEdge, defaultEdge, te, be⟩ false 1 =
      ⟨.small1, te, be, defaultEdge, defaultEdge⟩ from by
      rw [tileTransformCore,
        show (Tile.mk .small4 defaultEdge defaultEdge te be).shape =
          TileShape.small4 from rfl,
        show (orderedSides TileShape.small4).map
            (getEdge (flipPhase ⟨.small4, defaultEdge, defaultEdge, te, be⟩ false)) =
          [te, be] from rfl,
        show rotShape (phaseShape TileShape.small4 false) 1 =
          TileShape.small1 from by decide]
      rfl]
  case big2 =>
    obtain rfl : be = defaultEdge := h .bottom (by simp [orderedSides])
    rw [show tileTransformCore ⟨.big2, te, defaultEdge, le, re⟩ false 3 =
      ⟨.big1, re, le, te, defaultEdge⟩ from by
      rw [tileTransformCore,
        show (Tile.mk .big2 te defaultEdge le re).shape =
          TileShape.big2 from rfl,
        show (orderedSides TileShape.big2).map
            (getEdge (flipPhase ⟨.big2, te, defaultEdge, le, re⟩ false)) =
          [re, le, te] from rfl,
        show rotShape (phaseShape TileShape.big2 false) 3 =
          TileShape.big1 from by decide]
      rfl]
    rw [show tileTransformCore ⟨.big1, re, le, te, defaultEdge⟩ false 1 =
      ⟨.big2, te, defaultEdge, le, re⟩ from by
      rw [tileTransformCore,
        show (Tile.mk .big1 re le te defaultEdge).shape =
          TileShape.big1 from rfl,
        show (orderedSides TileShape.big1).map
            (getEdge (flipPhase ⟨.big1, re, le, te, defaultEdge⟩ false)) =
          [re, le, te] from rfl,
        show rotShape (phaseShape TileShape.big1 false) 1 =
          TileShape.big2 from by decide]
      rfl]
  case small2 =>
    obtain rfl : te = defaultEdge := h .top (by simp [orderedSides])
    obtain rfl : be = defaultEdge := h .bottom (by simp [orderedSides])
    rw [show tileTransformCore ⟨.small2, defaultEdge, defaultEdge, le, re⟩ false 3 =
      ⟨.small1, re, le, defaultEdge, defaultEdge⟩ from by
      rw [tileTransformCore,
        show (Tile.mk .small2 defaultEdge defaultEdge le re).shape =
          TileShape.small2 from rfl,
        show (orderedSides TileShape.small2).map
            (getEdge (flipPhase ⟨.small2, defaultEdge, defaultEdge, le, re⟩ false)) =
          [re, le] from rfl,
        show rotShape (phaseShape TileShape.small2 false) 3 =
          TileShape.small1 from by decide]
      rfl]
    rw [show tileTransformCore ⟨.small1, re, le, defaultEdge, defaultEdge⟩ false 1 =
      ⟨.small2, defaultEdge, defaultEdge, le, re⟩ from by
      rw [tileTransformCore,
        show (Tile.mk .small1 re le defaultEdge defaultEdge).shape =
          TileShape.small1 from rfl,
        show (orderedSides TileShape.small1).map
            (getEdge (flipPhase ⟨.small1, re, le, defaultEdge, defaultEdge⟩ false)) =
          [re, le] from rfl,
        show rotShape (phaseShape TileShape.small1 false) 1 =
          TileShape.small2 from by decide]
      rfl]
  case big3 =>
    obtain rfl : le = defaultEdge := h .left (by simp [orderedSides])
    rw [show tileTransformCore ⟨.big3, te, be, defaultEdge, re⟩ false 3 =
      ⟨.big2, re, defaultEdge, te, be⟩ from by
      rw [tileTransformCore,
        show (Tile.mk .big3 te be defaultEdge re).shape =
          TileShape.big3 from rfl,
        show (orderedSides TileShape.big3).map
            (getEdge (flipPhase ⟨.big3, te, be, defaultEdge, re⟩ false)) =
          [be, te, re] from rfl,
        show rotShape (phaseShape TileShape.big3 false) 3 =
          TileShape.big2 from by decide]
      rfl]
    rw [show tileTransformCore ⟨.big2, re, defaultEdge, te, be⟩ false 1 =
      ⟨.big3, te, be, defaultEdge, re⟩ from by
      rw [tileTransformCore,
        show (Tile.mk .big2 re defaultEdge te be).shape =
          TileShape.big2 from rfl,
        show (orderedSides TileShape.big2).map
            (getEdge (flipPhase ⟨.big2, re, defaultEdge, te, be⟩ false)) =
          [be, te, re] from rfl,
        show rotShape (phaseShape TileShape.big2 false) 1 =
          TileShape.big3 from by decide]
      rfl]
  case small3 =>
    obtain rfl : le = defaultEdge := h .left (by simp [orderedSides])
    obtain rfl : re = defaultEdge := h .right (by simp [orderedSides])
    rw [show tileTransformCore ⟨.small3, te, be, defaultEdge, defaultEdge⟩ false 3 =
      ⟨.small2, defaultEdge, defaultEdge, te, be⟩ from by
      rw [tileTransformCore,
        show (Tile.mk .small3 te be defaultEdge defaultEdge).shape =
          TileShape.small3 from rfl,
        show (orderedSides TileShape.small3).map
            (getEdge (flipPhase ⟨.small3, te, be, defaultEdge, defaultEdge⟩ false)) =
          [be, te] from rfl,
        show rotShape (phaseShape TileShape.small3 false) 3 =
          TileShape.small2 from by decide]
      rfl]
    rw [show tileTransformCore ⟨.small2, defaultEdge, defaultEdge, te, be⟩ false 1 =
      ⟨.small3, te, be, defaultEdge, defaultEdge⟩ from by
      rw [tileTransformCore,
        show (Tile.mk .small2 defaultEdge defaultEdge te be).shape =
          TileShape.small2 from rfl,
        show (orderedSides TileShape.small2).map
            (getEdge (flipPhase ⟨.small2, defaultEdge, defaultEdge, te, be⟩ false)) =
          [be, te] from rfl,
        show rotShape (phaseShape TileShape.small2 false) 1 =
          TileShape.small3 from by decide]
      rfl]
  case big4 =>
    obtain rfl : te = defaultEdge := h .top (by simp [orderedSides])
    rw [show tileTransformCore ⟨.big4, defaultEdge, be, le, re⟩ false 3 =
      ⟨.big3, re, le, defaultEdge, be⟩ from by
      rw [tileTransformCore,
        show (Tile.mk .big4 defaultEdge be le re).shape =
          TileShape.big4 from rfl,
        show (orderedSides TileShape.big4).map
            (getEdge (flipPhase ⟨.big4, defaultEdge, be, le, re⟩ false)) =
          [le, re, be] from rfl,
        show rotShape (phaseShape TileShape.big4 false) 3 =
          TileShape.big3 from by decide]
      rfl]
    rw [show tileTransformCore ⟨.big3, re, le, defaultEdge, be⟩ false 1 =
      ⟨.big4, defaultEdge, be, le, re⟩ from by
      rw [tileTransformCore,
        show (Tile.mk .big3 re le defaultEdge be).shape =
          TileShape.big3 from rfl,
        show (orderedSides TileShape.big3).map
            (getEdge (flipPhase ⟨.big3, re, le, defaultEdge, be⟩ false)) =
          [le, re, be] from rfl,
        show rotShape (phaseShape TileShape.big3 false) 1 =
          TileShape.big4 from by decide]
      rfl]
  case small4 =>
    obtain rfl : te = defaultEdge := h .top (by simp [orderedSides])
    obtain rfl : be = defaultEdge := h .bottom (by simp [orderedSides])
    rw [show tileTransformCore ⟨.small4, defaultEdge, defaultEdge, le, re⟩ false 3 =
      ⟨.small3, re, le, defaultEdge, defaultEdge⟩ from by
      rw [tileTransformCore,
        show (Tile.mk .small4 defaultEdge defaultEdge le re).shape =
          TileShape.small4 from rfl,
        show (orderedSides TileShape.small4).map
            (getEdge (flipPhase ⟨.small4, defaultEdge, defaultEdge, le, re⟩ false)) =
          [le, re] from rfl,
        show rotShape (phaseShape TileShape.small4 false) 3 =
          TileShape.small3 from by decide]
      rfl]
    rw [show tileTransformCore ⟨.small3, re, le, defaultEdge, defaultEdge⟩ false 1 =
      ⟨.small4, defaultEdge, defaultEdge, le, re⟩ from by
      rw [tileTransformCore,
        show (Tile.mk .small3 re le defaultEdge defaultEdge).shape =
          TileShape.small3 from rfl,
        show (orderedSides TileShape.small3).map
            (getEdge (flipPhase ⟨.small3, re, le, defaultEdge, defaultEdge⟩ false)) =
          [le, re] from rfl,
        show rotShape (phaseShape TileShape.small3 false) 1 =
          TileShape.small4 from by decide]
      rfl]
  case big5 =>
    obtain rfl : le = defaultEdge := h .left (by simp [orderedSides])
    rw [show tileTransformCore ⟨.big5, te, be, defaultEdge, re⟩ false 3 =
      ⟨.big6, re, defaultEdge, te, be⟩ from by
      rw [tileTransformCore,
        show (Tile.mk .big5 te be defaultEdge re).shape =
          TileShape.big5 from rfl,
        show (orderedSides TileShape.big5).map
            (getEdge (flipPhase ⟨.big5, te, be, defaultEdge, re⟩ false)) =
          [te, be, re] from rfl,
        show rotShape (phaseShape TileShape.big5 false) 3 =
          TileShape.big6 from by decide]
      rfl]
    rw [show tileTransformCore ⟨.big6, re, defaultEdge, te, be⟩ false 1 =
      ⟨.big5, te, be, defaultEdge, re⟩ from by
      rw [tileTransformCore,
        show (Tile.mk .big6 re defaultEdge te be).shape =
          TileShape.big6 from rfl,
        show (orderedSides TileShape.big6).map
            (getEdge (flipPhase ⟨.big6, re, defaultEdge, te, be⟩ false)) =
          [te, be, re] from rfl,
        show rotShape (phaseShape TileShape.big6 false) 1 =
          TileShape.big5 from by decide]
      rfl]
  case small5 =>
    obtain rfl : le = defaultEdge := h .left (by simp [orderedSides])
    obtain rfl : re = defaultEdge := h .right (by simp [orderedSides])
    rw [show tileTransformCore ⟨.small5, te, be, defaultEdge, defaultEdge⟩ false 3 =
      ⟨.small6, defaultEdge, defaultEdge, te, be⟩ from by
      rw [tileTransformCore,
        show (Tile.mk .small5 te be defaultEdge defaultEdge).shape =
          TileShape.small5 from rfl,
        show (orderedSides TileShape.small5).map
            (getEdge (flipPhase ⟨.small5, te, be, defaultEdge, defaultEdge⟩ false)) =
          [te, be] from rfl,
        show rotShape (phaseShape TileShape.small5 false) 3 =
          TileShape.small6 from by decide]
      rfl]
    rw [show tileTransformCore ⟨.small6, defaultEdge, defaultEdge, te, be⟩ false 1 =
      ⟨.small5, te, be, defaultEdge, defaultEdge⟩ from by
      rw [tileTransformCore,
        show (Tile.mk .small6 defaultEdge defaultEdge te be).shape =
          TileShape.small6 from rfl,
        show (orderedSides TileShape.small6).map
            (getEdge (flipPhase ⟨.small6, defaultEdge, defaultEdge, te, be⟩ false)) =
          [te, be] from rfl,
        show rotShape (phaseShape TileShape.small6 false) 1 =
          TileShape.small5 from by decide]
      rfl]
  case big6 =>
    obtain rfl : be = defaultEdge := h .bottom (by simp [orderedSides])
    rw [show tileTransformCore ⟨.big6, te, defaultEdge, le, re⟩ false 3 =
      ⟨.big7, re, le, te, defaultEdge⟩ from by
      rw [tileTransformCore,
        show (Tile.mk .big6 te defaultEdge le re).shape =
          TileShape.big6 from rfl,
        show (orderedSides TileShape.big6).map
            (getEdge (flipPhase ⟨.big6, te, defaultEdge, le, re⟩ false)) =
          [le, re, te] from rfl,
        show rotShape (phaseShape TileShape.big6 false) 3 =
          TileShape.big7 from by decide]
      rfl]
    rw [show tileTransformCore ⟨.big7, re, le, te, defaultEdge⟩ false 1 =
      ⟨.big6, te, defaultEdge, le, re⟩ from by
      rw [tileTransformCore,
        show (Tile.mk .big7 re le te defaultEdge).shape =
          TileShape.big7 from rfl,
        show (orderedSides TileShape.big7).map
            (getEdge (flipPhase ⟨.big7, re, le, te, defaultEdge⟩ false)) =
          [le, re, te] from rfl,
        show rotShape (phaseShape TileShape.big7 false) 1 =
          TileShape.big6 from by decide]
      rfl]
  case small6 =>
    obtain rfl : te = defaultEdge := h .top (by simp [orderedSides])
    obtain rfl : be = defaultEdge := h .bottom (by simp [orderedSides])
    rw [show tileTransformCore ⟨.small6, defaultEdge, defaultEdge, le, re⟩ false 3 =
      ⟨.small7, re, le, defaultEdge, defaultEdge⟩ from by
      rw [tileTransformCore,
        show (Tile.mk .small6 defaultEdge defaultEdge le re).shape =
          TileShape.small6 from rfl,
        show (orderedSides TileShape.small6).map
            (getEdge (flipPhase ⟨.small6, defaultEdge, defaultEdge, le, re⟩ false)) =
          [le, re] from rfl,
        show rotShape (phaseShape TileShape.small6 false) 3 =
          TileShape.small7 from by decide]
      rfl]
    rw [show tileTransformCore ⟨.small7, re, le, defaultEdge, defaultEdge⟩ false 1 =
      ⟨.small6, defaultEdge, defaultEdge, le, re⟩ from by
      rw [tileTransformCore,
        show (Tile.mk .small7 re le defaultEdge defaultEdge).shape =
          TileShape.small7 from rfl,
        show (orderedSides TileShape.small7).map
            (getEdge (flipPhase ⟨.small7, re, le, defaultEdge, defaultEdge⟩ false)) =
          [le, re] from rfl,
        show rotShape (phaseShape TileShape.small7 false) 1 =
          TileShape.small6 from by decide]
      rfl]
  case big7 =>
    obtain rfl : re = defaultEdge := h .right (by simp [orderedSides])
    rw [show tileTransformCore ⟨.big7, te, be, le, defaultEdge⟩ false 3 =
      ⟨.big8, defaultEdge, le, te, be⟩ from by
      rw [tileTransformCore,
        show (Tile.mk .big7 te be le defaultEdge).shape =
          TileShape.big7 from rfl,
        show (orderedSides TileShape.big7).map
            (getEdge (flipPhase ⟨.big7, te, be, le, defaultEdge⟩ false)) =
          [be, te, le] from rfl,
        show rotShape (phaseShape TileShape.big7 false) 3 =
          TileShape.big8 from by decide]
      rfl]
    rw [show tileTransformCore ⟨.big8, defaultEdge, le, te, be⟩ false 1 =
      ⟨.big7, te, be, le, defaultEdge⟩ from by
      rw [tileTransformCore,
        show (Tile.mk .big8 defaultEdge le te be).shape =
          TileShape.big8 from rfl,
        show (orderedSides TileShape.big8).map
            (getEdge (flipPhase ⟨.big8, defaultEdge, le, te, be⟩ false)) =
          [be, te, le] from rfl,
        show rotShape (phaseShape TileShape.big8 false) 1 =
          TileShape.big7 from by decide]
      rfl]
  case small7 =>
    obtain rfl : le = defaultEdge := h .left (by simp [orderedSides])
    obtain rfl : re = defaultEdge := h .right (by simp [orderedSides])
    rw [show tileTransformCore ⟨.small7, te, be, defaultEdge, defaultEdge⟩ false 3 =
      ⟨.small8, defaultEdge, defaultEdge, te, be⟩ from by
      rw [tileTransformCore,
        show (Tile.mk .small7 te be defaultEdge defaultEdge).shape =
          TileShape.small7 from rfl,
        show (orderedSides TileShape.small7).map
            (getEdge (flipPhase ⟨.small7, te, be, defaultEdge, defaultEdge⟩ false)) =
          [be, te] from rfl,
        show rotShape (phaseShape TileShape.small7 false) 3 =
          TileShape.small8 from by decide]
      rfl]
    rw [show tileTransformCore ⟨.small8, defaultEdge, defaultEdge, te, be⟩ false 1 =
      ⟨.small7, te, be, defaultEdge, defaultEdge⟩ from by
      rw [tileTransformCore,
        show (Tile.mk .small8 defaultEdge defaultEdge te be).shape =
          TileShape.small8 from rfl,
        show (orderedSides TileShape.small8).map
            (getEdge (flipPhase ⟨.small8, defaultEdge, defaultEdge, te, be⟩ false)) =
          [be, te] from rfl,
        show rotShape (phaseShape TileShape.small8 false) 1 =
          TileShape.small7 from by decide]
      rfl]
  case big8 =>
    obtain rfl : te = defaultEdge := h .top (by simp [orderedSides])
    rw [show tileTransformCore ⟨.big8, defaultEdge, be, le, re⟩ false 3 =
      ⟨.big5, re, le, defaultEdge, be⟩ from by
      rw [tileTransformCore,
        show (Tile.mk .big8 defaultEdge be le re).shape =
          TileShape.big8 from rfl,
        show (orderedSides TileShape.big8).map
            (getEdge (flipPhase ⟨.big8, defaultEdge, be, le, re⟩ false)) =
          [re, le, be] from rfl,
        show rotShape (phaseShape TileShape.big8 false) 3 =
          TileShape.big5 from by decide]
      rfl]
    rw [show tileTransformCore ⟨.big5, re, le, defaultEdge, be⟩ false 1 =
      ⟨.big8, defaultEdge, be, le, re⟩ from by
      rw [tileTransformCore,
        show (Tile.mk .big5 re le defaultEdge be).shape =
          TileShape.big5 from rfl,
        show (orderedSides TileShape.big5).map
            (getEdge (flipPhase ⟨.big5, re, le, defaultEdge, be⟩ false)) =
          [re, le, be] from rfl,
        show rotShape (phaseShape TileShape.big5 false) 1 =
          TileShape.big8 from by decide]
      rfl]
  case small8 =>
    obtain rfl : te = defaultEdge := h .top (by simp [orderedSides])
    obtain rfl : be = defaultEdge := h .bottom (by simp [orderedSides])
    rw [show tileTransformCore ⟨.small8, defaultEdge, defaultEdge, le, re⟩ false 3 =
      ⟨.small5, re, le, defaultEdge, defaultEdge⟩ from by
      rw [tileTransformCore,
        show (Tile.mk .small8 defaultEdge defaultEdge le re).shape =
          TileShape.small8 from rfl,
        show (orderedSides TileShape.small8).map
            (getEdge (flipPhase ⟨.small8, defaultEdge, defaultEdge, le, re⟩ false)) =
          [re, le] from rfl,
        show rotShape (phaseShape TileShape.small8 false) 3 =
          TileShape.small5 from by decide]
      rfl]
    rw [show tileTransformCore ⟨.small5, re, le, defaultEdge, defaultEdge⟩ false 1 =
      ⟨.small8, defaultEdge, defaultEdge, le, re⟩ from by
      rw [tileTransformCore,
        show (Tile.mk .small5 re le defaultEdge defaultEdge).shape =
          TileShape.small5 from rfl,
        show (orderedSides TileShape.small5).map
            (getEdge (flipPhase ⟨.small5, re, le, defaultEdge, defaultEdge⟩ false)) =
          [re, le] from rfl,
        show rotShape (phaseShape TileShape.small5 false) 1 =
          TileShape.small8 from by decide]
      rfl]
  case halfA =>
    obtain rfl : re = defaultEdge := h .right (by simp [orderedSides])
    rw [show tileTransformCore ⟨.halfA, te, be, le, defaultEdge⟩ false 3 =
      ⟨.halfD, te, le, defaultEdge, be⟩ from by
      rw [tileTransformCore,
        show (Tile.mk .halfA te be le defaultEdge).shape =
          TileShape.halfA from rfl,
        show (orderedSides TileShape.halfA).map
            (getEdge (flipPhase ⟨.halfA, te, be, le, defaultEdge⟩ false)) =
          [te, be, le] from rfl,
        show rotShape (phaseShape TileShape.halfA false) 3 =
          TileShape.halfD from by decide]
      rfl]
    rw [show tileTransformCore ⟨.halfD, te, le, defaultEdge, be⟩ false 1 =
      ⟨.halfA, te, be, le, defaultEdge⟩ from by
      rw [tileTransformCore,
        show (Tile.mk .halfD te le defaultEdge be).shape =
          TileShape.halfD from rfl,
        show (orderedSides TileShape.halfD).map
            (getEdge (flipPhase ⟨.halfD, te, le, defaultEdge, be⟩ false)) =
          [te, be, le] from rfl,
        show rotShape (phaseShape TileShape.halfD false) 1 =
          TileShape.halfA from by decide]
      rfl]
  case halfB =>
    obtain rfl : re = defaultEdge := h .right (by simp [orderedSides])
    rw [show tileTransformCore ⟨.halfB, te, be, le, defaultEdge⟩ false 3 =
      ⟨.halfA, be, le, te, defaultEdge⟩ from by
      rw [tileTransformCore,
        show (Tile.mk .halfB te be le defaultEdge).shape =
          TileShape.halfB from rfl,
        show (orderedSides TileShape.halfB).map
            (getEdge (flipPhase ⟨.halfB, te, be, le, defaultEdge⟩ false)) =
          [be, le, te] from rfl,
        show rotShape (phaseShape TileShape.halfB false) 3 =
          TileShape.halfA from by decide]
      rfl]
    rw [show tileTransformCore ⟨.halfA, be, le, te, defaultEdge⟩ false 1 =
      ⟨.halfB, te, be, le, defaultEdge⟩ from by
      rw [tileTransformCore,
        show (Tile.mk .halfA be le te defaultEdge).shape =
          TileShape.halfA from rfl,
        show (orderedSides TileShape.halfA).map
            (getEdge (flipPhase ⟨.halfA, be, le, te, defaultEdge⟩ false)) =
          [be, le, te] from rfl,
        show rotShape (phaseShape TileShape.halfA false) 1 =
          TileShape.halfB from by decide]
      rfl]
  case halfC =>
    obtain rfl : le = defaultEdge := h .left (by simp [orderedSides])
    rw [show tileTransformCore ⟨.halfC, te, be, defaultEdge, re⟩ false 3 =
      ⟨.halfB, re, be, te, defaultEdge⟩ from by
      rw [tileTransformCore,
        show (Tile.mk .halfC te be defaultEdge re).shape =
          TileShape.halfC from rfl,
        show (orderedSides TileShape.halfC).map
            (getEdge (flipPhase ⟨.halfC, te, be, defaultEdge, re⟩ false)) =
          [be, te, re] from rfl,
        show rotShape (phaseShape TileShape.halfC false) 3 =
          TileShape.halfB from by decide]
      rfl]
    rw [show tileTransformCore ⟨.halfB, re, be, te, defaultEdge⟩ false 1 =
      ⟨.halfC, te, be, defaultEdge, re⟩ from by
      rw [tileTransformCore,
        show (Tile.mk .halfB re be te defaultEdge).shape =
          TileShape.halfB from rfl,
        show (orderedSides TileShape.halfB).map
            (getEdge (flipPhase ⟨.halfB, re, be, te, defaultEdge⟩ false)) =
          [be, te, re] from rfl,
        show rotShape (phaseShape TileShape.halfB false) 1 =
          TileShape.halfC from by decide]
      rfl]
  case halfD =>
    obtain rfl : le = defaultEdge := h .left (by simp [orderedSides])
    rw [show tileTransformCore ⟨.halfD, te, be, defaultEdge, re⟩ false 3 =
      ⟨.halfC, re, te, defaultEdge, be⟩ from by
      rw [tileTransformCore,
        show (Tile.mk .halfD te be defaultEdge re).shape =
          TileShape.halfD from rfl,
        show (orderedSides TileShape.halfD).map
            (getEdge (flipPhase ⟨.halfD, te, be, defaultEdge, re⟩ false)) =
          [te, re, be] from rfl,
        show rotShape (phaseShape TileShape.halfD false) 3 =
          TileShape.halfC from by decide]
      rfl]
    rw [show tileTransformCore ⟨.halfC, re, te, defaultEdge, be⟩ false 1 =
      ⟨.halfD, te, be, defaultEdge, re⟩ from by
      rw [tileTransformCore,
        show (Tile.mk .halfC re te defaultEdge be).shape =
          TileShape.halfC from rfl,
        show (orderedSides TileShape.halfC).map
            (getEdge (flipPhase ⟨.halfC, re, te, defaultEdge, be⟩ false)) =
          [te, re, be] from rfl,
        show rotShape (phaseShape TileShape.halfC false) 1 =
          TileShape.halfD from by decide]
      rfl]

set_option maxHeartbeats 1000000 in
theorem symRT_4 (t : Tile)
    (h : ∀ side, side ∉ orderedSides t.shape → getEdge t side = defaultEdge) :
    tileTransform (tileTransform t (symMat 4)) (symInv 4) = t := by
  simp only [tileTransform]
  rw [symMat_4, symInv_4,
    symMat_4_flipped, symMat_4_angle]
  rcases t with ⟨shape, te, be, le, re⟩
  cases shape
  case full =>
    rw [show tileTransformCore ⟨.full, te, be, le, re⟩ true 0 =
      ⟨.full, edgeFlip (te), edgeFlip (be), edgeFlip (re), edgeFlip (le)⟩ from by
      rw [tileTransformCore,
        show (Tile.mk .full te be le re).shape =
          TileShape.full from rfl,
        show (orderedSides TileShape.full).map
            (getEdge (flipPhase ⟨.full, te, be, le, re⟩ true)) =
          [edgeFlip (te), edgeFlip (le), edgeFlip (be), edgeFlip (re)] from rfl,
        show rotShape (phaseShape TileShape.full true) 0 =
          TileShape.full from by decide,
        show decide (TileShape.full = TileShape.full) = true from rfl,
        show orderedSides TileShape.full =
          [TileSide.top, TileSide.right, TileSide.bottom, TileSide.left]
          from rfl,
        redistFull0]
      rfl]
    rw [show tileTransformCore ⟨.full, edgeFlip (te), edgeFlip (be), edgeFlip (re), edgeFlip (le)⟩ true 0 =
      ⟨.full, edgeFlip (edgeFlip (te)), edgeFlip (edgeFlip (be)), edgeFlip (edgeFlip (le)), edgeFlip (edgeFlip (re))⟩ from by
      rw [tileTransformCore,
        show (Tile.mk .full (edgeFlip (te)) (edgeFlip (be)) (edgeFlip (re)) (edgeFlip (le))).shape =
          TileShape.full from rfl,
        show (orderedSides TileShape.full).map
            (getEdge (flipPhase ⟨.full, edgeFlip (te), edgeFlip (be), edgeFlip (re), edgeFlip (le)⟩ true)) =
          [edgeFlip (edgeFlip (te)), edgeFlip (edgeFlip (re)), edgeFlip (edgeFlip (be)), edgeFlip (edgeFlip (le))] from rfl,
        show rotShape (phaseShape TileShape.full true) 0 =
          TileShape.full from by decide,
        show decide (TileShape.full = TileShape.full) = true from rfl,
        show orderedSides TileShape.full =
          [TileSide.top, TileSide.right, TileSide.bottom, TileSide.left]
          from rfl,
        redistFull0]
      rfl]
    simp only [edgeFlip_edgeFlip]
  case big1 =>
    obtain rfl : re = defaultEdge := h .right (by simp [orderedSides])
    rw [show tileTransformCore ⟨.big1, te, be, le, defaultEdge⟩ true 0 =
      ⟨.big5, edgeFlip (te), edgeFlip (be), defaultEdge, edgeFlip (le)⟩ from by
      rw [tileTransformCore,
        show (Tile.mk .big1 te be le defaultEdge).shape =
          TileShape.big1 from rfl,
        show (orderedSides TileShape.big1).map
            (getEdge (flipPhase ⟨.big1, te, be, le, defaultEdge⟩ true)) =
          [edgeFlip (te), edgeFlip (be), edgeFlip (le)] from rfl,
        show rotShape (phaseShape TileShape.big1 true) 0 =
          TileShape.big5 from by decide]
      rfl]
    rw [show tileTransformCore ⟨.big5, edgeFlip (te), edgeFlip (be), defaultEdge, edgeFlip (le)⟩ true 0 =
      ⟨.big1, edgeFlip (edgeFlip (te)), edgeFlip (edgeFlip (be)), edgeFlip (edgeFlip (le)), defaultEdge⟩ from by
      rw [tileTransformCore,
        show (Tile.mk .big5 (edgeFlip (te)) (edgeFlip (be)) defaultEdge (edgeFlip (le))).shape =
          TileShape.big5 from rfl,
        show (orderedSides TileShape.big5).map
            (getEdge (flipPhase ⟨.big5, edgeFlip (te), edgeFlip (be), defaultEdge, edgeFlip (le)⟩ true)) =
          [edgeFlip (edgeFlip (te)), edgeFlip (edgeFlip (be)), edgeFlip (edgeFlip (le))] from rfl,
        show rotShape (phaseShape TileShape.big5 true) 0 =
          TileShape.big1 from by decide]
      rfl]
    simp only [edgeFlip_edgeFlip]
  case small1 =>
    obtain rfl : le = defaultEdge := h .left (by simp [orderedSides])
    obtain rfl : re = defaultEdge := h .right (by simp [orderedSides])
    rw [show tileTransformCore ⟨.small1, te, be, defaultEdge, defaultEdge⟩ true 0 =
      ⟨.small5, edgeFlip (te), edgeFlip (be), defaultEdge, defaultEdge⟩ from by
      rw [tileTransformCore,
        show (Tile.mk .small1 te be defaultEdge defaultEdge).shape =
          TileShape.small1 from rfl,
        show (orderedSides TileShape.small1).map
            (getEdge (flipPhase ⟨.small1, te, be, defaultEdge, defaultEdge⟩ true)) =
          [edgeFlip (te), edgeFlip (be)] from rfl,
        show rotShape (phaseShape TileShape.small1 true) 0 =
          TileShape.small5 from by decide]
      rfl]
    rw [show tileTransformCore ⟨.small5, edgeFlip (te), edgeFlip (be), defaultEdge, defaultEdge⟩ true 0 =
      ⟨.small1, edgeFlip (edgeFlip (te)), edgeFlip (edgeFlip (be)), defaultEdge, defaultEdge⟩ from by
      rw [tileTransformCore,
        show (Tile.mk .small5 (edgeFlip (te)) (edgeFlip (be)) defaultEdge defaultEdge).shape =
          TileShape.small5 from rfl,
        show (orderedSides TileShape.small5).map
            (getEdge (flipPhase ⟨.small5, edgeFlip (te), edgeFlip (be), defaultEdge, defaultEdge⟩ true)) =
          [edgeFlip (edgeFlip (te)), edgeFlip (edgeFlip (be))] from rfl,
        show rotShape (phaseShape TileShape.small5 true) 0 =
          TileShape.small1 from by decide]
      rfl]
    simp only [edgeFlip_edgeFlip]
  case big2 =>
    obtain rfl : be = defaultEdge := h .bottom (by simp [orderedSides])
    rw [show tileTransformCore ⟨.big2, te, defaultEdge, le, re⟩ true 0 =
      ⟨.big6, edgeFlip (te), defaultEdge, edgeFlip (re), edgeFlip (le)⟩ from by
      rw [tileTransformCore,
        show (Tile.mk .big2 te defaultEdge le re).shape =
          TileShape.big2 from rfl,
        show (orderedSides TileShape.big2).map
            (getEdge (flipPhase ⟨.big2, te, defaultEdge, le, re⟩ true)) =
          [edgeFlip (re), edgeFlip (le), edgeFlip (te)] from rfl,
        show rotShape (phaseShape TileShape.big2 true) 0 =
          TileShape.big6 from by decide]
      rfl]
    rw [show tileTransformCore ⟨.big6, edgeFlip (te), defaultEdge, edgeFlip (re), edgeFlip (le)⟩ true 0 =
      ⟨.big2, edgeFlip (edgeFlip (te)), defaultEdge, edgeFlip (edgeFlip (le)), edgeFlip (edgeFlip (re))⟩ from by
      rw [tileTransformCore,
        show (Tile.mk .big6 (edgeFlip (te)) defaultEdge (edgeFlip (re)) (edgeFlip (le))).shape =
          TileShape.big6 from rfl,
        show (orderedSides TileShape.big6).map
            (getEdge (flipPhase ⟨.big6, edgeFlip (te), defaultEdge, edgeFlip (re), edgeFlip (le)⟩ true)) =
          [edgeFlip (edgeFlip (re)), edgeFlip (edgeFlip (le)), edgeFlip (edgeFlip (te))] from rfl,
        show rotShape (phaseShape TileShape.big6 true) 0 =
          TileShape.big2 from by decide]
      rfl]
    simp only [edgeFlip_edgeFlip]
  case small2 =>
    obtain rfl : te = defaultEdge := h .top (by simp [orderedSides])
    obtain rfl : be = defaultEdge := h .bottom (by simp [orderedSides])
    rw [show tileTransformCore ⟨.small2, defaultEdge, defaultEdge, le, re⟩ true 0 =
      ⟨.small6, defaultEdge, defaultEdge, edgeFlip (re), edgeFlip (le)⟩ from by
      rw [tileTransformCore,
        show (Tile.mk .small2 defaultEdge defaultEdge le re).shape =
          TileShape.small2 from rfl,
        show (orderedSides TileShape.small2).map
            (getEdge (flipPhase ⟨.small2, defaultEdge, defaultEdge, le, re⟩ true)) =
          [edgeFlip (re), edgeFlip (le)] from rfl,
        show rotShape (phaseShape TileShape.small2 true) 0 =
          TileShape.small6 from by decide]
      rfl]
    rw [show tileTransformCore ⟨.small6, defaultEdge, defaultEdge, edgeFlip (re), edgeFlip (le)⟩ true 0 =
      ⟨.small2, defaultEdge, defaultEdge, edgeFlip (edgeFlip (le)), edgeFlip (edgeFlip (re))⟩ from by
      rw [tileTransformCore,
        show (Tile.mk .small6 defaultEdge defaultEdge (edgeFlip (re)) (edgeFlip (le))).shape =
          TileShape.small6 from rfl,
        show (orderedSides TileShape.small6).map
            (getEdge (flipPhase ⟨.small6, defaultEdge, defaultEdge, edgeFlip (re), edgeFlip (le)⟩ true)) =
          [edgeFlip (edgeFlip (re)), edgeFlip (edgeFlip (le))] from rfl,
        show rotShape (phaseShape TileShape.small6 true) 0 =
          TileShape.small2 from by decide]
      rfl]
    simp only [edgeFlip_edgeFlip]
  case big3 =>
    obtain rfl : le = defaultEdge := h .left (by simp [orderedSides])
    rw [show tileTransformCore ⟨.big3, te, be, defaultEdge, re⟩ true 0 =
      ⟨.big7, edgeFlip (te), edgeFlip (be), edgeFlip (re), defaultEdge⟩ from by
      rw [tileTransformCore,
        show (Tile.mk .big3 te be defaultEdge re).shape =
          TileShape.big3 from rfl,
        show (orderedSides TileShape.big3).map
            (getEdge (flipPhase ⟨.big3, te, be, defaultEdge, re⟩ true)) =
          [edgeFlip (be), edgeFlip (te), edgeFlip (re)] from rfl,
        show rotShape (phaseShape TileShape.big3 true) 0 =
          TileShape.big7 from by decide]
      rfl]
    rw [show tileTransformCore ⟨.big7, edgeFlip (te), edgeFlip (be), edgeFlip (re), defaultEdge⟩ true 0 =
      ⟨.big3, edgeFlip (edgeFlip (te)), edgeFlip (edgeFlip (be)), defaultEdge, edgeFlip (edgeFlip (re))⟩ from by
      rw [tileTransformCore,
        show (Tile.mk .big7 (edgeFlip (te)) (edgeFlip (be)) (edgeFlip (re)) defaultEdge).shape =
          TileShape.big7 from rfl,
        show (orderedSides TileShape.big7).map
            (getEdge (flipPhase ⟨.big7, edgeFlip (te), edgeFlip (be), edgeFlip (re), defaultEdge⟩ true)) =
          [edgeFlip (edgeFlip (be)), edgeFlip (edgeFlip (te)), edgeFlip (edgeFlip (re))] from rfl,
        show rotShape (phaseShape TileShape.big7 true) 0 =
          TileShape.big3 from by decide]
      rfl]
    simp only [edgeFlip_edgeFlip]
  case small3 =>
    obtain rfl : le = defaultEdge := h .left (by simp [orderedSides])
    obtain rfl : re = defaultEdge := h .right (by simp [orderedSides])
    rw [show tileTransformCore ⟨.small3, te, be, defaultEdge, defaultEdge⟩ true 0 =
      ⟨.small7, edgeFlip (te), edgeFlip (be), defaultEdge, defaultEdge⟩ from by
      rw [tileTransformCore,
        show (Tile.mk .small3 te be defaultEdge defaultEdge).shape =
          TileShape.small3 from rfl,
        show (orderedSides TileShape.small3).map
            (getEdge (flipPhase ⟨.small3, te, be, defaultEdge, defaultEdge⟩ true)) =
          [edgeFlip (be), edgeFlip (te)] from rfl,
        show rotShape (phaseShape TileShape.small3 true) 0 =
          TileShape.small7 from by decide]
      rfl]
    rw [show tileTransformCore ⟨.small7, edgeFlip (te), edgeFlip (be), defaultEdge, defaultEdge⟩ true 0 =
      ⟨.small3, edgeFlip (edgeFlip (te)), edgeFlip (edgeFlip (be)), defaultEdge, defaultEdge⟩ from by
      rw [tileTransformCore,
        show (Tile.mk .small7 (edgeFlip (te)) (edgeFlip (be)) defaultEdge defaultEdge).shape =
          TileShape.small7 from rfl,
        show (orderedSides TileShape.small7).map
            (getEdge (flipPhase ⟨.small7, edgeFlip (te), edgeFlip (be), defaultEdge, defaultEdge⟩ true)) =
          [edgeFlip (edgeFlip (be)), edgeFlip (edgeFlip (te))] from rfl,
        show rotShape (phaseShape TileShape.small7 true) 0 =
          TileShape.small3 from by decide]
      rfl]
    simp only [edgeFlip_edgeFlip]
  case big4 =>
    obtain rfl : te = defaultEdge := h .top (by simp [orderedSides])
    rw [show tileTransformCore ⟨.big4, defaultEdge, be, le, re⟩ true 0 =
      ⟨.big8, defaultEdge, edgeFlip (be), edgeFlip (re), edgeFlip (le)⟩ from by
      rw [tileTransformCore,
        show (Tile.mk .big4 defaultEdge be le re).shape =
          TileShape.big4 from rfl,
        show (orderedSides TileShape.big4).map
            (getEdge (flipPhase ⟨.big4, defaultEdge, be, le, re⟩ true)) =
          [edgeFlip (le), edgeFlip (re), edgeFlip (be)] from rfl,
        show rotShape (phaseShape TileShape.big4 true) 0 =
          TileShape.big8 from by decide]
      rfl]
    rw [show tileTransformCore ⟨.big8, defaultEdge, edgeFlip (be), edgeFlip (re), edgeFlip (le)⟩ true 0 =
      ⟨.big4, defaultEdge, edgeFlip (edgeFlip (be)), edgeFlip (edgeFlip (le)), edgeFlip (edgeFlip (re))⟩ from by
      rw [tileTransformCore,
        show (Tile.mk .big8 defaultEdge (edgeFlip (be)) (edgeFlip (re)) (edgeFlip (le))).shape =
          TileShape.big8 from rfl,
        show (orderedSides TileShape.big8).map
            (getEdge (flipPhase ⟨.big8, defaultEdge, edgeFlip (be), edgeFlip (re), edgeFlip (le)⟩ true)) =
          [edgeFlip (edgeFlip (le)), edgeFlip (edgeFlip (re)), edgeFlip (edgeFlip (be))] from rfl,
        show rotShape (phaseShape TileShape.big8 true) 0 =
          TileShape.big4 from by decide]
      rfl]
    simp only [edgeFlip_edgeFlip]
  case small4 =>
    obtain rfl : te = defaultEdge := h .top (by simp [orderedSides])
    obtain rfl : be = defaultEdge := h .bottom (by simp [orderedSides])
    rw [show tileTransformCore ⟨.small4, defaultEdge, defaultEdge, le, re⟩ true 0 =
      ⟨.small8, defaultEdge, defaultEdge, edgeFlip (re), edgeFlip (le)⟩ from by
      rw [tileTransformCore,
        show (Tile.mk .small4 defaultEdge defaultEdge le re).shape =
          TileShape.small4 from rfl,
        show (orderedSides TileShape.small4).map
            (getEdge (flipPhase ⟨.small4, defaultEdge, defaultEdge, le, re⟩ true)) =
          [edgeFlip (le), edgeFlip (re)] from rfl,
        show rotShape (phaseShape TileShape.small4 true) 0 =
          TileShape.small8 from by decide]
      rfl]
    rw [show tileTransformCore ⟨.small8, defaultEdge, defaultEdge, edgeFlip (re), edgeFlip (le)⟩ true 0 =
      ⟨.small4, defaultEdge, defaultEdge, edgeFlip (edgeFlip (le)), edgeFlip (edgeFlip (re))⟩ from by
      rw [tileTransformCore,
        show (Tile.mk .small8 defaultEdge defaultEdge (edgeFlip (re)) (edgeFlip (le))).shape =
          TileShape.small8 from rfl,
        show (orderedSides TileShape.small8).map
            (getEdge (flipPhase ⟨.small8, defaultEdge, defaultEdge, edgeFlip (re), edgeFlip (le)⟩ true)) =
          [edgeFlip (edgeFlip (le)), edgeFlip (edgeFlip (re))] from rfl,
        show rotShape (phaseShape TileShape.small8 true) 0 =
          TileShape.small4 from by decide]
      rfl]
    simp only [edgeFlip_edgeFlip]
  case big5 =>
    obtain rfl : le = defaultEdge := h .left (by simp [orderedSides])
    rw [show tileTransformCore ⟨.big5, te, be, defaultEdge, re⟩ true 0 =
      ⟨.big1, edgeFlip (te), edgeFlip (be), edgeFlip (re), defaultEdge⟩ from by
      rw [tileTransformCore,
        show (Tile.mk .big5 te be defaultEdge re).shape =
          TileShape.big5 from rfl,
        show (orderedSides TileShape.big5).map
            (getEdge (flipPhase ⟨.big5, te, be, defaultEdge, re⟩ true)) =
          [edgeFlip (te), edgeFlip (be), edgeFlip (re)] from rfl,
        show rotShape (phaseShape TileShape.big5 true) 0 =
          TileShape.big1 from by decide]
      rfl]
    rw [show tileTransformCore ⟨.big1, edgeFlip (te), edgeFlip (be), edgeFlip (re), defaultEdge⟩ true 0 =
      ⟨.big5, edgeFlip (edgeFlip (te)), edgeFlip (edgeFlip (be)), defaultEdge, edgeFlip (edgeFlip (re))⟩ from by
      rw [tileTransformCore,
        show (Tile.mk .big1 (edgeFlip (te)) (edgeFlip (be)) (edgeFlip (re)) defaultEdge).shape =
          TileShape.big1 from rfl,
        show (orderedSides TileShape.big1).map
            (getEdge (flipPhase ⟨.big1, edgeFlip (te), edgeFlip (be), edgeFlip (re), defaultEdge⟩ true)) =
          [edgeFlip (edgeFlip (te)), edgeFlip (edgeFlip (be)), edgeFlip (edgeFlip (re))] from rfl,
        show rotShape (phaseShape TileShape.big1 true) 0 =
          TileShape.big5 from by decide]
      rfl]
    simp only [edgeFlip_edgeFlip]
  case small5 =>
    obtain rfl : le = defaultEdge := h .left (by simp [orderedSides])
    obtain rfl : re = defaultEdge := h .right (by simp [orderedSides])
    rw [show tileTransformCore ⟨.small5, te, be, defaultEdge, defaultEdge⟩ true 0 =
      ⟨.small1, edgeFlip (te), edgeFlip (be), defaultEdge, defaultEdge⟩ from by
      rw [tileTransformCore,
        show (Tile.mk .small5 te be defaultEdge defaultEdge).shape =
          TileShape.small5 from rfl,
        show (orderedSides TileShape.small5).map
            (getEdge (flipPhase ⟨.small5, te, be, defaultEdge, defaultEdge⟩ true)) =
          [edgeFlip (te), edgeFlip (be)] from rfl,
        show rotShape (phaseShape TileShape.small5 true) 0 =
          TileShape.small1 from by decide]
      rfl]
    rw [show tileTransformCore ⟨.small1, edgeFlip (te), edgeFlip (be), defaultEdge, defaultEdge⟩ true 0 =
      ⟨.small5, edgeFlip (edgeFlip (te)), edgeFlip (edgeFlip (be)), defaultEdge, defaultEdge⟩ from by
      rw [tileTransformCore,
        show (Tile.mk .small1 (edgeFlip (te)) (edgeFlip (be)) defaultEdge defaultEdge).shape =
          TileShape.small1 from rfl,
        show (orderedSides TileShape.small1).map
            (getEdge (flipPhase ⟨.small1, edgeFlip (te), edgeFlip (be), defaultEdge, defaultEdge⟩ true)) =
          [edgeFlip (edgeFlip (te)), edgeFlip (edgeFlip (be))] from rfl,
        show rotShape (phaseShape TileShape.small1 true) 0 =
          TileShape.small5 from by decide]
      rfl]
    simp only [edgeFlip_edgeFlip]
  case big6 =>
    obtain rfl : be = defaultEdge := h .bottom (by simp [orderedSides])
    rw [show tileTransformCore ⟨.big6, te, defaultEdge, le, re⟩ true 0 =
      ⟨.big2, edgeFlip (te), defaultEdge, edgeFlip (re), edgeFlip (le)⟩ from by
      rw [tileTransformCore,
        show (Tile.mk .big6 te defaultEdge le re).shape =
          TileShape.big6 from rfl,
        show (orderedSides TileShape.big6).map
            (getEdge (flipPhase ⟨.big6, te, defaultEdge, le, re⟩ true)) =
          [edgeFlip (le), edgeFlip (re), edgeFlip (te)] from rfl,
        show rotShape (phaseShape TileShape.big6 true) 0 =
          TileShape.big2 from by decide]
      rfl]
    rw [show tileTransformCore ⟨.big2, edgeFlip (te), defaultEdge, edgeFlip (re), edgeFlip (le)⟩ true 0 =
      ⟨.big6, edgeFlip (edgeFlip (te)), defaultEdge, edgeFlip (edgeFlip (le)), edgeFlip (edgeFlip (re))⟩ from by
      rw [tileTransformCore,
        show (Tile.mk .big2 (edgeFlip (te)) defaultEdge (edgeFlip (re)) (edgeFlip (le))).shape =
          TileShape.big2 from rfl,
        show (orderedSides TileShape.big2).map
            (getEdge (flipPhase ⟨.big2, edgeFlip (te), defaultEdge, edgeFlip (re), edgeFlip (le)⟩ true)) =
          [edgeFlip (edgeFlip (le)), edgeFlip (edgeFlip (re)), edgeFlip (edgeFlip (te))] from rfl,
        show rotShape (phaseShape TileShape.big2 true) 0 =
          TileShape.big6 from by decide]
      rfl]
    simp only [edgeFlip_edgeFlip]
  case small6 =>
    obtain rfl : te = defaultEdge := h .top (by simp [orderedSides])
    obtain rfl : be = defaultEdge := h .bottom (by simp [orderedSides])
    rw [show tileTransformCore ⟨.small6, defaultEdge, defaultEdge, le, re⟩ true 0 =
      ⟨.small2, defaultEdge, defaultEdge, edgeFlip (re), edgeFlip (le)⟩ from by
      rw [tileTransformCore,
        show (Tile.mk .small6 defaultEdge defaultEdge le re).shape =
          TileShape.small6 from rfl,
        show (orderedSides TileShape.small6).map
            (getEdge (flipPhase ⟨.small6, defaultEdge, defaultEdge, le, re⟩ true)) =
          [edgeFlip (le), edgeFlip (re)] from rfl,
        show rotShape (phaseShape TileShape.small6 true) 0 =
          TileShape.small2 from by decide]
      rfl]
    rw [show tileTransformCore ⟨.small2, defaultEdge, defaultEdge, edgeFlip (re), edgeFlip (le)⟩ true 0 =
      ⟨.small6, defaultEdge, defaultEdge, edgeFlip (edgeFlip (le)), edgeFlip (edgeFlip (re))⟩ from by
      rw [tileTransformCore,
        show (Tile.mk .small2 defaultEdge defaultEdge (edgeFlip (re)) (edgeFlip (le))).shape =
          TileShape.small2 from rfl,
        show (orderedSides TileShape.small2).map
            (getEdge (flipPhase ⟨.small2, defaultEdge, defaultEdge, edgeFlip (re), edgeFlip (le)⟩ true)) =
          [edgeFlip (edgeFlip (le)), edgeFlip (edgeFlip (re))] from rfl,
        show rotShape (phaseShape TileShape.small2 true) 0 =
          TileShape.small6 from by decide]
      rfl]
    simp only [edgeFlip_edgeFlip]
  case big7 =>
    obtain rfl : re = defaultEdge := h .right (by simp [orderedSides])
    rw [show tileTransformCore ⟨.big7, te, be, le, defaultEdge⟩ true 0 =
      ⟨.big3, edgeFlip (te), edgeFlip (be), defaultEdge, edgeFlip (le)⟩ from by
      rw [tileTransformCore,
        show (Tile.mk .big7 te be le defaultEdge).shape =
          TileShape.big7 from rfl,
        show (orderedSides TileShape.big7).map
            (getEdge (flipPhase ⟨.big7, te, be, le, defaultEdge⟩ true)) =
          [edgeFlip (be), edgeFlip (te), edgeFlip (le)] from rfl,
        show rotShape (phaseShape TileShape.big7 true) 0 =
          TileShape.big3 from by decide]
      rfl]
    rw [show tileTransformCore ⟨.big3, edgeFlip (te), edgeFlip (be), defaultEdge, edgeFlip (le)⟩ true 0 =
      ⟨.big7, edgeFlip (edgeFlip (te)), edgeFlip (edgeFlip (be)), edgeFlip (edgeFlip (le)), defaultEdge⟩ from by
      rw [tileTransformCore,
        show (Tile.mk .big3 (edgeFlip (te)) (edgeFlip (be)) defaultEdge (edgeFlip (le))).shape =
          TileShape.big3 from rfl,
        show (orderedSides TileShape.big3).map
            (getEdge (flipPhase ⟨.big3, edgeFlip (te), edgeFlip (be), defaultEdge, edgeFlip (le)⟩ true)) =
          [edgeFlip (edgeFlip (be)), edgeFlip (edgeFlip (te)), edgeFlip (edgeFlip (le))] from rfl,
        show rotShape (phaseShape TileShape.big3 true) 0 =
          TileShape.big7 from by decide]
      rfl]
    simp only [edgeFlip_edgeFlip]
  case small7 =>
    obtain rfl : le = defaultEdge := h .left (by simp [orderedSides])
    obtain rfl : re = defaultEdge := h .right (by simp [orderedSides])
    rw [show tileTransformCore ⟨.small7, te, be, defaultEdge, defaultEdge⟩ true 0 =
      ⟨.small3, edgeFlip (te), edgeFlip (be), defaultEdge, defaultEdge⟩ from by
      rw [tileTransformCore,
        show (Tile.mk .small7 te be defaultEdge defaultEdge).shape =
          TileShape.small7 from rfl,
        show (orderedSides TileShape.small7).map
            (getEdge (flipPhase ⟨.small7, te, be, defaultEdge, defaultEdge⟩ true)) =
          [edgeFlip (be), edgeFlip (te)] from rfl,
        show rotShape (phaseShape TileShape.small7 true) 0 =
          TileShape.small3 from by decide]
      rfl]
    rw [show tileTransformCore ⟨.small3, edgeFlip (te), edgeFlip (be), defaultEdge, defaultEdge⟩ true 0 =
      ⟨.small7, edgeFlip (edgeFlip (te)), edgeFlip (edgeFlip (be)), defaultEdge, defaultEdge⟩ from by
      rw [tileTransformCore,
        show (Tile.mk .small3 (edgeFlip (te)) (edgeFlip (be)) defaultEdge defaultEdge).shape =
          TileShape.small3 from rfl,
        show (orderedSides TileShape.small3).map
            (getEdge (flipPhase ⟨.small3, edgeFlip (te), edgeFlip (be), defaultEdge, defaultEdge⟩ true)) =
          [edgeFlip (edgeFlip (be)), edgeFlip (edgeFlip (te))] from rfl,
        show rotShape (phaseShape TileShape.small3 true) 0 =
          TileShape.small7 from by decide]
      rfl]
    simp only [edgeFlip_edgeFlip]
  case big8 =>
    obtain rfl : te = defaultEdge := h .top (by simp [orderedSides])
    rw [show tileTransformCore ⟨.big8, defaultEdge, be, le, re⟩ true 0 =
      ⟨.big4, defaultEdge, edgeFlip (be), edgeFlip (re), edgeFlip (le)⟩ from by
      rw [tileTransformCore,
        show (Tile.mk .big8 defaultEdge be le re).shape =
          TileShape.big8 from rfl,
        show (orderedSides TileShape.big8).map
            (getEdge (flipPhase ⟨.big8, defaultEdge, be, le, re⟩ true)) =
          [edgeFlip (re), edgeFlip (le), edgeFlip (be)] from rfl,
        show rotShape (phaseShape TileShape.big8 true) 0 =
          TileShape.big4 from by decide]
      rfl]
    rw [show tileTransformCore ⟨.big4, defaultEdge, edgeFlip (be), edgeFlip (re), edgeFlip (le)⟩ true 0 =
      ⟨.big8, defaultEdge, edgeFlip (edgeFlip (be)), edgeFlip (edgeFlip (le)), edgeFlip (edgeFlip (re))⟩ from by
      rw [tileTransformCore,
        show (Tile.mk .big4 defaultEdge (edgeFlip (be)) (edgeFlip (re)) (edgeFlip (le))).shape =
          TileShape.big4 from rfl,
        show (orderedSides TileShape.big4).map
            (getEdge (flipPhase ⟨.big4, defaultEdge, edgeFlip (be), edgeFlip (re), edgeFlip (le)⟩ true)) =
          [edgeFlip (edgeFlip (re)), edgeFlip (edgeFlip (le)), edgeFlip (edgeFlip (be))] from rfl,
        show rotShape (phaseShape TileShape.big4 true) 0 =
          TileShape.big8 from by decide]
      rfl]
    simp only [edgeFlip_edgeFlip]
  case small8 =>
    obtain rfl : te = defaultEdge := h .top (by simp [orderedSides])
    obtain rfl : be = defaultEdge := h .bottom (by simp [orderedSides])
    rw [show tileTransformCore ⟨.small8, defaultEdge, defaultEdge, le, re⟩ true 0 =
      ⟨.small4, defaultEdge, defaultEdge, edgeFlip (re), edgeFlip (le)⟩ from by
      rw [tileTransformCore,
        show (Tile.mk .small8 defaultEdge defaultEdge le re).shape =
          TileShape.small8 from rfl,
        show (orderedSides TileShape.small8).map
            (getEdge (flipPhase ⟨.small8, defaultEdge, defaultEdge, le, re⟩ true)) =
          [edgeFlip (re), edgeFlip (le)] from rfl,
        show rotShape (phaseShape TileShape.small8 true) 0 =
          TileShape.small4 from by decide]
      rfl]
    rw [show tileTransformCore ⟨.small4, defaultEdge, defaultEdge, edgeFlip (re), edgeFlip (le)⟩ true 0 =
      ⟨.small8, defaultEdge, defaultEdge, edgeFlip (edgeFlip (le)), edgeFlip (edgeFlip (re))⟩ from by
      rw [tileTransformCore,
        show (Tile.mk .small4 defaultEdge defaultEdge (edgeFlip (re)) (edgeFlip (le))).shape =
          TileShape.small4 from rfl,
        show (orderedSides TileShape.small4).map
            (getEdge (flipPhase ⟨.small4, defaultEdge, defaultEdge, edgeFlip (re), edgeFlip (le)⟩ true)) =
          [edgeFlip (edgeFlip (re)), edgeFlip (edgeFlip (le))] from rfl,
        show rotShape (phaseShape TileShape.small4 true) 0 =
          TileShape.small8 from by decide]
      rfl]
    simp only [edgeFlip_edgeFlip]
  case halfA =>
    obtain rfl : re = defaultEdge := h .right (by simp [orderedSides])
    rw [show tileTransformCore ⟨.halfA, te, be, le, defaultEdge⟩ true 0 =
      ⟨.halfD, edgeFlip (te), edgeFlip (be), defaultEdge, edgeFlip (le)⟩ from by
      rw [tileTransformCore,
        show (Tile.mk .halfA te be le defaultEdge).shape =
          TileShape.halfA from rfl,
        show (orderedSides TileShape.halfA).map
            (getEdge (flipPhase ⟨.halfA, te, be, le, defaultEdge⟩ true)) =
          [edgeFlip (te), edgeFlip (le), edgeFlip (be)] from rfl,
        show rotShape (phaseShape TileShape.halfA true) 0 =
          TileShape.halfD from by decide]
      rfl]
    rw [show tileTransformCore ⟨.halfD, edgeFlip (te), edgeFlip (be), defaultEdge, edgeFlip (le)⟩ true 0 =
      ⟨.halfA, edgeFlip (edgeFlip (te)), edgeFlip (edgeFlip (be)), edgeFlip (edgeFlip (le)), defaultEdge⟩ from by
      rw [tileTransformCore,
        show (Tile.mk .halfD (edgeFlip (te)) (edgeFlip (be)) defaultEdge (edgeFlip (le))).shape =
          TileShape.halfD from rfl,
        show (orderedSides TileShape.halfD).map
            (getEdge (flipPhase ⟨.halfD, edgeFlip (te), edgeFlip (be), defaultEdge, edgeFlip (le)⟩ true)) =
          [edgeFlip (edgeFlip (te)), edgeFlip (edgeFlip (be)), edgeFlip (edgeFlip (le))] from rfl,
        show rotShape (phaseShape TileShape.halfD true) 0 =
          TileShape.halfA from by decide]
      rfl]
    simp only [edgeFlip_edgeFlip]
  case halfB =>
    obtain rfl : re = defaultEdge := h .right (by simp [orderedSides])
    rw [show tileTransformCore ⟨.halfB, te, be, le, defaultEdge⟩ true 0 =
      ⟨.halfC, edgeFlip (te), edgeFlip (be), defaultEdge, edgeFlip (le)⟩ from by
      rw [tileTransformCore,
        show (Tile.mk .halfB te be le defaultEdge).shape =
          TileShape.halfB from rfl,
        show (orderedSides TileShape.halfB).map
            (getEdge (flipPhase ⟨.halfB, te, be, le, defaultEdge⟩ true)) =
          [edgeFlip (be), edgeFlip (te), edgeFlip (le)] from rfl,
        show rotShape (phaseShape TileShape.halfB true) 0 =
          TileShape.halfC from by decide]
      rfl]
    rw [show tileTransformCore ⟨.halfC, edgeFlip (te), edgeFlip (be), defaultEdge, edgeFlip (le)⟩ true 0 =
      ⟨.halfB, edgeFlip (edgeFlip (te)), edgeFlip (edgeFlip (be)), edgeFlip (edgeFlip (le)), defaultEdge⟩ from by
      rw [tileTransformCore,
        show (Tile.mk .halfC (edgeFlip (te)) (edgeFlip (be)) defaultEdge (edgeFlip (le))).shape =
          TileShape.halfC from rfl,
        show (orderedSides TileShape.halfC).map
            (getEdge (flipPhase ⟨.halfC, edgeFlip (te), edgeFlip (be), defaultEdge, edgeFlip (le)⟩ true)) =
          [edgeFlip (edgeFlip (be)), edgeFlip (edgeFlip (le)), edgeFlip (edgeFlip (te))] from rfl,
        show rotShape (phaseShape TileShape.halfC true) 0 =
          TileShape.halfB from by decide]
      rfl]
    simp only [edgeFlip_edgeFlip]
  case halfC =>
    obtain rfl : le = defaultEdge := h .left (by simp [orderedSides])
    rw [show tileTransformCore ⟨.halfC, te, be, defaultEdge, re⟩ true 0 =
      ⟨.halfB, edgeFlip (te), edgeFlip (be), edgeFlip (re), defaultEdge⟩ from by
      rw [tileTransformCore,
        show (Tile.mk .halfC te be defaultEdge re).shape =
          TileShape.halfC from rfl,
        show (orderedSides TileShape.halfC).map
            (getEdge (flipPhase ⟨.halfC, te, be, defaultEdge, re⟩ true)) =
          [edgeFlip (be), edgeFlip (re), edgeFlip (te)] from rfl,
        show rotShape (phaseShape TileShape.halfC true) 0 =
          TileShape.halfB from by decide]
      rfl]
    rw [show tileTransformCore ⟨.halfB, edgeFlip (te), edgeFlip (be), edgeFlip (re), defaultEdge⟩ true 0 =
      ⟨.halfC, edgeFlip (edgeFlip (te)), edgeFlip (edgeFlip (be)), defaultEdge, edgeFlip (edgeFlip (re))⟩ from by
      rw [tileTransformCore,
        show (Tile.mk .halfB (edgeFlip (te)) (edgeFlip (be)) (edgeFlip (re)) defaultEdge).shape =
          TileShape.halfB from rfl,
        show (orderedSides TileShape.halfB).map
            (getEdge (flipPhase ⟨.halfB, edgeFlip (te), edgeFlip (be), edgeFlip (re), defaultEdge⟩ true)) =
          [edgeFlip (edgeFlip (be)), edgeFlip (edgeFlip (te)), edgeFlip (edgeFlip (re))] from rfl,
        show rotShape (phaseShape TileShape.halfB true) 0 =
          TileShape.halfC from by decide]
      rfl]
    simp only [edgeFlip_edgeFlip]
  case halfD =>
    obtain rfl : le = defaultEdge := h .left (by simp [orderedSides])
    rw [show tileTransformCore ⟨.halfD, te, be, defaultEdge, re⟩ true 0 =
      ⟨.halfA, edgeFlip (te), edgeFlip (be), edgeFlip (re), defaultEdge⟩ from by
      rw [tileTransformCore,
        show (Tile.mk .halfD te be defaultEdge re).shape =
          TileShape.halfD from rfl,
        show (orderedSides TileShape.halfD).map
            (getEdge (flipPhase ⟨.halfD, te, be, defaultEdge, re⟩ true)) =
          [edgeFlip (te), edgeFlip (be), edgeFlip (re)] from rfl,
        show rotShape (phaseShape TileShape.halfD true) 0 =
          TileShape.halfA from by decide]
      rfl]
    rw [show tileTransformCore ⟨.halfA, edgeFlip (te), edgeFlip (be), edgeFlip (re), defaultEdge⟩ true 0 =
      ⟨.halfD, edgeFlip (edgeFlip (te)), edgeFlip (edgeFlip (be)), defaultEdge, edgeFlip (edgeFlip (re))⟩ from by
      rw [tileTransformCore,
        show (Tile.mk .halfA (edgeFlip (te)) (edgeFlip (be)) (edgeFlip (re)) defaultEdge).shape =
          TileShape.halfA from rfl,
        show (orderedSides TileShape.halfA).map
            (getEdge (flipPhase ⟨.halfA, edgeFlip (te), edgeFlip (be), edgeFlip (re), defaultEdge⟩ true)) =
          [edgeFlip (edgeFlip (te)), edgeFlip (edgeFlip (re)), edgeFlip (edgeFlip (be))] from rfl,
        show rotShape (phaseShape TileShape.halfA true) 0 =
          TileShape.halfD from by decide]
      rfl]
    simp only [edgeFlip_edgeFlip]

set_option maxHeartbeats 1000000 in
theorem symRT_5 (t : Tile)
    (h : ∀ side, side ∉ orderedSides t.shape → getEdge t side = defaultEdge) :
    tileTransform (tileTransform t (symMat 5)) (symInv 5) = t := by
  simp only [tileTransform]
  rw [symMat_5, symInv_5,
    symMat_5_flipped, symMat_5_angle]
  rcases t with ⟨shape, te, be, le, re⟩
  cases shape
  case full =>
    rw [show tileTransformCore ⟨.full, te, be, le, re⟩ true 1 =
      ⟨.full, edgeFlip (re), edgeFlip (le), edgeFlip (be), edgeFlip (te)⟩ from by
      rw [tileTransformCore,
        show (Tile.mk .full te be le re).shape =
          TileShape.full from rfl,
        show (orderedSides TileShape.full).map
            (getEdge (flipPhase ⟨.full, te, be, le, re⟩ true)) =
          [edgeFlip (te), edgeFlip (le), edgeFlip (be), edgeFlip (re)] from rfl,
        show rotShape (phaseShape TileShape.full true) 1 =
          TileShape.full from by decide,
        show decide (TileShape.full = TileShape.full) = true from rfl,
        show orderedSides TileShape.full =
          [TileSide.top, TileSide.right, TileSide.bottom, TileSide.left]
          from rfl,
        redistFull1]
      rfl]
    rw [show tileTransformCore ⟨.full, edgeFlip (re), edgeFlip (le), edgeFlip (be), edgeFlip (te)⟩ true 1 =
      ⟨.full, edgeFlip (edgeFlip (te)), edgeFlip (edgeFlip (be)), edgeFlip (edgeFlip (le)), edgeFlip (edgeFlip (re))⟩ from by
      rw [tileTransformCore,
        show (Tile.mk .full (edgeFlip (re)) (edgeFlip (le)) (edgeFlip (be)) (edgeFlip (te))).shape =
          TileShape.full from rfl,
        show (orderedSides TileShape.full).map
            (getEdge (flipPhase ⟨.full, edgeFlip (re), edgeFlip (le), edgeFlip (be), edgeFlip (te)⟩ true)) =
          [edgeFlip (edgeFlip (re)), edgeFlip (edgeFlip (be)), edgeFlip (edgeFlip (le)), edgeFlip (edgeFlip (te))] from rfl,
        show rotShape (phaseShape TileShape.full true) 1 =
          TileShape.full from by decide,
        show decide (TileShape.full = TileShape.full) = true from rfl,
        show orderedSides TileShape.full =
          [TileSide.top, TileSide.right, TileSide.bottom, TileSide.left]
          from rfl,
        redistFull1]
      rfl]
    simp only [edgeFlip_edgeFlip]
  case big1 =>
    obtain rfl : re = defaultEdge := h .right (by simp [orderedSides])
    rw [show tileTransformCore ⟨.big1, te, be, le, defaultEdge⟩ true 1 =
      ⟨.big8, defaultEdge, edgeFlip (le), edgeFlip (be), edgeFlip (te)⟩ from by
      rw [tileTransformCore,
        show (Tile.mk .big1 te be le defaultEdge).shape =
          TileShape.big1 from rfl,
        show (orderedSides TileShape.big1).map
            (getEdge (flipPhase ⟨.big1, te, be, le, defaultEdge⟩ true)) =
          [edgeFlip (te), edgeFlip (be), edgeFlip (le)] from rfl,
        show rotShape (phaseShape TileShape.big1 true) 1 =
          TileShape.big8 from by decide]
      rfl]
    rw [show tileTransformCore ⟨.big8, defaultEdge, edgeFlip (le), edgeFlip (be), edgeFlip (te)⟩ true 1 =
      ⟨.big1, edgeFlip (edgeFlip (te)), edgeFlip (edgeFlip (be)), edgeFlip (edgeFlip (le)), defaultEdge⟩ from by
      rw [tileTransformCore,
        show (Tile.mk .big8 defaultEdge (edgeFlip (le)) (edgeFlip (be)) (edgeFlip (te))).shape =
          TileShape.big8 from rfl,
        show (orderedSides TileShape.big8).map
            (getEdge (flipPhase ⟨.big8, defaultEdge, edgeFlip (le), edgeFlip (be), edgeFlip (te)⟩ true)) =
          [edgeFlip (edgeFlip (te)), edgeFlip (edgeFlip (be)), edgeFlip (edgeFlip (le))] from rfl,
        show rotShape (phaseShape TileShape.big8 true) 1 =
          TileShape.big1 from by decide]
      rfl]
    simp only [edgeFlip_edgeFlip]
  case small1 =>
    obtain rfl : le = defaultEdge := h .left (by simp [orderedSides])
    obtain rfl : re = defaultEdge := h .right (by simp [orderedSides])
    rw [show tileTransformCore ⟨.small1, te, be, defaultEdge, defaultEdge⟩ true 1 =
      ⟨.small8, defaultEdge, defaultEdge, edgeFlip (be), edgeFlip (te)⟩ from by
      rw [tileTransformCore,
        show (Tile.mk .small1 te be defaultEdge defaultEdge).shape =
          TileShape.small1 from rfl,
        show (orderedSides TileShape.small1).map
            (getEdge (flipPhase ⟨.small1, te, be, defaultEdge, defaultEdge⟩ true)) =
          [edgeFlip (te), edgeFlip (be)] from rfl,
        show rotShape (phaseShape TileShape.small1 true) 1 =
          TileShape.small8 from by decide]
      rfl]
    rw [show tileTransformCore ⟨.small8, defaultEdge, defaultEdge, edgeFlip (be), edgeFlip (te)⟩ true 1 =
      ⟨.small1, edgeFlip (edgeFlip (te)), edgeFlip (edgeFlip (be)), defaultEdge, defaultEdge⟩ from by
      rw [tileTransformCore,
        show (Tile.mk .small8 defaultEdge defaultEdge (edgeFlip (be)) (edgeFlip (te))).shape =
          TileShape.small8 from rfl,
        show (orderedSides TileShape.small8).map
            (getEdge (flipPhase ⟨.small8, defaultEdge, defaultEdge, edgeFlip (be), edgeFlip (te)⟩ true)) =
          [edgeFlip (edgeFlip (te)), edgeFlip (edgeFlip (be))] from rfl,
        show rotShape (phaseShape TileShape.small8 true) 1 =
          TileShape.small1 from by decide]
      rfl]
    simp only [edgeFlip_edgeFlip]
  case big2 =>
    obtain rfl : be = defaultEdge := h .bottom (by simp [orderedSides])
    rw [show tileTransformCore ⟨.big2, te, defaultEdge, le, re⟩ true 1 =
      ⟨.big5, edgeFlip (re), edgeFlip (le), defaultEdge, edgeFlip (te)⟩ from by
      rw [tileTransformCore,
        show (Tile.mk .big2 te defaultEdge le re).shape =
          TileShape.big2 from rfl,
        show (orderedSides TileShape.big2).map
            (getEdge (flipPhase ⟨.big2, te, defaultEdge, le, re⟩ true)) =
          [edgeFlip (re), edgeFlip (le), edgeFlip (te)] from rfl,
        show rotShape (phaseShape TileShape.big2 true) 1 =
          TileShape.big5 from by decide]
      rfl]
    rw [show tileTransformCore ⟨.big5, edgeFlip (re), edgeFlip (le), defaultEdge, edgeFlip (te)⟩ true 1 =
      ⟨.big2, edgeFlip (edgeFlip (te)), defaultEdge, edgeFlip (edgeFlip (le)), edgeFlip (edgeFlip (re))⟩ from by
      rw [tileTransformCore,
        show (Tile.mk .big5 (edgeFlip (re)) (edgeFlip (le)) defaultEdge (edgeFlip (te))).shape =
          TileShape.big5 from rfl,
        show (orderedSides TileShape.big5).map
            (getEdge (flipPhase ⟨.big5, edgeFlip (re), edgeFlip (le), defaultEdge, edgeFlip (te)⟩ true)) =
          [edgeFlip (edgeFlip (re)), edgeFlip (edgeFlip (le)), edgeFlip (edgeFlip (te))] from rfl,
        show rotShape (phaseShape TileShape.big5 true) 1 =
          TileShape.big2 from by decide]
      rfl]
    simp only [edgeFlip_edgeFlip]
  case small2 =>
    obtain rfl : te = defaultEdge := h .top (by simp [orderedSides])
    obtain rfl : be = defaultEdge := h .bottom (by simp [orderedSides])
    rw [show tileTransformCore ⟨.small2, defaultEdge, defaultEdge, le, re⟩ true 1 =
      ⟨.small5, edgeFlip (re), edgeFlip (le), defaultEdge, defaultEdge⟩ from by
      rw [tileTransformCore,
        show (Tile.mk .small2 defaultEdge defaultEdge le re).shape =
          TileShape.small2 from rfl,
        show (orderedSides TileShape.small2).map
            (getEdge (flipPhase ⟨.small2, defaultEdge, defaultEdge, le, re⟩ true)) =
          [edgeFlip (re), edgeFlip (le)] from rfl,
        show rotShape (phaseShape TileShape.small2 true) 1 =
          TileShape.small5 from by decide]
      rfl]
    rw [show tileTransformCore ⟨.small5, edgeFlip (re), edgeFlip (le), defaultEdge, defaultEdge⟩ true 1 =
      ⟨.small2, defaultEdge, defaultEdge, edgeFlip (edgeFlip (le)), edgeFlip (edgeFlip (re))⟩ from by
      rw [tileTransformCore,
        show (Tile.mk .small5 (edgeFlip (re)) (edgeFlip (le)) defaultEdge defaultEdge).shape =
          TileShape.small5 from rfl,
        show (orderedSides TileShape.small5).map
            (getEdge (flipPhase ⟨.small5, edgeFlip (re), edgeFlip (le), defaultEdge, defaultEdge⟩ true)) =
          [edgeFlip (edgeFlip (re)), edgeFlip (edgeFlip (le))] from rfl,
        show rotShape (phaseShape TileShape.small5 true) 1 =
          TileShape.small2 from by decide]
      rfl]
    simp only [edgeFlip_edgeFlip]
  case big3 =>
    obtain rfl : le = defaultEdge := h .left (by simp [orderedSides])
    rw [show tileTransformCore ⟨.big3, te, be, defaultEdge, re⟩ true 1 =
      ⟨.big6, edgeFlip (re), defaultEdge, edgeFlip (be), edgeFlip (te)⟩ from by
      rw [tileTransformCore,
        show (Tile.mk .big3 te be defaultEdge re).shape =
          TileShape.big3 from rfl,
        show (orderedSides TileShape.big3).map
            (getEdge (flipPhase ⟨.big3, te, be, defaultEdge, re⟩ true)) =
          [edgeFlip (be), edgeFlip (te), edgeFlip (re)] from rfl,
        show rotShape (phaseShape TileShape.big3 true) 1 =
          TileShape.big6 from by decide]
      rfl]
    rw [show tileTransformCore ⟨.big6, edgeFlip (re), defaultEdge, edgeFlip (be), edgeFlip (te)⟩ true 1 =
      ⟨.big3, edgeFlip (edgeFlip (te)), edgeFlip (edgeFlip (be)), defaultEdge, edgeFlip (edgeFlip (re))⟩ from by
      rw [tileTransformCore,
        show (Tile.mk .big6 (edgeFlip (re)) defaultEdge (edgeFlip (be)) (edgeFlip (te))).shape =
          TileShape.big6 from rfl,
        show (orderedSides TileShape.big6).map
            (getEdge (flipPhase ⟨.big6, edgeFlip (re), defaultEdge, edgeFlip (be), edgeFlip (te)⟩ true)) =
          [edgeFlip (edgeFlip (be)), edgeFlip (edgeFlip (te)), edgeFlip (edgeFlip (re))] from rfl,
        show rotShape (phaseShape TileShape.big6 true) 1 =
          TileShape.big3 from by decide]
      rfl]
    simp only [edgeFlip_edgeFlip]
  case small3 =>
    obtain rfl : le = defaultEdge := h .left (by simp [orderedSides])
    obtain rfl : re = defaultEdge := h .right (by simp [orderedSides])
    rw [show tileTransformCore ⟨.small3, te, be, defaultEdge, defaultEdge⟩ true 1 =
      ⟨.small6, defaultEdge, defaultEdge, edgeFlip (be), edgeFlip (te)⟩ from by
      rw [tileTransformCore,
        show (Tile.mk .small3 te be defaultEdge defaultEdge).shape =
          TileShape.small3 from rfl,
        show (orderedSides TileShape.small3).map
            (getEdge (flipPhase ⟨.small3, te, be, defaultEdge, defaultEdge⟩ true)) =
          [edgeFlip (be), edgeFlip (te)] from rfl,
        show rotShape (phaseShape TileShape.small3 true) 1 =
          TileShape.small6 from by decide]
      rfl]
    rw [show tileTransformCore ⟨.small6, defaultEdge, defaultEdge, edgeFlip (be), edgeFlip (te)⟩ true 1 =
      ⟨.small3, edgeFlip (edgeFlip (te)), edgeFlip (edgeFlip (be)), defaultEdge, defaultEdge⟩ from by
      rw [tileTransformCore,
        show (Tile.mk .small6 defaultEdge defaultEdge (edgeFlip (be)) (edgeFlip (te))).shape =
          TileShape.small6 from rfl,
        show (orderedSides TileShape.small6).map
            (getEdge (flipPhase ⟨.small6, defaultEdge, defaultEdge, edgeFlip (be), edgeFlip (te)⟩ true)) =
          [edgeFlip (edgeFlip (be)), edgeFlip (edgeFlip (te))] from rfl,
        show rotShape (phaseShape TileShape.small6 true) 1 =
          TileShape.small3 from by decide]
      rfl]
    simp only [edgeFlip_edgeFlip]
  case big4 =>
    obtain rfl : te = defaultEdge := h .top (by simp [orderedSides])
    rw [show tileTransformCore ⟨.big4, defaultEdge, be, le, re⟩ true 1 =
      ⟨.big7, edgeFlip (re), edgeFlip (le), edgeFlip (be), defaultEdge⟩ from by
      rw [tileTransformCore,
        show (Tile.mk .big4 defaultEdge be le re).shape =
          TileShape.big4 from rfl,
        show (orderedSides TileShape.big4).map
            (getEdge (flipPhase ⟨.big4, defaultEdge, be, le, re⟩ true)) =
          [edgeFlip (le), edgeFlip (re), edgeFlip (be)] from rfl,
        show rotShape (phaseShape TileShape.big4 true) 1 =
          TileShape.big7 from by decide]
      rfl]
    rw [show tileTransformCore ⟨.big7, edgeFlip (re), edgeFlip (le), edgeFlip (be), defaultEdge⟩ true 1 =
      ⟨.big4, defaultEdge, edgeFlip (edgeFlip (be)), edgeFlip (edgeFlip (le)), edgeFlip (edgeFlip (re))⟩ from by
      rw [tileTransformCore,
        show (Tile.mk .big7 (edgeFlip (re)) (edgeFlip (le)) (edgeFlip (be)) defaultEdge).shape =
          TileShape.big7 from rfl,
        show (orderedSides TileShape.big7).map
            (getEdge (flipPhase ⟨.big7, edgeFlip (re), edgeFlip (le), edgeFlip (be), defaultEdge⟩ true)) =
          [edgeFlip (edgeFlip (le)), edgeFlip (edgeFlip (re)), edgeFlip (edgeFlip (be))] from rfl,
        show rotShape (phaseShape TileShape.big7 true) 1 =
          TileShape.big4 from by decide]
      rfl]
    simp only [edgeFlip_edgeFlip]
  case small4 =>
    obtain rfl : te = defaultEdge := h .top (by simp [orderedSides])
    obtain rfl : be = defaultEdge := h .bottom (by simp [orderedSides])
    rw [show tileTransformCore ⟨.small4, defaultEdge, defaultEdge, le, re⟩ true 1 =
      ⟨.small7, edgeFlip (re), edgeFlip (le), defaultEdge, defaultEdge⟩ from by
      rw [tileTransformCore,
        show (Tile.mk .small4 defaultEdge defaultEdge le re).shape =
          TileShape.small4 from rfl,
        show (orderedSides TileShape.small4).map
            (getEdge (flipPhase ⟨.small4, defaultEdge, defaultEdge, le, re⟩ true)) =
          [edgeFlip (le), edgeFlip (re)] from rfl,
        show rotShape (phaseShape TileShape.small4 true) 1 =
          TileShape.small7 from by decide]
      rfl]
    rw [show tileTransformCore ⟨.small7, edgeFlip (re), edgeFlip (le), defaultEdge, defaultEdge⟩ true 1 =
      ⟨.small4, defaultEdge, defaultEdge, edgeFlip (edgeFlip (le)), edgeFlip (edgeFlip (re))⟩ from by
      rw [tileTransformCore,
        show (Tile.mk .small7 (edgeFlip (re)) (edgeFlip (le)) defaultEdge defaultEdge).shape =
          TileShape.small7 from rfl,
        show (orderedSides TileShape.small7).map
            (getEdge (flipPhase ⟨.small7, edgeFlip (re), edgeFlip (le), defaultEdge, defaultEdge⟩ true)) =
          [edgeFlip (edgeFlip (le)), edgeFlip (edgeFlip (re))] from rfl,
        show rotShape (phaseShape TileShape.small7 true) 1 =
          TileShape.small4 from by decide]
      rfl]
    simp only [edgeFlip_edgeFlip]
  case big5 =>
    obtain rfl : le = defaultEdge := h .left (by simp [orderedSides])
    rw [show tileTransformCore ⟨.big5, te, be, defaultEdge, re⟩ true 1 =
      ⟨.big2, edgeFlip (re), defaultEdge, edgeFlip (be), edgeFlip (te)⟩ from by
      rw [tileTransformCore,
        show (Tile.mk .big5 te be defaultEdge re).shape =
          TileShape.big5 from rfl,
        show (orderedSides TileShape.big5).map
            (getEdge (flipPhase ⟨.big5, te, be, defaultEdge, re⟩ true)) =
          [edgeFlip (te), edgeFlip (be), edgeFlip (re)] from rfl,
        show rotShape (phaseShape TileShape.big5 true) 1 =
          TileShape.big2 from by decide]
      rfl]
    rw [show tileTransformCore ⟨.big2, edgeFlip (re), defaultEdge, edgeFlip (be), edgeFlip (te)⟩ true 1 =
      ⟨.big5, edgeFlip (edgeFlip (te)), edgeFlip (edgeFlip (be)), defaultEdge, edgeFlip (edgeFlip (re))⟩ from by
      rw [tileTransformCore,
        show (Tile.mk .big2 (edgeFlip (re)) defaultEdge (edgeFlip (be)) (edgeFlip (te))).shape =
          TileShape.big2 from rfl,
        show (orderedSides TileShape.big2).map
            (getEdge (flipPhase ⟨.big2, edgeFlip (re), defaultEdge, edgeFlip (be), edgeFlip (te)⟩ true)) =
          [edgeFlip (edgeFlip (te)), edgeFlip (edgeFlip (be)), edgeFlip (edgeFlip (re))] from rfl,
        show rotShape (phaseShape TileShape.big2 true) 1 =
          TileShape.big5 from by decide]
      rfl]
    simp only [edgeFlip_edgeFlip]
  case small5 =>
    obtain rfl : le = defaultEdge := h .left (by simp [orderedSides])
    obtain rfl : re = defaultEdge := h .right (by simp [orderedSides])
    rw [show tileTransformCore ⟨.small5, te, be, defaultEdge, defaultEdge⟩ true 1 =
      ⟨.small2, defaultEdge, defaultEdge, edgeFlip (be), edgeFlip (te)⟩ from by
      rw [tileTransformCore,
        show (Tile.mk .small5 te be defaultEdge defaultEdge).shape =
          TileShape.small5 from rfl,
        show (orderedSides TileShape.small5).map
            (getEdge (flipPhase ⟨.small5, te, be, defaultEdge, defaultEdge⟩ true)) =
          [edgeFlip (te), edgeFlip (be)] from rfl,
        show rotShape (phaseShape TileShape.small5 true) 1 =
          TileShape.small2 from by decide]
      rfl]
    rw [show tileTransformCore ⟨.small2, defaultEdge, defaultEdge, edgeFlip (be), edgeFlip (te)⟩ true 1 =
      ⟨.small5, edgeFlip (edgeFlip (te)), edgeFlip (edgeFlip (be)), defaultEdge, defaultEdge⟩ from by
      rw [tileTransformCore,
        show (Tile.mk .small2 defaultEdge defaultEdge (edgeFlip (be)) (edgeFlip (te))).shape =
          TileShape.small2 from rfl,
        show (orderedSides TileShape.small2).map
            (getEdge (flipPhase ⟨.small2, defaultEdge, defaultEdge, edgeFlip (be), edgeFlip (te)⟩ true)) =
          [edgeFlip (edgeFlip (te)), edgeFlip (edgeFlip (be))] from rfl,
        show rotShape (phaseShape TileShape.small2 true) 1 =
          TileShape.small5 from by decide]
      rfl]
    simp only [edgeFlip_edgeFlip]
  case big6 =>
    obtain rfl : be = defaultEdge := h .bottom (by simp [orderedSides])
    rw [show tileTransformCore ⟨.big6, te, defaultEdge, le, re⟩ true 1 =
      ⟨.big3, edgeFlip (re), edgeFlip (le), defaultEdge, edgeFlip (te)⟩ from by
      rw [tileTransformCore,
        show (Tile.mk .big6 te defaultEdge le re).shape =
          TileShape.big6 from rfl,
        show (orderedSides TileShape.big6).map
            (getEdge (flipPhase ⟨.big6, te, defaultEdge, le, re⟩ true)) =
          [edgeFlip (le), edgeFlip (re), edgeFlip (te)] from rfl,
        show rotShape (phaseShape TileShape.big6 true) 1 =
          TileShape.big3 from by decide]
      rfl]
    rw [show tileTransformCore ⟨.big3, edgeFlip (re), edgeFlip (le), defaultEdge, edgeFlip (te)⟩ true 1 =
      ⟨.big6, edgeFlip (edgeFlip (te)), defaultEdge, edgeFlip (edgeFlip (le)), edgeFlip (edgeFlip (re))⟩ from by
      rw [tileTransformCore,
        show (Tile.mk .big3 (edgeFlip (re)) (edgeFlip (le)) defaultEdge (edgeFlip (te))).shape =
          TileShape.big3 from rfl,
        show (orderedSides TileShape.big3).map
            (getEdge (flipPhase ⟨.big3, edgeFlip (re), edgeFlip (le), defaultEdge, edgeFlip (te)⟩ true)) =
          [edgeFlip (edgeFlip (le)), edgeFlip (edgeFlip (re)), edgeFlip (edgeFlip (te))] from rfl,
        show rotShape (phaseShape TileShape.big3 true) 1 =
          TileShape.big6 from by decide]
      rfl]
    simp only [edgeFlip_edgeFlip]
  case small6 =>
    obtain rfl : te = defaultEdge := h .top (by simp [orderedSides])
    obtain rfl : be = defaultEdge := h .bottom (by simp [orderedSides])
    rw [show tileTransformCore ⟨.small6, defaultEdge, defaultEdge, le, re⟩ true 1 =
      ⟨.small3, edgeFlip (re), edgeFlip (le), defaultEdge, defaultEdge⟩ from by
      rw [tileTransformCore,
        show (Tile.mk .small6 defaultEdge defaultEdge le re).shape =
          TileShape.small6 from rfl,
        show (orderedSides TileShape.small6).map
            (getEdge (flipPhase ⟨.small6, defaultEdge, defaultEdge, le, re⟩ true)) =
          [edgeFlip (le), edgeFlip (re)] from rfl,
        show rotShape (phaseShape TileShape.small6 true) 1 =
          TileShape.small3 from by decide]
      rfl]
    rw [show tileTransformCore ⟨.small3, edgeFlip (re), edgeFlip (le), defaultEdge, defaultEdge⟩ true 1 =
      ⟨.small6, defaultEdge, defaultEdge, edgeFlip (edgeFlip (le)), edgeFlip (edgeFlip (re))⟩ from by
      rw [tileTransformCore,
        show (Tile.mk .small3 (edgeFlip (re)) (edgeFlip (le)) defaultEdge defaultEdge).shape =
          TileShape.small3 from rfl,
        show (orderedSides TileShape.small3).map
            (getEdge (flipPhase ⟨.small3, edgeFlip (re), edgeFlip (le), defaultEdge, defaultEdge⟩ true)) =
          [edgeFlip (edgeFlip (le)), edgeFlip (edgeFlip (re))] from rfl,
        show rotShape (phaseShape TileShape.small3 true) 1 =
          TileShape.small6 from by decide]
      rfl]
    simp only [edgeFlip_edgeFlip]
  case big7 =>
    obtain rfl : re = defaultEdge := h .right (by simp [orderedSides])
    rw [show tileTransformCore ⟨.big7, te, be, le, defaultEdge⟩ true 1 =
      ⟨.big4, defaultEdge, edgeFlip (le), edgeFlip (be), edgeFlip (te)⟩ from by
      rw [tileTransformCore,
        show (Tile.mk .big7 te be le defaultEdge).shape =
          TileShape.big7 from rfl,
        show (orderedSides TileShape.big7).map
            (getEdge (flipPhase ⟨.big7, te, be, le, defaultEdge⟩ true)) =
          [edgeFlip (be), edgeFlip (te), edgeFlip (le)] from rfl,
        show rotShape (phaseShape TileShape.big7 true) 1 =
          TileShape.big4 from by decide]
      rfl]
    rw [show tileTransformCore ⟨.big4, defaultEdge, edgeFlip (le), edgeFlip (be), edgeFlip (te)⟩ true 1 =
      ⟨.big7, edgeFlip (edgeFlip (te)), edgeFlip (edgeFlip (be)), edgeFlip (edgeFlip (le)), defaultEdge⟩ from by
      rw [tileTransformCore,
        show (Tile.mk .big4 defaultEdge (edgeFlip (le)) (edgeFlip (be)) (edgeFlip (te))).shape =
          TileShape.big4 from rfl,
        show (orderedSides TileShape.big4).map
            (getEdge (flipPhase ⟨.big4, defaultEdge, edgeFlip (le), edgeFlip (be), edgeFlip (te)⟩ true)) =
          [edgeFlip (edgeFlip (be)), edgeFlip (edgeFlip (te)), edgeFlip (edgeFlip (le))] from rfl,
        show rotShape (phaseShape TileShape.big4 true) 1 =
          TileShape.big7 from by decide]
      rfl]
    simp only [edgeFlip_edgeFlip]
  case small7 =>
    obtain rfl : le = defaultEdge := h .left (by simp [orderedSides])
    obtain rfl : re = defaultEdge := h .right (by simp [orderedSides])
    rw [show tileTransformCore ⟨.small7, te, be, defaultEdge, defaultEdge⟩ true 1 =
      ⟨.small4, defaultEdge, defaultEdge, edgeFlip (be), edgeFlip (te)⟩ from by
      rw [tileTransformCore,
        show (Tile.mk .small7 te be defaultEdge defaultEdge).shape =
          TileShape.small7 from rfl,
        show (orderedSides TileShape.small7).map
            (getEdge (flipPhase ⟨.small7, te, be, defaultEdge, defaultEdge⟩ true)) =
          [edgeFlip (be), edgeFlip (te)] from rfl,
        show rotShape (phaseShape TileShape.small7 true) 1 =
          TileShape.small4 from by decide]
      rfl]
    rw [show tileTransformCore ⟨.small4, defaultEdge, defaultEdge, edgeFlip (be), edgeFlip (te)⟩ true 1 =
      ⟨.small7, edgeFlip (edgeFlip (te)), edgeFlip (edgeFlip (be)), defaultEdge, defaultEdge⟩ from by
      rw [tileTransformCore,
        show (Tile.mk .small4 defaultEdge defaultEdge (edgeFlip (be)) (edgeFlip (te))).shape =
          TileShape.small4 from rfl,
        show (orderedSides TileShape.small4).map
            (getEdge (flipPhase ⟨.small4, defaultEdge, defaultEdge, edgeFlip (be), edgeFlip (te)⟩ true)) =
          [edgeFlip (edgeFlip (be)), edgeFlip (edgeFlip (te))] from rfl,
        show rotShape (phaseShape TileShape.small4 true) 1 =
          TileShape.small7 from by decide]
      rfl]
    simp only [edgeFlip_edgeFlip]
  case big8 =>
    obtain rfl : te = defaultEdge := h .top (by simp [orderedSides])
    rw [show tileTransformCore ⟨.big8, defaultEdge, be, le, re⟩ true 1 =
      ⟨.big1, edgeFlip (re), edgeFlip (le), edgeFlip (be), defaultEdge⟩ from by
      rw [tileTransformCore,
        show (Tile.mk .big8 defaultEdge be le re).shape =
          TileShape.big8 from rfl,
        show (orderedSides TileShape.big8).map
            (getEdge (flipPhase ⟨.big8, defaultEdge, be, le, re⟩ true)) =
          [edgeFlip (re), edgeFlip (le), edgeFlip (be)] from rfl,
        show rotShape (phaseShape TileShape.big8 true) 1 =
          TileShape.big1 from by decide]
      rfl]
    rw [show tileTransformCore ⟨.big1, edgeFlip (re), edgeFlip (le), edgeFlip (be), defaultEdge⟩ true 1 =
      ⟨.big8, defaultEdge, edgeFlip (edgeFlip (be)), edgeFlip (edgeFlip (le)), edgeFlip (edgeFlip (re))⟩ from by
      rw [tileTransformCore,
        show (Tile.mk .big1 (edgeFlip (re)) (edgeFlip (le)) (edgeFlip (be)) defaultEdge).shape =
          TileShape.big1 from rfl,
        show (orderedSides TileShape.big1).map
            (getEdge (flipPhase ⟨.big1, edgeFlip (re), edgeFlip (le), edgeFlip (be), defaultEdge⟩ true)) =
          [edgeFlip (edgeFlip (re)), edgeFlip (edgeFlip (le)), edgeFlip (edgeFlip (be))] from rfl,
        show rotShape (phaseShape TileShape.big1 true) 1 =
          TileShape.big8 from by decide]
      rfl]
    simp only [edgeFlip_edgeFlip]
  case small8 =>
    obtain rfl : te = defaultEdge := h .top (by simp [orderedSides])
    obtain rfl : be = defaultEdge := h .bottom (by simp [orderedSides])
    rw [show tileTransformCore ⟨.small8, defaultEdge, defaultEdge, le, re⟩ true 1 =
      ⟨.small1, edgeFlip (re), edgeFlip (le), defaultEdge, defaultEdge⟩ from by
      rw [tileTransformCore,
        show (Tile.mk .small8 defaultEdge defaultEdge le re).shape =
          TileShape.small8 from rfl,
        show (orderedSides TileShape.small8).map
            (getEdge (flipPhase ⟨.small8, defaultEdge, defaultEdge, le, re⟩ true)) =
          [edgeFlip (re), edgeFlip (le)] from rfl,
        show rotShape (phaseShape TileShape.small8 true) 1 =
          TileShape.small1 from by decide]
      rfl]
    rw [show tileTransformCore ⟨.small1, edgeFlip (re), edgeFlip (le), defaultEdge, defaultEdge⟩ true 1 =
      ⟨.small8, defaultEdge, defaultEdge, edgeFlip (edgeFlip (le)), edgeFlip (edgeFlip (re))⟩ from by
      rw [tileTransformCore,
        show (Tile.mk .small1 (edgeFlip (re)) (edgeFlip (le)) defaultEdge defaultEdge).shape =
          TileShape.small1 from rfl,
        show (orderedSides TileShape.small1).map
            (getEdge (flipPhase ⟨.small1, edgeFlip (re), edgeFlip (le), defaultEdge, defaultEdge⟩ true)) =
          [edgeFlip (edgeFlip (re)), edgeFlip (edgeFlip (le))] from rfl,
        show rotShape (phaseShape TileShape.small1 true) 1 =
          TileShape.small8 from by decide]
      rfl]
    simp only [edgeFlip_edgeFlip]
  case halfA =>
    obtain rfl : re = defaultEdge := h .right (by simp [orderedSides])
    rw [show tileTransformCore ⟨.halfA, te, be, le, defaultEdge⟩ true 1 =
      ⟨.halfA, edgeFlip (te), edgeFlip (le), edgeFlip (be), defaultEdge⟩ from by
      rw [tileTransformCore,
        show (Tile.mk .halfA te be le defaultEdge).shape =
          TileShape.halfA from rfl,
        show (orderedSides TileShape.halfA).map
            (getEdge (flipPhase ⟨.halfA, te, be, le, defaultEdge⟩ true)) =
          [edgeFlip (te), edgeFlip (le), edgeFlip (be)] from rfl,
        show rotShape (phaseShape TileShape.halfA true) 1 =
          TileShape.halfA from by decide]
      rfl]
    rw [show tileTransformCore ⟨.halfA, edgeFlip (te), edgeFlip (le), edgeFlip (be), defaultEdge⟩ true 1 =
      ⟨.halfA, edgeFlip (edgeFlip (te)), edgeFlip (edgeFlip (be)), edgeFlip (edgeFlip (le)), defaultEdge⟩ from by
      rw [tileTransformCore,
        show (Tile.mk .halfA (edgeFlip (te)) (edgeFlip (le)) (edgeFlip (be)) defaultEdge).shape =
          TileShape.halfA from rfl,
        show (orderedSides TileShape.halfA).map
            (getEdge (flipPhase ⟨.halfA, edgeFlip (te), edgeFlip (le), edgeFlip (be), defaultEdge⟩ true)) =
          [edgeFlip (edgeFlip (te)), edgeFlip (edgeFlip (be)), edgeFlip (edgeFlip (le))] from rfl,
        show rotShape (phaseShape TileShape.halfA true) 1 =
          TileShape.halfA from by decide]
      rfl]
    simp only [edgeFlip_edgeFlip]
  case halfB =>
    obtain rfl : re = defaultEdge := h .right (by simp [orderedSides])
    rw [show tileTransformCore ⟨.halfB, te, be, le, defaultEdge⟩ true 1 =
      ⟨.halfD, edgeFlip (be), edgeFlip (le), defaultEdge, edgeFlip (te)⟩ from by
      rw [tileTransformCore,
        show (Tile.mk .halfB te be le defaultEdge).shape =
          TileShape.halfB from rfl,
        show (orderedSides TileShape.halfB).map
            (getEdge (flipPhase ⟨.halfB, te, be, le, defaultEdge⟩ true)) =
          [edgeFlip (be), edgeFlip (te), edgeFlip (le)] from rfl,
        show rotShape (phaseShape TileShape.halfB true) 1 =
          TileShape.halfD from by decide]
      rfl]
    rw [show tileTransformCore ⟨.halfD, edgeFlip (be), edgeFlip (le), defaultEdge, edgeFlip (te)⟩ true 1 =
      ⟨.halfB, edgeFlip (edgeFlip (te)), edgeFlip (edgeFlip (be)), edgeFlip (edgeFlip (le)), defaultEdge⟩ from by
      rw [tileTransformCore,
        show (Tile.mk .halfD (edgeFlip (be)) (edgeFlip (le)) defaultEdge (edgeFlip (te))).shape =
          TileShape.halfD from rfl,
        show (orderedSides TileShape.halfD).map
            (getEdge (flipPhase ⟨.halfD, edgeFlip (be), edgeFlip (le), defaultEdge, edgeFlip (te)⟩ true)) =
          [edgeFlip (edgeFlip (be)), edgeFlip (edgeFlip (le)), edgeFlip (edgeFlip (te))] from rfl,
        show rotShape (phaseShape TileShape.halfD true) 1 =
          TileShape.halfB from by decide]
      rfl]
    simp only [edgeFlip_edgeFlip]
  case halfC =>
    obtain rfl : le = defaultEdge := h .left (by simp [orderedSides])
    rw [show tileTransformCore ⟨.halfC, te, be, defaultEdge, re⟩ true 1 =
      ⟨.halfC, edgeFlip (re), edgeFlip (be), defaultEdge, edgeFlip (te)⟩ from by
      rw [tileTransformCore,
        show (Tile.mk .halfC te be defaultEdge re).shape =
          TileShape.halfC from rfl,
        show (orderedSides TileShape.halfC).map
            (getEdge (flipPhase ⟨.halfC, te, be, defaultEdge, re⟩ true)) =
          [edgeFlip (be), edgeFlip (re), edgeFlip (te)] from rfl,
        show rotShape (phaseShape TileShape.halfC true) 1 =
          TileShape.halfC from by decide]
      rfl]
    rw [show tileTransformCore ⟨.halfC, edgeFlip (re), edgeFlip (be), defaultEdge, edgeFlip (te)⟩ true 1 =
      ⟨.halfC, edgeFlip (edgeFlip (te)), edgeFlip (edgeFlip (be)), defaultEdge, edgeFlip (edgeFlip (re))⟩ from by
      rw [tileTransformCore,
        show (Tile.mk .halfC (edgeFlip (re)) (edgeFlip (be)) defaultEdge (edgeFlip (te))).shape =
          TileShape.halfC from rfl,
        show (orderedSides TileShape.halfC).map
            (getEdge (flipPhase ⟨.halfC, edgeFlip (re), edgeFlip (be), defaultEdge, edgeFlip (te)⟩ true)) =
          [edgeFlip (edgeFlip (be)), edgeFlip (edgeFlip (te)), edgeFlip (edgeFlip (re))] from rfl,
        show rotShape (phaseShape TileShape.halfC true) 1 =
          TileShape.halfC from by decide]
      rfl]
    simp only [edgeFlip_edgeFlip]
  case halfD =>
    obtain rfl : le = defaultEdge := h .left (by simp [orderedSides])
    rw [show tileTransformCore ⟨.halfD, te, be, defaultEdge, re⟩ true 1 =
      ⟨.halfB, edgeFlip (re), edgeFlip (te), edgeFlip (be), defaultEdge⟩ from by
      rw [tileTransformCore,
        show (Tile.mk .halfD te be defaultEdge re).shape =
          TileShape.halfD from rfl,
        show (orderedSides TileShape.halfD).map
            (getEdge (flipPhase ⟨.halfD, te, be, defaultEdge, re⟩ true)) =
          [edgeFlip (te), edgeFlip (be), edgeFlip (re)] from rfl,
        show rotShape (phaseShape TileShape.halfD true) 1 =
          TileShape.halfB from by decide]
      rfl]
    rw [show tileTransformCore ⟨.halfB, edgeFlip (re), edgeFlip (te), edgeFlip (be), defaultEdge⟩ true 1 =
      ⟨.halfD, edgeFlip (edgeFlip (te)), edgeFlip (edgeFlip (be)), defaultEdge, edgeFlip (edgeFlip (re))⟩ from by
      rw [tileTransformCore,
        show (Tile.mk .halfB (edgeFlip (re)) (edgeFlip (te)) (edgeFlip (be)) defaultEdge).shape =
          TileShape.halfB from rfl,
        show (orderedSides TileShape.halfB).map
            (getEdge (flipPhase ⟨.halfB, edgeFlip (re), edgeFlip (te), edgeFlip (be), defaultEdge⟩ true)) =
          [edgeFlip (edgeFlip (te)), edgeFlip (edgeFlip (re)), edgeFlip (edgeFlip (be))] from rfl,
        show rotShape (phaseShape TileShape.halfB true) 1 =
          TileShape.halfD from by decide]
      rfl]
    simp only [edgeFlip_edgeFlip]

set_option maxHeartbeats 1000000 in
theorem symRT_6 (t : Tile)
    (h : ∀ side, side ∉ orderedSides t.shape → getEdge t side = defaultEdge) :
    tileTransform (tileTransform t (symMat 6)) (symInv 6) = t := by
  simp only [tileTransform]
  rw [symMat_6, symInv_6,
    symMat_6_flipped, symMat_6_angle]
  rcases t with ⟨shape, te, be, le, re⟩
  cases shape
  case full =>
    rw [show tileTransformCore ⟨.full, te, be, le, re⟩ true 2 =
      ⟨.full, edgeFlip (be), edgeFlip (te), edgeFlip (le), edgeFlip (re)⟩ from by
      rw [tileTransformCore,
        show (Tile.mk .full te be le re).shape =
          TileShape.full from rfl,
        show (orderedSides TileShape.full).map
            (getEdge (flipPhase ⟨.full, te, be, le, re⟩ true)) =
          [edgeFlip (te), edgeFlip (le), edgeFlip (be), edgeFlip (re)] from rfl,
        show rotShape (phaseShape TileShape.full true) 2 =
          TileShape.full from by decide,
        show decide (TileShape.full = TileShape.full) = true from rfl,
        show orderedSides TileShape.full =
          [TileSide.top, TileSide.right, TileSide.bottom, TileSide.left]
          from rfl,
        redistFull2]
      rfl]
    rw [show tileTransformCore ⟨.full, edgeFlip (be), edgeFlip (te), edgeFlip (le), edgeFlip (re)⟩ true 2 =
      ⟨.full, edgeFlip (edgeFlip (te)), edgeFlip (edgeFlip (be)), edgeFlip (edgeFlip (le)), edgeFlip (edgeFlip (re))⟩ from by
      rw [tileTransformCore,
        show (Tile.mk .full (edgeFlip (be)) (edgeFlip (te)) (edgeFlip (le)) (edgeFlip (re))).shape =
          TileShape.full from rfl,
        show (orderedSides TileShape.full).map
            (getEdge (flipPhase ⟨.full, edgeFlip (be), edgeFlip (te), edgeFlip (le), edgeFlip (re)⟩ true)) =
          [edgeFlip (edgeFlip (be)), edgeFlip (edgeFlip (le)), edgeFlip (edgeFlip (te)), edgeFlip (edgeFlip (re))] from rfl,
        show rotShape (phaseShape TileShape.full true) 2 =
          TileShape.full from by decide,
        show decide (TileShape.full = TileShape.full) = true from rfl,
        show orderedSides TileShape.full =
          [TileSide.top, TileSide.right, TileSide.bottom, TileSide.left]
          from rfl,
        redistFull2]
      rfl]
    simp only [edgeFlip_edgeFlip]
  case big1 =>
    obtain rfl : re = defaultEdge := h .right (by simp [orderedSides])
    rw [show tileTransformCore ⟨.big1, te, be, le, defaultEdge⟩ true 2 =
      ⟨.big7, edgeFlip (be), edgeFlip (te), edgeFlip (le), defaultEdge⟩ from by
      rw [tileTransformCore,
        show (Tile.mk .big1 te be le defaultEdge).shape =
          TileShape.big1 from rfl,
        show (orderedSides TileShape.big1).map
            (getEdge (flipPhase ⟨.big1, te, be, le, defaultEdge⟩ true)) =
          [edgeFlip (te), edgeFlip (be), edgeFlip (le)] from rfl,
        show rotShape (phaseShape TileShape.big1 true) 2 =
          TileShape.big7 from by decide]
      rfl]
    rw [show tileTransformCore ⟨.big7, edgeFlip (be), edgeFlip (te), edgeFlip (le), defaultEdge⟩ true 2 =
      ⟨.big1, edgeFlip (edgeFlip (te)), edgeFlip (edgeFlip (be)), edgeFlip (edgeFlip (le)), defaultEdge⟩ from by
      rw [tileTransformCore,
        show (Tile.mk .big7 (edgeFlip (be)) (edgeFlip (te)) (edgeFlip (le)) defaultEdge).shape =
          TileShape.big7 from rfl,
        show (orderedSides TileShape.big7).map
            (getEdge (flipPhase ⟨.big7, edgeFlip (be), edgeFlip (te), edgeFlip (le), defaultEdge⟩ true)) =
          [edgeFlip (edgeFlip (te)), edgeFlip (edgeFlip (be)), edgeFlip (edgeFlip (le))] from rfl,
        show rotShape (phaseShape TileShape.big7 true) 2 =
          TileShape.big1 from by decide]
      rfl]
    simp only [edgeFlip_edgeFlip]
  case small1 =>
    obtain rfl : le = defaultEdge := h .left (by simp [orderedSides])
    obtain rfl : re = defaultEdge := h .right (by simp [orderedSides])
    rw [show tileTransformCore ⟨.small1, te, be, defaultEdge, defaultEdge⟩ true 2 =
      ⟨.small7, edgeFlip (be), edgeFlip (te), defaultEdge, defaultEdge⟩ from by
      rw [tileTransformCore,
        show (Tile.mk .small1 te be defaultEdge defaultEdge).shape =
          TileShape.small1 from rfl,
        show (orderedSides TileShape.small1).map
            (getEdge (flipPhase ⟨.small1, te, be, defaultEdge, defaultEdge⟩ true)) =
          [edgeFlip (te), edgeFlip (be)] from rfl,
        show rotShape (phaseShape TileShape.small1 true) 2 =
          TileShape.small7 from by decide]
      rfl]
    rw [show tileTransformCore ⟨.small7, edgeFlip (be), edgeFlip (te), defaultEdge, defaultEdge⟩ true 2 =
      ⟨.small1, edgeFlip (edgeFlip (te)), edgeFlip (edgeFlip (be)), defaultEdge, defaultEdge⟩ from by
      rw [tileTransformCore,
        show (Tile.mk .small7 (edgeFlip (be)) (edgeFlip (te)) defaultEdge defaultEdge).shape =
          TileShape.small7 from rfl,
        show (orderedSides TileShape.small7).map
            (getEdge (flipPhase ⟨.small7, edgeFlip (be), edgeFlip (te), defaultEdge, defaultEdge⟩ true)) =
          [edgeFlip (edgeFlip (te)), edgeFlip (edgeFlip (be))] from rfl,
        show rotShape (phaseShape TileShape.small7 true) 2 =
          TileShape.small1 from by decide]
      rfl]
    simp only [edgeFlip_edgeFlip]
  case big2 =>
    obtain rfl : be = defaultEdge := h .bottom (by simp [orderedSides])
    rw [show tileTransformCore ⟨.big2, te, defaultEdge, le, re⟩ true 2 =
      ⟨.big8, defaultEdge, edgeFlip (te), edgeFlip (le), edgeFlip (re)⟩ from by
      rw [tileTransformCore,
        show (Tile.mk .big2 te defaultEdge le re).shape =
          TileShape.big2 from rfl,
        show (orderedSides TileShape.big2).map
            (getEdge (flipPhase ⟨.big2, te, defaultEdge, le, re⟩ true)) =
          [edgeFlip (re), edgeFlip (le), edgeFlip (te)] from rfl,
        show rotShape (phaseShape TileShape.big2 true) 2 =
          TileShape.big8 from by decide]
      rfl]
    rw [show tileTransformCore ⟨.big8, defaultEdge, edgeFlip (te), edgeFlip (le), edgeFlip (re)⟩ true 2 =
      ⟨.big2, edgeFlip (edgeFlip (te)), defaultEdge, edgeFlip (edgeFlip (le)), edgeFlip (edgeFlip (re))⟩ from by
      rw [tileTransformCore,
        show (Tile.mk .big8 defaultEdge (edgeFlip (te)) (edgeFlip (le)) (edgeFlip (re))).shape =
          TileShape.big8 from rfl,
        show (orderedSides TileShape.big8).map
            (getEdge (flipPhase ⟨.big8, defaultEdge, edgeFlip (te), edgeFlip (le), edgeFlip (re)⟩ true)) =
          [edgeFlip (edgeFlip (re)), edgeFlip (edgeFlip (le)), edgeFlip (edgeFlip (te))] from rfl,
        show rotShape (phaseShape TileShape.big8 true) 2 =
          TileShape.big2 from by decide]
      rfl]
    simp only [edgeFlip_edgeFlip]
  case small2 =>
    obtain rfl : te = defaultEdge := h .top (by simp [orderedSides])
    obtain rfl : be = defaultEdge := h .bottom (by simp [orderedSides])
    rw [show tileTransformCore ⟨.small2, defaultEdge, defaultEdge, le, re⟩ true 2 =
      ⟨.small8, defaultEdge, defaultEdge, edgeFlip (le), edgeFlip (re)⟩ from by
      rw [tileTransformCore,
        show (Tile.mk .small2 defaultEdge defaultEdge le re).shape =
          TileShape.small2 from rfl,
        show (orderedSides TileShape.small2).map
            (getEdge (flipPhase ⟨.small2, defaultEdge, defaultEdge, le, re⟩ true)) =
          [edgeFlip (re), edgeFlip (le)] from rfl,
        show rotShape (phaseShape TileShape.small2 true) 2 =
          TileShape.small8 from by decide]
      rfl]
    rw [show tileTransformCore ⟨.small8, defaultEdge, defaultEdge, edgeFlip (le), edgeFlip (re)⟩ true 2 =
      ⟨.small2, defaultEdge, defaultEdge, edgeFlip (edgeFlip (le)), edgeFlip (edgeFlip (re))⟩ from by
      rw [tileTransformCore,
        show (Tile.mk .small8 defaultEdge defaultEdge (edgeFlip (le)) (edgeFlip (re))).shape =
          TileShape.small8 from rfl,
        show (orderedSides TileShape.small8).map
            (getEdge (flipPhase ⟨.small8, defaultEdge, defaultEdge, edgeFlip (le), edgeFlip (re)⟩ true)) =
          [edgeFlip (edgeFlip (re)), edgeFlip (edgeFlip (le))] from rfl,
        show rotShape (phaseShape TileShape.small8 true) 2 =
          TileShape.small2 from by decide]
      rfl]
    simp only [edgeFlip_edgeFlip]
  case big3 =>
    obtain rfl : le = defaultEdge := h .left (by simp [orderedSides])
    rw [show tileTransformCore ⟨.big3, te, be, defaultEdge, re⟩ true 2 =
      ⟨.big5, edgeFlip (be), edgeFlip (te), defaultEdge, edgeFlip (re)⟩ from by
      rw [tileTransformCore,
        show (Tile.mk .big3 te be defaultEdge re).shape =
          TileShape.big3 from rfl,
        show (orderedSides TileShape.big3).map
            (getEdge (flipPhase ⟨.big3, te, be, defaultEdge, re⟩ true)) =
          [edgeFlip (be), edgeFlip (te), edgeFlip (re)] from rfl,
        show rotShape (phaseShape TileShape.big3 true) 2 =
          TileShape.big5 from by decide]
      rfl]
    rw [show tileTransformCore ⟨.big5, edgeFlip (be), edgeFlip (te), defaultEdge, edgeFlip (re)⟩ true 2 =
      ⟨.big3, edgeFlip (edgeFlip (te)), edgeFlip (edgeFlip (be)), defaultEdge, edgeFlip (edgeFlip (re))⟩ from by
      rw [tileTransformCore,
        show (Tile.mk .big5 (edgeFlip (be)) (edgeFlip (te)) defaultEdge (edgeFlip (re))).shape =
          TileShape.big5 from rfl,
        show (orderedSides TileShape.big5).map
            (getEdge (flipPhase ⟨.big5, edgeFlip (be), edgeFlip (te), defaultEdge, edgeFlip (re)⟩ true)) =
          [edgeFlip (edgeFlip (be)), edgeFlip (edgeFlip (te)), edgeFlip (edgeFlip (re))] from rfl,
        show rotShape (phaseShape TileShape.big5 true) 2 =
          TileShape.big3 from by decide]
      rfl]
    simp only [edgeFlip_edgeFlip]
  case small3 =>
    obtain rfl : le = defaultEdge := h .left (by simp [orderedSides])
    obtain rfl : re = defaultEdge := h .right (by simp [orderedSides])
    rw [show tileTransformCore ⟨.small3, te, be, defaultEdge, defaultEdge⟩ true 2 =
      ⟨.small5, edgeFlip (be), edgeFlip (te), defaultEdge, defaultEdge⟩ from by
      rw [tileTransformCore,
        show (Tile.mk .small3 te be defaultEdge defaultEdge).shape =
          TileShape.small3 from rfl,
        show (orderedSides TileShape.small3).map
            (getEdge (flipPhase ⟨.small3, te, be, defaultEdge, defaultEdge⟩ true)) =
          [edgeFlip (be), edgeFlip (te)] from rfl,
        show rotShape (phaseShape TileShape.small3 true) 2 =
          TileShape.small5 from by decide]
      rfl]
    rw [show tileTransformCore ⟨.small5, edgeFlip (be), edgeFlip (te), defaultEdge, defaultEdge⟩ true 2 =
      ⟨.small3, edgeFlip (edgeFlip (te)), edgeFlip (edgeFlip (be)), defaultEdge, defaultEdge⟩ from by
      rw [tileTransformCore,
        show (Tile.mk .small5 (edgeFlip (be)) (edgeFlip (te)) defaultEdge defaultEdge).shape =
          TileShape.small5 from rfl,
        show (orderedSides TileShape.small5).map
            (getEdge (flipPhase ⟨.small5, edgeFlip (be), edgeFlip (te), defaultEdge, defaultEdge⟩ true)) =
          [edgeFlip (edgeFlip (be)), edgeFlip (edgeFlip (te))] from rfl,
        show rotShape (phaseShape TileShape.small5 true) 2 =
          TileShape.small3 from by decide]
      rfl]
    simp only [edgeFlip_edgeFlip]
  case big4 =>
    obtain rfl : te = defaultEdge := h .top (by simp [orderedSides])
    rw [show tileTransformCore ⟨.big4, defaultEdge, be, le, re⟩ true 2 =
      ⟨.big6, edgeFlip (be), defaultEdge, edgeFlip (le), edgeFlip (re)⟩ from by
      rw [tileTransformCore,
        show (Tile.mk .big4 defaultEdge be le re).shape =
          TileShape.big4 from rfl,
        show (orderedSides TileShape.big4).map
            (getEdge (flipPhase ⟨.big4, defaultEdge, be, le, re⟩ true)) =
          [edgeFlip (le), edgeFlip (re), edgeFlip (be)] from rfl,
        show rotShape (phaseShape TileShape.big4 true) 2 =
          TileShape.big6 from by decide]
      rfl]
    rw [show tileTransformCore ⟨.big6, edgeFlip (be), defaultEdge, edgeFlip (le), edgeFlip (re)⟩ true 2 =
      ⟨.big4, defaultEdge, edgeFlip (edgeFlip (be)), edgeFlip (edgeFlip (le)), edgeFlip (edgeFlip (re))⟩ from by
      rw [tileTransformCore,
        show (Tile.mk .big6 (edgeFlip (be)) defaultEdge (edgeFlip (le)) (edgeFlip (re))).shape =
          TileShape.big6 from rfl,
        show (orderedSides TileShape.big6).map
            (getEdge (flipPhase ⟨.big6, edgeFlip (be), defaultEdge, edgeFlip (le), edgeFlip (re)⟩ true)) =
          [edgeFlip (edgeFlip (le)), edgeFlip (edgeFlip (re)), edgeFlip (edgeFlip (be))] from rfl,
        show rotShape (phaseShape TileShape.big6 true) 2 =
          TileShape.big4 from by decide]
      rfl]
    simp only [edgeFlip_edgeFlip]
  case small4 =>
    obtain rfl : te = defaultEdge := h .top (by simp [orderedSides])
    obtain rfl : be = defaultEdge := h .bottom (by simp [orderedSides])
    rw [show tileTransformCore ⟨.small4, defaultEdge, defaultEdge, le, re⟩ true 2 =
      ⟨.small6, defaultEdge, defaultEdge, edgeFlip (le), edgeFlip (re)⟩ from by
      rw [tileTransformCore,
        show (Tile.mk .small4 defaultEdge defaultEdge le re).shape =
          TileShape.small4 from rfl,
        show (orderedSides TileShape.small4).map
            (getEdge (flipPhase ⟨.small4, defaultEdge, defaultEdge, le, re⟩ true)) =
          [edgeFlip (le), edgeFlip (re)] from rfl,
        show rotShape (phaseShape TileShape.small4 true) 2 =
          TileShape.small6 from by decide]
      rfl]
    rw [show tileTransformCore ⟨.small6, defaultEdge, defaultEdge, edgeFlip (le), edgeFlip (re)⟩ true 2 =
      ⟨.small4, defaultEdge, defaultEdge, edgeFlip (edgeFlip (le)), edgeFlip (edgeFlip (re))⟩ from by
      rw [tileTransformCore,
        show (Tile.mk .small6 defaultEdge defaultEdge (edgeFlip (le)) (edgeFlip (re))).shape =
          TileShape.small6 from rfl,
        show (orderedSides TileShape.small6).map
            (getEdge (flipPhase ⟨.small6, defaultEdge, defaultEdge, edgeFlip (le), edgeFlip (re)⟩ true)) =
          [edgeFlip (edgeFlip (le)), edgeFlip (edgeFlip (re))] from rfl,
        show rotShape (phaseShape TileShape.small6 true) 2 =
          TileShape.small4 from by decide]
      rfl]
    simp only [edgeFlip_edgeFlip]
  case big5 =>
    obtain rfl : le = defaultEdge := h .left (by simp [orderedSides])
    rw [show tileTransformCore ⟨.big5, te, be, defaultEdge, re⟩ true 2 =
      ⟨.big3, edgeFlip (be), edgeFlip (te), defaultEdge, edgeFlip (re)⟩ from by
      rw [tileTransformCore,
        show (Tile.mk .big5 te be defaultEdge re).shape =
          TileShape.big5 from rfl,
        show (orderedSides TileShape.big5).map
            (getEdge (flipPhase ⟨.big5, te, be, defaultEdge, re⟩ true)) =
          [edgeFlip (te), edgeFlip (be), edgeFlip (re)] from rfl,
        show rotShape (phaseShape TileShape.big5 true) 2 =
          TileShape.big3 from by decide]
      rfl]
    rw [show tileTransformCore ⟨.big3, edgeFlip (be), edgeFlip (te), defaultEdge, edgeFlip (re)⟩ true 2 =
      ⟨.big5, edgeFlip (edgeFlip (te)), edgeFlip (edgeFlip (be)), defaultEdge, edgeFlip (edgeFlip (re))⟩ from by
      rw [tileTransformCore,
        show (Tile.mk .big3 (edgeFlip (be)) (edgeFlip (te)) defaultEdge (edgeFlip (re))).shape =
          TileShape.big3 from rfl,
        show (orderedSides TileShape.big3).map
            (getEdge (flipPhase ⟨.big3, edgeFlip (be), edgeFlip (te), defaultEdge, edgeFlip (re)⟩ true)) =
          [edgeFlip (edgeFlip (te)), edgeFlip (edgeFlip (be)), edgeFlip (edgeFlip (re))] from rfl,
        show rotShape (phaseShape TileShape.big3 true) 2 =
          TileShape.big5 from by decide]
      rfl]
    simp only [edgeFlip_edgeFlip]
  case small5 =>
    obtain rfl : le = defaultEdge := h .left (by simp [orderedSides])
    obtain rfl : re = defaultEdge := h .right (by simp [orderedSides])
    rw [show tileTransformCore ⟨.small5, te, be, defaultEdge, defaultEdge⟩ true 2 =
      ⟨.small3, edgeFlip (be), edgeFlip (te), defaultEdge, defaultEdge⟩ from by
      rw [tileTransformCore,
        show (Tile.mk .small5 te be defaultEdge defaultEdge).shape =
          TileShape.small5 from rfl,
        show (orderedSides TileShape.small5).map
            (getEdge (flipPhase ⟨.small5, te, be, defaultEdge, defaultEdge⟩ true)) =
          [edgeFlip (te), edgeFlip (be)] from rfl,
        show rotShape (phaseShape TileShape.small5 true) 2 =
          TileShape.small3 from by decide]
      rfl]
    rw [show tileTransformCore ⟨.small3, edgeFlip (be), edgeFlip (te), defaultEdge, defaultEdge⟩ true 2 =
      ⟨.small5, edgeFlip (edgeFlip (te)), edgeFlip (edgeFlip (be)), defaultEdge, defaultEdge⟩ from by
      rw [tileTransformCore,
        show (Tile.mk .small3 (edgeFlip (be)) (edgeFlip (te)) defaultEdge defaultEdge).shape =
          TileShape.small3 from rfl,
        show (orderedSides TileShape.small3).map
            (getEdge (flipPhase ⟨.small3, edgeFlip (be), edgeFlip (te), defaultEdge, defaultEdge⟩ true)) =
          [edgeFlip (edgeFlip (te)), edgeFlip (edgeFlip (be))] from rfl,
        show rotShape (phaseShape TileShape.small3 true) 2 =
          TileShape.small5 from by decide]
      rfl]
    simp only [edgeFlip_edgeFlip]
  case big6 =>
    obtain rfl : be = defaultEdge := h .bottom (by simp [orderedSides])
    rw [show tileTransformCore ⟨.big6, te, defaultEdge, le, re⟩ true 2 =
      ⟨.big4, defaultEdge, edgeFlip (te), edgeFlip (le), edgeFlip (re)⟩ from by
      rw [tileTransformCore,
        show (Tile.mk .big6 te defaultEdge le re).shape =
          TileShape.big6 from rfl,
        show (orderedSides TileShape.big6).map
            (getEdge (flipPhase ⟨.big6, te, defaultEdge, le, re⟩ true)) =
          [edgeFlip (le), edgeFlip (re), edgeFlip (te)] from rfl,
        show rotShape (phaseShape TileShape.big6 true) 2 =
          TileShape.big4 from by decide]
      rfl]
    rw [show tileTransformCore ⟨.big4, defaultEdge, edgeFlip (te), edgeFlip (le), edgeFlip (re)⟩ true 2 =
      ⟨.big6, edgeFlip (edgeFlip (te)), defaultEdge, edgeFlip (edgeFlip (le)), edgeFlip (edgeFlip (re))⟩ from by
      rw [tileTransformCore,
        show (Tile.mk .big4 defaultEdge (edgeFlip (te)) (edgeFlip (le)) (edgeFlip (re))).shape =
          TileShape.big4 from rfl,
        show (orderedSides TileShape.big4).map
            (getEdge (flipPhase ⟨.big4, defaultEdge, edgeFlip (te), edgeFlip (le), edgeFlip (re)⟩ true)) =
          [edgeFlip (edgeFlip (le)), edgeFlip (edgeFlip (re)), edgeFlip (edgeFlip (te))] from rfl,
        show rotShape (phaseShape TileShape.big4 true) 2 =
          TileShape.big6 from by decide]
      rfl]
    simp only [edgeFlip_edgeFlip]
  case small6 =>
    obtain rfl : te = defaultEdge := h .top (by simp [orderedSides])
    obtain rfl : be = defaultEdge := h .bottom (by simp [orderedSides])
    rw [show tileTransformCore ⟨.small6, defaultEdge, defaultEdge, le, re⟩ true 2 =
      ⟨.small4, defaultEdge, defaultEdge, edgeFlip (le), edgeFlip (re)⟩ from by
      rw [tileTransformCore,
        show (Tile.mk .small6 defaultEdge defaultEdge le re).shape =
          TileShape.small6 from rfl,
        show (orderedSides TileShape.small6).map
            (getEdge (flipPhase ⟨.small6, defaultEdge, defaultEdge, le, re⟩ true)) =
          [edgeFlip (le), edgeFlip (re)] from rfl,
        show rotShape (phaseShape TileShape.small6 true) 2 =
          TileShape.small4 from by decide]
      rfl]
    rw [show tileTransformCore ⟨.small4, defaultEdge, defaultEdge, edgeFlip (le), edgeFlip (re)⟩ true 2 =
      ⟨.small6, defaultEdge, defaultEdge, edgeFlip (edgeFlip (le)), edgeFlip (edgeFlip (re))⟩ from by
      rw [tileTransformCore,
        show (Tile.mk .small4 defaultEdge defaultEdge (edgeFlip (le)) (edgeFlip (re))).shape =
          TileShape.small4 from rfl,
        show (orderedSides TileShape.small4).map
            (getEdge (flipPhase ⟨.small4, defaultEdge, defaultEdge, edgeFlip (le), edgeFlip (re)⟩ true)) =
          [edgeFlip (edgeFlip (le)), edgeFlip (edgeFlip (re))] from rfl,
        show rotShape (phaseShape TileShape.small4 true) 2 =
          TileShape.small6 from by decide]
      rfl]
    simp only [edgeFlip_edgeFlip]
  case big7 =>
    obtain rfl : re = defaultEdge := h .right (by simp [orderedSides])
    rw [show tileTransformCore ⟨.big7, te, be, le, defaultEdge⟩ true 2 =
      ⟨.big1, edgeFlip (be), edgeFlip (te), edgeFlip (le), defaultEdge⟩ from by
      rw [tileTransformCore,
        show (Tile.mk .big7 te be le defaultEdge).shape =
          TileShape.big7 from rfl,
        show (orderedSides TileShape.big7).map
            (getEdge (flipPhase ⟨.big7, te, be, le, defaultEdge⟩ true)) =
          [edgeFlip (be), edgeFlip (te), edgeFlip (le)] from rfl,
        show rotShape (phaseShape TileShape.big7 true) 2 =
          TileShape.big1 from by decide]
      rfl]
    rw [show tileTransformCore ⟨.big1, edgeFlip (be), edgeFlip (te), edgeFlip (le), defaultEdge⟩ true 2 =
      ⟨.big7, edgeFlip (edgeFlip (te)), edgeFlip (edgeFlip (be)), edgeFlip (edgeFlip (le)), defaultEdge⟩ from by
      rw [tileTransformCore,
        show (Tile.mk .big1 (edgeFlip (be)) (edgeFlip (te)) (edgeFlip (le)) defaultEdge).shape =
          TileShape.big1 from rfl,
        show (orderedSides TileShape.big1).map
            (getEdge (flipPhase ⟨.big1, edgeFlip (be), edgeFlip (te), edgeFlip (le), defaultEdge⟩ true)) =
          [edgeFlip (edgeFlip (be)), edgeFlip (edgeFlip (te)), edgeFlip (edgeFlip (le))] from rfl,
        show rotShape (phaseShape TileShape.big1 true) 2 =
          TileShape.big7 from by decide]
      rfl]
    simp only [edgeFlip_edgeFlip]
  case small7 =>
    obtain rfl : le = defaultEdge := h .left (by simp [orderedSides])
    obtain rfl : re = defaultEdge := h .right (by simp [orderedSides])
    rw [show tileTransformCore ⟨.small7, te, be, defaultEdge, defaultEdge⟩ true 2 =
      ⟨.small1, edgeFlip (be), edgeFlip (te), defaultEdge, defaultEdge⟩ from by
      rw [tileTransformCore,
        show (Tile.mk .small7 te be defaultEdge defaultEdge).shape =
          TileShape.small7 from rfl,
        show (orderedSides TileShape.small7).map
            (getEdge (flipPhase ⟨.small7, te, be, defaultEdge, defaultEdge⟩ true)) =
          [edgeFlip (be), edgeFlip (te)] from rfl,
        show rotShape (phaseShape TileShape.small7 true) 2 =
          TileShape.small1 from by decide]
      rfl]
    rw [show tileTransformCore ⟨.small1, edgeFlip (be), edgeFlip (te), defaultEdge, defaultEdge⟩ true 2 =
      ⟨.small7, edgeFlip (edgeFlip (te)), edgeFlip (edgeFlip (be)), defaultEdge, defaultEdge⟩ from by
      rw [tileTransformCore,
        show (Tile.mk .small1 (edgeFlip (be)) (edgeFlip (te)) defaultEdge defaultEdge).shape =
          TileShape.small1 from rfl,
        show (orderedSides TileShape.small1).map
            (getEdge (flipPhase ⟨.small1, edgeFlip (be), edgeFlip (te), defaultEdge, defaultEdge⟩ true)) =
          [edgeFlip (edgeFlip (be)), edgeFlip (edgeFlip (te))] from rfl,
        show rotShape (phaseShape TileShape.small1 true) 2 =
          TileShape.small7 from by decide]
      rfl]
    simp only [edgeFlip_edgeFlip]
  case big8 =>
    obtain rfl : te = defaultEdge := h .top (by simp [orderedSides])
    rw [show tileTransformCore ⟨.big8, defaultEdge, be, le, re⟩ true 2 =
      ⟨.big2, edgeFlip (be), defaultEdge, edgeFlip (le), edgeFlip (re)⟩ from by
      rw [tileTransformCore,
        show (Tile.mk .big8 defaultEdge be le re).shape =
          TileShape.big8 from rfl,
        show (orderedSides TileShape.big8).map
            (getEdge (flipPhase ⟨.big8, defaultEdge, be, le, re⟩ true)) =
          [edgeFlip (re), edgeFlip (le), edgeFlip (be)] from rfl,
        show rotShape (phaseShape TileShape.big8 true) 2 =
          TileShape.big2 from by decide]
      rfl]
    rw [show tileTransformCore ⟨.big2, edgeFlip (be), defaultEdge, edgeFlip (le), edgeFlip (re)⟩ true 2 =
      ⟨.big8, defaultEdge, edgeFlip (edgeFlip (be)), edgeFlip (edgeFlip (le)), edgeFlip (edgeFlip (re))⟩ from by
      rw [tileTransformCore,
        show (Tile.mk .big2 (edgeFlip (be)) defaultEdge (edgeFlip (le)) (edgeFlip (re))).shape =
          TileShape.big2 from rfl,
        show (orderedSides TileShape.big2).map
            (getEdge (flipPhase ⟨.big2, edgeFlip (be), defaultEdge, edgeFlip (le), edgeFlip (re)⟩ true)) =
          [edgeFlip (edgeFlip (re)), edgeFlip (edgeFlip (le)), edgeFlip (edgeFlip (be))] from rfl,
        show rotShape (phaseShape TileShape.big2 true) 2 =
          TileShape.big8 from by decide]
      rfl]
    simp only [edgeFlip_edgeFlip]
  case small8 =>
    obtain rfl : te = defaultEdge := h .top (by simp [orderedSides])
    obtain rfl : be = defaultEdge := h .bottom (by simp [orderedSides])
    rw [show tileTransformCore ⟨.small8, defaultEdge, defaultEdge, le, re⟩ true 2 =
      ⟨.small2, defaultEdge, defaultEdge, edgeFlip (le), edgeFlip (re)⟩ from by
      rw [tileTransformCore,
        show (Tile.mk .small8 defaultEdge defaultEdge le re).shape =
          TileShape.small8 from rfl,
        show (orderedSides TileShape.small8).map
            (getEdge (flipPhase ⟨.small8, defaultEdge, defaultEdge, le, re⟩ true)) =
          [edgeFlip (re), edgeFlip (le)] from rfl,
        show rotShape (phaseShape TileShape.small8 true) 2 =
          TileShape.small2 from by decide]
      rfl]
    rw [show tileTransformCore ⟨.small2, defaultEdge, defaultEdge, edgeFlip (le), edgeFlip (re)⟩ true 2 =
      ⟨.small8, defaultEdge, defaultEdge, edgeFlip (edgeFlip (le)), edgeFlip (edgeFlip (re))⟩ from by
      rw [tileTransformCore,
        show (Tile.mk .small2 defaultEdge defaultEdge (edgeFlip (le)) (edgeFlip (re))).shape =
          TileShape.small2 from rfl,
        show (orderedSides TileShape.small2).map
            (getEdge (flipPhase ⟨.small2, defaultEdge, defaultEdge, edgeFlip (le), edgeFlip (re)⟩ true)) =
          [edgeFlip (edgeFlip (re)), edgeFlip (edgeFlip (le))] from rfl,
        show rotShape (phaseShape TileShape.small2 true) 2 =
          TileShape.small8 from by decide]
      rfl]
    simp only [edgeFlip_edgeFlip]
  case halfA =>
    obtain rfl : re = defaultEdge := h .right (by simp [orderedSides])
    rw [show tileTransformCore ⟨.halfA, te, be, le, defaultEdge⟩ true 2 =
      ⟨.halfB, edgeFlip (be), edgeFlip (te), edgeFlip (le), defaultEdge⟩ from by
      rw [tileTransformCore,
        show (Tile.mk .halfA te be le defaultEdge).shape =
          TileShape.halfA from rfl,
        show (orderedSides TileShape.halfA).map
            (getEdge (flipPhase ⟨.halfA, te, be, le, defaultEdge⟩ true)) =
          [edgeFlip (te), edgeFlip (le), edgeFlip (be)] from rfl,
        show rotShape (phaseShape TileShape.halfA true) 2 =
          TileShape.halfB from by decide]
      rfl]
    rw [show tileTransformCore ⟨.halfB, edgeFlip (be), edgeFlip (te), edgeFlip (le), defaultEdge⟩ true 2 =
      ⟨.halfA, edgeFlip (edgeFlip (te)), edgeFlip (edgeFlip (be)), edgeFlip (edgeFlip (le)), defaultEdge⟩ from by
      rw [tileTransformCore,
        show (Tile.mk .halfB (edgeFlip (be)) (edgeFlip (te)) (edgeFlip (le)) defaultEdge).shape =
          TileShape.halfB from rfl,
        show (orderedSides TileShape.halfB).map
            (getEdge (flipPhase ⟨.halfB, edgeFlip (be), edgeFlip (te), edgeFlip (le), defaultEdge⟩ true)) =
          [edgeFlip (edgeFlip (te)), edgeFlip (edgeFlip (be)), edgeFlip (edgeFlip (le))] from rfl,
        show rotShape (phaseShape TileShape.halfB true) 2 =
          TileShape.halfA from by decide]
      rfl]
    simp only [edgeFlip_edgeFlip]
  case halfB =>
    obtain rfl : re = defaultEdge := h .right (by simp [orderedSides])
    rw [show tileTransformCore ⟨.halfB, te, be, le, defaultEdge⟩ true 2 =
      ⟨.halfA, edgeFlip (be), edgeFlip (te), edgeFlip (le), defaultEdge⟩ from by
      rw [tileTransformCore,
        show (Tile.mk .halfB te be le defaultEdge).shape =
          TileShape.halfB from rfl,
        show (orderedSides TileShape.halfB).map
            (getEdge (flipPhase ⟨.halfB, te, be, le, defaultEdge⟩ true)) =
          [edgeFlip (be), edgeFlip (te), edgeFlip (le)] from rfl,
        show rotShape (phaseShape TileShape.halfB true) 2 =
          TileShape.halfA from by decide]
      rfl]
    rw [show tileTransformCore ⟨.halfA, edgeFlip (be), edgeFlip (te), edgeFlip (le), defaultEdge⟩ true 2 =
      ⟨.halfB, edgeFlip (edgeFlip (te)), edgeFlip (edgeFlip (be)), edgeFlip (edgeFlip (le)), defaultEdge⟩ from by
      rw [tileTransformCore,
        show (Tile.mk .halfA (edgeFlip (be)) (edgeFlip (te)) (edgeFlip (le)) defaultEdge).shape =
          TileShape.halfA from rfl,
        show (orderedSides TileShape.halfA).map
            (getEdge (flipPhase ⟨.halfA, edgeFlip (be), edgeFlip (te), edgeFlip (le), defaultEdge⟩ true)) =
          [edgeFlip (edgeFlip (be)), edgeFlip (edgeFlip (le)), edgeFlip (edgeFlip (te))] from rfl,
        show rotShape (phaseShape TileShape.halfA true) 2 =
          TileShape.halfB from by decide]
      rfl]
    simp only [edgeFlip_edgeFlip]
  case halfC =>
    obtain rfl : le = defaultEdge := h .left (by simp [orderedSides])
    rw [show tileTransformCore ⟨.halfC, te, be, defaultEdge, re⟩ true 2 =
      ⟨.halfD, edgeFlip (be), edgeFlip (te), defaultEdge, edgeFlip (re)⟩ from by
      rw [tileTransformCore,
        show (Tile.mk .halfC te be defaultEdge re).shape =
          TileShape.halfC from rfl,
        show (orderedSides TileShape.halfC).map
            (getEdge (flipPhase ⟨.halfC, te, be, defaultEdge, re⟩ true)) =
          [edgeFlip (be), edgeFlip (re), edgeFlip (te)] from rfl,
        show rotShape (phaseShape TileShape.halfC true) 2 =
          TileShape.halfD from by decide]
      rfl]
    rw [show tileTransformCore ⟨.halfD, edgeFlip (be), edgeFlip (te), defaultEdge, edgeFlip (re)⟩ true 2 =
      ⟨.halfC, edgeFlip (edgeFlip (te)), edgeFlip (edgeFlip (be)), defaultEdge, edgeFlip (edgeFlip (re))⟩ from by
      rw [tileTransformCore,
        show (Tile.mk .halfD (edgeFlip (be)) (edgeFlip (te)) defaultEdge (edgeFlip (re))).shape =
          TileShape.halfD from rfl,
        show (orderedSides TileShape.halfD).map
            (getEdge (flipPhase ⟨.halfD, edgeFlip (be), edgeFlip (te), defaultEdge, edgeFlip (re)⟩ true)) =
          [edgeFlip (edgeFlip (be)), edgeFlip (edgeFlip (te)), edgeFlip (edgeFlip (re))] from rfl,
        show rotShape (phaseShape TileShape.halfD true) 2 =
          TileShape.halfC from by decide]
      rfl]
    simp only [edgeFlip_edgeFlip]
  case halfD =>
    obtain rfl : le = defaultEdge := h .left (by simp [orderedSides])
    rw [show tileTransformCore ⟨.halfD, te, be, defaultEdge, re⟩ true 2 =
      ⟨.halfC, edgeFlip (be), edgeFlip (te), defaultEdge, edgeFlip (re)⟩ from by
      rw [tileTransformCore,
        show (Tile.mk .halfD te be defaultEdge re).shape =
          TileShape.halfD from rfl,
        show (orderedSides TileShape.halfD).map
            (getEdge (flipPhase ⟨.halfD, te, be, defaultEdge, re⟩ true)) =
          [edgeFlip (te), edgeFlip (be), edgeFlip (re)] from rfl,
        show rotShape (phaseShape TileShape.halfD true) 2 =
          TileShape.halfC from by decide]
      rfl]
    rw [show tileTransformCore ⟨.halfC, edgeFlip (be), edgeFlip (te), defaultEdge, edgeFlip (re)⟩ true 2 =
      ⟨.halfD, edgeFlip (edgeFlip (te)), edgeFlip (edgeFlip (be)), defaultEdge, edgeFlip (edgeFlip (re))⟩ from by
      rw [tileTransformCore,
        show (Tile.mk .halfC (edgeFlip (be)) (edgeFlip (te)) defaultEdge (edgeFlip (re))).shape =
          TileShape.halfC from rfl,
        show (orderedSides TileShape.halfC).map
            (getEdge (flipPhase ⟨.halfC, edgeFlip (be), edgeFlip (te), defaultEdge, edgeFlip (re)⟩ true)) =
          [edgeFlip (edgeFlip (te)), edgeFlip (edgeFlip (re)), edgeFlip (edgeFlip (be))] from rfl,
        show rotShape (phaseShape TileShape.halfC true) 2 =
          TileShape.halfD from by decide]
      rfl]
    simp only [edgeFlip_edgeFlip]

set_option maxHeartbeats 1000000 in
theorem symRT_7 (t : Tile)
    (h : ∀ side, side ∉ orderedSides t.shape → getEdge t side = defaultEdge) :
    tileTransform (tileTransform t (symMat 7)) (symInv 7) = t := by
  simp only [tileTransform]
  rw [symMat_7, symInv_7,
    symMat_7_flipped, symMat_7_angle]
  rcases t with ⟨shape, te, be, le, re⟩
  cases shape
  case full =>
    rw [show tileTransformCore ⟨.full, te, be, le, re⟩ true 3 =
      ⟨.full, edgeFlip (le), edgeFlip (re), edgeFlip (te), edgeFlip (be)⟩ from by
      rw [tileTransformCore,
        show (Tile.mk .full te be le re).shape =
          TileShape.full from rfl,
        show (orderedSides TileShape.full).map
            (getEdge (flipPhase ⟨.full, te, be, le, re⟩ true)) =
          [edgeFlip (te), edgeFlip (le), edgeFlip (be), edgeFlip (re)] from rfl,
        show rotShape (phaseShape TileShape.full true) 3 =
          TileShape.full from by decide,
        show decide (TileShape.full = TileShape.full) = true from rfl,
        show orderedSides TileShape.full =
          [TileSide.top, TileSide.right, TileSide.bottom, TileSide.left]
          from rfl,
        redistFull3]
      rfl]
    rw [show tileTransformCore ⟨.full, edgeFlip (le), edgeFlip (re), edgeFlip (te), edgeFlip (be)⟩ true 3 =
      ⟨.full, edgeFlip (edgeFlip (te)), edgeFlip (edgeFlip (be)), edgeFlip (edgeFlip (le)), edgeFlip (edgeFlip (re))⟩ from by
      rw [tileTransformCore,
        show (Tile.mk .full (edgeFlip (le)) (edgeFlip (re)) (edgeFlip (te)) (edgeFlip (be))).shape =
          TileShape.full from rfl,
        show (orderedSides TileShape.full).map
            (getEdge (flipPhase ⟨.full, edgeFlip (le), edgeFlip (re), edgeFlip (te), edgeFlip (be)⟩ true)) =
          [edgeFlip (edgeFlip (le)), edgeFlip (edgeFlip (te)), edgeFlip (edgeFlip (re)), edgeFlip (edgeFlip (be))] from rfl,
        show rotShape (phaseShape TileShape.full true) 3 =
          TileShape.full from by decide,
        show decide (TileShape.full = TileShape.full) = true from rfl,
        show orderedSides TileShape.full =
          [TileSide.top, TileSide.right, TileSide.bottom, TileSide.left]
          from rfl,
        redistFull3]
      rfl]
    simp only [edgeFlip_edgeFlip]
  case big1 =>
    obtain rfl : re = defaultEdge := h .right (by simp [orderedSides])
    rw [show tileTransformCore ⟨.big1, te, be, le, defaultEdge⟩ true 3 =
      ⟨.big6, edgeFlip (le), defaultEdge, edgeFlip (te), edgeFlip (be)⟩ from by
      rw [tileTransformCore,
        show (Tile.mk .big1 te be le defaultEdge).shape =
          TileShape.big1 from rfl,
        show (orderedSides TileShape.big1).map
            (getEdge (flipPhase ⟨.big1, te, be, le, defaultEdge⟩ true)) =
          [edgeFlip (te), edgeFlip (be), edgeFlip (le)] from rfl,
        show rotShape (phaseShape TileShape.big1 true) 3 =
          TileShape.big6 from by decide]
      rfl]
    rw [show tileTransformCore ⟨.big6, edgeFlip (le), defaultEdge, edgeFlip (te), edgeFlip (be)⟩ true 3 =
      ⟨.big1, edgeFlip (edgeFlip (te)), edgeFlip (edgeFlip (be)), edgeFlip (edgeFlip (le)), defaultEdge⟩ from by
      rw [tileTransformCore,
        show (Tile.mk .big6 (edgeFlip (le)) defaultEdge (edgeFlip (te)) (edgeFlip (be))).shape =
          TileShape.big6 from rfl,
        show (orderedSides TileShape.big6).map
            (getEdge (flipPhase ⟨.big6, edgeFlip (le), defaultEdge, edgeFlip (te), edgeFlip (be)⟩ true)) =
          [edgeFlip (edgeFlip (te)), edgeFlip (edgeFlip (be)), edgeFlip (edgeFlip (le))] from rfl,
        show rotShape (phaseShape TileShape.big6 true) 3 =
          TileShape.big1 from by decide]
      rfl]
    simp only [edgeFlip_edgeFlip]
  case small1 =>
    obtain rfl : le = defaultEdge := h .left (by simp [orderedSides])
    obtain rfl : re = defaultEdge := h .right (by simp [orderedSides])
    rw [show tileTransformCore ⟨.small1, te, be, defaultEdge, defaultEdge⟩ true 3 =
      ⟨.small6, defaultEdge, defaultEdge, edgeFlip (te), edgeFlip (be)⟩ from by
      rw [tileTransformCore,
        show (Tile.mk .small1 te be defaultEdge defaultEdge).shape =
          TileShape.small1 from rfl,
        show (orderedSides TileShape.small1).map
            (getEdge (flipPhase ⟨.small1, te, be, defaultEdge, defaultEdge⟩ true)) =
          [edgeFlip (te), edgeFlip (be)] from rfl,
        show rotShape (phaseShape TileShape.small1 true) 3 =
          TileShape.small6 from by decide]
      rfl]
    rw [show tileTransformCore ⟨.small6, defaultEdge, defaultEdge, edgeFlip (te), edgeFlip (be)⟩ true 3 =
      ⟨.small1, edgeFlip (edgeFlip (te)), edgeFlip (edgeFlip (be)), defaultEdge, defaultEdge⟩ from by
      rw [tileTransformCore,
        show (Tile.mk .small6 defaultEdge defaultEdge (edgeFlip (te)) (edgeFlip (be))).shape =
          TileShape.small6 from rfl,
        show (orderedSides TileShape.small6).map
            (getEdge (flipPhase ⟨.small6, defaultEdge, defaultEdge, edgeFlip (te), edgeFlip (be)⟩ true)) =
          [edgeFlip (edgeFlip (te)), edgeFlip (edgeFlip (be))] from rfl,
        show rotShape (phaseShape TileShape.small6 true) 3 =
          TileShape.small1 from by decide]
      rfl]
    simp only [edgeFlip_edgeFlip]
  case big2 =>
    obtain rfl : be = defaultEdge := h .bottom (by simp [orderedSides])
    rw [show tileTransformCore ⟨.big2, te, defaultEdge, le, re⟩ true 3 =
      ⟨.big7, edgeFlip (le), edgeFlip (re), edgeFlip (te), defaultEdge⟩ from by
      rw [tileTransformCore,
        show (Tile.mk .big2 te defaultEdge le re).shape =
          TileShape.big2 from rfl,
        show (orderedSides TileShape.big2).map
            (getEdge (flipPhase ⟨.big2, te, defaultEdge, le, re⟩ true)) =
          [edgeFlip (re), edgeFlip (le), edgeFlip (te)] from rfl,
        show rotShape (phaseShape TileShape.big2 true) 3 =
          TileShape.big7 from by decide]
      rfl]
    rw [show tileTransformCore ⟨.big7, edgeFlip (le), edgeFlip (re), edgeFlip (te), defaultEdge⟩ true 3 =
      ⟨.big2, edgeFlip (edgeFlip (te)), defaultEdge, edgeFlip (edgeFlip (le)), edgeFlip (edgeFlip (re))⟩ from by
      rw [tileTransformCore,
        show (Tile.mk .big7 (edgeFlip (le)) (edgeFlip (re)) (edgeFlip (te)) defaultEdge).shape =
          TileShape.big7 from rfl,
        show (orderedSides TileShape.big7).map
            (getEdge (flipPhase ⟨.big7, edgeFlip (le), edgeFlip (re), edgeFlip (te), defaultEdge⟩ true)) =
          [edgeFlip (edgeFlip (re)), edgeFlip (edgeFlip (le)), edgeFlip (edgeFlip (te))] from rfl,
        show rotShape (phaseShape TileShape.big7 true) 3 =
          TileShape.big2 from by decide]
      rfl]
    simp only [edgeFlip_edgeFlip]
  case small2 =>
    obtain rfl : te = defaultEdge := h .top (by simp [orderedSides])
    obtain rfl : be = defaultEdge := h .bottom (by simp [orderedSides])
    rw [show tileTransformCore ⟨.small2, defaultEdge, defaultEdge, le, re⟩ true 3 =
      ⟨.small7, edgeFlip (le), edgeFlip (re), defaultEdge, defaultEdge⟩ from by
      rw [tileTransformCore,
        show (Tile.mk .small2 defaultEdge defaultEdge le re).shape =
          TileShape.small2 from rfl,
        show (orderedSides TileShape.small2).map
            (getEdge (flipPhase ⟨.small2, defaultEdge, defaultEdge, le, re⟩ true)) =
          [edgeFlip (re), edgeFlip (le)] from rfl,
        show rotShape (phaseShape TileShape.small2 true) 3 =
          TileShape.small7 from by decide]
      rfl]
    rw [show tileTransformCore ⟨.small7, edgeFlip (le), edgeFlip (re), defaultEdge, defaultEdge⟩ true 3 =
      ⟨.small2, defaultEdge, defaultEdge, edgeFlip (edgeFlip (le)), edgeFlip (edgeFlip (re))⟩ from by
      rw [tileTransformCore,
        show (Tile.mk .small7 (edgeFlip (le)) (edgeFlip (re)) defaultEdge defaultEdge).shape =
          TileShape.small7 from rfl,
        show (orderedSides TileShape.small7).map
            (getEdge (flipPhase ⟨.small7, edgeFlip (le), edgeFlip (re), defaultEdge, defaultEdge⟩ true)) =
          [edgeFlip (edgeFlip (re)), edgeFlip (edgeFlip (le))] from rfl,
        show rotShape (phaseShape TileShape.small7 true) 3 =
          TileShape.small2 from by decide]
      rfl]
    simp only [edgeFlip_edgeFlip]
  case big3 =>
    obtain rfl : le = defaultEdge := h .left (by simp [orderedSides])
    rw [show tileTransformCore ⟨.big3, te, be, defaultEdge, re⟩ true 3 =
      ⟨.big8, defaultEdge, edgeFlip (re), edgeFlip (te), edgeFlip (be)⟩ from by
      rw [tileTransformCore,
        show (Tile.mk .big3 te be defaultEdge re).shape =
          TileShape.big3 from rfl,
        show (orderedSides TileShape.big3).map
            (getEdge (flipPhase ⟨.big3, te, be, defaultEdge, re⟩ true)) =
          [edgeFlip (be), edgeFlip (te), edgeFlip (re)] from rfl,
        show rotShape (phaseShape TileShape.big3 true) 3 =
          TileShape.big8 from by decide]
      rfl]
    rw [show tileTransformCore ⟨.big8, defaultEdge, edgeFlip (re), edgeFlip (te), edgeFlip (be)⟩ true 3 =
      ⟨.big3, edgeFlip (edgeFlip (te)), edgeFlip (edgeFlip (be)), defaultEdge, edgeFlip (edgeFlip (re))⟩ from by
      rw [tileTransformCore,
        show (Tile.mk .big8 defaultEdge (edgeFlip (re)) (edgeFlip (te)) (edgeFlip (be))).shape =
          TileShape.big8 from rfl,
        show (orderedSides TileShape.big8).map
            (getEdge (flipPhase ⟨.big8, defaultEdge, edgeFlip (re), edgeFlip (te), edgeFlip (be)⟩ true)) =
          [edgeFlip (edgeFlip (be)), edgeFlip (edgeFlip (te)), edgeFlip (edgeFlip (re))] from rfl,
        show rotShape (phaseShape TileShape.big8 true) 3 =
          TileShape.big3 from by decide]
      rfl]
    simp only [edgeFlip_edgeFlip]
  case small3 =>
    obtain rfl : le = defaultEdge := h .left (by simp [orderedSides])
    obtain rfl : re = defaultEdge := h .right (by simp [orderedSides])
    rw [show tileTransformCore ⟨.small3, te, be, defaultEdge, defaultEdge⟩ true 3 =
      ⟨.small8, defaultEdge, defaultEdge, edgeFlip (te), edgeFlip (be)⟩ from by
      rw [tileTransformCore,
        show (Tile.mk .small3 te be defaultEdge defaultEdge).shape =
          TileShape.small3 from rfl,
        show (orderedSides TileShape.small3).map
            (getEdge (flipPhase ⟨.small3, te, be, defaultEdge, defaultEdge⟩ true)) =
          [edgeFlip (be), edgeFlip (te)] from rfl,
        show rotShape (phaseShape TileShape.small3 true) 3 =
          TileShape.small8 from by decide]
      rfl]
    rw [show tileTransformCore ⟨.small8, defaultEdge, defaultEdge, edgeFlip (te), edgeFlip (be)⟩ true 3 =
      ⟨.small3, edgeFlip (edgeFlip (te)), edgeFlip (edgeFlip (be)), defaultEdge, defaultEdge⟩ from by
      rw [tileTransformCore,
        show (Tile.mk .small8 defaultEdge defaultEdge (edgeFlip (te)) (edgeFlip (be))).shape =
          TileShape.small8 from rfl,
        show (orderedSides TileShape.small8).map
            (getEdge (flipPhase ⟨.small8, defaultEdge, defaultEdge, edgeFlip (te), edgeFlip (be)⟩ true)) =
          [edgeFlip (edgeFlip (be)), edgeFlip (edgeFlip (te))] from rfl,
        show rotShape (phaseShape TileShape.small8 true) 3 =
          TileShape.small3 from by decide]
      rfl]
    simp only [edgeFlip_edgeFlip]
  case big4 =>
    obtain rfl : te = defaultEdge := h .top (by simp [orderedSides])
    rw [show tileTransformCore ⟨.big4, defaultEdge, be, le, re⟩ true 3 =
      ⟨.big5, edgeFlip (le), edgeFlip (re), defaultEdge, edgeFlip (be)⟩ from by
      rw [tileTransformCore,
        show (Tile.mk .big4 defaultEdge be le re).shape =
          TileShape.big4 from rfl,
        show (orderedSides TileShape.big4).map
            (getEdge (flipPhase ⟨.big4, defaultEdge, be, le, re⟩ true)) =
          [edgeFlip (le), edgeFlip (re), edgeFlip (be)] from rfl,
        show rotShape (phaseShape TileShape.big4 true) 3 =
          TileShape.big5 from by decide]
      rfl]
    rw [show tileTransformCore ⟨.big5, edgeFlip (le), edgeFlip (re), defaultEdge, edgeFlip (be)⟩ true 3 =
      ⟨.big4, defaultEdge, edgeFlip (edgeFlip (be)), edgeFlip (edgeFlip (le)), edgeFlip (edgeFlip (re))⟩ from by
      rw [tileTransformCore,
        show (Tile.mk .big5 (edgeFlip (le)) (edgeFlip (re)) defaultEdge (edgeFlip (be))).shape =
          TileShape.big5 from rfl,
        show (orderedSides TileShape.big5).map
            (getEdge (flipPhase ⟨.big5, edgeFlip (le), edgeFlip (re), defaultEdge, edgeFlip (be)⟩ true)) =
          [edgeFlip (edgeFlip (le)), edgeFlip (edgeFlip (re)), edgeFlip (edgeFlip (be))] from rfl,
        show rotShape (phaseShape TileShape.big5 true) 3 =
          TileShape.big4 from by decide]
      rfl]
    simp only [edgeFlip_edgeFlip]
  case small4 =>
    obtain rfl : te = defaultEdge := h .top (by simp [orderedSides])
    obtain rfl : be = defaultEdge := h .bottom (by simp [orderedSides])
    rw [show tileTransformCore ⟨.small4, defaultEdge, defaultEdge, le, re⟩ true 3 =
      ⟨.small5, edgeFlip (le), edgeFlip (re), defaultEdge, defaultEdge⟩ from by
      rw [tileTransformCore,
        show (Tile.mk .small4 defaultEdge defaultEdge le re).shape =
          TileShape.small4 from rfl,
        show (orderedSides TileShape.small4).map
            (getEdge (flipPhase ⟨.small4, defaultEdge, defaultEdge, le, re⟩ true)) =
          [edgeFlip (le), edgeFlip (re)] from rfl,
        show rotShape (phaseShape TileShape.small4 true) 3 =
          TileShape.small5 from by decide]
      rfl]
    rw [show tileTransformCore ⟨.small5, edgeFlip (le), edgeFlip (re), defaultEdge, defaultEdge⟩ true 3 =
      ⟨.small4, defaultEdge, defaultEdge, edgeFlip (edgeFlip (le)), edgeFlip (edgeFlip (re))⟩ from by
      rw [tileTransformCore,
        show (Tile.mk .small5 (edgeFlip (le)) (edgeFlip (re)) defaultEdge defaultEdge).shape =
          TileShape.small5 from rfl,
        show (orderedSides TileShape.small5).map
            (getEdge (flipPhase ⟨.small5, edgeFlip (le), edgeFlip (re), defaultEdge, defaultEdge⟩ true)) =
          [edgeFlip (edgeFlip (le)), edgeFlip (edgeFlip (re))] from rfl,
        show rotShape (phaseShape TileShape.small5 true) 3 =
          TileShape.small4 from by decide]
      rfl]
    simp only [edgeFlip_edgeFlip]
  case big5 =>
    obtain rfl : le = defaultEdge := h .left (by simp [orderedSides])
    rw [show tileTransformCore ⟨.big5, te, be, defaultEdge, re⟩ true 3 =
      ⟨.big4, defaultEdge, edgeFlip (re), edgeFlip (te), edgeFlip (be)⟩ from by
      rw [tileTransformCore,
        show (Tile.mk .big5 te be defaultEdge re).shape =
          TileShape.big5 from rfl,
        show (orderedSides TileShape.big5).map
            (getEdge (flipPhase ⟨.big5, te, be, defaultEdge, re⟩ true)) =
          [edgeFlip (te), edgeFlip (be), edgeFlip (re)] from rfl,
        show rotShape (phaseShape TileShape.big5 true) 3 =
          TileShape.big4 from by decide]
      rfl]
    rw [show tileTransformCore ⟨.big4, defaultEdge, edgeFlip (re), edgeFlip (te), edgeFlip (be)⟩ true 3 =
      ⟨.big5, edgeFlip (edgeFlip (te)), edgeFlip (edgeFlip (be)), defaultEdge, edgeFlip (edgeFlip (re))⟩ from by
      rw [tileTransformCore,
        show (Tile.mk .big4 defaultEdge (edgeFlip (re)) (edgeFlip (te)) (edgeFlip (be))).shape =
          TileShape.big4 from rfl,
        show (orderedSides TileShape.big4).map
            (getEdge (flipPhase ⟨.big4, defaultEdge, edgeFlip (re), edgeFlip (te), edgeFlip (be)⟩ true)) =
          [edgeFlip (edgeFlip (te)), edgeFlip (edgeFlip (be)), edgeFlip (edgeFlip (re))] from rfl,
        show rotShape (phaseShape TileShape.big4 true) 3 =
          TileShape.big5 from by decide]
      rfl]
    simp only [edgeFlip_edgeFlip]
  case small5 =>
    obtain rfl : le = defaultEdge := h .left (by simp [orderedSides])
    obtain rfl : re = defaultEdge := h .right (by simp [orderedSides])
    rw [show tileTransformCore ⟨.small5, te, be, defaultEdge, defaultEdge⟩ true 3 =
      ⟨.small4, defaultEdge, defaultEdge, edgeFlip (te), edgeFlip (be)⟩ from by
      rw [tileTransformCore,
        show (Tile.mk .small5 te be defaultEdge defaultEdge).shape =
          TileShape.small5 from rfl,
        show (orderedSides TileShape.small5).map
            (getEdge (flipPhase ⟨.small5, te, be, defaultEdge, defaultEdge⟩ true)) =
          [edgeFlip (te), edgeFlip (be)] from rfl,
        show rotShape (phaseShape TileShape.small5 true) 3 =
          TileShape.small4 from by decide]
      rfl]
    rw [show tileTransformCore ⟨.small4, defaultEdge, defaultEdge, edgeFlip (te), edgeFlip (be)⟩ true 3 =
      ⟨.small5, edgeFlip (edgeFlip (te)), edgeFlip (edgeFlip (be)), defaultEdge, defaultEdge⟩ from by
      rw [tileTransformCore,
        show (Tile.mk .small4 defaultEdge defaultEdge (edgeFlip (te)) (edgeFlip (be))).shape =
          TileShape.small4 from rfl,
        show (orderedSides TileShape.small4).map
            (getEdge (flipPhase ⟨.small4, defaultEdge, defaultEdge, edgeFlip (te), edgeFlip (be)⟩ true)) =
          [edgeFlip (edgeFlip (te)), edgeFlip (edgeFlip (be))] from rfl,
        show rotShape (phaseShape TileShape.small4 true) 3 =
          TileShape.small5 from by decide]
      rfl]
    simp only [edgeFlip_edgeFlip]
  case big6 =>
    obtain rfl : be = defaultEdge := h .bottom (by simp [orderedSides])
    rw [show tileTransformCore ⟨.big6, te, defaultEdge, le, re⟩ true 3 =
      ⟨.big1, edgeFlip (le), edgeFlip (re), edgeFlip (te), defaultEdge⟩ from by
      rw [tileTransformCore,
        show (Tile.mk .big6 te defaultEdge le re).shape =
          TileShape.big6 from rfl,
        show (orderedSides TileShape.big6).map
            (getEdge (flipPhase ⟨.big6, te, defaultEdge, le, re⟩ true)) =
          [edgeFlip (le), edgeFlip (re), edgeFlip (te)] from rfl,
        show rotShape (phaseShape TileShape.big6 true) 3 =
          TileShape.big1 from by decide]
      rfl]
    rw [show tileTransformCore ⟨.big1, edgeFlip (le), edgeFlip (re), edgeFlip (te), defaultEdge⟩ true 3 =
      ⟨.big6, edgeFlip (edgeFlip (te)), defaultEdge, edgeFlip (edgeFlip (le)), edgeFlip (edgeFlip (re))⟩ from by
      rw [tileTransformCore,
        show (Tile.mk .big1 (edgeFlip (le)) (edgeFlip (re)) (edgeFlip (te)) defaultEdge).shape =
          TileShape.big1 from rfl,
        show (orderedSides TileShape.big1).map
            (getEdge (flipPhase ⟨.big1, edgeFlip (le), edgeFlip (re), edgeFlip (te), defaultEdge⟩ true)) =
          [edgeFlip (edgeFlip (le)), edgeFlip (edgeFlip (re)), edgeFlip (edgeFlip (te))] from rfl,
        show rotShape (phaseShape TileShape.big1 true) 3 =
          TileShape.big6 from by decide]
      rfl]
    simp only [edgeFlip_edgeFlip]
  case small6 =>
    obtain rfl : te = defaultEdge := h .top (by simp [orderedSides])
    obtain rfl : be = defaultEdge := h .bottom (by simp [orderedSides])
    rw [show tileTransformCore ⟨.small6, defaultEdge, defaultEdge, le, re⟩ true 3 =
      ⟨.small1, edgeFlip (le), edgeFlip (re), defaultEdge, defaultEdge⟩ from by
      rw [tileTransformCore,
        show (Tile.mk .small6 defaultEdge defaultEdge le re).shape =
          TileShape.small6 from rfl,
        show (orderedSides TileShape.small6).map
            (getEdge (flipPhase ⟨.small6, defaultEdge, defaultEdge, le, re⟩ true)) =
          [edgeFlip (le), edgeFlip (re)] from rfl,
        show rotShape (phaseShape TileShape.small6 true) 3 =
          TileShape.small1 from by decide]
      rfl]
    rw [show tileTransformCore ⟨.small1, edgeFlip (le), edgeFlip (re), defaultEdge, defaultEdge⟩ true 3 =
      ⟨.small6, defaultEdge, defaultEdge, edgeFlip (edgeFlip (le)), edgeFlip (edgeFlip (re))⟩ from by
      rw [tileTransformCore,
        show (Tile.mk .small1 (edgeFlip (le)) (edgeFlip (re)) defaultEdge defaultEdge).shape =
          TileShape.small1 from rfl,
        show (orderedSides TileShape.small1).map
            (getEdge (flipPhase ⟨.small1, edgeFlip (le), edgeFlip (re), defaultEdge, defaultEdge⟩ true)) =
          [edgeFlip (edgeFlip (le)), edgeFlip (edgeFlip (re))] from rfl,
        show rotShape (phaseShape TileShape.small1 true) 3 =
          TileShape.small6 from by decide]
      rfl]
    simp only [edgeFlip_edgeFlip]
  case big7 =>
    obtain rfl : re = defaultEdge := h .right (by simp [orderedSides])
    rw [show tileTransformCore ⟨.big7, te, be, le, defaultEdge⟩ true 3 =
      ⟨.big2, edgeFlip (le), defaultEdge, edgeFlip (te), edgeFlip (be)⟩ from by
      rw [tileTransformCore,
        show (Tile.mk .big7 te be le defaultEdge).shape =
          TileShape.big7 from rfl,
        show (orderedSides TileShape.big7).map
            (getEdge (flipPhase ⟨.big7, te, be, le, defaultEdge⟩ true)) =
          [edgeFlip (be), edgeFlip (te), edgeFlip (le)] from rfl,
        show rotShape (phaseShape TileShape.big7 true) 3 =
          TileShape.big2 from by decide]
      rfl]
    rw [show tileTransformCore ⟨.big2, edgeFlip (le), defaultEdge, edgeFlip (te), edgeFlip (be)⟩ true 3 =
      ⟨.big7, edgeFlip (edgeFlip (te)), edgeFlip (edgeFlip (be)), edgeFlip (edgeFlip (le)), defaultEdge⟩ from by
      rw [tileTransformCore,
        show (Tile.mk .big2 (edgeFlip (le)) defaultEdge (edgeFlip (te)) (edgeFlip (be))).shape =
          TileShape.big2 from rfl,
        show (orderedSides TileShape.big2).map
            (getEdge (flipPhase ⟨.big2, edgeFlip (le), defaultEdge, edgeFlip (te), edgeFlip (be)⟩ true)) =
          [edgeFlip (edgeFlip (be)), edgeFlip (edgeFlip (te)), edgeFlip (edgeFlip (le))] from rfl,
        show rotShape (phaseShape TileShape.big2 true) 3 =
          TileShape.big7 from by decide]
      rfl]
    simp only [edgeFlip_edgeFlip]
  case small7 =>
    obtain rfl : le = defaultEdge := h .left (by simp [orderedSides])
    obtain rfl : re = defaultEdge := h .right (by simp [orderedSides])
    rw [show tileTransformCore ⟨.small7, te, be, defaultEdge, defaultEdge⟩ true 3 =
      ⟨.small2, defaultEdge, defaultEdge, edgeFlip (te), edgeFlip (be)⟩ from by
      rw [tileTransformCore,
        show (Tile.mk .small7 te be defaultEdge defaultEdge).shape =
          TileShape.small7 from rfl,
        show (orderedSides TileShape.small7).map
            (getEdge (flipPhase ⟨.small7, te, be, defaultEdge, defaultEdge⟩ true)) =
          [edgeFlip (be), edgeFlip (te)] from rfl,
        show rotShape (phaseShape TileShape.small7 true) 3 =
          TileShape.small2 from by decide]
      rfl]
    rw [show tileTransformCore ⟨.small2, defaultEdge, defaultEdge, edgeFlip (te), edgeFlip (be)⟩ true 3 =
      ⟨.small7, edgeFlip (edgeFlip (te)), edgeFlip (edgeFlip (be)), defaultEdge, defaultEdge⟩ from by
      rw [tileTransformCore,
        show (Tile.mk .small2 defaultEdge defaultEdge (edgeFlip (te)) (edgeFlip (be))).shape =
          TileShape.small2 from rfl,
        show (orderedSides TileShape.small2).map
            (getEdge (flipPhase ⟨.small2, defaultEdge, defaultEdge, edgeFlip (te), edgeFlip (be)⟩ true)) =
          [edgeFlip (edgeFlip (be)), edgeFlip (edgeFlip (te))] from rfl,
        show rotShape (phaseShape TileShape.small2 true) 3 =
          TileShape.small7 from by decide]
      rfl]
    simp only [edgeFlip_edgeFlip]
  case big8 =>
    obtain rfl : te = defaultEdge := h .top (by simp [orderedSides])
    rw [show tileTransformCore ⟨.big8, defaultEdge, be, le, re⟩ true 3 =
      ⟨.big3, edgeFlip (le), edgeFlip (re), defaultEdge, edgeFlip (be)⟩ from by
      rw [tileTransformCore,
        show (Tile.mk .big8 defaultEdge be le re).shape =
          TileShape.big8 from rfl,
        show (orderedSides TileShape.big8).map
            (getEdge (flipPhase ⟨.big8, defaultEdge, be, le, re⟩ true)) =
          [edgeFlip (re), edgeFlip (le), edgeFlip (be)] from rfl,
        show rotShape (phaseShape TileShape.big8 true) 3 =
          TileShape.big3 from by decide]
      rfl]
    rw [show tileTransformCore ⟨.big3, edgeFlip (le), edgeFlip (re), defaultEdge, edgeFlip (be)⟩ true 3 =
      ⟨.big8, defaultEdge, edgeFlip (edgeFlip (be)), edgeFlip (edgeFlip (le)), edgeFlip (edgeFlip (re))⟩ from by
      rw [tileTransformCore,
        show (Tile.mk .big3 (edgeFlip (le)) (edgeFlip (re)) defaultEdge (edgeFlip (be))).shape =
          TileShape.big3 from rfl,
        show (orderedSides TileShape.big3).map
            (getEdge (flipPhase ⟨.big3, edgeFlip (le), edgeFlip (re), defaultEdge, edgeFlip (be)⟩ true)) =
          [edgeFlip (edgeFlip (re)), edgeFlip (edgeFlip (le)), edgeFlip (edgeFlip (be))] from rfl,
        show rotShape (phaseShape TileShape.big3 true) 3 =
          TileShape.big8 from by decide]
      rfl]
    simp only [edgeFlip_edgeFlip]
  case small8 =>
    obtain rfl : te = defaultEdge := h .top (by simp [orderedSides])
    obtain rfl : be = defaultEdge := h .bottom (by simp [orderedSides])
    rw [show tileTransformCore ⟨.small8, defaultEdge, defaultEdge, le, re⟩ true 3 =
      ⟨.small3, edgeFlip (le), edgeFlip (re), defaultEdge, defaultEdge⟩ from by
      rw [tileTransformCore,
        show (Tile.mk .small8 defaultEdge defaultEdge le re).shape =
          TileShape.small8 from rfl,
        show (orderedSides TileShape.small8).map
            (getEdge (flipPhase ⟨.small8, defaultEdge, defaultEdge, le, re⟩ true)) =
          [edgeFlip (re), edgeFlip (le)] from rfl,
        show rotShape (phaseShape TileShape.small8 true) 3 =
          TileShape.small3 from by decide]
      rfl]
    rw [show tileTransformCore ⟨.small3, edgeFlip (le), edgeFlip (re), defaultEdge, defaultEdge⟩ true 3 =
      ⟨.small8, defaultEdge, defaultEdge, edgeFlip (edgeFlip (le)), edgeFlip (edgeFlip (re))⟩ from by
      rw [tileTransformCore,
        show (Tile.mk .small3 (edgeFlip (le)) (edgeFlip (re)) defaultEdge defaultEdge).shape =
          TileShape.small3 from rfl,
        show (orderedSides TileShape.small3).map
            (getEdge (flipPhase ⟨.small3, edgeFlip (le), edgeFlip (re), defaultEdge, defaultEdge⟩ true)) =
          [edgeFlip (edgeFlip (re)), edgeFlip (edgeFlip (le))] from rfl,
        show rotShape (phaseShape TileShape.small3 true) 3 =
          TileShape.small8 from by decide]
      rfl]
    simp only [edgeFlip_edgeFlip]
  case halfA =>
    obtain rfl : re = defaultEdge := h .right (by simp [orderedSides])
    rw [show tileTransformCore ⟨.halfA, te, be, le, defaultEdge⟩ true 3 =
      ⟨.halfC, edgeFlip (le), edgeFlip (te), defaultEdge, edgeFlip (be)⟩ from by
      rw [tileTransformCore,
        show (Tile.mk .halfA te be le defaultEdge).shape =
          TileShape.halfA from rfl,
        show (orderedSides TileShape.halfA).map
            (getEdge (flipPhase ⟨.halfA, te, be, le, defaultEdge⟩ true)) =
          [edgeFlip (te), edgeFlip (le), edgeFlip (be)] from rfl,
        show rotShape (phaseShape TileShape.halfA true) 3 =
          TileShape.halfC from by decide]
      rfl]
    rw [show tileTransformCore ⟨.halfC, edgeFlip (le), edgeFlip (te), defaultEdge, edgeFlip (be)⟩ true 3 =
      ⟨.halfA, edgeFlip (edgeFlip (te)), edgeFlip (edgeFlip (be)), edgeFlip (edgeFlip (le)), defaultEdge⟩ from by
      rw [tileTransformCore,
        show (Tile.mk .halfC (edgeFlip (le)) (edgeFlip (te)) defaultEdge (edgeFlip (be))).shape =
          TileShape.halfC from rfl,
        show (orderedSides TileShape.halfC).map
            (getEdge (flipPhase ⟨.halfC, edgeFlip (le), edgeFlip (te), defaultEdge, edgeFlip (be)⟩ true)) =
          [edgeFlip (edgeFlip (te)), edgeFlip (edgeFlip (be)), edgeFlip (edgeFlip (le))] from rfl,
        show rotShape (phaseShape TileShape.halfC true) 3 =
          TileShape.halfA from by decide]
      rfl]
    simp only [edgeFlip_edgeFlip]
  case halfB =>
    obtain rfl : re = defaultEdge := h .right (by simp [orderedSides])
    rw [show tileTransformCore ⟨.halfB, te, be, le, defaultEdge⟩ true 3 =
      ⟨.halfB, edgeFlip (le), edgeFlip (be), edgeFlip (te), defaultEdge⟩ from by
      rw [tileTransformCore,
        show (Tile.mk .halfB te be le defaultEdge).shape =
          TileShape.halfB from rfl,
        show (orderedSides TileShape.halfB).map
            (getEdge (flipPhase ⟨.halfB, te, be, le, defaultEdge⟩ true)) =
          [edgeFlip (be), edgeFlip (te), edgeFlip (le)] from rfl,
        show rotShape (phaseShape TileShape.halfB true) 3 =
          TileShape.halfB from by decide]
      rfl]
    rw [show tileTransformCore ⟨.halfB, edgeFlip (le), edgeFlip (be), edgeFlip (te), defaultEdge⟩ true 3 =
      ⟨.halfB, edgeFlip (edgeFlip (te)), edgeFlip (edgeFlip (be)), edgeFlip (edgeFlip (le)), defaultEdge⟩ from by
      rw [tileTransformCore,
        show (Tile.mk .halfB (edgeFlip (le)) (edgeFlip (be)) (edgeFlip (te)) defaultEdge).shape =
          TileShape.halfB from rfl,
        show (orderedSides TileShape.halfB).map
            (getEdge (flipPhase ⟨.halfB, edgeFlip (le), edgeFlip (be), edgeFlip (te), defaultEdge⟩ true)) =
          [edgeFlip (edgeFlip (be)), edgeFlip (edgeFlip (le)), edgeFlip (edgeFlip (te))] from rfl,
        show rotShape (phaseShape TileShape.halfB true) 3 =
          TileShape.halfB from by decide]
      rfl]
    simp only [edgeFlip_edgeFlip]
  case halfC =>
    obtain rfl : le = defaultEdge := h .left (by simp [orderedSides])
    rw [show tileTransformCore ⟨.halfC, te, be, defaultEdge, re⟩ true 3 =
      ⟨.halfA, edgeFlip (be), edgeFlip (re), edgeFlip (te), defaultEdge⟩ from by
      rw [tileTransformCore,
        show (Tile.mk .halfC te be defaultEdge re).shape =
          TileShape.halfC from rfl,
        show (orderedSides TileShape.halfC).map
            (getEdge (flipPhase ⟨.halfC, te, be, defaultEdge, re⟩ true)) =
          [edgeFlip (be), edgeFlip (re), edgeFlip (te)] from rfl,
        show rotShape (phaseShape TileShape.halfC true) 3 =
          TileShape.halfA from by decide]
      rfl]
    rw [show tileTransformCore ⟨.halfA, edgeFlip (be), edgeFlip (re), edgeFlip (te), defaultEdge⟩ true 3 =
      ⟨.halfC, edgeFlip (edgeFlip (te)), edgeFlip (edgeFlip (be)), defaultEdge, edgeFlip (edgeFlip (re))⟩ from by
      rw [tileTransformCore,
        show (Tile.mk .halfA (edgeFlip (be)) (edgeFlip (re)) (edgeFlip (te)) defaultEdge).shape =
          TileShape.halfA from rfl,
        show (orderedSides TileShape.halfA).map
            (getEdge (flipPhase ⟨.halfA, edgeFlip (be), edgeFlip (re), edgeFlip (te), defaultEdge⟩ true)) =
          [edgeFlip (edgeFlip (be)), edgeFlip (edgeFlip (te)), edgeFlip (edgeFlip (re))] from rfl,
        show rotShape (phaseShape TileShape.halfA true) 3 =
          TileShape.halfC from by decide]
      rfl]
    simp only [edgeFlip_edgeFlip]
  case halfD =>
    obtain rfl : le = defaultEdge := h .left (by simp [orderedSides])
    rw [show tileTransformCore ⟨.halfD, te, be, defaultEdge, re⟩ true 3 =
      ⟨.halfD, edgeFlip (te), edgeFlip (re), defaultEdge, edgeFlip (be)⟩ from by
      rw [tileTransformCore,
        show (Tile.mk .halfD te be defaultEdge re).shape =
          TileShape.halfD from rfl,
        show (orderedSides TileShape.halfD).map
            (getEdge (flipPhase ⟨.halfD, te, be, defaultEdge, re⟩ true)) =
          [edgeFlip (te), edgeFlip (be), edgeFlip (re)] from rfl,
        show rotShape (phaseShape TileShape.halfD true) 3 =
          TileShape.halfD from by decide]
      rfl]
    rw [show tileTransformCore ⟨.halfD, edgeFlip (te), edgeFlip (re), defaultEdge, edgeFlip (be)⟩ true 3 =
      ⟨.halfD, edgeFlip (edgeFlip (te)), edgeFlip (edgeFlip (be)), defaultEdge, edgeFlip (edgeFlip (re))⟩ from by
      rw [tileTransformCore,
        show (Tile.mk .halfD (edgeFlip (te)) (edgeFlip (re)) defaultEdge (edgeFlip (be))).shape =
          TileShape.halfD from rfl,
        show (orderedSides TileShape.halfD).map
            (getEdge (flipPhase ⟨.halfD, edgeFlip (te), edgeFlip (re), defaultEdge, edgeFlip (be)⟩ true)) =
          [edgeFlip (edgeFlip (te)), edgeFlip (edgeFlip (re)), edgeFlip (edgeFlip (be))] from rfl,
        show rotShape (phaseShape TileShape.halfD true) 3 =
          TileShape.halfD from by decide]
      rfl]
    simp only [edgeFlip_edgeFlip]

/-- C4 counterexample: a SMALL_1 tile whose LEFT edge (a side not in
`SHAPE_ORDERED_SIDES[SMALL_1]`) is solid is not restored by
transforming with the identity symmetry and its inverse — the
transform rebuilds the tile from `og_edge_data`, which only carries
the ordered sides, so the LEFT edge comes back as the default edge. -/
theorem tile_transform_cex :
    tileTransform
        (tileTransform
          ⟨.small1, defaultEdge, defaultEdge,
            { defaultEdge with solid := true }, defaultEdge⟩ (symMat 0))
        (symInv 0) ≠
      ⟨.small1, defaultEdge, defaultEdge,
        { defaultEdge with solid := true }, defaultEdge⟩ := by
  simp only [tileTransform, symMat_0, symInv_0, symMat_0_flipped,
    symMat_0_angle]
  decide

/-- C4 (amended): for each of the 8 symmetry matrices (the four
rotation constants, optionally composed with the horizontal flip),
`symInv k` is a true two-sided inverse under the matrix product, and
for every tile whose edge data lives only on the sides listed in
`SHAPE_ORDERED_SIDES` of its shape (every other side being the default
edge — the part transform preserves), `Tile.transform(symMat k)`
followed by `Tile.transform(symInv k)` restores the tile exactly,
edge for edge, including caps, angles and filth fields. -/
theorem tile_transform_roundtrip (k : Fin 8) (t : Tile)
    (h : ∀ side, side ∉ orderedSides t.shape → getEdge t side = defaultEdge) :
    (symInv k).mul (symMat k) = TxMatrix.identityMat ∧
    tileTransform (tileTransform t (symMat k)) (symInv k) = t := by
  constructor
  · fin_cases k
    · show (symInv 0).mul (symMat 0) = TxMatrix.identityMat
      rw [symInv_0, symMat_0]
      simp only [TxMatrix.mul, TxMatrix.identityMat, TxMatrix.mk.injEq]
      norm_num
    · show (symInv 1).mul (symMat 1) = TxMatrix.identityMat
      rw [symInv_1, symMat_1]
      simp only [TxMatrix.mul, TxMatrix.identityMat, TxMatrix.mk.injEq]
      norm_num
    · show (symInv 2).mul (symMat 2) = TxMatrix.identityMat
      rw [symInv_2, symMat_2]
      simp only [TxMatrix.mul, TxMatrix.identityMat, TxMatrix.mk.injEq]
      norm_num
    · show (symInv 3).mul (symMat 3) = TxMatrix.identityMat
      rw [symInv_3, symMat_3]
      simp only [TxMatrix.mul, TxMatrix.identityMat, TxMatrix.mk.injEq]
      norm_num
    · show (symInv 4).mul (symMat 4) = TxMatrix.identityMat
      rw [symInv_4, symMat_4]
      simp only [TxMatrix.mul, TxMatrix.identityMat, TxMatrix.mk.injEq]
      norm_num
    · show (symInv 5).mul (symMat 5) = TxMatrix.identityMat
      rw [symInv_5, symMat_5]
      simp only [TxMatrix.mul, TxMatrix.identityMat, TxMatrix.mk.injEq]
      norm_num
    · show (symInv 6).mul (symMat 6) = TxMatrix.identityMat
      rw [symInv_6, symMat_6]
      simp only [TxMatrix.mul, TxMatrix.identityMat, TxMatrix.mk.injEq]
      norm_num
    · show (symInv 7).mul (symMat 7) = TxMatrix.identityMat
      rw [symInv_7, symMat_7]
      simp only [TxMatrix.mul, TxMatrix.identityMat, TxMatrix.mk.injEq]
      norm_num
  · fin_cases k
    · show tileTransform (tileTransform t (symMat 0)) (symInv 0) = t
      exact symRT_0 t h
    · show tileTransform (tileTransform t (symMat 1)) (symInv 1) = t
      exact symRT_1 t h
    · show tileTransform (tileTransform t (symMat 2)) (symInv 2) = t
      exact symRT_2 t h
    · show tileTransform (tileTransform t (symMat 3)) (symInv 3) = t
      exact symRT_3 t h
    · show tileTransform (tileTransform t (symMat 4)) (symInv 4) = t
      exact symRT_4 t h
    · show tileTransform (tileTransform t (symMat 5)) (symInv 5) = t
      exact symRT_5 t h
    · show tileTransform (tileTransform t (symMat 6)) (symInv 6) = t
      exact symRT_6 t h
    · show tileTransform (tileTransform t (symMat 7)) (symInv 7) = t
      exact symRT_7 t h

/-- C4 witness: the round-trip at the flipped quarter-turn symmetry
`k = 5` on a BIG_3 tile with nontrivial edge data on its three ordered
sides. -/
theorem tile_transform_roundtrip_witness :
    (symInv 5).mul (symMat 5) = TxMatrix.identityMat ∧
    tileTransform
        (tileTransform
          ⟨.big3, ⟨true, true, (true, false), (2, -1), 3, true, (false, true),
              (1, 0)⟩,
            ⟨true, false, (false, true), (-3, 4), 1, false, (true, true),
              (0, -2)⟩, defaultEdge,
            ⟨false, true, (true, true), (5, 6), 2, true, (true, false),
              (-1, 7)⟩⟩ (symMat 5))
        (symInv 5) =
      ⟨.big3, ⟨true, true, (true, false), (2, -1), 3, true, (false, true),
          (1, 0)⟩,
        ⟨true, false, (false, true), (-3, 4), 1, false, (true, true),
          (0, -2)⟩, defaultEdge,
        ⟨false, true, (true, true), (5, 6), 2, true, (true, false),
          (-1, 7)⟩⟩ :=
  tile_transform_roundtrip 5 _ (by
    intro side hs
    cases side <;> simp [orderedSides, getEdge] at hs ⊢)

theorem copySide_full_top (e : TileEdgeData) (f dx dy : Nat) (h : dx < f) :
    copySide e f dx dy .full .top =
      specAdjust e (decide (dx = 0)) (decide (dx + 1 = f)) := by
  simp only [copySide, copySideStep, sideClockwiseIndex]
  norm_num [shapeVertexes, tupleSetB, tupleSetI]
  by_cases h0 : dx = 0 <;> by_cases h1 : dx + 1 = f
  · simp [h0, h1, show f = 1 from by omega, specAdjust]
  · simp [h0, h1, show ¬f = 1 from by omega, show ¬1 = f from by omega,
      specAdjust]
  · simp [h0, h1, show 2 * dx + 2 = f * 2 from by omega,
      show ¬2 * dx = f * 2 from by omega, specAdjust]
  · simp [h0, h1, show ¬2 * dx + 2 = f * 2 from by omega,
      show ¬2 * dx = f * 2 from by omega, specAdjust]

theorem copySide_full_bottom (e : TileEdgeData) (f dx dy : Nat) (h : dx < f) :
    copySide e f dx dy .full .bottom =
      specAdjust e (decide (dx + 1 = f)) (decide (dx = 0)) := by
  simp only [copySide, copySideStep, sideClockwiseIndex]
  norm_num [shapeVertexes, tupleSetB, tupleSetI]
  by_cases h0 : dx = 0 <;> by_cases h1 : dx + 1 = f
  · simp [h0, h1, show f = 1 from by omega, specAdjust]
  · simp [h0, h1, show ¬f = 1 from by omega, show ¬1 = f from by omega,
      specAdjust]
  · simp [h0, h1, show 2 * dx + 2 = f * 2 from by omega,
      show ¬2 * dx = f * 2 from by omega, specAdjust]
  · simp [h0, h1, show ¬2 * dx + 2 = f * 2 from by omega,
      show ¬2 * dx = f * 2 from by omega, specAdjust]

theorem copySide_full_left (e : TileEdgeData) (f dx dy : Nat) (h : dy < f) :
    copySide e f dx dy .full .left =
      specAdjust e (decide (dy + 1 = f)) (decide (dy = 0)) := by
  simp only [copySide, copySideStep, sideClockwiseIndex]
  norm_num [shapeVertexes, tupleSetB, tupleSetI]
  by_cases h0 : dy = 0 <;> by_cases h1 : dy + 1 = f
  · simp [h0, h1, show f = 1 from by omega, specAdjust]
  · simp [h0, h1, show ¬f = 1 from by omega, show ¬1 = f from by omega,
      specAdjust]
  · simp [h0, h1, show 2 * dy + 2 = f * 2 from by omega,
      show ¬2 * dy = f * 2 from by omega, specAdjust]
  · simp [h0, h1, show ¬2 * dy + 2 = f * 2 from by omega,
      show ¬2 * dy = f * 2 from by omega, specAdjust]

theorem copySide_full_right (e : TileEdgeData) (f dx dy : Nat) (h : dy < f) :
    copySide e f dx dy .full .right =
      specAdjust e (decide (dy = 0)) (decide (dy + 1 = f)) := by
  simp only [copySide, copySideStep, sideClockwiseIndex]
  norm_num [shapeVertexes, tupleSetB, tupleSetI]
  by_cases h0 : dy = 0 <;> by_cases h1 : dy + 1 = f
  · simp [h0, h1, show f = 1 from by omega, specAdjust]
  · simp [h0, h1, show ¬f = 1 from by omega, show ¬1 = f from by omega,
      specAdjust]
  · simp [h0, h1, show 2 * dy + 2 = f * 2 from by omega,
      show ¬2 * dy = f * 2 from by omega, specAdjust]
  · simp [h0, h1, show ¬2 * dy + 2 = f * 2 from by omega,
      show ¬2 * dy = f * 2 from by omega, specAdjust]

theorem upscaleFull_spec (t : Tile) (f : Nat) (hf : 2 ≤ f) :
    tileUpscaleFull t f =
      (List.range f).bind fun dx => (List.range f).map fun dy =>
        (dx, dy, upscaleSpecSub t f dx dy) := by
  rw [tileUpscaleFull, if_neg (by omega), if_neg (by omega)]
  apply List.bind_congr
  intro dx hdx
  have hx : dx < f := List.mem_range.mp hdx
  apply List.map_congr_left
  intro dy hdy
  have hy : dy < f := List.mem_range.mp hdy
  simp only [Prod.mk.injEq, true_and]
  by_cases h0 : dx = 0 <;> by_cases h1 : dx + 1 = f <;>
    by_cases h2 : dy = 0 <;> by_cases h3 : dy + 1 = f <;>
      first
        | (exfalso; omega)
        | simp [h0, h1, h2, h3, hx, hy, show (0 : Nat) < f from by omega,
            show ¬1 = f from by omega, upscaleSpecSub, setEdge, getEdge,
            copySide_full_top, copySide_full_bottom, copySide_full_left,
            copySide_full_right]

theorem upscaleFull_length (t : Tile) (f : Nat) (hf : 2 ≤ f) :
    (tileUpscaleFull t f).length = f * f := by
  rw [upscaleFull_spec t f hf]
  simp [List.length_bind, Function.comp_def, List.length_map,
    List.length_range, List.map_const', List.sum_replicate, smul_eq_mul]

/-- C5 counterexample: at factor 2, the sub-tile at grid position
`(0, 0)` of a FULL tile upscale has `dx = 0`, yet its LEFT side is not
a copy of the original LEFT edge data: `_copy_side` zeroes the corner
cap and angle entries whose sub-edge endpoint is interior to the
upscaled square, so the original's `caps = (true, true)`,
`angles = (1, 2)` come back as `(false, true)` and `(0, 2)`. -/
theorem tile_upscale_full_cex :
    getEdge
        ((tileUpscaleFull
            ⟨.full, defaultEdge, defaultEdge,
              ⟨false, false, (true, true), (1, 2), 0, false, (false, false),
                (0, 0)⟩, defaultEdge⟩ 2).getD 0
          (0, 0, ⟨.full, defaultEdge, defaultEdge, defaultEdge,
            defaultEdge⟩)).2.2 .left ≠
      ⟨false, false, (true, true), (1, 2), 0, false, (false, false),
        (0, 0)⟩ := by decide

/-- C5 (amended): for every FULL-shaped tile and every factor `f ≥ 2`,
the FULL branch of `Tile.upscale` yields exactly `f * f` sub-tiles,
one at each `(dx, dy)` in `[0, f) × [0, f)` in `dx`-major yield order;
a sub-tile carries edge data on its LEFT side only when `dx = 0`,
RIGHT only when `dx + 1 = f`, TOP only when `dy = 0`, BOTTOM only when
`dy + 1 = f`, every other edge being the default edge; an inherited
edge keeps the original's solid/visible/filth-sprite/spike data, while
each corner entry of its caps, angles, filth caps and filth angles
survives only when that corner of the sub-edge lies on the boundary of
the upscaled square (`upscaleSpecSub` spells out the resulting
tile). -/
theorem tile_upscale_full_boundary (t : Tile) (f : Nat) (hf : 2 ≤ f) :
    (tileUpscaleFull t f).length = f * f ∧
    tileUpscaleFull t f =
      (List.range f).bind fun dx => (List.range f).map fun dy =>
        (dx, dy, upscaleSpecSub t f dx dy) :=
  ⟨upscaleFull_length t f hf, upscaleFull_spec t f hf⟩

/-- C5 witness: the boundary policy evaluated at factor 2 on a FULL
tile with four distinct nontrivial edges. -/
theorem tile_upscale_full_boundary_witness :
    (tileUpscaleFull
        ⟨.full,
          ⟨true, true, (true, false), (3, -1), 2, true, (false, true), (1, 2)⟩,
          ⟨true, false, (false, true), (4, 5), 1, false, (true, false),
            (-2, 0)⟩,
          ⟨false, true, (true, true), (1, 2), 0, false, (false, false),
            (0, 0)⟩,
          ⟨true, true, (false, false), (-3, 6), 3, true, (true, true),
            (7, -4)⟩⟩ 2).length = 2 * 2 ∧
    tileUpscaleFull
        ⟨.full,
          ⟨true, true, (true, false), (3, -1), 2, true, (false, true), (1, 2)⟩,
          ⟨true, false, (false, true), (4, 5), 1, false, (true, false),
            (-2, 0)⟩,
          ⟨false, true, (true, true), (1, 2), 0, false, (false, false),
            (0, 0)⟩,
          ⟨true, true, (false, false), (-3, 6), 3, true, (true, true),
            (7, -4)⟩⟩ 2 =
      (List.range 2).bind fun dx => (List.range 2).map fun dy =>
        (dx, dy, upscaleSpecSub
          ⟨.full,
            ⟨true, true, (true, false), (3, -1), 2, true, (false, true),
              (1, 2)⟩,
            ⟨true, false, (false, true), (4, 5), 1, false, (true, false),
              (-2, 0)⟩,
            ⟨false, true, (true, true), (1, 2), 0, false, (false, false),
              (0, 0)⟩,
            ⟨true, true, (false, false), (-3, 6), 3, true, (true, true),
              (7, -4)⟩⟩ 2 dx dy) :=
  tile_upscale_full_boundary _ 2 (by norm_num)

end Dustmaker
